import Mathlib

/-!
# DesignWare USB3 DRD controller core (drivers/usb/dwc3/core.c)

A shallow embedding of the controller bring-up code of `core.c`.

* The controller context `struct dwc3` is the record `dwc3`.
* The machine state `World` holds the context, the register file (the value
  each register holds when nothing else intervenes) and the trace of every
  externally visible action, oldest first: MMIO accesses, delays, PHY calls,
  DMA mapping calls, notifier calls.
* Everything the code cannot decide on its own is an oracle of `Env`: what an
  MMIO read returns, what a PHY or ULPI call returns, the device properties and
  the build configuration.  Every oracle sees the trace so far, so that two
  calls of the same function may answer differently.
* `u32` values are naturals below `2 ^ 32`; `int` return codes are integers.
* A `goto` label is a function from the state at the jump to the final result.
* Diagnostic prints (`pr_err`, `dev_err`, `dev_warn`, `dev_info`, `WARN_ONCE`)
  have no effect on the state and are left out of the trace.
-/

namespace Dwc3

/-! ## Constants of headers outside `core.c` -/

/-- Modelled from the spec: errno values of `errno-base.h` and `errno.h`, which
the code returns negated; the headers are not part of the sources. -/
def ENXIO : Int := 6
/-- Modelled from the spec: `ENOMEM` of `errno-base.h`. -/
def ENOMEM : Int := 12
/-- Modelled from the spec: `EFAULT` of `errno-base.h`. -/
def EFAULT : Int := 14
/-- Modelled from the spec: `EBUSY` of `errno-base.h`, the busy condition. -/
def EBUSY : Int := 16
/-- Modelled from the spec: `ENODEV` of `errno-base.h`. -/
def ENODEV : Int := 19
/-- Modelled from the spec: `EINVAL` of `errno-base.h`. -/
def EINVAL : Int := 22
/-- Modelled from the spec: `ENOSYS` of `errno.h`. -/
def ENOSYS : Int := 38
/-- Modelled from the spec: `ETIMEDOUT` of `errno.h`, the reset timeout. -/
def ETIMEDOUT : Int := 110
/-- Modelled from the spec: `EPROBE_DEFER` of `linux/errno.h`, the deferred retry. -/
def EPROBE_DEFER : Int := 517

/-- Modelled from the spec: `enum usb_device_speed` of `linux/usb/ch9.h`
(missing from the sources), an integer enumeration ordered by speed.  The field
`maximum_speed` is an integer and may hold any value. -/
def USB_SPEED_UNKNOWN : Nat := 0
/-- Modelled from the spec: `USB_SPEED_LOW` of `enum usb_device_speed`. -/
def USB_SPEED_LOW : Nat := 1
/-- Modelled from the spec: `USB_SPEED_FULL` of `enum usb_device_speed`. -/
def USB_SPEED_FULL : Nat := 2
/-- Modelled from the spec: `USB_SPEED_HIGH` of `enum usb_device_speed`. -/
def USB_SPEED_HIGH : Nat := 3
/-- Modelled from the spec: `USB_SPEED_WIRELESS` of `enum usb_device_speed`, a
value that is not one of the five the controller accepts. -/
def USB_SPEED_WIRELESS : Nat := 4
/-- Modelled from the spec: `USB_SPEED_SUPER` of `enum usb_device_speed`. -/
def USB_SPEED_SUPER : Nat := 5
/-- Modelled from the spec: `USB_SPEED_SUPER_PLUS` of `enum usb_device_speed`. -/
def USB_SPEED_SUPER_PLUS : Nat := 6

/-- Modelled from the spec: `enum usb_dr_mode` of `linux/usb/otg.h` (missing
from the sources): the role is one of Unknown, Host, Peripheral, OTG. -/
inductive usb_dr_mode
  | USB_DR_MODE_UNKNOWN
  | USB_DR_MODE_HOST
  | USB_DR_MODE_PERIPHERAL
  | USB_DR_MODE_OTG
  deriving DecidableEq, Repr

open usb_dr_mode

/-- Modelled from the spec: `enum usb_phy_interface` of `linux/usb/phy.h`
(missing from the sources). -/
inductive usb_phy_interface
  | USBPHY_INTERFACE_MODE_UNKNOWN
  | USBPHY_INTERFACE_MODE_UTMI
  | USBPHY_INTERFACE_MODE_UTMIW
  | USBPHY_INTERFACE_MODE_ULPI
  | USBPHY_INTERFACE_MODE_SERIAL
  | USBPHY_INTERFACE_MODE_HSIC
  deriving DecidableEq, Repr

open usb_phy_interface

/-- The registers `core.c` accesses, by the names `core.h` gives them; the
indexed ones carry their index. -/
inductive Reg
  | GCTL
  | GUCTL1
  | GSNPSID
  | GUID
  | GHWPARAMS0
  | GHWPARAMS1
  | GHWPARAMS2
  | GHWPARAMS3
  | GHWPARAMS4
  | GHWPARAMS5
  | GHWPARAMS6
  | GHWPARAMS7
  | GHWPARAMS8
  | GUCTL2
  | GUCTL3
  | VER_NUMBER
  | VER_TYPE
  | GUSB2PHYCFG (n : Nat)
  | GUSB3PIPECTL (n : Nat)
  | GEVNTADRLO (n : Nat)
  | GEVNTADRHI (n : Nat)
  | GEVNTSIZ (n : Nat)
  | GEVNTCOUNT (n : Nat)
  | GFLADJ
  | DCTL
  | DSTS
  deriving DecidableEq, Repr

/-- The width of a `u32`. -/
def U32 : Nat := 2 ^ 32

/-- The C expression `reg & ~mask` on `u32`. -/
def andnot (reg mask : Nat) : Nat := reg &&& (0xffffffff ^^^ (mask % U32))

/-- Modelled from the spec: `BIT(n)` of `linux/bitops.h`. -/
def BIT (n : Nat) : Nat := 1 <<< n

/-- Modelled from the spec: `DWC3_GSNPSID_MASK` of `core.h` (missing from the
sources), the upper half of the identification register. -/
def DWC3_GSNPSID_MASK : Nat := 0xffff0000
/-- Modelled from the spec: `DWC3_REVISION_IS_DWC31` of `core.h`, bit 31 of
`revision` marking the newer (DWC_usb31) generation. -/
def DWC3_REVISION_IS_DWC31 : Nat := 0x80000000

/-- Modelled from the spec: revision numbers of `core.h` (missing from the
sources). -/
def DWC3_REVISION_190A : Nat := 0x5533190a
/-- Modelled from the spec: revision 1.94a of `core.h`. -/
def DWC3_REVISION_194A : Nat := 0x5533194a
/-- Modelled from the spec: revision 2.10a of `core.h`. -/
def DWC3_REVISION_210A : Nat := 0x5533210a
/-- Modelled from the spec: revision 2.50a of `core.h`. -/
def DWC3_REVISION_250A : Nat := 0x5533250a
/-- Modelled from the spec: revision 2.90a of `core.h`. -/
def DWC3_REVISION_290A : Nat := 0x5533290a
/-- Modelled from the spec: revision 3.00a of `core.h`. -/
def DWC3_REVISION_300A : Nat := 0x5533300a
/-- Modelled from the spec: revision 3.10a of `core.h`. -/
def DWC3_REVISION_310A : Nat := 0x5533310a
/-- Modelled from the spec: revision 3.20a of `core.h`. -/
def DWC3_REVISION_320A : Nat := 0x5533320a
/-- Modelled from the spec: DWC_usb31 revision 1.20a of `core.h`. -/
def DWC3_USB31_REVISION_120A : Nat := 0x3132302a ||| DWC3_REVISION_IS_DWC31
/-- Modelled from the spec: DWC_usb31 revision 1.70a of `core.h`. -/
def DWC3_USB31_REVISION_170A : Nat := 0x3137302a ||| DWC3_REVISION_IS_DWC31
/-- Modelled from the spec: the GA version type of `core.h`. -/
def DWC3_USB31_VER_TYPE_GA : Nat := 0x67612a2a

/-- Modelled from the spec: `DWC3_GHWPARAMS0_MODE` of `core.h`, the two-bit
hardware mode field of hwparams0. -/
def DWC3_GHWPARAMS0_MODE (n : Nat) : Nat := n &&& 0x3
/-- Modelled from the spec: device-only hardware mode of `core.h`. -/
def DWC3_GHWPARAMS0_MODE_GADGET : Nat := 0
/-- Modelled from the spec: host-only hardware mode of `core.h`. -/
def DWC3_GHWPARAMS0_MODE_HOST : Nat := 1
/-- Modelled from the spec: dual-role hardware mode of `core.h`. -/
def DWC3_GHWPARAMS0_MODE_DRD : Nat := 2

/-- Modelled from the spec: `DWC3_GHWPARAMS1_EN_PWROPT` of `core.h`. -/
def DWC3_GHWPARAMS1_EN_PWROPT (n : Nat) : Nat := (n &&& (3 <<< 24)) >>> 24
/-- Modelled from the spec: the clock-gating power option of `core.h`. -/
def DWC3_GHWPARAMS1_EN_PWROPT_CLK : Nat := 1
/-- Modelled from the spec: the hibernation power option of `core.h`. -/
def DWC3_GHWPARAMS1_EN_PWROPT_HIB : Nat := 2

/-- Modelled from the spec: `DWC3_GHWPARAMS3_SSPHY_IFC` of `core.h`, the
SuperSpeed PHY interface field of hwparams3. -/
def DWC3_GHWPARAMS3_SSPHY_IFC (n : Nat) : Nat := n &&& 3
/-- Modelled from the spec: SuperSpeed PHY interface disabled. -/
def DWC3_GHWPARAMS3_SSPHY_IFC_DIS : Nat := 0
/-- Modelled from the spec: SuperSpeed PHY interface Gen1. -/
def DWC3_GHWPARAMS3_SSPHY_IFC_GEN1 : Nat := 1
/-- Modelled from the spec: SuperSpeed PHY interface Gen2. -/
def DWC3_GHWPARAMS3_SSPHY_IFC_GEN2 : Nat := 2

/-- Modelled from the spec: `DWC3_GHWPARAMS3_HSPHY_IFC` of `core.h`. -/
def DWC3_GHWPARAMS3_HSPHY_IFC (n : Nat) : Nat := (n &&& (3 <<< 2)) >>> 2
/-- Modelled from the spec: high-speed PHY interface ULPI. -/
def DWC3_GHWPARAMS3_HSPHY_IFC_ULPI : Nat := 2
/-- Modelled from the spec: high-speed PHY interface UTMI+ULPI. -/
def DWC3_GHWPARAMS3_HSPHY_IFC_UTMI_ULPI : Nat := 3

/-- Modelled from the spec: `DWC3_GHWPARAMS4_HIBER_SCRATCHBUFS` of `core.h`,
the scratch-buffer count field of hwparams4. -/
def DWC3_GHWPARAMS4_HIBER_SCRATCHBUFS (n : Nat) : Nat := (n &&& (0x0f <<< 13)) >>> 13
/-- Modelled from the spec: the FPGA capability bit of hwparams6. -/
def DWC3_GHWPARAMS6_EN_FPGA : Nat := BIT 7
/-- Modelled from the spec: `DWC3_NUM_EPS` of `core.h`, on hwparams3. -/
def DWC3_NUM_EPS (hwparams3 : Nat) : Nat := (hwparams3 &&& (0x3f <<< 12)) >>> 12

/-- Modelled from the spec: the soft-reset control bit of DCTL (`core.h`). -/
def DWC3_DCTL_CSFTRST : Nat := BIT 30
/-- Modelled from the spec: the device-controller-halted bit of DSTS. -/
def DWC3_DSTS_DEVCTRLHLT : Nat := BIT 22

/-- Modelled from the spec: GCTL bits of `core.h` (missing from the sources). -/
def DWC3_GCTL_PRTCAPDIR (n : Nat) : Nat := n <<< 12
/-- Modelled from the spec: `DWC3_GCTL_PRTCAP_HOST`. -/
def DWC3_GCTL_PRTCAP_HOST : Nat := 1
/-- Modelled from the spec: `DWC3_GCTL_PRTCAP_DEVICE`. -/
def DWC3_GCTL_PRTCAP_DEVICE : Nat := 2
/-- Modelled from the spec: `DWC3_GCTL_PRTCAP_OTG`. -/
def DWC3_GCTL_PRTCAP_OTG : Nat := 3
/-- Modelled from the spec: `DWC3_GCTL_U2RSTECN`. -/
def DWC3_GCTL_U2RSTECN : Nat := BIT 16
/-- Modelled from the spec: `DWC3_GCTL_SOFITPSYNC`. -/
def DWC3_GCTL_SOFITPSYNC : Nat := BIT 10
/-- Modelled from the spec: `DWC3_GCTL_SCALEDOWN_MASK`. -/
def DWC3_GCTL_SCALEDOWN_MASK : Nat := 3 <<< 4
/-- Modelled from the spec: `DWC3_GCTL_DISSCRAMBLE`. -/
def DWC3_GCTL_DISSCRAMBLE : Nat := BIT 3
/-- Modelled from the spec: `DWC3_GCTL_U2EXIT_LFPS`. -/
def DWC3_GCTL_U2EXIT_LFPS : Nat := BIT 2
/-- Modelled from the spec: `DWC3_GCTL_GBLHIBERNATIONEN`. -/
def DWC3_GCTL_GBLHIBERNATIONEN : Nat := BIT 1
/-- Modelled from the spec: `DWC3_GCTL_DSBLCLKGTNG`. -/
def DWC3_GCTL_DSBLCLKGTNG : Nat := BIT 0

/-- Modelled from the spec: GUCTL1 bits of `core.h`. -/
def DWC3_GUCTL1_TX_IPGAP_LINECHECK_DIS : Nat := BIT 28
/-- Modelled from the spec: `DWC3_GUCTL1_DEV_L1_EXIT_BY_HW`. -/
def DWC3_GUCTL1_DEV_L1_EXIT_BY_HW : Nat := BIT 24
/-- Modelled from the spec: `DWC3_GUCTL1_IP_GAP_ADD_ON`. -/
def DWC3_GUCTL1_IP_GAP_ADD_ON (n : Nat) : Nat := n <<< 21
/-- Modelled from the spec: `DWC3_GUCTL1_PARKMODE_DISABLE_SS`. -/
def DWC3_GUCTL1_PARKMODE_DISABLE_SS : Nat := BIT 17
/-- Modelled from the spec: `DWC3_GUCTL1_PARKMODE_DISABLE_HS`. -/
def DWC3_GUCTL1_PARKMODE_DISABLE_HS : Nat := BIT 16
/-- Modelled from the spec: `DWC3_GUCTL1_PARKMODE_DISABLE_FSLS`. -/
def DWC3_GUCTL1_PARKMODE_DISABLE_FSLS : Nat := BIT 15

/-- Modelled from the spec: GUCTL2 and GUCTL3 bits of `core.h`. -/
def DWC3_GUCTL2_RST_ACTBITLATER : Nat := BIT 14
/-- Modelled from the spec: `DWC3_GUCTL2_HP_TIMER`. -/
def DWC3_GUCTL2_HP_TIMER (n : Nat) : Nat := n <<< 21
/-- Modelled from the spec: `DWC3_GUCTL2_HP_TIMER_MASK`. -/
def DWC3_GUCTL2_HP_TIMER_MASK : Nat := DWC3_GUCTL2_HP_TIMER 0x1f
/-- Modelled from the spec: `DWC3_GUCTL2_LC_TIMER`. -/
def DWC3_GUCTL2_LC_TIMER : Nat := BIT 19
/-- Modelled from the spec: `DWC3_GUCTL3_USB20_RETRY_DISABLE`. -/
def DWC3_GUCTL3_USB20_RETRY_DISABLE : Nat := BIT 16

/-- Modelled from the spec: GUSB2PHYCFG bits of `core.h`. -/
def DWC3_GUSB2PHYCFG_U2_FREECLK_EXISTS : Nat := BIT 30
/-- Modelled from the spec: `DWC3_GUSB2PHYCFG_USBTRDTIM`. -/
def DWC3_GUSB2PHYCFG_USBTRDTIM (n : Nat) : Nat := n <<< 10
/-- Modelled from the spec: `DWC3_GUSB2PHYCFG_USBTRDTIM_MASK`. -/
def DWC3_GUSB2PHYCFG_USBTRDTIM_MASK : Nat := DWC3_GUSB2PHYCFG_USBTRDTIM 0xf
/-- Modelled from the spec: `DWC3_GUSB2PHYCFG_ENBLSLPM`. -/
def DWC3_GUSB2PHYCFG_ENBLSLPM : Nat := BIT 8
/-- Modelled from the spec: `DWC3_GUSB2PHYCFG_SUSPHY`. -/
def DWC3_GUSB2PHYCFG_SUSPHY : Nat := BIT 6
/-- Modelled from the spec: `DWC3_GUSB2PHYCFG_ULPI_UTMI`. -/
def DWC3_GUSB2PHYCFG_ULPI_UTMI : Nat := BIT 4
/-- Modelled from the spec: `DWC3_GUSB2PHYCFG_PHYIF`. -/
def DWC3_GUSB2PHYCFG_PHYIF (n : Nat) : Nat := n <<< 3
/-- Modelled from the spec: `DWC3_GUSB2PHYCFG_PHYIF_MASK`. -/
def DWC3_GUSB2PHYCFG_PHYIF_MASK : Nat := DWC3_GUSB2PHYCFG_PHYIF 1
/-- Modelled from the spec: `USBTRDTIM_UTMI_8_BIT`. -/
def USBTRDTIM_UTMI_8_BIT : Nat := 9
/-- Modelled from the spec: `USBTRDTIM_UTMI_16_BIT`. -/
def USBTRDTIM_UTMI_16_BIT : Nat := 5
/-- Modelled from the spec: `UTMI_PHYIF_16_BIT`. -/
def UTMI_PHYIF_16_BIT : Nat := 1
/-- Modelled from the spec: `UTMI_PHYIF_8_BIT`. -/
def UTMI_PHYIF_8_BIT : Nat := 0

/-- Modelled from the spec: GUSB3PIPECTL bits of `core.h`. -/
def DWC3_GUSB3PIPECTL_U2SSINP3OK : Nat := BIT 29
/-- Modelled from the spec: `DWC3_GUSB3PIPECTL_DISRXDETINP3`. -/
def DWC3_GUSB3PIPECTL_DISRXDETINP3 : Nat := BIT 28
/-- Modelled from the spec: `DWC3_GUSB3PIPECTL_UX_EXIT_PX`. -/
def DWC3_GUSB3PIPECTL_UX_EXIT_PX : Nat := BIT 27
/-- Modelled from the spec: `DWC3_GUSB3PIPECTL_REQP1P2P3`. -/
def DWC3_GUSB3PIPECTL_REQP1P2P3 : Nat := BIT 24
/-- Modelled from the spec: `DWC3_GUSB3PIPECTL_DEP1P2P3_EN`. -/
def DWC3_GUSB3PIPECTL_DEP1P2P3_EN : Nat := 1 <<< 19
/-- Modelled from the spec: `DWC3_GUSB3PIPECTL_DEPOCHANGE`. -/
def DWC3_GUSB3PIPECTL_DEPOCHANGE : Nat := BIT 18
/-- Modelled from the spec: `DWC3_GUSB3PIPECTL_SUSPHY`. -/
def DWC3_GUSB3PIPECTL_SUSPHY : Nat := BIT 17
/-- Modelled from the spec: `DWC3_GUSB3PIPECTL_P3EXSIGP2`. -/
def DWC3_GUSB3PIPECTL_P3EXSIGP2 : Nat := BIT 10
/-- Modelled from the spec: `DWC3_GUSB3PIPECTL_LFPSFILT`. -/
def DWC3_GUSB3PIPECTL_LFPSFILT : Nat := BIT 9
/-- Modelled from the spec: `DWC3_GUSB3PIPECTL_RX_DETOPOLL`. -/
def DWC3_GUSB3PIPECTL_RX_DETOPOLL : Nat := BIT 8
/-- Modelled from the spec: `DWC3_GUSB3PIPECTL_TX_DEEPH`. -/
def DWC3_GUSB3PIPECTL_TX_DEEPH (n : Nat) : Nat := n <<< 1

/-- Modelled from the spec: GFLADJ bits of `core.h`. -/
def DWC3_GFLADJ_30MHZ_SDBND_SEL : Nat := BIT 7
/-- Modelled from the spec: `DWC3_GFLADJ_30MHZ_MASK`. -/
def DWC3_GFLADJ_30MHZ_MASK : Nat := 0x3f

/-- Modelled from the spec: `DWC3_GEVNTSIZ_INTMASK` of `core.h`. -/
def DWC3_GEVNTSIZ_INTMASK : Nat := BIT 31
/-- Modelled from the spec: `DWC3_GEVNTSIZ_SIZE` of `core.h`. -/
def DWC3_GEVNTSIZ_SIZE (n : Nat) : Nat := n &&& 0xffff

/-- Modelled from the spec: `DWC3_SCRATCHBUF_SIZE` of `core.h`, the size of one
scratch buffer (`SCRATCH_UNIT_SIZE`). -/
def DWC3_SCRATCHBUF_SIZE : Nat := 4096
/-- Modelled from the spec: the generic command setting the low half of the
scratchpad address. -/
def DWC3_DGCMD_SET_SCRATCHPAD_ADDR_LO : Nat := 0x04
/-- Modelled from the spec: the generic command setting the high half of the
scratchpad address. -/
def DWC3_DGCMD_SET_SCRATCHPAD_ADDR_HI : Nat := 0x05

/-- Modelled from the spec: `lower_32_bits` of `linux/kernel.h`. -/
def lower_32_bits (n : Nat) : Nat := n % U32
/-- Modelled from the spec: `upper_32_bits` of `linux/kernel.h`, on a 64-bit
DMA address. -/
def upper_32_bits (n : Nat) : Nat := (n / U32) % U32

/-! ## The controller context and the machine state -/

/-- The six PHY handles of `struct dwc3`, by field name: four legacy PHYs
(`struct usb_phy *`) and two generic PHYs (`struct phy *`). -/
inductive PhyName
  | usb2_phy
  | usb3_phy
  | usb2_phy1
  | usb3_phy1
  | usb2_generic_phy
  | usb3_generic_phy
  deriving DecidableEq, Repr

/-- The value of a PHY handle field: `NULL`, a live handle, or `ERR_PTR(-e)`
as returned by a failed lookup. -/
inductive phy_ptr
  | null
  | valid
  | err (e : Int)
  deriving DecidableEq, Repr

/-- The event identifiers `core.c` passes to `dwc3_notify_event`. -/
inductive NotifyEvent
  | DWC3_CONTROLLER_POST_RESET_EVENT
  | DWC3_CORE_PM_SUSPEND_EVENT
  | DWC3_CORE_PM_RESUME_EVENT
  | DWC3_GSI_EVT_BUF_ALLOC
  | DWC3_GSI_EVT_BUF_SETUP
  | DWC3_GSI_EVT_BUF_CLEANUP
  | DWC3_GSI_EVT_BUF_FREE
  deriving DecidableEq, Repr

/-- The memory allocations of `core.c`, by what they allocate. -/
inductive Alloc
  | dwc
  | event_buffer
  | event_cache
  | event_dma
  | scratchbuf
  | workqueue
  deriving DecidableEq, Repr

/-- An externally visible action.  `call` records a call of a framework
function that returns nothing the code looks at. -/
inductive Event
  | readl (r : Reg) (v : Nat)
  | writel (r : Reg) (v : Nat)
  | udelay (us : Nat)
  | msleep (ms : Nat)
  | usb_phy_reset (p : PhyName)
  | usb_phy_init (p : PhyName)
  | usb_phy_shutdown (p : PhyName)
  | usb_phy_set_suspend (p : PhyName) (suspend : Nat)
  | phy_init (p : PhyName)
  | phy_exit (p : PhyName)
  | phy_power_on (p : PhyName)
  | phy_power_off (p : PhyName)
  | bad_pointer (p : PhyName)
  | get_phy (p : PhyName)
  | ulpi_init
  | ulpi_exit
  | dma_map_single (len : Nat)
  | dma_unmap_single (addr : Nat) (len : Nat)
  | kfree
  | generic_command (cmd : Nat) (param : Nat)
  | notify (cb : Nat) (event : NotifyEvent) (value : Nat)
  | dma_alloc_coherent (len : Nat)
  | dma_free_coherent (len : Nat) (dma : Nat)
  | alloc_ordered_workqueue
  | destroy_workqueue
  | devm_request_irq (irq : Nat)
  | disable_irq (irq : Nat)
  | gadget_init
  | gadget_suspend
  | device_init_wakeup (enable : Bool)
  | kmalloc_array (n : Nat) (size : Nat)
  | call (fn : String)
  deriving DecidableEq, Repr

/-- The cached capability registers, `struct dwc3_hwparams`. -/
structure dwc3_hwparams where
  hwparams0 : Nat := 0
  hwparams1 : Nat := 0
  hwparams2 : Nat := 0
  hwparams3 : Nat := 0
  hwparams4 : Nat := 0
  hwparams5 : Nat := 0
  hwparams6 : Nat := 0
  hwparams7 : Nat := 0
  hwparams8 : Nat := 0
  deriving DecidableEq, Repr

/-- The event buffer, `struct dwc3_event_buffer`: length, DMA address and the
read position. -/
structure dwc3_event_buffer where
  length : Nat := 0
  dma : Nat := 0
  lpos : Nat := 0
  deriving DecidableEq, Repr

/-- The fields of `struct dwc3` that `core.c` reads or writes.  The defaults
are those of the zeroed allocation in `dwc3_probe`. -/
structure dwc3 where
  revision : Nat := 0
  versiontype : Nat := 0
  hwparams : dwc3_hwparams := {}
  dr_mode : usb_dr_mode := USB_DR_MODE_UNKNOWN
  current_dr_role : Nat := 0
  desired_dr_role : Nat := 0
  maximum_speed : Nat := 0
  max_hw_supp_speed : Nat := 0
  hsphy_mode : usb_phy_interface := USBPHY_INTERFACE_MODE_UNKNOWN
  hsphy_interface : Option String := none
  imod_interval : Nat := 0
  ulpi_ready : Bool := false
  phys_ready : Bool := false
  usb2_phy : phy_ptr := phy_ptr.null
  usb3_phy : phy_ptr := phy_ptr.null
  usb2_phy1 : phy_ptr := phy_ptr.null
  usb3_phy1 : phy_ptr := phy_ptr.null
  usb2_generic_phy : phy_ptr := phy_ptr.null
  usb3_generic_phy : phy_ptr := phy_ptr.null
  dual_port : Bool := false
  has_hibernation : Bool := false
  nr_scratch : Nat := 0
  scratchbuf : Bool := false
  scratch_addr : Nat := 0
  num_eps : Nat := 0
  is_fpga : Bool := false
  fladj : Nat := 0
  ev_buf : Option dwc3_event_buffer := none
  connected : Bool := false
  sysdev_is_parent : Bool := false
  has_lpm_erratum : Bool := false
  is_utmi_l1_suspend : Bool := false
  xhci_imod_value : Nat := 0
  core_id : Nat := 0
  usb3_lpm_capable : Bool := false
  needs_fifo_resize : Bool := false
  disable_scramble_quirk : Bool := false
  u2exit_lfps_quirk : Bool := false
  u2ss_inp3_quirk : Bool := false
  req_p1p2p3_quirk : Bool := false
  del_p1p2p3_quirk : Bool := false
  del_phy_power_chg_quirk : Bool := false
  lfps_filter_quirk : Bool := false
  rx_detect_poll_quirk : Bool := false
  dis_u3_susphy_quirk : Bool := false
  dis_u2_susphy_quirk : Bool := false
  dis_enblslpm_quirk : Bool := false
  dis_rxdet_inp3_quirk : Bool := false
  dis_u2_freeclk_exists_quirk : Bool := false
  dis_del_phy_power_chg_quirk : Bool := false
  dis_tx_ipgap_linecheck_quirk : Bool := false
  parkmode_disable_ss_quirk : Bool := false
  tx_de_emphasis_quirk : Bool := false
  ssp_u3_u0_quirk : Bool := false
  enable_bus_suspend : Bool := false
  usb3_u1u2_disable : Bool := false
  disable_clk_gating : Bool := false
  num_gsi_eps : Nat := 0
  dis_metastability_quirk : Bool := false
  lpm_nyet_threshold : Nat := 0
  tx_de_emphasis : Nat := 0
  hird_threshold : Nat := 0
  ignore_wakeup_src_in_hostmode : Bool := false
  index : Nat := 0
  irq : Nat := 0
  dwc_wq : Bool := false

/-- What the code cannot decide on its own.  Every oracle that stands for a
call sees the trace up to the call. -/
structure Env where
  /-- The build option `IS_ENABLED(CONFIG_USB_DWC3_HOST)`: a host-only build. -/
  CONFIG_USB_DWC3_HOST : Bool
  /-- The build option `IS_ENABLED(CONFIG_USB_DWC3_GADGET)`: a device-only build. -/
  CONFIG_USB_DWC3_GADGET : Bool
  /-- The build constant `LINUX_VERSION_CODE`. -/
  LINUX_VERSION_CODE : Nat
  /-- The value the hardware returns for a read of a register, given the
  trace and the value the register file holds. -/
  mmio_read : List Event → Reg → Nat → Nat
  /-- The result of the `init` operation of a live legacy PHY. -/
  usb_phy_init_ret : List Event → PhyName → Int
  /-- The result of `phy_init` on a live generic PHY. -/
  phy_init_ret : List Event → PhyName → Int
  /-- The result of `phy_power_on` on a live generic PHY. -/
  phy_power_on_ret : List Event → PhyName → Int
  /-- The result of `dwc3_ulpi_init` (ulpi.c). -/
  ulpi_init_ret : List Event → Int
  /-- The handle a PHY lookup returns: live, or `ERR_PTR`. -/
  get_phy_ret : List Event → PhyName → phy_ptr
  /-- The address `dma_map_single` returns. -/
  dma_map_single_ret : List Event → Nat
  /-- Whether `dma_mapping_error` reports that address as failed. -/
  dma_mapping_error : Nat → Bool
  /-- The result of `dwc3_send_gadget_generic_command` (gadget.c). -/
  generic_command_ret : List Event → Nat → Nat → Int
  /-- The value of `usb_get_maximum_speed(dev)`. -/
  usb_get_maximum_speed : Nat
  /-- The value of `usb_get_dr_mode(dev)`. -/
  usb_get_dr_mode : usb_dr_mode
  /-- The value of `of_usb_get_phy_mode(dev->of_node)`. -/
  of_usb_get_phy_mode : usb_phy_interface
  /-- The value of `device_property_read_bool(dev, name)`. -/
  device_property_read_bool : String → Bool
  /-- The value `device_property_read_u8(dev, name, _)` stores, if the property exists. -/
  device_property_read_u8 : String → Option Nat
  /-- The value `device_property_read_u32(dev, name, _)` stores, if the property exists. -/
  device_property_read_u32 : String → Option Nat
  /-- The value `device_property_read_string(dev, name, _)` stores, if the property exists. -/
  device_property_read_string : String → Option String
  /-- Whether `dev->of_node` is set. -/
  of_node : Bool
  /-- The build constant `DWC_CTRL_COUNT` of `core.h`: the size of `dwc3_instance`. -/
  DWC_CTRL_COUNT : Nat
  /-- The constant `DWC3_GLOBALS_REGS_START` of `core.h`. -/
  DWC3_GLOBALS_REGS_START : Nat
  /-- The constant `DWC3_EVENT_BUFFERS_SIZE` of `core.h`. -/
  DWC3_EVENT_BUFFERS_SIZE : Nat
  /-- Whether an allocation (`devm_kzalloc`, `dma_alloc_coherent`,
  `kmalloc_array`, `alloc_ordered_workqueue`) succeeds. -/
  alloc_ok : List Event → Alloc → Bool
  /-- The DMA address `dma_alloc_coherent` returns for the event buffer. -/
  dma_alloc_coherent_ret : List Event → Nat
  /-- Whether `platform_get_resource(pdev, IORESOURCE_MEM, 0)` finds the resource. -/
  platform_get_resource_ok : Bool
  /-- The value of `platform_get_irq`. -/
  platform_get_irq : Nat
  /-- The result of `devm_request_irq`. -/
  devm_request_irq_ret : List Event → Int
  /-- The result of `devm_ioremap_resource`: `none` for a mapped region,
  `some e` for `ERR_PTR(e)`. -/
  devm_ioremap_resource_err : List Event → Option Int
  /-- The result of `dwc3_gadget_init` (gadget.c). -/
  gadget_init_ret : List Event → Int

/-- The machine state: the controller context, the file-scope notifier
pointer `notify_event`, the register file, the trace (oldest action first),
and the file-scope registry of probed controllers. -/
structure World where
  dwc : dwc3 := {}
  notify_event : Option Nat := none
  regs : Reg → Nat := fun _ => 0
  trace : List Event := []
  /-- The file-scope counter `count` of probed controllers. -/
  count : Nat := 0
  /-- The file-scope table `dwc3_instance`: the platform device whose
  controller a slot points to. -/
  dwc3_instance : Nat → Option Nat := fun _ => none
  /-- The field `res->start` of the memory resource of the platform device. -/
  res_start : Nat := 0

/-- Record an action. -/
def emit (s : World) (e : Event) : World :=
  { s with trace := s.trace ++ [e] }

/-- The accessor `dwc3_readl` of `io.h`: the hardware answers with a 32-bit value. -/
def dwc3_readl (env : Env) (s : World) (r : Reg) : Nat × World :=
  let v := env.mmio_read s.trace r (s.regs r) % U32
  (v, emit s (Event.readl r v))

/-- The accessor `dwc3_writel` of `io.h`: the register holds the 32-bit value. -/
def dwc3_writel (s : World) (r : Reg) (v : Nat) : World :=
  { s with regs := fun x => if x = r then v % U32 else s.regs x,
           trace := s.trace ++ [Event.writel r (v % U32)] }

/-- The delay `udelay(us)`. -/
def udelay (s : World) (us : Nat) : World := emit s (Event.udelay us)

/-- The sleep `msleep(ms)`. -/
def msleep (s : World) (ms : Nat) : World := emit s (Event.msleep ms)

/-- The handle a PHY field of the context holds. -/
def phy_of (d : dwc3) : PhyName → phy_ptr
  | PhyName.usb2_phy => d.usb2_phy
  | PhyName.usb3_phy => d.usb3_phy
  | PhyName.usb2_phy1 => d.usb2_phy1
  | PhyName.usb3_phy1 => d.usb3_phy1
  | PhyName.usb2_generic_phy => d.usb2_generic_phy
  | PhyName.usb3_generic_phy => d.usb3_generic_phy

/-- Modelled from the spec: a PHY operation that returns nothing (section 4.2:
a no-op when the handle is absent).  A call on an `ERR_PTR` handle
dereferences a bad pointer, which the trace records. -/
def phy_call_void (s : World) (p : PhyName) (e : Event) : World :=
  match phy_of s.dwc p with
  | phy_ptr.null => s
  | phy_ptr.valid => emit s e
  | phy_ptr.err _ => emit s (Event.bad_pointer p)

/-- Modelled from the spec: a PHY operation with a result (section 4.2: success
and no effect when the handle is absent); `ret` is what the PHY driver
answers at this point of the trace. -/
def phy_call_int (s : World) (p : PhyName) (e : Event) (ret : List Event → PhyName → Int) :
    Int × World :=
  match phy_of s.dwc p with
  | phy_ptr.null => (0, s)
  | phy_ptr.valid => (ret s.trace p, emit s e)
  | phy_ptr.err _ => (0, emit s (Event.bad_pointer p))

/-- Modelled from the spec: `usb_phy_reset` of `linux/usb/phy.h`; the result is ignored by `core.c`. -/
def usb_phy_reset (s : World) (p : PhyName) : World :=
  phy_call_void s p (Event.usb_phy_reset p)

/-- Modelled from the spec: `usb_phy_init` of `linux/usb/phy.h`. -/
def usb_phy_init (env : Env) (s : World) (p : PhyName) : Int × World :=
  phy_call_int s p (Event.usb_phy_init p) env.usb_phy_init_ret

/-- Modelled from the spec: `usb_phy_shutdown` of `linux/usb/phy.h`. -/
def usb_phy_shutdown (s : World) (p : PhyName) : World :=
  phy_call_void s p (Event.usb_phy_shutdown p)

/-- Modelled from the spec: `usb_phy_set_suspend` of `linux/usb/phy.h`; the result is ignored by `core.c`. -/
def usb_phy_set_suspend (s : World) (p : PhyName) (suspend : Nat) : World :=
  phy_call_void s p (Event.usb_phy_set_suspend p suspend)

/-- Modelled from the spec: `phy_init` of the generic PHY framework. -/
def phy_init (env : Env) (s : World) (p : PhyName) : Int × World :=
  phy_call_int s p (Event.phy_init p) env.phy_init_ret

/-- Modelled from the spec: `phy_exit` of the generic PHY framework. -/
def phy_exit (s : World) (p : PhyName) : World :=
  phy_call_void s p (Event.phy_exit p)

/-- Modelled from the spec: `phy_power_on` of the generic PHY framework. -/
def phy_power_on (env : Env) (s : World) (p : PhyName) : Int × World :=
  phy_call_int s p (Event.phy_power_on p) env.phy_power_on_ret

/-- Modelled from the spec: `phy_power_off` of the generic PHY framework. -/
def phy_power_off (s : World) (p : PhyName) : World :=
  phy_call_void s p (Event.phy_power_off p)

/-- Modelled from the spec: `dwc3_ulpi_init` of `ulpi.c` (missing from the sources). -/
def dwc3_ulpi_init (env : Env) (s : World) : Int × World :=
  (env.ulpi_init_ret s.trace, emit s Event.ulpi_init)

/-- Modelled from the spec: `dwc3_ulpi_exit` of `ulpi.c` (missing from the sources). -/
def dwc3_ulpi_exit (s : World) : World := emit s Event.ulpi_exit

/-- Modelled from the spec: `dwc3_is_usb31` of `core.h`: bit 31 of `revision`
marks the DWC_usb31 generation. -/
def dwc3_is_usb31 (d : dwc3) : Bool := d.revision &&& DWC3_REVISION_IS_DWC31 != 0

/-- Modelled from the spec: `dwc3_is_usb3` of `core.h`. -/
def dwc3_is_usb3 (d : dwc3) : Bool := d.revision &&& DWC3_REVISION_IS_DWC31 == 0

/-- The function `dwc3_notify_event`: calls the registered notifier, or
returns `-ENODEV` when none is registered. -/
def dwc3_notify_event (s : World) (event : NotifyEvent) (value : Nat) : Int × World :=
  match s.notify_event with
  | some cb => (0, emit s (Event.notify cb event value))
  | none => (-ENODEV, s)

/-! ## Role resolution, identification, parameter checks -/

/-- The end of `dwc3_get_dr_mode`, after the `switch`: a role that differs
from the requested one is stored (with a warning), and the result is 0. -/
def dwc3_get_dr_mode_store (s : World) (mode : usb_dr_mode) : Int × World :=
  if mode ≠ s.dwc.dr_mode then
    (0, { s with dwc := { s.dwc with dr_mode := mode } })
  else
    (0, s)

/-- The function `dwc3_get_dr_mode`: validates and sets `dr_mode`. -/
def dwc3_get_dr_mode (env : Env) (s : World) : Int × World :=
  let s1 : World :=
    if s.dwc.dr_mode = USB_DR_MODE_UNKNOWN then
      { s with dwc := { s.dwc with dr_mode := USB_DR_MODE_OTG } }
    else s
  let mode := s1.dwc.dr_mode
  let hw_mode := DWC3_GHWPARAMS0_MODE s1.dwc.hwparams.hwparams0
  if hw_mode = DWC3_GHWPARAMS0_MODE_GADGET then
    if env.CONFIG_USB_DWC3_HOST then (-EINVAL, s1)
    else dwc3_get_dr_mode_store s1 USB_DR_MODE_PERIPHERAL
  else if hw_mode = DWC3_GHWPARAMS0_MODE_HOST then
    if env.CONFIG_USB_DWC3_GADGET then (-EINVAL, s1)
    else dwc3_get_dr_mode_store s1 USB_DR_MODE_HOST
  else
    dwc3_get_dr_mode_store s1
      (if env.CONFIG_USB_DWC3_HOST then USB_DR_MODE_HOST
       else if env.CONFIG_USB_DWC3_GADGET then USB_DR_MODE_PERIPHERAL
       else mode)

/-- The function `dwc3_core_is_valid`: reads GSNPSID and records the revision
of a DWC_usb3 or DWC_usb31 core. -/
def dwc3_core_is_valid (env : Env) (s : World) : Bool × World :=
  let r := dwc3_readl env s Reg.GSNPSID
  let reg := r.1
  let s1 := r.2
  if reg &&& DWC3_GSNPSID_MASK = 0x55330000 then
    (true, { s1 with dwc := { s1.dwc with revision := reg } })
  else if reg &&& DWC3_GSNPSID_MASK = 0x33310000 then
    let r2 := dwc3_readl env s1 Reg.VER_NUMBER
    let s2 : World := { r2.2 with dwc := { r2.2.dwc with revision := r2.1 } }
    let s3 : World :=
      { s2 with dwc := { s2.dwc with revision := s2.dwc.revision ||| DWC3_REVISION_IS_DWC31 } }
    let r3 := dwc3_readl env s3 Reg.VER_TYPE
    (true, { r3.2 with dwc := { r3.2.dwc with versiontype := r3.1 } })
  else
    (false, s1)

/-- One step of `dwc3_cache_hwparams`: read a capability register. -/
def cache_one (env : Env) (s : World) (r : Reg) (f : dwc3_hwparams → Nat → dwc3_hwparams) :
    World :=
  let x := dwc3_readl env s r
  { x.2 with dwc := { x.2.dwc with hwparams := f x.2.dwc.hwparams x.1 } }

/-- The function `dwc3_cache_hwparams`: snapshots GHWPARAMS0..8 in order. -/
def dwc3_cache_hwparams (env : Env) (s : World) : World :=
  let s0 := cache_one env s Reg.GHWPARAMS0 (fun h v => { h with hwparams0 := v })
  let s1 := cache_one env s0 Reg.GHWPARAMS1 (fun h v => { h with hwparams1 := v })
  let s2 := cache_one env s1 Reg.GHWPARAMS2 (fun h v => { h with hwparams2 := v })
  let s3 := cache_one env s2 Reg.GHWPARAMS3 (fun h v => { h with hwparams3 := v })
  let s4 := cache_one env s3 Reg.GHWPARAMS4 (fun h v => { h with hwparams4 := v })
  let s5 := cache_one env s4 Reg.GHWPARAMS5 (fun h v => { h with hwparams5 := v })
  let s6 := cache_one env s5 Reg.GHWPARAMS6 (fun h v => { h with hwparams6 := v })
  let s7 := cache_one env s6 Reg.GHWPARAMS7 (fun h v => { h with hwparams7 := v })
  cache_one env s7 Reg.GHWPARAMS8 (fun h v => { h with hwparams8 := v })

/-- The function `dwc3_has_imod`: whether the core supports interrupt moderation. -/
def dwc3_has_imod (d : dwc3) : Bool :=
  (dwc3_is_usb3 d && decide (d.revision ≥ DWC3_REVISION_300A)) ||
  (dwc3_is_usb31 d && decide (d.revision ≥ DWC3_USB31_REVISION_120A))

/-- The `switch` of `dwc3_check_params` on `maximum_speed`. -/
def check_maximum_speed (d : dwc3) : Nat :=
  if d.maximum_speed = USB_SPEED_LOW ∨ d.maximum_speed = USB_SPEED_FULL ∨
      d.maximum_speed = USB_SPEED_HIGH ∨ d.maximum_speed = USB_SPEED_SUPER ∨
      d.maximum_speed = USB_SPEED_SUPER_PLUS then
    d.maximum_speed
  else if dwc3_is_usb31 d ∧
      DWC3_GHWPARAMS3_SSPHY_IFC d.hwparams.hwparams3 = DWC3_GHWPARAMS3_SSPHY_IFC_GEN2 then
    USB_SPEED_SUPER_PLUS
  else
    USB_SPEED_SUPER

/-- The function `dwc3_check_params`: sanity checks of `imod_interval` and
`maximum_speed`. -/
def dwc3_check_params (s : World) : World :=
  let d0 := s.dwc
  let d1 : dwc3 :=
    if d0.imod_interval ≠ 0 ∧ ¬ dwc3_has_imod d0 then { d0 with imod_interval := 0 } else d0
  let d2 : dwc3 :=
    if d1.imod_interval = 0 ∧ d1.revision = DWC3_REVISION_300A then
      { d1 with imod_interval := 1 }
    else d1
  { s with dwc := { d2 with maximum_speed := check_maximum_speed d2 } }

/-! ## Soft reset -/

/-- The `do ... while (--retries)` loop of `dwc3_core_soft_reset` at a point
where `retries` iterations remain (1000 on entry): the body polls DCTL, jumps to
`done` (`true`) when CSFTRST reads clear, else delays one microsecond, and
`--retries` leaves one iteration fewer; with none remaining the loop has ended
without `done` (`false`). -/
def dwc3_core_soft_reset_poll (env : Env) : Nat → World → Bool × World
  | 0, s => (false, s)
  | retries + 1, s =>
    let r := dwc3_readl env s Reg.DCTL
    if r.1 &&& DWC3_DCTL_CSFTRST = 0 then (true, r.2)
    else dwc3_core_soft_reset_poll env retries (udelay r.2 1)

/-- The label `generic_phy_init` of `dwc3_core_soft_reset` and everything
after it. -/
def dwc3_core_soft_reset_generic_phy_init (env : Env) (s : World) : Int × World :=
  let r1 := phy_init env s PhyName.usb2_generic_phy
  if r1.1 < 0 then r1
  else
    let r2 := phy_init env r1.2 PhyName.usb3_generic_phy
    if r2.1 < 0 then (r2.1, phy_exit r2.2 PhyName.usb2_generic_phy)
    else if r2.2.dwc.dr_mode = USB_DR_MODE_HOST then (0, r2.2)
    else
      let r3 := dwc3_readl env r2.2 Reg.DCTL
      let s4 := dwc3_writel r3.2 Reg.DCTL (r3.1 ||| DWC3_DCTL_CSFTRST)
      let p := dwc3_core_soft_reset_poll env 1000 s4
      if p.1 then
        if dwc3_is_usb31 p.2.dwc then (0, msleep p.2 50) else (0, p.2)
      else
        (-ETIMEDOUT,
          phy_exit (phy_exit p.2 PhyName.usb3_generic_phy) PhyName.usb2_generic_phy)

/-- The part of `dwc3_core_soft_reset` from the reset of `usb3_phy1` on. -/
def dwc3_core_soft_reset_usb3_phy1 (env : Env) (s : World) : Int × World :=
  let r := usb_phy_init env (usb_phy_reset s PhyName.usb3_phy1) PhyName.usb3_phy1
  if r.1 ≠ 0 then r
  else dwc3_core_soft_reset_generic_phy_init env r.2

/-- The function `dwc3_core_soft_reset`: issues PHY reset and core soft reset. -/
def dwc3_core_soft_reset (env : Env) (s : World) : Int × World :=
  let r := usb_phy_init env (usb_phy_reset s PhyName.usb2_phy) PhyName.usb2_phy
  if r.1 ≠ 0 then r
  else
    let r1 := usb_phy_init env (usb_phy_reset r.2 PhyName.usb2_phy1) PhyName.usb2_phy1
    if r1.1 ≠ 0 then r1
    else if r1.2.dwc.maximum_speed ≤ USB_SPEED_HIGH then
      dwc3_core_soft_reset_generic_phy_init env r1.2
    else
      let r2 := usb_phy_init env (usb_phy_reset r1.2 PhyName.usb3_phy) PhyName.usb3_phy
      if r2.1 = -EBUSY then
        dwc3_core_soft_reset_usb3_phy1 env
          { r2.2 with dwc := { r2.2.dwc with maximum_speed := USB_SPEED_HIGH } }
      else if r2.1 ≠ 0 then r2
      else dwc3_core_soft_reset_usb3_phy1 env r2.2

/-! ## PHY interface setup, ULPI, PHY lookup -/

/-- The C test `s && !strncmp(s, lit, 4)` for a four-character literal. -/
def hsphy_interface_is (d : dwc3) (lit : String) : Bool :=
  match d.hsphy_interface with
  | some v => lit.isPrefixOf v
  | none => false

/-- The value `dwc3_phy_setup` computes for GUSB3PIPECTL from the value read. -/
def phy_setup_pipectl (d : dwc3) (reg0 : Nat) : Nat :=
  let reg := andnot reg0 DWC3_GUSB3PIPECTL_UX_EXIT_PX
  let reg := if d.revision > DWC3_REVISION_194A then reg ||| DWC3_GUSB3PIPECTL_SUSPHY else reg
  let reg := if d.u2ss_inp3_quirk then reg ||| DWC3_GUSB3PIPECTL_U2SSINP3OK else reg
  let reg := if d.dis_rxdet_inp3_quirk then reg ||| DWC3_GUSB3PIPECTL_DISRXDETINP3 else reg
  let reg := if d.req_p1p2p3_quirk then reg ||| DWC3_GUSB3PIPECTL_REQP1P2P3 else reg
  let reg := if d.del_p1p2p3_quirk then reg ||| DWC3_GUSB3PIPECTL_DEP1P2P3_EN else reg
  let reg := if d.del_phy_power_chg_quirk then reg ||| DWC3_GUSB3PIPECTL_DEPOCHANGE else reg
  let reg := if d.lfps_filter_quirk then reg ||| DWC3_GUSB3PIPECTL_LFPSFILT else reg
  let reg := if d.rx_detect_poll_quirk then reg ||| DWC3_GUSB3PIPECTL_RX_DETOPOLL else reg
  let reg :=
    if d.tx_de_emphasis_quirk then reg ||| DWC3_GUSB3PIPECTL_TX_DEEPH d.tx_de_emphasis else reg
  let reg := if d.dis_u3_susphy_quirk then andnot reg DWC3_GUSB3PIPECTL_SUSPHY else reg
  let reg :=
    if d.dis_del_phy_power_chg_quirk then andnot reg DWC3_GUSB3PIPECTL_DEPOCHANGE else reg
  if d.ssp_u3_u0_quirk then
    reg ||| (DWC3_GUSB3PIPECTL_UX_EXIT_PX ||| DWC3_GUSB3PIPECTL_P3EXSIGP2)
  else reg

/-- The second and third part of the GUSB2PHYCFG computation of
`dwc3_phy_setup`: the `switch` on `hsphy_mode` and the quirk bits. -/
def phy_setup_usb2phycfg (d : dwc3) (reg0 : Nat) : Nat :=
  let reg :=
    match d.hsphy_mode with
    | USBPHY_INTERFACE_MODE_UTMI =>
      andnot reg0 (DWC3_GUSB2PHYCFG_PHYIF_MASK ||| DWC3_GUSB2PHYCFG_USBTRDTIM_MASK) |||
        (DWC3_GUSB2PHYCFG_PHYIF UTMI_PHYIF_8_BIT |||
          DWC3_GUSB2PHYCFG_USBTRDTIM USBTRDTIM_UTMI_8_BIT)
    | USBPHY_INTERFACE_MODE_UTMIW =>
      andnot reg0 (DWC3_GUSB2PHYCFG_PHYIF_MASK ||| DWC3_GUSB2PHYCFG_USBTRDTIM_MASK) |||
        (DWC3_GUSB2PHYCFG_PHYIF UTMI_PHYIF_16_BIT |||
          DWC3_GUSB2PHYCFG_USBTRDTIM USBTRDTIM_UTMI_16_BIT)
    | _ => reg0
  let reg := if d.revision > DWC3_REVISION_194A then reg ||| DWC3_GUSB2PHYCFG_SUSPHY else reg
  let reg := if d.dis_u2_susphy_quirk then andnot reg DWC3_GUSB2PHYCFG_SUSPHY else reg
  let reg := if d.dis_enblslpm_quirk then andnot reg DWC3_GUSB2PHYCFG_ENBLSLPM else reg
  if d.dis_u2_freeclk_exists_quirk then andnot reg DWC3_GUSB2PHYCFG_U2_FREECLK_EXISTS
  else reg

/-- The function `dwc3_phy_setup`: configures the USB PHY interface registers. -/
def dwc3_phy_setup (env : Env) (s : World) : Int × World :=
  let d := s.dwc
  let r := dwc3_readl env s (Reg.GUSB3PIPECTL 0)
  let s1 := if d.dual_port then (dwc3_readl env r.2 (Reg.GUSB3PIPECTL 1)).2 else r.2
  let reg := phy_setup_pipectl d r.1
  let s2 := dwc3_writel s1 (Reg.GUSB3PIPECTL 0) reg
  let s3 := if d.dual_port then dwc3_writel s2 (Reg.GUSB3PIPECTL 1) reg else s2
  let q := dwc3_readl env s3 (Reg.GUSB2PHYCFG 0)
  let s4 := if d.dual_port then (dwc3_readl env q.2 (Reg.GUSB2PHYCFG 1)).2 else q.2
  -- Select the HS PHY interface
  let sel : Nat × World :=
    if DWC3_GHWPARAMS3_HSPHY_IFC d.hwparams.hwparams3 = DWC3_GHWPARAMS3_HSPHY_IFC_UTMI_ULPI then
      if hsphy_interface_is d "utmi" then
        (andnot q.1 DWC3_GUSB2PHYCFG_ULPI_UTMI, s4)
      else if hsphy_interface_is d "ulpi" then
        (q.1 ||| DWC3_GUSB2PHYCFG_ULPI_UTMI,
          dwc3_writel s4 (Reg.GUSB2PHYCFG 0) (q.1 ||| DWC3_GUSB2PHYCFG_ULPI_UTMI))
      else (q.1, s4)
    else (q.1, s4)
  let reg2 := phy_setup_usb2phycfg d sel.1
  let s5 := dwc3_writel sel.2 (Reg.GUSB2PHYCFG 0) reg2
  let s6 := if d.dual_port then dwc3_writel s5 (Reg.GUSB2PHYCFG 1) reg2 else s5
  (0, s6)

/-- The function `dwc3_core_ulpi_init`: ULPI bus init where the core uses ULPI. -/
def dwc3_core_ulpi_init (env : Env) (s : World) : Int × World :=
  let intf := DWC3_GHWPARAMS3_HSPHY_IFC s.dwc.hwparams.hwparams3
  if intf = DWC3_GHWPARAMS3_HSPHY_IFC_ULPI ∨
      (intf = DWC3_GHWPARAMS3_HSPHY_IFC_UTMI_ULPI ∧ hsphy_interface_is s.dwc "ulpi" = true) then
    dwc3_ulpi_init env s
  else (0, s)

/-- Store a handle in a PHY field of the context. -/
def set_phy (d : dwc3) (p : PhyName) (v : phy_ptr) : dwc3 :=
  match p with
  | PhyName.usb2_phy => { d with usb2_phy := v }
  | PhyName.usb3_phy => { d with usb3_phy := v }
  | PhyName.usb2_phy1 => { d with usb2_phy1 := v }
  | PhyName.usb3_phy1 => { d with usb3_phy1 := v }
  | PhyName.usb2_generic_phy => { d with usb2_generic_phy := v }
  | PhyName.usb3_generic_phy => { d with usb3_generic_phy := v }

/-- A PHY lookup (`devm_usb_get_phy_by_phandle`, `devm_usb_get_phy`,
`devm_phy_get`) stored in its field. -/
def lookup_phy (env : Env) (s : World) (p : PhyName) : World :=
  { emit s (Event.get_phy p) with dwc := set_phy s.dwc p (env.get_phy_ret s.trace p) }

/-- The check `dwc3_core_get_phy` makes of one handle: an `ERR_PTR` whose code
is `absent1` or `-ENODEV` becomes `NULL`; any other `ERR_PTR` ends the function
with its code (`some`). -/
def check_phy (s : World) (p : PhyName) (absent1 : Int) : Option Int × World :=
  match phy_of s.dwc p with
  | phy_ptr.err ret =>
    if ret = absent1 ∨ ret = -ENODEV then
      (none, { s with dwc := set_phy s.dwc p phy_ptr.null })
    else (some ret, s)
  | _ => (none, s)

/-- The function `dwc3_core_get_phy`: looks up the PHY handles. -/
def dwc3_core_get_phy (env : Env) (s : World) : Int × World :=
  let s1 :=
    if env.of_node then
      let a := lookup_phy env (lookup_phy env s PhyName.usb2_phy) PhyName.usb3_phy
      if s.dwc.dual_port then
        lookup_phy env (lookup_phy env a PhyName.usb2_phy1) PhyName.usb3_phy1
      else a
    else lookup_phy env (lookup_phy env s PhyName.usb2_phy) PhyName.usb3_phy
  let c1 := check_phy s1 PhyName.usb2_phy (- ENXIO)
  match c1.1 with
  | some ret => (ret, c1.2)
  | none =>
  let c2 := check_phy c1.2 PhyName.usb3_phy (- ENXIO)
  match c2.1 with
  | some ret => (ret, c2.2)
  | none =>
  let c3 := if s.dwc.dual_port then check_phy c2.2 PhyName.usb2_phy1 (- ENXIO) else (none, c2.2)
  match c3.1 with
  | some ret => (ret, c3.2)
  | none =>
  let c4 := if s.dwc.dual_port then check_phy c3.2 PhyName.usb3_phy1 (- ENXIO) else (none, c3.2)
  match c4.1 with
  | some ret => (ret, c4.2)
  | none =>
  let c5 := check_phy (lookup_phy env c4.2 PhyName.usb2_generic_phy)
    PhyName.usb2_generic_phy (-ENOSYS)
  match c5.1 with
  | some ret => (ret, c5.2)
  | none =>
  let c6 := check_phy (lookup_phy env c5.2 PhyName.usb3_generic_phy)
    PhyName.usb3_generic_phy (-ENOSYS)
  match c6.1 with
  | some ret => (ret, c6.2)
  | none => (0, c6.2)

/-! ## Global control, scratch buffers, frame length -/

/-- The value `dwc3_core_setup_global_control` computes for GCTL from the
value read; `is_fpga` is the flag after the FPGA check. -/
def global_control_value (d : dwc3) (is_fpga : Bool) (reg0 : Nat) : Nat :=
  let reg := andnot reg0 DWC3_GCTL_SCALEDOWN_MASK
  let pwropt := DWC3_GHWPARAMS1_EN_PWROPT d.hwparams.hwparams1
  let reg :=
    if pwropt = DWC3_GHWPARAMS1_EN_PWROPT_CLK then
      if (d.dr_mode = USB_DR_MODE_HOST ∨ d.dr_mode = USB_DR_MODE_OTG) ∧
          (d.revision ≥ DWC3_REVISION_210A ∧ d.revision ≤ DWC3_REVISION_250A) then
        reg ||| (DWC3_GCTL_DSBLCLKGTNG ||| DWC3_GCTL_SOFITPSYNC)
      else andnot reg DWC3_GCTL_DSBLCLKGTNG
    else if pwropt = DWC3_GHWPARAMS1_EN_PWROPT_HIB then
      reg ||| DWC3_GCTL_GBLHIBERNATIONEN
    else reg
  let reg :=
    if d.disable_scramble_quirk ∧ is_fpga then reg ||| DWC3_GCTL_DISSCRAMBLE
    else andnot reg DWC3_GCTL_DISSCRAMBLE
  let reg := if d.u2exit_lfps_quirk then reg ||| DWC3_GCTL_U2EXIT_LFPS else reg
  let reg := if d.revision < DWC3_REVISION_190A then reg ||| DWC3_GCTL_U2RSTECN else reg
  if d.disable_clk_gating then reg ||| DWC3_GCTL_DSBLCLKGTNG else reg

/-- The function `dwc3_core_setup_global_control`: programs GCTL. -/
def dwc3_core_setup_global_control (env : Env) (s : World) : World :=
  let r := dwc3_readl env s Reg.GCTL
  let d0 := r.2.dwc
  let d1 : dwc3 :=
    if DWC3_GHWPARAMS1_EN_PWROPT d0.hwparams.hwparams1 = DWC3_GHWPARAMS1_EN_PWROPT_HIB then
      { d0 with nr_scratch := DWC3_GHWPARAMS4_HIBER_SCRATCHBUFS d0.hwparams.hwparams4 }
    else d0
  let d2 : dwc3 :=
    if d1.hwparams.hwparams6 &&& DWC3_GHWPARAMS6_EN_FPGA ≠ 0 then { d1 with is_fpga := true }
    else d1
  dwc3_writel { r.2 with dwc := d2 } Reg.GCTL (global_control_value d0 d2.is_fpga r.1)

/-- The function `dwc3_core_num_eps`. -/
def dwc3_core_num_eps (s : World) : World :=
  { s with dwc := { s.dwc with num_eps := DWC3_NUM_EPS s.dwc.hwparams.hwparams3 } }

/-- Modelled from the spec: `dwc3_send_gadget_generic_command` of `gadget.c`
(missing from the sources): the command is sent and the command layer reports
a result. -/
def dwc3_send_gadget_generic_command (env : Env) (s : World) (cmd param : Nat) : Int × World :=
  (env.generic_command_ret s.trace cmd param, emit s (Event.generic_command cmd param))

/-- The function `dwc3_setup_scratch_buffers`: maps the scratch buffer and
tells the hardware its address. -/
def dwc3_setup_scratch_buffers (env : Env) (s : World) : Int × World :=
  if ¬ s.dwc.has_hibernation then (0, s)
  else if s.dwc.nr_scratch = 0 then (0, s)
  else if ¬ s.dwc.scratchbuf then (0, s)
  else
    let len := s.dwc.nr_scratch * DWC3_SCRATCHBUF_SIZE % U32
    let scratch_addr := env.dma_map_single_ret s.trace
    let s1 := emit s (Event.dma_map_single len)
    if env.dma_mapping_error scratch_addr then (-EFAULT, s1)
    else
      let s2 : World := { s1 with dwc := { s1.dwc with scratch_addr := scratch_addr } }
      let c1 := dwc3_send_gadget_generic_command env s2 DWC3_DGCMD_SET_SCRATCHPAD_ADDR_LO
        (lower_32_bits scratch_addr)
      if c1.1 < 0 then
        (c1.1, emit c1.2 (Event.dma_unmap_single c1.2.dwc.scratch_addr len))
      else
        let c2 := dwc3_send_gadget_generic_command env c1.2 DWC3_DGCMD_SET_SCRATCHPAD_ADDR_HI
          (upper_32_bits scratch_addr)
        if c2.1 < 0 then
          (c2.1, emit c2.2 (Event.dma_unmap_single c2.2.dwc.scratch_addr len))
        else (0, c2.2)

/-- The function `dwc3_free_scratch_buffers`: unmaps and frees the scratch buffer. -/
def dwc3_free_scratch_buffers (s : World) : World :=
  if ¬ s.dwc.has_hibernation then s
  else if s.dwc.nr_scratch = 0 then s
  else if ¬ s.dwc.scratchbuf then s
  else
    emit (emit s (Event.dma_unmap_single s.dwc.scratch_addr
      (s.dwc.nr_scratch * DWC3_SCRATCHBUF_SIZE % U32))) Event.kfree

/-- The function `dwc3_frame_length_adjustment`. -/
def dwc3_frame_length_adjustment (env : Env) (s : World) : World :=
  if s.dwc.revision < DWC3_REVISION_250A then s
  else if s.dwc.fladj = 0 then s
  else
    let r := dwc3_readl env s Reg.GFLADJ
    let dft := r.1 &&& DWC3_GFLADJ_30MHZ_MASK
    if dft ≠ s.dwc.fladj then
      dwc3_writel r.2 Reg.GFLADJ
        (andnot r.1 DWC3_GFLADJ_30MHZ_MASK ||| (DWC3_GFLADJ_30MHZ_SDBND_SEL ||| s.dwc.fladj))
    else r.2

/-! ## Core initialisation -/

/-- The label `err0a` of `dwc3_core_init`. -/
def dwc3_core_init_err0a (s : World) (ret : Int) : Int × World :=
  (ret, dwc3_ulpi_exit s)

/-- The label `err1` of `dwc3_core_init`. -/
def dwc3_core_init_err1 (s : World) (ret : Int) : Int × World :=
  let s := usb_phy_shutdown s PhyName.usb2_phy1
  let s := usb_phy_shutdown s PhyName.usb3_phy1
  let s := usb_phy_shutdown s PhyName.usb2_phy
  let s := usb_phy_shutdown s PhyName.usb3_phy
  let s := phy_exit s PhyName.usb2_generic_phy
  let s := phy_exit s PhyName.usb3_generic_phy
  dwc3_core_init_err0a s ret

/-- The label `err2` of `dwc3_core_init`. -/
def dwc3_core_init_err2 (s : World) (ret : Int) : Int × World :=
  let s := usb_phy_set_suspend s PhyName.usb2_phy1 1
  let s := usb_phy_set_suspend s PhyName.usb3_phy1 1
  let s := usb_phy_set_suspend s PhyName.usb2_phy 1
  let s := usb_phy_set_suspend s PhyName.usb3_phy 1
  let s := dwc3_free_scratch_buffers s
  dwc3_core_init_err1 s ret

/-- The label `err3` of `dwc3_core_init`. -/
def dwc3_core_init_err3 (s : World) (ret : Int) : Int × World :=
  dwc3_core_init_err2 (phy_power_off s PhyName.usb2_generic_phy) ret

/-- A read-modify-write of one register, `reg = readl; reg = f reg; writel`. -/
def rmw (env : Env) (s : World) (r : Reg) (f : Nat → Nat) : World :=
  let x := dwc3_readl env s r
  dwc3_writel x.2 r (f x.1)

/-- The value the GUCTL1 workaround block of `dwc3_core_init` writes. -/
def guctl1_value (d : dwc3) (reg0 : Nat) : Nat :=
  let reg := if d.revision ≥ DWC3_REVISION_290A then reg0 ||| DWC3_GUCTL1_DEV_L1_EXIT_BY_HW else reg0
  let reg :=
    if d.dis_tx_ipgap_linecheck_quirk then reg ||| DWC3_GUCTL1_TX_IPGAP_LINECHECK_DIS else reg
  let reg := if d.parkmode_disable_ss_quirk then reg ||| DWC3_GUCTL1_PARKMODE_DISABLE_SS else reg
  if ¬ dwc3_is_usb31 d then
    ((reg ||| DWC3_GUCTL1_PARKMODE_DISABLE_SS) ||| DWC3_GUCTL1_PARKMODE_DISABLE_HS) |||
      DWC3_GUCTL1_PARKMODE_DISABLE_FSLS
  else reg

/-- The end of `dwc3_core_init`, after both generic PHYs are powered on: the
revision-specific workarounds and the post-reset notification. -/
def dwc3_core_init_workarounds (env : Env) (s : World) : Int × World :=
  let d := s.dwc
  let s1 :=
    if ¬ dwc3_is_usb31 d ∧ d.revision ≥ DWC3_REVISION_310A then
      rmw env s Reg.GUCTL2 (fun reg => reg ||| DWC3_GUCTL2_RST_ACTBITLATER)
    else s
  let s2 := if d.revision ≥ DWC3_REVISION_250A then rmw env s1 Reg.GUCTL1 (guctl1_value d) else s1
  let s3 :=
    if d.revision = DWC3_USB31_REVISION_170A ∧ d.versiontype = DWC3_USB31_VER_TYPE_GA then
      rmw env s2 Reg.GUCTL3 (fun reg => reg ||| DWC3_GUCTL3_USB20_RETRY_DISABLE)
    else s2
  let s4 := (dwc3_notify_event s3 NotifyEvent.DWC3_CONTROLLER_POST_RESET_EVENT 0).2
  let s5 :=
    if ¬ dwc3_is_usb31 d ∧ d.revision = DWC3_REVISION_320A then
      rmw env s4 Reg.GUCTL2
        (fun reg => andnot reg DWC3_GUCTL2_HP_TIMER_MASK ||| DWC3_GUCTL2_HP_TIMER 11)
    else s4
  let s6 :=
    if d.revision = DWC3_REVISION_320A then
      rmw env s5 Reg.GUCTL2 (fun reg => andnot reg DWC3_GUCTL2_LC_TIMER)
    else s5
  let s7 :=
    if d.revision ≥ DWC3_USB31_REVISION_170A then
      rmw env s6 Reg.GUCTL1 (fun reg => reg ||| DWC3_GUCTL1_IP_GAP_ADD_ON 1)
    else s6
  (0, s7)

/-- The part of `dwc3_core_init` from the call of `dwc3_core_soft_reset` on. -/
def dwc3_core_init_reset (env : Env) (s : World) : Int × World :=
  let r := dwc3_core_soft_reset env s
  if r.1 ≠ 0 then dwc3_core_init_err0a r.2 r.1
  else
    let s1 := dwc3_core_num_eps (dwc3_core_setup_global_control env r.2)
    let b := dwc3_setup_scratch_buffers env s1
    if b.1 ≠ 0 then dwc3_core_init_err1 b.2 b.1
    else
      let s2 := dwc3_frame_length_adjustment env b.2
      let s3 := usb_phy_set_suspend s2 PhyName.usb2_phy 0
      let s4 := usb_phy_set_suspend s3 PhyName.usb2_phy1 0
      let s5 :=
        if s4.dwc.maximum_speed ≥ USB_SPEED_SUPER then
          usb_phy_set_suspend (usb_phy_set_suspend s4 PhyName.usb3_phy 0) PhyName.usb3_phy1 0
        else s4
      let p2 := phy_power_on env s5 PhyName.usb2_generic_phy
      if p2.1 < 0 then dwc3_core_init_err2 p2.2 p2.1
      else
        let p3 := phy_power_on env p2.2 PhyName.usb3_generic_phy
        if p3.1 < 0 then dwc3_core_init_err3 p3.2 p3.1
        else dwc3_core_init_workarounds env p3.2

/-- The part of `dwc3_core_init` from the PHY lookup on. -/
def dwc3_core_init_phys (env : Env) (s : World) : Int × World :=
  if ¬ s.dwc.phys_ready then
    let g := dwc3_core_get_phy env s
    if g.1 ≠ 0 then dwc3_core_init_err0a g.2 g.1
    else dwc3_core_init_reset env { g.2 with dwc := { g.2.dwc with phys_ready := true } }
  else dwc3_core_init_reset env s

/-- The block of `dwc3_core_init` under "Handle USB2.0-only core
configuration": without a SuperSpeed PHY interface a `maximum_speed` of Super
or more becomes High-Speed. -/
def dwc3_core_init_usb2_only (s : World) : World :=
  if DWC3_GHWPARAMS3_SSPHY_IFC s.dwc.hwparams.hwparams3 = DWC3_GHWPARAMS3_SSPHY_IFC_DIS ∧
      s.dwc.maximum_speed ≥ USB_SPEED_SUPER then
    { s with dwc := { s.dwc with maximum_speed := USB_SPEED_HIGH } }
  else s

/-- The function `dwc3_core_init`: low-level initialisation of the core.
Returns 0 on success, a negative errno otherwise. -/
def dwc3_core_init (env : Env) (s : World) : Int × World :=
  let v := dwc3_core_is_valid env s
  if ¬ v.1 then (-ENODEV, v.2)
  else
    let s1 := dwc3_check_params (dwc3_cache_hwparams env v.2)
    let m := dwc3_get_dr_mode env s1
    if m.1 ≠ 0 then (-EINVAL, m.2)
    else
      let s2 := dwc3_writel m.2 Reg.GUID env.LINUX_VERSION_CODE
      let s3 := dwc3_core_init_usb2_only s2
      let ps := dwc3_phy_setup env s3
      if ps.1 ≠ 0 then ps
      else if ¬ ps.2.dwc.ulpi_ready then
        let u := dwc3_core_ulpi_init env ps.2
        if u.1 ≠ 0 then
          if u.1 = -ETIMEDOUT then (-EPROBE_DEFER, (dwc3_core_soft_reset env u.2).2)
          else u
        else dwc3_core_init_phys env { u.2 with dwc := { u.2.dwc with ulpi_ready := true } }
      else dwc3_core_init_phys env ps.2

/-! ## Properties -/

/-- The idiom `device_property_read_u32(dev, name, &field)`: the field keeps
its value when the property is absent. -/
def read_u32_or (env : Env) (name : String) (old : Nat) : Nat :=
  (env.device_property_read_u32 name).getD old

/-- The function `dwc3_get_properties`: reads the configuration properties
into the context.  (`sysdev` is a device pointer and is not modelled.) -/
def dwc3_get_properties (env : Env) (s : World) : World :=
  let d := s.dwc
  let lpm_nyet_threshold := (env.device_property_read_u8 "snps,lpm-nyet-threshold").getD 0xf
  let tx_de_emphasis := (env.device_property_read_u8 "snps,tx_de_emphasis").getD 1
  let hird_threshold := (env.device_property_read_u8 "snps,hird-threshold").getD 12
  let is_utmi_l1_suspend := env.device_property_read_bool "snps,is-utmi-l1-suspend"
  let d : dwc3 :=
    { d with
      maximum_speed := env.usb_get_maximum_speed
      max_hw_supp_speed := env.usb_get_maximum_speed
      dr_mode := env.usb_get_dr_mode
      hsphy_mode := env.of_usb_get_phy_mode
      sysdev_is_parent := env.device_property_read_bool "linux,sysdev_is_parent"
      has_lpm_erratum := env.device_property_read_bool "snps,has-lpm-erratum"
      is_utmi_l1_suspend := is_utmi_l1_suspend
      xhci_imod_value := read_u32_or env "snps,xhci-imod-value" d.xhci_imod_value
      core_id := read_u32_or env "usb-core-id" (U32 - 1)
      usb3_lpm_capable := env.device_property_read_bool "snps,usb3_lpm_capable"
      needs_fifo_resize := env.device_property_read_bool "tx-fifo-resize"
      disable_scramble_quirk := env.device_property_read_bool "snps,disable_scramble_quirk"
      u2exit_lfps_quirk := env.device_property_read_bool "snps,u2exit_lfps_quirk"
      u2ss_inp3_quirk := env.device_property_read_bool "snps,u2ss_inp3_quirk"
      req_p1p2p3_quirk := env.device_property_read_bool "snps,req_p1p2p3_quirk"
      del_p1p2p3_quirk := env.device_property_read_bool "snps,del_p1p2p3_quirk"
      del_phy_power_chg_quirk := env.device_property_read_bool "snps,del_phy_power_chg_quirk"
      lfps_filter_quirk := env.device_property_read_bool "snps,lfps_filter_quirk"
      rx_detect_poll_quirk := env.device_property_read_bool "snps,rx_detect_poll_quirk"
      dis_u3_susphy_quirk := env.device_property_read_bool "snps,dis_u3_susphy_quirk"
      dis_u2_susphy_quirk := env.device_property_read_bool "snps,dis_u2_susphy_quirk"
      dis_enblslpm_quirk := env.device_property_read_bool "snps,dis_enblslpm_quirk"
      dis_rxdet_inp3_quirk := env.device_property_read_bool "snps,dis_rxdet_inp3_quirk"
      dis_u2_freeclk_exists_quirk :=
        env.device_property_read_bool "snps,dis-u2-freeclk-exists-quirk"
      dis_del_phy_power_chg_quirk :=
        env.device_property_read_bool "snps,dis-del-phy-power-chg-quirk"
      dis_tx_ipgap_linecheck_quirk :=
        env.device_property_read_bool "snps,dis-tx-ipgap-linecheck-quirk"
      parkmode_disable_ss_quirk := env.device_property_read_bool "snps,parkmode-disable-ss-quirk"
      tx_de_emphasis_quirk := env.device_property_read_bool "snps,tx_de_emphasis_quirk"
      ssp_u3_u0_quirk := env.device_property_read_bool "snps,ssp-u3-u0-quirk"
      hsphy_interface :=
        match env.device_property_read_string "snps,hsphy_interface" with
        | some v => some v
        | none => d.hsphy_interface
      fladj := read_u32_or env "snps,quirk-frame-length-adjustment" d.fladj
      enable_bus_suspend := env.device_property_read_bool "snps,bus-suspend-enable"
      usb3_u1u2_disable := env.device_property_read_bool "snps,usb3-u1u2-disable"
      disable_clk_gating := env.device_property_read_bool "snps,disable-clk-gating"
      num_gsi_eps := read_u32_or env "num-gsi-eps" d.num_gsi_eps
      dis_metastability_quirk := env.device_property_read_bool "snps,dis_metastability_quirk"
      lpm_nyet_threshold := lpm_nyet_threshold
      tx_de_emphasis := tx_de_emphasis
      hird_threshold := hird_threshold ||| ((if is_utmi_l1_suspend then 1 else 0) <<< 4)
      imod_interval := 0 }
  { s with dwc := d }

/-! ## Event buffers -/

/-- The function `dwc3_alloc_one_event_buffer`: allocates the descriptor, the
cache mirror and the DMA-coherent region; `ERR_PTR(-ENOMEM)` if any of the
three fails. -/
def dwc3_alloc_one_event_buffer (env : Env) (s : World) (length : Nat) :
    Except Int dwc3_event_buffer × World :=
  if ¬ env.alloc_ok s.trace Alloc.event_buffer then (Except.error (-ENOMEM), s)
  else if ¬ env.alloc_ok s.trace Alloc.event_cache then (Except.error (-ENOMEM), s)
  else
    let s1 := emit s (Event.dma_alloc_coherent length)
    if ¬ env.alloc_ok s.trace Alloc.event_dma then (Except.error (-ENOMEM), s1)
    else (Except.ok { length := length, dma := env.dma_alloc_coherent_ret s.trace, lpos := 0 }, s1)

/-- The function `dwc3_free_one_event_buffer`. -/
def dwc3_free_one_event_buffer (s : World) (evt : dwc3_event_buffer) : World :=
  emit s (Event.dma_free_coherent evt.length evt.dma)

/-- The function `dwc3_free_event_buffers`: frees the event buffer, if any, and
notifies the GSI collaborator. -/
def dwc3_free_event_buffers (s : World) : World :=
  let s1 : World :=
    match s.dwc.ev_buf with
    | some evt =>
      let f := dwc3_free_one_event_buffer s evt
      { f with dwc := { f.dwc with ev_buf := none } }
    | none => s
  (dwc3_notify_event s1 NotifyEvent.DWC3_GSI_EVT_BUF_FREE 0).2

/-- The function `dwc3_alloc_event_buffers`: no buffer when the cached
hardware mode is host-only, one buffer of `length` bytes otherwise. -/
def dwc3_alloc_event_buffers (env : Env) (s : World) (length : Nat) : Int × World :=
  let hw_mode := DWC3_GHWPARAMS0_MODE s.dwc.hwparams.hwparams0
  if hw_mode = DWC3_GHWPARAMS0_MODE_HOST then
    (0, { s with dwc := { s.dwc with ev_buf := none } })
  else
    let a := dwc3_alloc_one_event_buffer env s length
    match a.1 with
    | Except.error e => (e, a.2)
    | Except.ok evt =>
      (0, (dwc3_notify_event { a.2 with dwc := { a.2.dwc with ev_buf := some evt } }
        NotifyEvent.DWC3_GSI_EVT_BUF_ALLOC 0).2)

/-- The function `dwc3_event_buffers_setup`: programs the event buffer
registers from the allocated buffer. -/
def dwc3_event_buffers_setup (s : World) : Int × World :=
  match s.dwc.ev_buf with
  | none => (0, s)
  | some evt =>
    let s1 : World := { s with dwc := { s.dwc with ev_buf := some { evt with lpos := 0 } } }
    let s2 := dwc3_writel s1 (Reg.GEVNTADRLO 0) (lower_32_bits evt.dma)
    let s3 := dwc3_writel s2 (Reg.GEVNTADRHI 0) (upper_32_bits evt.dma)
    let s4 := dwc3_writel s3 (Reg.GEVNTSIZ 0) (DWC3_GEVNTSIZ_SIZE evt.length)
    let s5 := dwc3_writel s4 (Reg.GEVNTCOUNT 0) 0
    (0, (dwc3_notify_event s5 NotifyEvent.DWC3_GSI_EVT_BUF_SETUP 0).2)

/-- The function `dwc3_event_buffers_cleanup`: writes the zero configuration
back, but only when DSTS reports the controller halted. -/
def dwc3_event_buffers_cleanup (env : Env) (s : World) : World :=
  match s.dwc.ev_buf with
  | none => s
  | some evt =>
    let r := dwc3_readl env s Reg.DSTS
    if r.1 &&& DWC3_DSTS_DEVCTRLHLT = 0 then r.2
    else
      let s1 : World := { r.2 with dwc := { r.2.dwc with ev_buf := some { evt with lpos := 0 } } }
      let s2 := dwc3_writel s1 (Reg.GEVNTADRLO 0) 0
      let s3 := dwc3_writel s2 (Reg.GEVNTADRHI 0) 0
      let s4 := dwc3_writel s3 (Reg.GEVNTSIZ 0) (DWC3_GEVNTSIZ_INTMASK ||| DWC3_GEVNTSIZ_SIZE 0)
      let s5 := dwc3_writel s4 (Reg.GEVNTCOUNT 0) 0
      (dwc3_notify_event s5 NotifyEvent.DWC3_GSI_EVT_BUF_CLEANUP 0).2

/-- The function `dwc3_alloc_scratch_buffers`: allocates the scratch array when
hibernation is on and the scratch count is known. -/
def dwc3_alloc_scratch_buffers (env : Env) (s : World) : Int × World :=
  if ¬ s.dwc.has_hibernation then (0, s)
  else if s.dwc.nr_scratch = 0 then (0, s)
  else
    let ok := env.alloc_ok s.trace Alloc.scratchbuf
    let s1 : World :=
      { emit s (Event.kmalloc_array s.dwc.nr_scratch DWC3_SCRATCHBUF_SIZE) with
        dwc := { s.dwc with scratchbuf := ok } }
    if ¬ ok then (-ENOMEM, s1) else (0, s1)

/-! ## Teardown and runtime suspend -/

/-- The function `dwc3_core_exit`: event buffer cleanup, then suspend,
power-off, shutdown and exit of every PHY, in the order of the source. -/
def dwc3_core_exit (env : Env) (s : World) : World :=
  let s := dwc3_event_buffers_cleanup env s
  let s := usb_phy_set_suspend s PhyName.usb2_phy1 1
  let s := usb_phy_set_suspend s PhyName.usb2_phy 1
  let s := usb_phy_set_suspend s PhyName.usb3_phy1 1
  let s := usb_phy_set_suspend s PhyName.usb3_phy 1
  let s := phy_power_off s PhyName.usb2_generic_phy
  let s := phy_power_off s PhyName.usb3_generic_phy
  let s := usb_phy_shutdown s PhyName.usb2_phy1
  let s := usb_phy_shutdown s PhyName.usb2_phy
  let s := usb_phy_shutdown s PhyName.usb3_phy1
  let s := usb_phy_shutdown s PhyName.usb3_phy
  let s := phy_exit s PhyName.usb2_generic_phy
  phy_exit s PhyName.usb3_generic_phy

/-- Modelled from the spec: `dwc3_gadget_suspend` of `gadget.c` (missing from
the sources), the gadget-specific suspend entry point of section 6. -/
def dwc3_gadget_suspend (s : World) : World := emit s Event.gadget_suspend

/-- The function `dwc3_suspend_common`: gadget suspend in Peripheral and OTG
role (under the lock, which is not modelled), then `dwc3_core_exit`. -/
def dwc3_suspend_common (env : Env) (s : World) : Int × World :=
  let s1 :=
    match s.dwc.dr_mode with
    | USB_DR_MODE_PERIPHERAL => dwc3_gadget_suspend s
    | USB_DR_MODE_OTG => dwc3_gadget_suspend s
    | _ => s
  (0, dwc3_core_exit env s1)

/-- The function `dwc3_runtime_checks`: busy in Peripheral or OTG role while
connected. -/
def dwc3_runtime_checks (d : dwc3) : Int :=
  match d.dr_mode with
  | USB_DR_MODE_PERIPHERAL => if d.connected then -EBUSY else 0
  | USB_DR_MODE_OTG => if d.connected then -EBUSY else 0
  | _ => 0

/-- The function `dwc3_runtime_suspend`. -/
def dwc3_runtime_suspend (env : Env) (s : World) : Int × World :=
  let n := dwc3_notify_event s NotifyEvent.DWC3_CORE_PM_SUSPEND_EVENT 0
  if n.1 = 0 then (0, n.2)
  else if dwc3_runtime_checks n.2.dwc ≠ 0 then (-EBUSY, n.2)
  else
    let c := dwc3_suspend_common env n.2
    if c.1 ≠ 0 then c
    else (0, emit c.2 (Event.device_init_wakeup true))

/-! ## Probe -/

/-- Record calls of framework functions, in order. -/
def calls (s : World) (fns : List String) : World :=
  fns.foldl (fun x fn => emit x (Event.call fn)) s

/-- The label `err0` of `dwc3_probe`: restores `res->start`. -/
def dwc3_probe_err0 (env : Env) (s : World) (ret : Int) : Int × World :=
  (ret, { s with res_start := s.res_start - env.DWC3_GLOBALS_REGS_START })

/-- The label `err1` of `dwc3_probe`. -/
def dwc3_probe_err1 (env : Env) (s : World) (ret : Int) : Int × World :=
  dwc3_probe_err0 env (emit s Event.destroy_workqueue) ret

/-- The label `err2` of `dwc3_probe`. -/
def dwc3_probe_err2 (env : Env) (s : World) (ret : Int) : Int × World :=
  dwc3_probe_err1 env (dwc3_free_event_buffers s) ret

/-- The label `err3` of `dwc3_probe`. -/
def dwc3_probe_err3 (env : Env) (s : World) (ret : Int) : Int × World :=
  dwc3_probe_err2 env (dwc3_free_scratch_buffers s) ret

/-- Modelled from the spec: `dwc3_gadget_init` of `gadget.c` (missing from the
sources), the peripheral init entry point of section 6. -/
def dwc3_gadget_init (env : Env) (s : World) : Int × World :=
  (env.gadget_init_ret s.trace, emit s Event.gadget_init)

/-- The part of `dwc3_probe` from the allocation of the event buffers on. -/
def dwc3_probe_buffers (env : Env) (s : World) (pdev : Nat) : Int × World :=
  let a := dwc3_alloc_event_buffers env s env.DWC3_EVENT_BUFFERS_SIZE
  if a.1 ≠ 0 then dwc3_probe_err1 env a.2 (-ENOMEM)
  else
    let b := dwc3_alloc_scratch_buffers env a.2
    if b.1 ≠ 0 then dwc3_probe_err2 env b.2 b.1
    else
      let g : Int × World :=
        if b.2.dwc.dr_mode = USB_DR_MODE_OTG ∨ b.2.dwc.dr_mode = USB_DR_MODE_PERIPHERAL then
          dwc3_gadget_init env b.2
        else (0, b.2)
      if g.1 ≠ 0 then dwc3_probe_err3 env g.2 g.1
      else
        let s1 := calls g.2 ["ipc_log_context_create", "ipc_log_context_create"]
        let s2 : World :=
          { s1 with
            dwc3_instance := fun i => if i = s1.count then some pdev else s1.dwc3_instance i,
            dwc := { s1.dwc with index := s1.count },
            count := s1.count + 1 }
        (0, calls s2 ["pm_runtime_allow", "dwc3_debugfs_init", "pm_runtime_put",
          "dma_set_max_seg_size"])

/-- The function `dwc3_probe` for the platform device `pdev`.  The context is
a zeroed allocation; the fields `reg_phys`, `xhci_resources`, `regs`,
`regs_size` and the log contexts are addresses and handles that are not
modelled. -/
def dwc3_probe (env : Env) (s : World) (pdev : Nat) : Int × World :=
  if s.count ≥ env.DWC_CTRL_COUNT then (-EINVAL, s)
  else if ¬ env.alloc_ok s.trace Alloc.dwc then (-ENOMEM, s)
  else
    let s0 : World := { s with dwc := {} }
    if ¬ env.platform_get_resource_ok then (-ENODEV, s0)
    else
      let s1 : World := { s0 with res_start := s0.res_start + env.DWC3_GLOBALS_REGS_START }
      let irq := env.platform_get_irq
      let ret := env.devm_request_irq_ret s1.trace
      let s2 := emit s1 (Event.devm_request_irq irq)
      if ret ≠ 0 then (-ENODEV, s2)
      else
        let s3 : World :=
          { emit s2 (Event.disable_irq irq) with dwc := { s2.dwc with irq := irq } }
        match env.devm_ioremap_resource_err s3.trace with
        | some e => dwc3_probe_err0 env s3 e
        | none =>
          let wq := env.alloc_ok s3.trace Alloc.workqueue
          let s4 : World :=
            { emit s3 Event.alloc_ordered_workqueue with dwc := { s3.dwc with dwc_wq := wq } }
          if ¬ wq then dwc3_probe_err0 env s4 ret
          else
            let s5 := dwc3_get_properties env (calls s4 ["INIT_WORK"])
            let s6 := calls s5 ["platform_set_drvdata", "init_waitqueue_head",
              "spin_lock_init", "pm_runtime_no_callbacks", "pm_runtime_set_active"]
            let s7 :=
              if s6.dwc.enable_bus_suspend then
                calls s6 ["pm_runtime_set_autosuspend_delay", "pm_runtime_use_autosuspend"]
              else s6
            let s8 := calls s7 ["pm_runtime_enable", "pm_runtime_forbid"]
            dwc3_probe_buffers env s8 pdev

/-! ## Port capability, mode requests, the notifier -/

/-- The function `dwc3_set_prtcap`: writes `mode` (a `u32`) into the port
capability direction field of GCTL and records it as the current role. -/
def dwc3_set_prtcap (env : Env) (s : World) (mode : Nat) : World :=
  let r := dwc3_readl env s Reg.GCTL
  let reg := andnot r.1 (DWC3_GCTL_PRTCAPDIR DWC3_GCTL_PRTCAP_OTG)
  let reg := reg ||| DWC3_GCTL_PRTCAPDIR mode
  let s1 := dwc3_writel r.2 Reg.GCTL reg
  { s1 with dwc := { s1.dwc with current_dr_role := mode % U32 } }

/-- The function `dwc3_set_mode`: records `mode` (a `u32`) as the desired role
(under the lock, which is not modelled) and queues `drd_work` on
`system_freezable_wq`. -/
def dwc3_set_mode (s : World) (mode : Nat) : World :=
  emit { s with dwc := { s.dwc with desired_dr_role := mode % U32 } } (Event.call "queue_work")

/-- The function `dwc3_set_notifier`: stores the callback in the file-scope
pointer `notify_event`; `none` is `NULL`. -/
def dwc3_set_notifier (s : World) (notify : Option Nat) : World :=
  { s with notify_event := notify }

/-! ## Resume, system sleep, removal -/

/-- Modelled from the spec: `dwc3_gadget_resume` of `gadget.c` (missing from
the sources), the gadget-specific resume entry point of section 6; its result
is ignored by `core.c`. -/
def dwc3_gadget_resume (s : World) : World := emit s (Event.call "dwc3_gadget_resume")

/-- Modelled from the spec: `dwc3_gadget_process_pending_events` of `gadget.c`
(missing from the sources). -/
def dwc3_gadget_process_pending_events (s : World) : World :=
  emit s (Event.call "dwc3_gadget_process_pending_events")

/-- Modelled from the spec: `dwc3_gadget_exit` of `gadget.c` (missing from the
sources), the peripheral exit entry point of section 6. -/
def dwc3_gadget_exit (s : World) : World := emit s (Event.call "dwc3_gadget_exit")

/-- The function `dwc3_resume_common`: `dwc3_core_init`, then gadget resume in
Peripheral and OTG role (under the lock, which is not modelled). -/
def dwc3_resume_common (env : Env) (s : World) : Int × World :=
  let r := dwc3_core_init env s
  if r.1 ≠ 0 then r
  else
    match r.2.dwc.dr_mode with
    | USB_DR_MODE_PERIPHERAL => (0, dwc3_gadget_resume r.2)
    | USB_DR_MODE_OTG => (0, dwc3_gadget_resume r.2)
    | _ => (0, r.2)

/-- The part of `dwc3_runtime_resume` after the notifier check, the default
runtime resume: wakeup off, `dwc3_resume_common`, pending gadget events in
Peripheral and OTG role, runtime PM bookkeeping. -/
def dwc3_runtime_resume_default (env : Env) (s : World) : Int × World :=
  let s1 := emit s (Event.device_init_wakeup false)
  let r := dwc3_resume_common env s1
  if r.1 ≠ 0 then r
  else
    let s2 :=
      match r.2.dwc.dr_mode with
      | USB_DR_MODE_PERIPHERAL => dwc3_gadget_process_pending_events r.2
      | USB_DR_MODE_OTG => dwc3_gadget_process_pending_events r.2
      | _ => r.2
    (0, calls s2 ["pm_runtime_mark_last_busy", "pm_runtime_put"])

/-- The function `dwc3_runtime_resume`. -/
def dwc3_runtime_resume (env : Env) (s : World) : Int × World :=
  let n := dwc3_notify_event s NotifyEvent.DWC3_CORE_PM_RESUME_EVENT 0
  if n.1 = 0 then (0, n.2)
  else dwc3_runtime_resume_default env n.2

/-- The part of `dwc3_suspend` after the notifier check, the default system
suspend: `dwc3_suspend_common`, then the sleep pin state. -/
def dwc3_suspend_default (env : Env) (s : World) : Int × World :=
  let c := dwc3_suspend_common env s
  if c.1 ≠ 0 then c
  else (0, calls c.2 ["pinctrl_pm_select_sleep_state"])

/-- The function `dwc3_suspend`, the system sleep entry point. -/
def dwc3_suspend (env : Env) (s : World) : Int × World :=
  let n := dwc3_notify_event s NotifyEvent.DWC3_CORE_PM_SUSPEND_EVENT 0
  if n.1 = 0 then (0, n.2)
  else dwc3_suspend_default env n.2

/-- The label `runtime_set_active` of `dwc3_resume`. -/
def dwc3_resume_runtime_set_active (s : World) : Int × World :=
  (0, calls s ["pm_runtime_disable", "pm_runtime_set_active", "pm_runtime_enable"])

/-- The part of `dwc3_resume` after the notifier check, the default system
resume: the default pin state, `dwc3_resume_common`, then the label
`runtime_set_active`. -/
def dwc3_resume_default (env : Env) (s : World) : Int × World :=
  let s1 := calls s ["pinctrl_pm_select_default_state"]
  let r := dwc3_resume_common env s1
  if r.1 ≠ 0 then r
  else dwc3_resume_runtime_set_active r.2

/-- The function `dwc3_resume`, the system wake entry point.  When the
collaborator handles the event, the runtime PM state is still set active if the
core was in host mode with `ignore_wakeup_src_in_hostmode`. -/
def dwc3_resume (env : Env) (s : World) : Int × World :=
  let n := dwc3_notify_event s NotifyEvent.DWC3_CORE_PM_RESUME_EVENT 0
  if n.1 = 0 then
    if n.2.dwc.current_dr_role = DWC3_GCTL_PRTCAP_HOST ∧
        n.2.dwc.ignore_wakeup_src_in_hostmode = true then
      dwc3_resume_runtime_set_active n.2
    else (0, n.2)
  else dwc3_resume_default env n.2

/-- The function `dwc3_remove`, on the state whose `dwc` is the context
`platform_get_drvdata` returns.  `count` is a C `int`; it is at least 1
whenever a controller is bound. -/
def dwc3_remove (env : Env) (s : World) : Int × World :=
  let s : World := { s with res_start := s.res_start - env.DWC3_GLOBALS_REGS_START }
  let s := calls s ["dwc3_debugfs_exit"]
  let s := dwc3_gadget_exit s
  let s := dwc3_core_exit env s
  let s := dwc3_ulpi_exit s
  let s := calls s ["pm_runtime_allow", "pm_runtime_disable", "pm_runtime_put_noidle",
    "pm_runtime_set_suspended"]
  let s := dwc3_free_event_buffers s
  let s := dwc3_free_scratch_buffers s
  let s := calls s ["ipc_log_context_destroy"]
  (0, { s with
        count := s.count - 1,
        dwc3_instance := fun i => if i = s.dwc.index then none else s.dwc3_instance i })

/-- The controllers bound to the driver: the machine state (whose `dwc` is the
context of the call in progress) and, for each platform device, the context
`platform_get_drvdata` returns while a controller is bound to it. -/
structure Driver where
  world : World := {}
  drvdata : Nat → Option dwc3 := fun _ => none

/-- Modelled from the spec: the driver core binding the platform device
`pdev`: it calls `dwc3_probe`, and a probe that returns 0 leaves the device
bound to the context the probe allocated. -/
def driver_probe (env : Env) (b : Driver) (pdev : Nat) : Int × Driver :=
  let r := dwc3_probe env b.world pdev
  if r.1 = 0 then
    (0, { world := r.2, drvdata := fun p => if p = pdev then some r.2.dwc else b.drvdata p })
  else (r.1, { b with world := r.2 })

/-- Modelled from the spec: the driver core unbinding the platform device
`pdev`: it calls `dwc3_remove` on the bound context and drops the binding. -/
def driver_remove (env : Env) (b : Driver) (pdev : Nat) : Driver :=
  match b.drvdata pdev with
  | none => b
  | some d =>
    { world := (dwc3_remove env { b.world with dwc := d }).2,
      drvdata := fun p => if p = pdev then none else b.drvdata p }

/-! ## Reference definitions and sample inputs -/

/-- The role resolution in the words of the specification: Peripheral if the
hardware is device-only; Host if it is host-only; otherwise Host if the build
enables the host-only side, else Peripheral if it enables the device-only side,
else the requested role with Unknown replaced by OTG. -/
def resolve_role_spec (host_only_build gadget_only_build : Bool) (hw_mode : Nat)
    (requested : usb_dr_mode) : usb_dr_mode :=
  if hw_mode = DWC3_GHWPARAMS0_MODE_GADGET then USB_DR_MODE_PERIPHERAL
  else if hw_mode = DWC3_GHWPARAMS0_MODE_HOST then USB_DR_MODE_HOST
  else if host_only_build then USB_DR_MODE_HOST
  else if gadget_only_build then USB_DR_MODE_PERIPHERAL
  else
    match requested with
    | USB_DR_MODE_UNKNOWN => USB_DR_MODE_OTG
    | r => r

/-- The role `dwc3_get_dr_mode` works with after its first statement: the
requested role, with Unknown replaced by OTG. -/
def requested_or_otg (m : usb_dr_mode) : usb_dr_mode :=
  if m = USB_DR_MODE_UNKNOWN then USB_DR_MODE_OTG else m

/-- The fields the speed claims are about: the cached capability registers,
the revision, `maximum_speed` and `max_hw_supp_speed`. -/
def speed_view (d : dwc3) : dwc3_hwparams × Nat × Nat × Nat :=
  (d.hwparams, d.revision, d.maximum_speed, d.max_hw_supp_speed)

/-- A step that leaves the speed fields alone, or lowers a `maximum_speed`
above High-Speed to High-Speed and leaves the others alone. -/
def lowered (d d' : dwc3) : Prop :=
  speed_view d' = speed_view d ∨
    (USB_SPEED_HIGH < d.maximum_speed ∧
      speed_view d' = (d.hwparams, d.revision, USB_SPEED_HIGH, d.max_hw_supp_speed))

/-- The five speeds `dwc3_check_params` accepts. -/
def known_speed (v : Nat) : Prop :=
  v = USB_SPEED_LOW ∨ v = USB_SPEED_FULL ∨ v = USB_SPEED_HIGH ∨ v = USB_SPEED_SUPER ∨
    v = USB_SPEED_SUPER_PLUS

instance (v : Nat) : Decidable (known_speed v) := by
  unfold known_speed; infer_instance

/-- A dual-role build on a quiet platform: registers read back what they hold,
except that the hardware completes a soft reset at once (DCTL reads back with
CSFTRST clear); every PHY call succeeds, every lookup finds a live PHY, no
property is set. -/
def env_quiet : Env where
  CONFIG_USB_DWC3_HOST := false
  CONFIG_USB_DWC3_GADGET := false
  LINUX_VERSION_CODE := 0x040e00
  mmio_read := fun _ r v => if r = Reg.DCTL then andnot v DWC3_DCTL_CSFTRST else v
  usb_phy_init_ret := fun _ _ => 0
  phy_init_ret := fun _ _ => 0
  phy_power_on_ret := fun _ _ => 0
  ulpi_init_ret := fun _ => 0
  get_phy_ret := fun _ _ => phy_ptr.valid
  dma_map_single_ret := fun _ => 0x1000
  dma_mapping_error := fun _ => false
  generic_command_ret := fun _ _ _ => 0
  usb_get_maximum_speed := USB_SPEED_UNKNOWN
  usb_get_dr_mode := USB_DR_MODE_UNKNOWN
  of_usb_get_phy_mode := USBPHY_INTERFACE_MODE_UNKNOWN
  device_property_read_bool := fun _ => false
  device_property_read_u8 := fun _ => none
  device_property_read_u32 := fun _ => none
  device_property_read_string := fun _ => none
  of_node := true
  DWC_CTRL_COUNT := 3
  DWC3_GLOBALS_REGS_START := 0xc100
  DWC3_EVENT_BUFFERS_SIZE := 4096
  alloc_ok := fun _ _ => true
  dma_alloc_coherent_ret := fun _ => 0x80000000
  platform_get_resource_ok := true
  platform_get_irq := 42
  devm_request_irq_ret := fun _ => 0
  devm_ioremap_resource_err := fun _ => none
  gadget_init_ret := fun _ => 0

/-- The quiet platform with a host-only build. -/
def env_host_only : Env := { env_quiet with CONFIG_USB_DWC3_HOST := true }

/-- A state with the given requested role and cached hwparams0. -/
def world_role (requested : usb_dr_mode) (hwparams0 : Nat) : World :=
  { dwc := { dr_mode := requested, hwparams := { hwparams0 := hwparams0 } } }

/-- A state with the given maximum speed, revision and cached hwparams3. -/
def world_speed (maximum_speed revision hwparams3 : Nat) : World :=
  { dwc := { maximum_speed := maximum_speed, revision := revision,
             hwparams := { hwparams3 := hwparams3 } } }

/-- The trace a call on the handle `p` leaves: nothing for `NULL`, the call
for a live handle, the bad dereference for an `ERR_PTR`. -/
def phy_events (d : dwc3) (p : PhyName) (e : Event) : List Event :=
  match phy_of d p with
  | phy_ptr.null => []
  | phy_ptr.valid => [e]
  | phy_ptr.err _ => [Event.bad_pointer p]

/-- The PHY bring-up calls `dwc3_core_soft_reset` makes when every init
succeeds: reset and init of the two USB2 PHYs, of the two USB3 PHYs when
`maximum_speed` is above High-Speed, then init of the two generic PHYs. -/
def soft_reset_bringup (d : dwc3) : List Event :=
  phy_events d PhyName.usb2_phy (Event.usb_phy_reset PhyName.usb2_phy) ++
  (phy_events d PhyName.usb2_phy (Event.usb_phy_init PhyName.usb2_phy) ++
  (phy_events d PhyName.usb2_phy1 (Event.usb_phy_reset PhyName.usb2_phy1) ++
  (phy_events d PhyName.usb2_phy1 (Event.usb_phy_init PhyName.usb2_phy1) ++
  ((if d.maximum_speed ≤ USB_SPEED_HIGH then []
    else
      phy_events d PhyName.usb3_phy (Event.usb_phy_reset PhyName.usb3_phy) ++
      (phy_events d PhyName.usb3_phy (Event.usb_phy_init PhyName.usb3_phy) ++
      (phy_events d PhyName.usb3_phy1 (Event.usb_phy_reset PhyName.usb3_phy1) ++
      phy_events d PhyName.usb3_phy1 (Event.usb_phy_init PhyName.usb3_phy1)))) ++
  (phy_events d PhyName.usb2_generic_phy (Event.phy_init PhyName.usb2_generic_phy) ++
  phy_events d PhyName.usb3_generic_phy (Event.phy_init PhyName.usb3_generic_phy))))))

/-- The exit of the two generic PHYs a timed-out soft reset makes. -/
def soft_reset_unwind (d : dwc3) : List Event :=
  phy_events d PhyName.usb3_generic_phy (Event.phy_exit PhyName.usb3_generic_phy) ++
  phy_events d PhyName.usb2_generic_phy (Event.phy_exit PhyName.usb2_generic_phy)

/-- A run of exactly `n` polls of DCTL, each followed by a delay of one
microsecond, and nothing else. -/
def is_poll_sequence : Nat → List Event → Bool
  | 0, [] => true
  | n + 1, Event.readl Reg.DCTL _ :: Event.udelay 1 :: rest => is_poll_sequence n rest
  | _, _ => false

/-- A legacy PHY shutdown, `usb_phy_shutdown`. -/
def is_usb_phy_shutdown : Event → Bool
  | Event.usb_phy_shutdown _ => true
  | _ => false

/-- A sleep, `msleep`. -/
def is_msleep : Event → Bool
  | Event.msleep _ => true
  | _ => false

/-- The states reachable by `dwc3_get_properties` followed by any number of
`dwc3_core_init` calls on one platform. -/
inductive Reachable (env : Env) : World → Prop
  | properties (s : World) : Reachable env (dwc3_get_properties env s)
  | core_init (s : World) : Reachable env s → Reachable env (dwc3_core_init env s).2

/-- The quiet platform with the property `maximum-speed` set to SuperSpeedPlus. -/
def env_ssp : Env := { env_quiet with usb_get_maximum_speed := USB_SPEED_SUPER_PLUS }

/-- A DWC_usb3 2.50a core whose capability registers report dual-role hardware
(GHWPARAMS0 = 2) and a Gen1 SuperSpeed PHY interface (GHWPARAMS3 = 1). -/
def world_gen1 : World :=
  { regs := fun r =>
      if r = Reg.GSNPSID then 0x5533250a
      else if r = Reg.GHWPARAMS0 then 2
      else if r = Reg.GHWPARAMS3 then 1
      else 0 }

/-- A DWC_usb3 2.50a core without SuperSpeed PHY interface (GHWPARAMS3 = 0),
asked for the given maximum speed. -/
def world_usb2_only (maximum_speed : Nat) : World :=
  { dwc := { maximum_speed := maximum_speed },
    regs := fun r => if r = Reg.GSNPSID then 0x5533250a else 0 }

/-- A platform whose hardware never completes the soft reset: every read of
DCTL returns the soft-reset bit set. -/
def env_stuck : Env :=
  { env_quiet with mmio_read := fun _ r v => if r = Reg.DCTL then v ||| DWC3_DCTL_CSFTRST else v }

/-- A context in OTG role with all six PHY handles live, asked for the given
maximum speed. -/
def world_phys (maximum_speed : Nat) : World :=
  { dwc := { dr_mode := USB_DR_MODE_OTG, maximum_speed := maximum_speed,
             usb2_phy := phy_ptr.valid, usb3_phy := phy_ptr.valid,
             usb2_phy1 := phy_ptr.valid, usb3_phy1 := phy_ptr.valid,
             usb2_generic_phy := phy_ptr.valid, usb3_generic_phy := phy_ptr.valid } }

/-- A controller that was brought up before and is initialised again (as on
resume): DWC_usb3 2.50a, dual-role Gen1 hardware, OTG role, SuperSpeed, ULPI
and PHY handles already acquired, all six PHYs live. -/
def world_resume : World :=
  { dwc := { dr_mode := USB_DR_MODE_OTG, maximum_speed := USB_SPEED_SUPER,
             max_hw_supp_speed := USB_SPEED_SUPER,
             ulpi_ready := true, phys_ready := true,
             usb2_phy := phy_ptr.valid, usb3_phy := phy_ptr.valid,
             usb2_phy1 := phy_ptr.valid, usb3_phy1 := phy_ptr.valid,
             usb2_generic_phy := phy_ptr.valid, usb3_generic_phy := phy_ptr.valid },
    regs := fun r =>
      if r = Reg.GSNPSID then 0x5533250a
      else if r = Reg.GHWPARAMS0 then 2
      else if r = Reg.GHWPARAMS3 then 1
      else 0 }

/-- The quiet platform, except that the init of `usb3_phy` reports busy. -/
def env_busy : Env :=
  { env_quiet with
    usb_phy_init_ret := fun _ p => if p = PhyName.usb3_phy then -EBUSY else 0 }

/-- A state whose identification register holds the given value, everything
else zero. -/
def world_id (gsnpsid : Nat) : World :=
  { regs := fun r => if r = Reg.GSNPSID then gsnpsid else 0 }


/-- An access to DCTL, a delay or a sleep: what the core soft reset proper
consists of. -/
def is_core_reset_action : Event → Bool
  | Event.readl Reg.DCTL _ => true
  | Event.writel Reg.DCTL _ => true
  | Event.udelay _ => true
  | Event.msleep _ => true
  | _ => false

/-- A context in Host role with all six PHY handles live, asked for the given
maximum speed. -/
def world_host (maximum_speed : Nat) : World :=
  { dwc := { dr_mode := USB_DR_MODE_HOST, maximum_speed := maximum_speed,
             usb2_phy := phy_ptr.valid, usb3_phy := phy_ptr.valid,
             usb2_phy1 := phy_ptr.valid, usb3_phy1 := phy_ptr.valid,
             usb2_generic_phy := phy_ptr.valid, usb3_generic_phy := phy_ptr.valid } }


/-- The trace `dwc3_notify_event` adds: the call of the registered notifier,
or nothing when none is registered. -/
def notify_events (s : World) (event : NotifyEvent) (value : Nat) : List Event :=
  match s.notify_event with
  | some cb => [Event.notify cb event value]
  | none => []

/-- A state with an event buffer of 4096 bytes at a DMA address above 4 GiB,
read position 16, and a registered notifier. -/
def world_evt : World :=
  { dwc := { ev_buf := some { length := 4096, dma := 0x123456789, lpos := 16 } },
    notify_event := some 7 }


/-- The quiet platform, except that the address-low scratchpad command fails
with `-ETIMEDOUT`. -/
def env_lo_fails : Env :=
  { env_quiet with
    generic_command_ret := fun _ cmd _ =>
      if cmd = DWC3_DGCMD_SET_SCRATCHPAD_ADDR_LO then -ETIMEDOUT else 0 }

/-- A context with hibernation on, four scratch buffers and the scratch array
allocated. -/
def world_scratch : World :=
  { dwc := { has_hibernation := true, nr_scratch := 4, scratchbuf := true } }

/-- A context with hibernation on, the scratch array allocated and a scratch
count of 2^20 + 1, whose byte size does not fit 32 bits. -/
def world_scratch_wide : World :=
  { dwc := { has_hibernation := true, nr_scratch := 0x100001, scratchbuf := true } }

/-- A context in the given role, connected or not, with no notifier
registered and no PHY handles. -/
def world_connected (role : usb_dr_mode) (connected : Bool) : World :=
  { dwc := { dr_mode := role, connected := connected } }


/-- A lookup that resolves, in the words of the specification: the handle is
present, or the lookup failed with a code that means "intentionally absent"
(`absent1` or `-ENODEV`). -/
def lookup_resolved (absent1 : Int) (v : phy_ptr) : Prop :=
  match v with
  | phy_ptr.err e => e = absent1 ∨ e = -ENODEV
  | _ => True

/-- The handle stored for a resolved lookup: null for an intentionally absent
PHY, the handle itself otherwise. -/
def resolved_handle (v : phy_ptr) : phy_ptr :=
  match v with
  | phy_ptr.err _ => phy_ptr.null
  | w => w

/-- The error of the first lookup of the list that does not resolve, or 0 when
all resolve; each entry is a lookup result with its "intentionally absent"
code. -/
def first_lookup_error : List (phy_ptr × Int) → Int
  | [] => 0
  | (phy_ptr.err e, a) :: rest =>
    if e = a ∨ e = -ENODEV then first_lookup_error rest else e
  | _ :: rest => first_lookup_error rest

/-- The state of `dwc3_core_get_phy` after the legacy PHY lookups. -/
def get_phy_lookups (env : Env) (s : World) : World :=
  if env.of_node then
    let a := lookup_phy env (lookup_phy env s PhyName.usb2_phy) PhyName.usb3_phy
    if s.dwc.dual_port then
      lookup_phy env (lookup_phy env a PhyName.usb2_phy1) PhyName.usb3_phy1
    else a
  else lookup_phy env (lookup_phy env s PhyName.usb2_phy) PhyName.usb3_phy

/-- The lookups `dwc3_core_get_phy` checks, in its order, each with its
"intentionally absent" code: usb2, usb3, second usb2 and second usb3 (only
when `dual_port`), generic usb2, generic usb3. -/
def get_phy_checks (env : Env) (s : World) : List (phy_ptr × Int) :=
  [((get_phy_lookups env s).dwc.usb2_phy, - ENXIO),
    ((get_phy_lookups env s).dwc.usb3_phy, - ENXIO)] ++
  ((if s.dwc.dual_port then
      [((get_phy_lookups env s).dwc.usb2_phy1, - ENXIO),
        ((get_phy_lookups env s).dwc.usb3_phy1, - ENXIO)]
    else []) ++
  [(env.get_phy_ret (get_phy_lookups env s).trace PhyName.usb2_generic_phy, -ENOSYS),
    (env.get_phy_ret ((get_phy_lookups env s).trace ++ [Event.get_phy PhyName.usb2_generic_phy])
      PhyName.usb3_generic_phy, -ENOSYS)])

/-- A platform whose USB3 generic PHY is not ready yet (`-EPROBE_DEFER`) and
that has no legacy USB3 PHY (`-ENODEV`). -/
def env_defer : Env :=
  { env_quiet with
    get_phy_ret := fun _ p =>
      if p = PhyName.usb3_generic_phy then phy_ptr.err (-EPROBE_DEFER)
      else if p = PhyName.usb3_phy then phy_ptr.err (-ENODEV)
      else phy_ptr.valid }

/-- A lookup result as the kernel hands it out: `NULL`, a live handle, or an
`ERR_PTR` of a negative errno. -/
def is_lookup_result (v : phy_ptr) : Prop :=
  match v with
  | phy_ptr.err e => e < 0
  | _ => True

instance (v : phy_ptr) : Decidable (is_lookup_result v) := by
  unfold is_lookup_result; split <;> infer_instance

instance (a : Int) (v : phy_ptr) : Decidable (lookup_resolved a v) := by
  unfold lookup_resolved; split <;> infer_instance

/-- The state in which `dwc3_core_init` reaches its test of `phys_ready`, when
it gets that far: the core is valid, the role resolves, the PHY interface setup
and (where still due) the ULPI init succeed. -/
def core_init_before_phys (env : Env) (s : World) : Option World :=
  let v := dwc3_core_is_valid env s
  if ¬ v.1 then none
  else
    let s1 := dwc3_check_params (dwc3_cache_hwparams env v.2)
    let m := dwc3_get_dr_mode env s1
    if m.1 ≠ 0 then none
    else
      let s2 := dwc3_writel m.2 Reg.GUID env.LINUX_VERSION_CODE
      let s3 := dwc3_core_init_usb2_only s2
      let ps := dwc3_phy_setup env s3
      if ps.1 ≠ 0 then none
      else if ¬ ps.2.dwc.ulpi_ready then
        let u := dwc3_core_ulpi_init env ps.2
        if u.1 ≠ 0 then none
        else some { u.2 with dwc := { u.2.dwc with ulpi_ready := true } }
      else some ps.2

/-- A DWC_usb3 2.50a core whose GHWPARAMS0 reports host-only hardware (mode 1)
and whose GHWPARAMS3 reports a Gen1 SuperSpeed PHY interface, before the
driver is probed. -/
def world_host_hw : World :=
  { regs := fun r =>
      if r = Reg.GSNPSID then 0x5533250a
      else if r = Reg.GHWPARAMS0 then 1
      else if r = Reg.GHWPARAMS3 then 1
      else 0 }

/-- A DWC_usb3 2.50a dual-role core whose GHWPARAMS1 reports the hibernation
power option (bits 25:24 = 2) and whose GHWPARAMS4 reports 4 scratch buffers
(bits 16:13 = 4), before the driver is probed. -/
def world_hib_hw : World :=
  { regs := fun r =>
      if r = Reg.GSNPSID then 0x5533250a
      else if r = Reg.GHWPARAMS0 then 2
      else if r = Reg.GHWPARAMS1 then 0x02000000
      else if r = Reg.GHWPARAMS3 then 1
      else if r = Reg.GHWPARAMS4 then 0x8000
      else 0 }

/-- The controller of `world_hib_hw` after `dwc3_probe`, with the hibernation
capability flag `has_hibernation` then set (no function of `core.c` sets it). -/
def world_probed_hib : World :=
  { (dwc3_probe env_quiet world_hib_hw 0).2 with
    dwc := { (dwc3_probe env_quiet world_hib_hw 0).2.dwc with has_hibernation := true } }

/-- An action on the scratch buffer: its allocation, its DMA mapping, or a
generic command (the scratchpad address commands are the only ones `core.c`
sends). -/
def is_scratch_action : Event → Bool
  | Event.kmalloc_array _ _ => true
  | Event.dma_map_single _ => true
  | Event.generic_command _ _ => true
  | _ => false

/-- The steps of `dwc3_core_init` whose result is an error code, in the order
of the source: `dwc3_get_dr_mode`, `dwc3_phy_setup`, `dwc3_core_ulpi_init`,
`dwc3_core_get_phy`, `dwc3_core_soft_reset`, `dwc3_setup_scratch_buffers`,
`phy_power_on` of the USB2 and of the USB3 generic PHY. -/
inductive InitStep
  | role_resolution
  | phy_setup
  | ulpi_init
  | get_phy
  | soft_reset
  | scratch_setup
  | power_on_usb2
  | power_on_usb3
  deriving DecidableEq, Repr

/-- A failed step of `dwc3_core_init`: the step, the error code it returned,
and the state in which it returned. -/
structure InitFailure where
  step : InitStep
  code : Int
  state : World

/-- The step of `dwc3_core_init_reset` that fails, if one does: the tests of
the source in their order, without the cleanup. -/
def core_init_reset_failure (env : Env) (s : World) : Option InitFailure :=
  let r := dwc3_core_soft_reset env s
  if r.1 ≠ 0 then some ⟨InitStep.soft_reset, r.1, r.2⟩
  else
    let s1 := dwc3_core_num_eps (dwc3_core_setup_global_control env r.2)
    let b := dwc3_setup_scratch_buffers env s1
    if b.1 ≠ 0 then some ⟨InitStep.scratch_setup, b.1, b.2⟩
    else
      let s2 := dwc3_frame_length_adjustment env b.2
      let s3 := usb_phy_set_suspend s2 PhyName.usb2_phy 0
      let s4 := usb_phy_set_suspend s3 PhyName.usb2_phy1 0
      let s5 :=
        if s4.dwc.maximum_speed ≥ USB_SPEED_SUPER then
          usb_phy_set_suspend (usb_phy_set_suspend s4 PhyName.usb3_phy 0) PhyName.usb3_phy1 0
        else s4
      let p2 := phy_power_on env s5 PhyName.usb2_generic_phy
      if p2.1 < 0 then some ⟨InitStep.power_on_usb2, p2.1, p2.2⟩
      else
        let p3 := phy_power_on env p2.2 PhyName.usb3_generic_phy
        if p3.1 < 0 then some ⟨InitStep.power_on_usb3, p3.1, p3.2⟩
        else none

/-- The step of `dwc3_core_init_phys` that fails, if one does. -/
def core_init_phys_failure (env : Env) (s : World) : Option InitFailure :=
  if ¬ s.dwc.phys_ready then
    let g := dwc3_core_get_phy env s
    if g.1 ≠ 0 then some ⟨InitStep.get_phy, g.1, g.2⟩
    else core_init_reset_failure env { g.2 with dwc := { g.2.dwc with phys_ready := true } }
  else core_init_reset_failure env s

/-- The step of `dwc3_core_init` that fails, if one does (`none` also when the
core is not a DesignWare USB3 core, which is not a step with an error code). -/
def core_init_failure (env : Env) (s : World) : Option InitFailure :=
  let v := dwc3_core_is_valid env s
  if ¬ v.1 then none
  else
    let s1 := dwc3_check_params (dwc3_cache_hwparams env v.2)
    let m := dwc3_get_dr_mode env s1
    if m.1 ≠ 0 then some ⟨InitStep.role_resolution, m.1, m.2⟩
    else
      let s2 := dwc3_writel m.2 Reg.GUID env.LINUX_VERSION_CODE
      let s3 := dwc3_core_init_usb2_only s2
      let ps := dwc3_phy_setup env s3
      if ps.1 ≠ 0 then some ⟨InitStep.phy_setup, ps.1, ps.2⟩
      else if ¬ ps.2.dwc.ulpi_ready then
        let u := dwc3_core_ulpi_init env ps.2
        if u.1 ≠ 0 then some ⟨InitStep.ulpi_init, u.1, u.2⟩
        else core_init_phys_failure env { u.2 with dwc := { u.2.dwc with ulpi_ready := true } }
      else core_init_phys_failure env ps.2

/-- The step and the code of a failure. -/
def failure_view (f : Option InitFailure) : Option (InitStep × Int) :=
  f.map (fun x => (x.step, x.code))

/-- The trace `dwc3_free_scratch_buffers` adds. -/
def free_scratch_events (d : dwc3) : List Event :=
  if ¬ d.has_hibernation then []
  else if d.nr_scratch = 0 then []
  else if ¬ d.scratchbuf then []
  else [Event.dma_unmap_single d.scratch_addr (d.nr_scratch * DWC3_SCRATCHBUF_SIZE % U32), Event.kfree]

/-- The calls of label `err1` of `dwc3_core_init` and of `err0a` below it:
shutdown of the four legacy PHYs, exit of the two generic PHYs, ULPI exit;
each PHY call on every handle that is not `NULL`. -/
def err1_events (d : dwc3) : List Event :=
  phy_events d PhyName.usb2_phy1 (Event.usb_phy_shutdown PhyName.usb2_phy1) ++
  (phy_events d PhyName.usb3_phy1 (Event.usb_phy_shutdown PhyName.usb3_phy1) ++
  (phy_events d PhyName.usb2_phy (Event.usb_phy_shutdown PhyName.usb2_phy) ++
  (phy_events d PhyName.usb3_phy (Event.usb_phy_shutdown PhyName.usb3_phy) ++
  (phy_events d PhyName.usb2_generic_phy (Event.phy_exit PhyName.usb2_generic_phy) ++
  (phy_events d PhyName.usb3_generic_phy (Event.phy_exit PhyName.usb3_generic_phy) ++
  [Event.ulpi_exit])))))

/-- The calls of label `err2` of `dwc3_core_init` and of the labels below it:
suspend of the four legacy PHYs, release of the scratch buffer, then `err1`. -/
def err2_events (d : dwc3) : List Event :=
  phy_events d PhyName.usb2_phy1 (Event.usb_phy_set_suspend PhyName.usb2_phy1 1) ++
  (phy_events d PhyName.usb3_phy1 (Event.usb_phy_set_suspend PhyName.usb3_phy1 1) ++
  (phy_events d PhyName.usb2_phy (Event.usb_phy_set_suspend PhyName.usb2_phy 1) ++
  (phy_events d PhyName.usb3_phy (Event.usb_phy_set_suspend PhyName.usb3_phy 1) ++
  (free_scratch_events d ++ err1_events d))))

/-- The calls of label `err3` of `dwc3_core_init` and of the labels below it:
power-off of the USB2 generic PHY, then `err2`. -/
def err3_events (d : dwc3) : List Event :=
  phy_events d PhyName.usb2_generic_phy (Event.phy_power_off PhyName.usb2_generic_phy) ++
  err2_events d

/-- The cleanup `dwc3_core_init` runs after a failed step, as a trace: nothing
for the steps that leave through `err0`, the ULPI exit of `err0a` after the
PHY lookup and after the soft reset, `err1` after the scratch buffer setup,
`err2` and `err3` after the power-on of the USB2 and of the USB3 generic PHY. -/
def cleanup_events (d : dwc3) : InitStep → List Event
  | InitStep.role_resolution => []
  | InitStep.phy_setup => []
  | InitStep.ulpi_init => []
  | InitStep.get_phy => [Event.ulpi_exit]
  | InitStep.soft_reset => [Event.ulpi_exit]
  | InitStep.scratch_setup => err1_events d
  | InitStep.power_on_usb2 => err2_events d
  | InitStep.power_on_usb3 => err3_events d

/-- A platform whose ULPI bus does not answer: `dwc3_ulpi_init` times out. -/
def env_ulpi_timeout : Env := { env_quiet with ulpi_init_ret := fun _ => -ETIMEDOUT }

/-- A DWC_usb3 2.50a dual-role core whose GHWPARAMS3 reports a ULPI high-speed
PHY interface (bits 3:2 = 2) and a Gen1 SuperSpeed PHY interface. -/
def world_ulpi : World :=
  { regs := fun r =>
      if r = Reg.GSNPSID then 0x5533250a
      else if r = Reg.GHWPARAMS0 then 2
      else if r = Reg.GHWPARAMS3 then 9
      else 0 }

/-- The quiet platform, except that the power-on of the USB2 generic PHY
fails with `-EINVAL`. -/
def env_power_fails : Env :=
  { env_quiet with
    phy_power_on_ret := fun _ p => if p = PhyName.usb2_generic_phy then -EINVAL else 0 }

/-- The controller of `world_resume`, asked for High-Speed. -/
def world_resume_high : World :=
  { world_resume with dwc := { world_resume.dwc with maximum_speed := USB_SPEED_HIGH } }

/-- The quiet platform, except that `alloc_ordered_workqueue` fails. -/
def env_no_workqueue : Env :=
  { env_quiet with alloc_ok := fun _ a => decide (a ≠ Alloc.workqueue) }

/-- A platform whose USB3 generic PHY is not ready at the first lookup
(`-EPROBE_DEFER`) and is there from the second lookup on. -/
def env_defer_once : Env :=
  { env_quiet with
    get_phy_ret := fun t p =>
      if p = PhyName.usb3_generic_phy ∧ Event.get_phy PhyName.usb3_generic_phy ∉ t then
        phy_ptr.err (-EPROBE_DEFER)
      else phy_ptr.valid }

/-- The driver after the platform devices 10 and 11 are bound, 10 is unbound
and 12 is bound, on the quiet platform. -/
def driver_abc : Driver :=
  (driver_probe env_quiet
    (driver_remove env_quiet
      (driver_probe env_quiet (driver_probe env_quiet {} 10).2 11).2 10) 12).2

/-- A context whose cached hwparams1 selects the clock-gating power option
(bits 25:24 = 1), with the given role, revision and `disable_clk_gating`. -/
def world_clk (role : usb_dr_mode) (revision : Nat) (disable_clk_gating : Bool) : World :=
  { dwc := { hwparams := { hwparams1 := 0x01000000 }, dr_mode := role, revision := revision,
             disable_clk_gating := disable_clk_gating } }

/-- Every bit at a position in `P` that is set in the 32-bit value `a` is set in
the 32-bit value `b`. -/
def kept (P : Nat → Prop) (a b : Nat) : Prop :=
  ∀ i, P i → (a % U32).testBit i = true → (b % U32).testBit i = true

/-- The bit positions of GUCTL2 outside the LC timer bit (19) and the HP timer
field (25:21). -/
def outside_timers (i : Nat) : Prop := i ≠ 19 ∧ ¬ (21 ≤ i ∧ i ≤ 25)

/-- A DWC_usb3 3.20a dual-role core with a Gen1 SuperSpeed PHY interface, whose
GUCTL2 holds the LC timer bit (bit 19) and an HP timer field of 0x1f (bits
25:21), and whose context already records the revision. -/
def world_320a : World :=
  { dwc := { revision := DWC3_REVISION_320A },
    regs := fun r =>
      if r = Reg.GSNPSID then 0x5533320a
      else if r = Reg.GHWPARAMS0 then 2
      else if r = Reg.GHWPARAMS3 then 1
      else if r = Reg.GUCTL2 then 0x03e80000
      else if r = Reg.GUCTL1 then 0x00000101
      else 0 }

/-- A function on register values that acts bit by bit: every bit of the
result is either fixed or the bit of the argument at the same position. -/
def bitwise (f : Nat → Nat) : Prop :=
  ∃ K S : Nat → Bool, ∀ x i, (f x).testBit i = ((x.testBit i && K i) || S i)

/-- The value `dwc3_phy_setup` writes to GUSB2PHYCFG, from the value it read:
the selection of the high-speed PHY interface, then `phy_setup_usb2phycfg`. -/
def usb2phycfg_written (d : dwc3) (q : Nat) : Nat :=
  phy_setup_usb2phycfg d
    (if DWC3_GHWPARAMS3_HSPHY_IFC d.hwparams.hwparams3 =
        DWC3_GHWPARAMS3_HSPHY_IFC_UTMI_ULPI then
      if hsphy_interface_is d "utmi" then andnot q DWC3_GUSB2PHYCFG_ULPI_UTMI
      else if hsphy_interface_is d "ulpi" then q ||| DWC3_GUSB2PHYCFG_ULPI_UTMI
      else q
    else q)

/-- A dual-port DWC_usb3 2.50a context on ULPI hardware, with 16-bit UTMI mode
and several quirks set, whose PHY configuration registers hold arbitrary reset
values. -/
def world_phy_setup : World :=
  { dwc := { revision := DWC3_REVISION_250A, dual_port := true,
             hwparams := { hwparams3 := 0x9 },
             hsphy_mode := USBPHY_INTERFACE_MODE_UTMIW,
             u2ss_inp3_quirk := true, dis_u3_susphy_quirk := true,
             tx_de_emphasis_quirk := true, tx_de_emphasis := 2,
             ssp_u3_u0_quirk := true, dis_enblslpm_quirk := true },
    regs := fun r =>
      if r = Reg.GUSB3PIPECTL 0 then 0x0a0e0002
      else if r = Reg.GUSB3PIPECTL 1 then 0x12345678
      else if r = Reg.GUSB2PHYCFG 0 then 0x40102540
      else if r = Reg.GUSB2PHYCFG 1 then 0x00002400
      else 0 }

/-- A sequence of `dwc3_set_notifier` calls, oldest first; `none` is a call
with `NULL`. -/
def set_notifiers (s : World) (l : List (Option Nat)) : World :=
  l.foldl dwc3_set_notifier s

/-- A context in host role with `ignore_wakeup_src_in_hostmode`, the notifier
7 registered. -/
def world_handled_host : World :=
  { dwc := { current_dr_role := DWC3_GCTL_PRTCAP_HOST, ignore_wakeup_src_in_hostmode := true },
    notify_event := some 7 }

/-- The PHY calls `dwc3_core_soft_reset` makes up to and including the init of
`usb3_phy1` when the init of the live `usb3_phy` reports busy: reset and init
of the two USB2 PHYs, of `usb3_phy`, and of `usb3_phy1`. -/
def soft_reset_busy_bringup (d : dwc3) : List Event :=
  phy_events d PhyName.usb2_phy (Event.usb_phy_reset PhyName.usb2_phy) ++
  (phy_events d PhyName.usb2_phy (Event.usb_phy_init PhyName.usb2_phy) ++
  (phy_events d PhyName.usb2_phy1 (Event.usb_phy_reset PhyName.usb2_phy1) ++
  (phy_events d PhyName.usb2_phy1 (Event.usb_phy_init PhyName.usb2_phy1) ++
  ([Event.usb_phy_reset PhyName.usb3_phy, Event.usb_phy_init PhyName.usb3_phy] ++
  (phy_events d PhyName.usb3_phy1 (Event.usb_phy_reset PhyName.usb3_phy1) ++
  phy_events d PhyName.usb3_phy1 (Event.usb_phy_init PhyName.usb3_phy1))))))

/-- The actions of the event buffer cleanup, in the words of the specification
(section 4.1, `exit()`): nothing without a buffer; with one, the read of DSTS
and, only if it reports the device-control-halt bit set, the four register
writes and the notification of the collaborator, if one is registered. -/
def buffers_cleanup_events (env : Env) (s : World) : List Event :=
  match s.dwc.ev_buf with
  | none => []
  | some _ =>
    if env.mmio_read s.trace Reg.DSTS (s.regs Reg.DSTS) % U32 &&& DWC3_DSTS_DEVCTRLHLT = 0 then
      [Event.readl Reg.DSTS (env.mmio_read s.trace Reg.DSTS (s.regs Reg.DSTS) % U32)]
    else
      [Event.readl Reg.DSTS (env.mmio_read s.trace Reg.DSTS (s.regs Reg.DSTS) % U32),
        Event.writel (Reg.GEVNTADRLO 0) 0,
        Event.writel (Reg.GEVNTADRHI 0) 0,
        Event.writel (Reg.GEVNTSIZ 0) (DWC3_GEVNTSIZ_INTMASK ||| DWC3_GEVNTSIZ_SIZE 0),
        Event.writel (Reg.GEVNTCOUNT 0) 0] ++
      notify_events s NotifyEvent.DWC3_GSI_EVT_BUF_CLEANUP 0

/-- The teardown of the PHYs in the words of the specification (section 4.1,
`exit()`: "PHY suspend/shutdown/power-off for every handle, in a fixed
order"), in the order of `dwc3_core_exit`: suspend of the four legacy PHYs,
power-off of the two generic PHYs, shutdown of the four legacy PHYs, exit of
the two generic PHYs; each call on every handle that is not `NULL`. -/
def core_exit_phy_events (d : dwc3) : List Event :=
  phy_events d PhyName.usb2_phy1 (Event.usb_phy_set_suspend PhyName.usb2_phy1 1) ++
  (phy_events d PhyName.usb2_phy (Event.usb_phy_set_suspend PhyName.usb2_phy 1) ++
  (phy_events d PhyName.usb3_phy1 (Event.usb_phy_set_suspend PhyName.usb3_phy1 1) ++
  (phy_events d PhyName.usb3_phy (Event.usb_phy_set_suspend PhyName.usb3_phy 1) ++
  (phy_events d PhyName.usb2_generic_phy (Event.phy_power_off PhyName.usb2_generic_phy) ++
  (phy_events d PhyName.usb3_generic_phy (Event.phy_power_off PhyName.usb3_generic_phy) ++
  (phy_events d PhyName.usb2_phy1 (Event.usb_phy_shutdown PhyName.usb2_phy1) ++
  (phy_events d PhyName.usb2_phy (Event.usb_phy_shutdown PhyName.usb2_phy) ++
  (phy_events d PhyName.usb3_phy1 (Event.usb_phy_shutdown PhyName.usb3_phy1) ++
  (phy_events d PhyName.usb3_phy (Event.usb_phy_shutdown PhyName.usb3_phy) ++
  (phy_events d PhyName.usb2_generic_phy (Event.phy_exit PhyName.usb2_generic_phy) ++
  phy_events d PhyName.usb3_generic_phy (Event.phy_exit PhyName.usb3_generic_phy)))))))))))

/-- The default suspend sequence in the words of the specification (section
4.7: "Suspend always tears down via Core Controller `exit()`, optionally
preceded by gadget-specific suspend when in Peripheral/OTG role"): the gadget
suspend in Peripheral and OTG role, then the event buffer cleanup and the
teardown of the PHYs. -/
def suspend_default_events (env : Env) (s : World) : List Event :=
  if s.dwc.dr_mode = USB_DR_MODE_PERIPHERAL ∨ s.dwc.dr_mode = USB_DR_MODE_OTG then
    Event.gadget_suspend ::
      (buffers_cleanup_events env (emit s Event.gadget_suspend) ++ core_exit_phy_events s.dwc)
  else buffers_cleanup_events env s ++ core_exit_phy_events s.dwc

/-- What follows a successful `dwc3_core_init` in the default system resume
(section 4.7: "optionally followed by gadget-specific resume"): the gadget
resume in Peripheral and OTG role, then the runtime PM state set active. -/
def resume_tail_events (d : dwc3) : List Event :=
  (if d.dr_mode = USB_DR_MODE_PERIPHERAL ∨ d.dr_mode = USB_DR_MODE_OTG then
    [Event.call "dwc3_gadget_resume"] else []) ++
  [Event.call "pm_runtime_disable", Event.call "pm_runtime_set_active",
    Event.call "pm_runtime_enable"]

/-- What follows a successful `dwc3_core_init` in the default runtime resume
(section 4.7: "optionally followed by gadget-specific resume and pending-event
flush"): the gadget resume and the pending gadget events in Peripheral and OTG
role, then the runtime PM bookkeeping. -/
def runtime_resume_tail_events (d : dwc3) : List Event :=
  (if d.dr_mode = USB_DR_MODE_PERIPHERAL ∨ d.dr_mode = USB_DR_MODE_OTG then
    [Event.call "dwc3_gadget_resume", Event.call "dwc3_gadget_process_pending_events"]
    else []) ++
  [Event.call "pm_runtime_mark_last_busy", Event.call "pm_runtime_put"]

/-! ## Basic facts about the primitives -/

@[simp] theorem emit_dwc (s : World) (e : Event) : (emit s e).dwc = s.dwc := rfl
@[simp] theorem emit_regs (s : World) (e : Event) : (emit s e).regs = s.regs := rfl
@[simp] theorem emit_trace (s : World) (e : Event) : (emit s e).trace = s.trace ++ [e] := rfl
@[simp] theorem emit_notify_event (s : World) (e : Event) :
    (emit s e).notify_event = s.notify_event := rfl

@[simp] theorem readl_dwc (env : Env) (s : World) (r : Reg) :
    (dwc3_readl env s r).2.dwc = s.dwc := rfl
@[simp] theorem readl_regs (env : Env) (s : World) (r : Reg) :
    (dwc3_readl env s r).2.regs = s.regs := rfl
@[simp] theorem readl_trace (env : Env) (s : World) (r : Reg) :
    (dwc3_readl env s r).2.trace = s.trace ++ [Event.readl r (dwc3_readl env s r).1] := rfl
theorem readl_val (env : Env) (s : World) (r : Reg) :
    (dwc3_readl env s r).1 = env.mmio_read s.trace r (s.regs r) % U32 := rfl
theorem readl_lt (env : Env) (s : World) (r : Reg) : (dwc3_readl env s r).1 < 2 ^ 32 :=
  Nat.mod_lt _ (by decide)

@[simp] theorem readl_notify_event (env : Env) (s : World) (r : Reg) :
    (dwc3_readl env s r).2.notify_event = s.notify_event := rfl
@[simp] theorem writel_notify_event (s : World) (r : Reg) (v : Nat) :
    (dwc3_writel s r v).notify_event = s.notify_event := rfl
@[simp] theorem writel_dwc (s : World) (r : Reg) (v : Nat) : (dwc3_writel s r v).dwc = s.dwc := rfl
@[simp] theorem writel_trace (s : World) (r : Reg) (v : Nat) :
    (dwc3_writel s r v).trace = s.trace ++ [Event.writel r (v % U32)] := rfl

/-! ## C1: identification -/

/-- C1: for every 32-bit value `reg` read from GSNPSID, `dwc3_core_is_valid`
returns true iff `reg` masked with `DWC3_GSNPSID_MASK` is 0x55330000 or
0x33310000; for every other value it returns false and `dwc3_core_init`
returns `-ENODEV`, the register file is unchanged, the only action is the read
of GSNPSID (no register write), and the whole context (so revision,
versiontype, dr_mode and maximum_speed) is unchanged. -/
theorem dwc3_core_is_valid_iff (env : Env) (s : World) :
    (dwc3_readl env s Reg.GSNPSID).1 < 2 ^ 32 ∧
    ((dwc3_core_is_valid env s).1 = true ↔
      ((dwc3_readl env s Reg.GSNPSID).1 &&& DWC3_GSNPSID_MASK = 0x55330000 ∨
        (dwc3_readl env s Reg.GSNPSID).1 &&& DWC3_GSNPSID_MASK = 0x33310000)) ∧
    (((dwc3_readl env s Reg.GSNPSID).1 &&& DWC3_GSNPSID_MASK = 0x55330000 ∨
        (dwc3_readl env s Reg.GSNPSID).1 &&& DWC3_GSNPSID_MASK = 0x33310000) ∨
      ((dwc3_core_is_valid env s).1 = false ∧
        (dwc3_core_init env s).1 = -ENODEV ∧
        (dwc3_core_init env s).2.regs = s.regs ∧
        (dwc3_core_init env s).2.trace =
          s.trace ++ [Event.readl Reg.GSNPSID (dwc3_readl env s Reg.GSNPSID).1] ∧
        (dwc3_core_init env s).2.dwc = s.dwc ∧
        (dwc3_core_init env s).2.notify_event = s.notify_event)) := by
  refine ⟨readl_lt env s _, ?_, ?_⟩
  · unfold dwc3_core_is_valid
    by_cases h1 : (dwc3_readl env s Reg.GSNPSID).1 &&& DWC3_GSNPSID_MASK = 0x55330000
    · simp [h1]
    · by_cases h2 : (dwc3_readl env s Reg.GSNPSID).1 &&& DWC3_GSNPSID_MASK = 0x33310000
      · simp [h1, h2]
      · simp [h1, h2]
  · by_cases h1 : (dwc3_readl env s Reg.GSNPSID).1 &&& DWC3_GSNPSID_MASK = 0x55330000
    · exact Or.inl (Or.inl h1)
    · by_cases h2 : (dwc3_readl env s Reg.GSNPSID).1 &&& DWC3_GSNPSID_MASK = 0x33310000
      · exact Or.inl (Or.inr h2)
      · refine Or.inr ?_
        have hv : dwc3_core_is_valid env s = (false, (dwc3_readl env s Reg.GSNPSID).2) := by
          unfold dwc3_core_is_valid
          simp [h1, h2]
        unfold dwc3_core_init
        simp [hv]

/-! ## C2 to C4: role resolution -/

theorem get_dr_mode_store_ret (s : World) (m : usb_dr_mode) :
    (dwc3_get_dr_mode_store s m).1 = 0 := by
  unfold dwc3_get_dr_mode_store; split <;> rfl

theorem get_dr_mode_store_mode (s : World) (m : usb_dr_mode) :
    (dwc3_get_dr_mode_store s m).2.dwc.dr_mode = m := by
  unfold dwc3_get_dr_mode_store
  split
  · rfl
  · rename_i h
    exact (not_not.mp h).symm

/-- The result of `dwc3_get_dr_mode` and the role it leaves, by cases on the
hardware mode and the build. -/
theorem get_dr_mode_cases (env : Env) (s : World) :
    ((dwc3_get_dr_mode env s).1,  (dwc3_get_dr_mode env s).2.dwc.dr_mode) =
      if DWC3_GHWPARAMS0_MODE s.dwc.hwparams.hwparams0 = DWC3_GHWPARAMS0_MODE_GADGET then
        if env.CONFIG_USB_DWC3_HOST = true then (-EINVAL, requested_or_otg s.dwc.dr_mode)
        else (0, USB_DR_MODE_PERIPHERAL)
      else if DWC3_GHWPARAMS0_MODE s.dwc.hwparams.hwparams0 = DWC3_GHWPARAMS0_MODE_HOST then
        if env.CONFIG_USB_DWC3_GADGET = true then (-EINVAL, requested_or_otg s.dwc.dr_mode)
        else (0, USB_DR_MODE_HOST)
      else if env.CONFIG_USB_DWC3_HOST = true then (0, USB_DR_MODE_HOST)
      else if env.CONFIG_USB_DWC3_GADGET = true then (0, USB_DR_MODE_PERIPHERAL)
      else (0, requested_or_otg s.dwc.dr_mode) := by
  have hhw : ∀ t : World, t = (if s.dwc.dr_mode = USB_DR_MODE_UNKNOWN then
        ({ s with dwc := { s.dwc with dr_mode := USB_DR_MODE_OTG } } : World) else s) →
      t.dwc.hwparams = s.dwc.hwparams ∧ t.dwc.dr_mode = requested_or_otg s.dwc.dr_mode := by
    intro t ht
    subst ht
    unfold requested_or_otg
    split <;> exact ⟨rfl, rfl⟩
  unfold dwc3_get_dr_mode
  generalize ht : (if s.dwc.dr_mode = USB_DR_MODE_UNKNOWN then
        ({ s with dwc := { s.dwc with dr_mode := USB_DR_MODE_OTG } } : World) else s) = t
  obtain ⟨h1, h2⟩ := hhw t ht.symm
  simp only [h1]
  split
  · split
    · simp [h2]
    · simp [get_dr_mode_store_ret, get_dr_mode_store_mode]
  · split
    · split
      · simp [h2]
      · simp [get_dr_mode_store_ret, get_dr_mode_store_mode]
    · simp only [get_dr_mode_store_ret, get_dr_mode_store_mode, h2]
      split
      · rfl
      · split <;> rfl

/-- C2: for every requested role and every cached hardware mode,
`dwc3_get_dr_mode` returns `-EINVAL` exactly when the hardware is device-only
and the build is host-only, or the hardware is host-only and the build is
device-only; in every other case it returns 0. -/
theorem dwc3_get_dr_mode_ret (env : Env) (s : World) :
    (dwc3_get_dr_mode env s).1 =
      if (DWC3_GHWPARAMS0_MODE s.dwc.hwparams.hwparams0 = DWC3_GHWPARAMS0_MODE_GADGET ∧
            env.CONFIG_USB_DWC3_HOST = true) ∨
          (DWC3_GHWPARAMS0_MODE s.dwc.hwparams.hwparams0 = DWC3_GHWPARAMS0_MODE_HOST ∧
            env.CONFIG_USB_DWC3_GADGET = true) then -EINVAL
      else 0 := by
  have h := congrArg Prod.fst (get_dr_mode_cases env s)
  simp only at h
  rw [h]
  have hne : DWC3_GHWPARAMS0_MODE_HOST ≠ DWC3_GHWPARAMS0_MODE_GADGET := by decide
  by_cases hg : DWC3_GHWPARAMS0_MODE s.dwc.hwparams.hwparams0 = DWC3_GHWPARAMS0_MODE_GADGET
  · have hh : DWC3_GHWPARAMS0_MODE s.dwc.hwparams.hwparams0 ≠ DWC3_GHWPARAMS0_MODE_HOST := by
      rw [hg]; exact hne.symm
    by_cases hH : env.CONFIG_USB_DWC3_HOST = true <;> simp [hg, hH, hne.symm]
  · by_cases hh : DWC3_GHWPARAMS0_MODE s.dwc.hwparams.hwparams0 = DWC3_GHWPARAMS0_MODE_HOST
    · by_cases hG : env.CONFIG_USB_DWC3_GADGET = true <;> simp [hh, hG, hne]
    · by_cases hH : env.CONFIG_USB_DWC3_HOST = true <;>
      by_cases hG : env.CONFIG_USB_DWC3_GADGET = true <;> simp [hg, hh, hH, hG]

/-- C3 (counterexample): on dual-capable hardware (hardware mode 2) a host-only
build turns a requested Peripheral into Host, and on a dual-role build a
requested Unknown is left as OTG; in both cases the call returns 0 and the
role left differs from the requested one. -/
theorem dwc3_get_dr_mode_dual_not_requested :
    DWC3_GHWPARAMS0_MODE (world_role USB_DR_MODE_PERIPHERAL 2).dwc.hwparams.hwparams0 ≠
        DWC3_GHWPARAMS0_MODE_GADGET ∧
      DWC3_GHWPARAMS0_MODE (world_role USB_DR_MODE_PERIPHERAL 2).dwc.hwparams.hwparams0 ≠
        DWC3_GHWPARAMS0_MODE_HOST ∧
      (world_role USB_DR_MODE_PERIPHERAL 2).dwc.dr_mode = USB_DR_MODE_PERIPHERAL ∧
      (dwc3_get_dr_mode env_host_only (world_role USB_DR_MODE_PERIPHERAL 2)).1 = 0 ∧
      (dwc3_get_dr_mode env_host_only (world_role USB_DR_MODE_PERIPHERAL 2)).2.dwc.dr_mode =
        USB_DR_MODE_HOST ∧
      (world_role USB_DR_MODE_UNKNOWN 2).dwc.dr_mode = USB_DR_MODE_UNKNOWN ∧
      (dwc3_get_dr_mode env_quiet (world_role USB_DR_MODE_UNKNOWN 2)).1 = 0 ∧
      (dwc3_get_dr_mode env_quiet (world_role USB_DR_MODE_UNKNOWN 2)).2.dwc.dr_mode =
        USB_DR_MODE_OTG := by
  decide

/-- C3 (amended): for every requested role, when the cached hardware mode is
dual-capable (neither device-only nor host-only) and the build enables neither
the host-only nor the device-only side, the `dr_mode` left by
`dwc3_get_dr_mode` is the requested role, with Unknown replaced by OTG. -/
theorem dwc3_get_dr_mode_dual (env : Env) (s : World)
    (hg : DWC3_GHWPARAMS0_MODE s.dwc.hwparams.hwparams0 ≠ DWC3_GHWPARAMS0_MODE_GADGET)
    (hh : DWC3_GHWPARAMS0_MODE s.dwc.hwparams.hwparams0 ≠ DWC3_GHWPARAMS0_MODE_HOST)
    (hH : env.CONFIG_USB_DWC3_HOST = false) (hG : env.CONFIG_USB_DWC3_GADGET = false) :
    (dwc3_get_dr_mode env s).2.dwc.dr_mode =
      (if s.dwc.dr_mode = USB_DR_MODE_UNKNOWN then USB_DR_MODE_OTG else s.dwc.dr_mode) := by
  have h := congrArg Prod.snd (get_dr_mode_cases env s)
  simp only [hg, hh, hH, hG, if_false] at h
  simpa [requested_or_otg] using h

/-- C3 (amended), at a requested Peripheral on dual-role hardware and a
dual-role build. -/
theorem dwc3_get_dr_mode_dual_witness :
    (dwc3_get_dr_mode env_quiet (world_role USB_DR_MODE_PERIPHERAL 2)).2.dwc.dr_mode =
      (if (world_role USB_DR_MODE_PERIPHERAL 2).dwc.dr_mode = USB_DR_MODE_UNKNOWN then
        USB_DR_MODE_OTG else (world_role USB_DR_MODE_PERIPHERAL 2).dwc.dr_mode) :=
  dwc3_get_dr_mode_dual env_quiet (world_role USB_DR_MODE_PERIPHERAL 2)
    (by decide) (by decide) rfl rfl

/-- C4: whenever `dwc3_get_dr_mode` returns 0, the `dr_mode` it leaves is the
one of the reference definition `resolve_role_spec` (Peripheral on device-only
hardware, Host on host-only hardware, else Host for a host-only build, else
Peripheral for a device-only build, else the requested role with Unknown
replaced by OTG), and it is never Unknown. -/
theorem dwc3_get_dr_mode_refines (env : Env) (s : World)
    (h : (dwc3_get_dr_mode env s).1 = 0) :
    (dwc3_get_dr_mode env s).2.dwc.dr_mode =
        resolve_role_spec env.CONFIG_USB_DWC3_HOST env.CONFIG_USB_DWC3_GADGET
          (DWC3_GHWPARAMS0_MODE s.dwc.hwparams.hwparams0) s.dwc.dr_mode ∧
      (dwc3_get_dr_mode env s).2.dwc.dr_mode ≠ USB_DR_MODE_UNKNOWN := by
  have h1 := congrArg Prod.fst (get_dr_mode_cases env s)
  have h2 := congrArg Prod.snd (get_dr_mode_cases env s)
  simp only at h1 h2
  rw [h] at h1
  have hro : requested_or_otg s.dwc.dr_mode =
      (match s.dwc.dr_mode with
        | USB_DR_MODE_UNKNOWN => USB_DR_MODE_OTG
        | r => r) ∧ requested_or_otg s.dwc.dr_mode ≠ USB_DR_MODE_UNKNOWN := by
    unfold requested_or_otg
    cases s.dwc.dr_mode <;> simp
  have hE' : (-EINVAL : Int) ≠ 0 := by decide
  rw [h2]
  unfold resolve_role_spec
  by_cases hg : DWC3_GHWPARAMS0_MODE s.dwc.hwparams.hwparams0 = DWC3_GHWPARAMS0_MODE_GADGET
  · rw [if_pos hg] at h1 ⊢
    rw [if_pos hg]
    by_cases hH : env.CONFIG_USB_DWC3_HOST = true
    · rw [if_pos hH] at h1
      exact absurd h1.symm hE'
    · rw [if_neg hH]
      exact ⟨rfl, by decide⟩
  · rw [if_neg hg] at h1 ⊢
    rw [if_neg hg]
    by_cases hh : DWC3_GHWPARAMS0_MODE s.dwc.hwparams.hwparams0 = DWC3_GHWPARAMS0_MODE_HOST
    · rw [if_pos hh] at h1 ⊢
      rw [if_pos hh]
      by_cases hG : env.CONFIG_USB_DWC3_GADGET = true
      · rw [if_pos hG] at h1
        exact absurd h1.symm hE'
      · rw [if_neg hG]
        exact ⟨rfl, by decide⟩
    · rw [if_neg hh, if_neg hh]
      by_cases hH : env.CONFIG_USB_DWC3_HOST = true
      · rw [if_pos hH, if_pos hH]
        exact ⟨rfl, by decide⟩
      · rw [if_neg hH, if_neg hH]
        by_cases hG : env.CONFIG_USB_DWC3_GADGET = true
        · rw [if_pos hG, if_pos hG]
          exact ⟨rfl, by decide⟩
        · rw [if_neg hG, if_neg hG]
          exact ⟨hro.1, hro.2⟩

/-- C4, at a requested Unknown on dual-role hardware and a dual-role build:
the call returns 0 and leaves OTG. -/
theorem dwc3_get_dr_mode_refines_witness :
    (dwc3_get_dr_mode env_quiet (world_role USB_DR_MODE_UNKNOWN 2)).2.dwc.dr_mode =
        resolve_role_spec env_quiet.CONFIG_USB_DWC3_HOST env_quiet.CONFIG_USB_DWC3_GADGET
          (DWC3_GHWPARAMS0_MODE (world_role USB_DR_MODE_UNKNOWN 2).dwc.hwparams.hwparams0)
          (world_role USB_DR_MODE_UNKNOWN 2).dwc.dr_mode ∧
      (dwc3_get_dr_mode env_quiet (world_role USB_DR_MODE_UNKNOWN 2)).2.dwc.dr_mode ≠
        USB_DR_MODE_UNKNOWN :=
  dwc3_get_dr_mode_refines env_quiet (world_role USB_DR_MODE_UNKNOWN 2) (by decide)

/-! ## C5: parameter check -/

theorem check_params_maximum_speed (s : World) :
    (dwc3_check_params s).dwc.maximum_speed = check_maximum_speed s.dwc := by
  unfold dwc3_check_params check_maximum_speed dwc3_is_usb31
  simp only
  split <;> split <;> rfl

theorem check_maximum_speed_known (d : dwc3) : known_speed (check_maximum_speed d) := by
  unfold check_maximum_speed
  split
  · assumption
  · split
    · exact Or.inr (Or.inr (Or.inr (Or.inr rfl)))
    · exact Or.inr (Or.inr (Or.inr (Or.inl rfl)))

theorem check_params_speed (s : World) :
    known_speed (dwc3_check_params s).dwc.maximum_speed ∧
    (dwc3_check_params s).dwc.maximum_speed =
      if known_speed s.dwc.maximum_speed then s.dwc.maximum_speed
      else if dwc3_is_usb31 s.dwc = true ∧
          DWC3_GHWPARAMS3_SSPHY_IFC s.dwc.hwparams.hwparams3 = DWC3_GHWPARAMS3_SSPHY_IFC_GEN2 then
        USB_SPEED_SUPER_PLUS
      else USB_SPEED_SUPER := by
  rw [check_params_maximum_speed]
  refine ⟨check_maximum_speed_known _, ?_⟩
  unfold check_maximum_speed known_speed dwc3_is_usb31
  rfl

/-- C5: for every initial `maximum_speed`, after `dwc3_check_params` the value
is one of the five known speeds: it is unchanged if it already was one of the
five, and otherwise (Unknown or any unrecognised value) it is SuperSpeedPlus
when the controller is a DWC_usb31 whose hwparams3 SuperSpeed-PHY interface
field reports Gen2, and Super in every other case. -/
theorem dwc3_check_params_maximum_speed (s : World) :
    known_speed (dwc3_check_params s).dwc.maximum_speed ∧
    (dwc3_check_params s).dwc.maximum_speed =
      if known_speed s.dwc.maximum_speed then s.dwc.maximum_speed
      else if dwc3_is_usb31 s.dwc = true ∧
          DWC3_GHWPARAMS3_SSPHY_IFC s.dwc.hwparams.hwparams3 = DWC3_GHWPARAMS3_SSPHY_IFC_GEN2 then
        USB_SPEED_SUPER_PLUS
      else USB_SPEED_SUPER :=
  check_params_speed s

/-! ## Frame facts: what each function leaves alone -/

@[simp] theorem phy_call_void_dwc (s : World) (p : PhyName) (e : Event) :
    (phy_call_void s p e).dwc = s.dwc := by
  unfold phy_call_void; split <;> rfl

@[simp] theorem phy_call_int_dwc (s : World) (p : PhyName) (e : Event)
    (ret : List Event → PhyName → Int) : (phy_call_int s p e ret).2.dwc = s.dwc := by
  unfold phy_call_int; split <;> rfl

@[simp] theorem usb_phy_reset_dwc (s : World) (p : PhyName) :
    (usb_phy_reset s p).dwc = s.dwc := phy_call_void_dwc _ _ _
@[simp] theorem usb_phy_shutdown_dwc (s : World) (p : PhyName) :
    (usb_phy_shutdown s p).dwc = s.dwc := phy_call_void_dwc _ _ _
@[simp] theorem usb_phy_set_suspend_dwc (s : World) (p : PhyName) (v : Nat) :
    (usb_phy_set_suspend s p v).dwc = s.dwc := phy_call_void_dwc _ _ _
@[simp] theorem phy_exit_dwc (s : World) (p : PhyName) :
    (phy_exit s p).dwc = s.dwc := phy_call_void_dwc _ _ _
@[simp] theorem phy_power_off_dwc (s : World) (p : PhyName) :
    (phy_power_off s p).dwc = s.dwc := phy_call_void_dwc _ _ _
@[simp] theorem usb_phy_init_dwc (env : Env) (s : World) (p : PhyName) :
    (usb_phy_init env s p).2.dwc = s.dwc := phy_call_int_dwc _ _ _ _
@[simp] theorem phy_init_dwc (env : Env) (s : World) (p : PhyName) :
    (phy_init env s p).2.dwc = s.dwc := phy_call_int_dwc _ _ _ _
@[simp] theorem phy_power_on_dwc (env : Env) (s : World) (p : PhyName) :
    (phy_power_on env s p).2.dwc = s.dwc := phy_call_int_dwc _ _ _ _
@[simp] theorem udelay_dwc (s : World) (n : Nat) : (udelay s n).dwc = s.dwc := rfl
@[simp] theorem msleep_dwc (s : World) (n : Nat) : (msleep s n).dwc = s.dwc := rfl
@[simp] theorem ulpi_exit_dwc (s : World) : (dwc3_ulpi_exit s).dwc = s.dwc := rfl
@[simp] theorem ulpi_init_dwc (env : Env) (s : World) : (dwc3_ulpi_init env s).2.dwc = s.dwc := rfl

@[simp] theorem notify_event_dwc (s : World) (e : NotifyEvent) (v : Nat) :
    (dwc3_notify_event s e v).2.dwc = s.dwc := by
  unfold dwc3_notify_event; split <;> rfl

@[simp] theorem rmw_dwc (env : Env) (s : World) (r : Reg) (f : Nat → Nat) :
    (rmw env s r f).dwc = s.dwc := rfl

@[simp] theorem poll_dwc (env : Env) (n : Nat) (s : World) :
    (dwc3_core_soft_reset_poll env n s).2.dwc = s.dwc := by
  induction n generalizing s with
  | zero => rfl
  | succ k ih =>
    unfold dwc3_core_soft_reset_poll
    simp only
    split
    · rfl
    · rw [ih]; rfl

@[simp] theorem soft_reset_generic_phy_init_dwc (env : Env) (s : World) :
    (dwc3_core_soft_reset_generic_phy_init env s).2.dwc = s.dwc := by
  unfold dwc3_core_soft_reset_generic_phy_init
  simp only
  split
  · simp
  · split
    · simp
    · split
      · simp
      · split
        · split <;> simp
        · simp

@[simp] theorem soft_reset_usb3_phy1_dwc (env : Env) (s : World) :
    (dwc3_core_soft_reset_usb3_phy1 env s).2.dwc = s.dwc := by
  unfold dwc3_core_soft_reset_usb3_phy1
  simp only
  split <;> simp

/-- The soft reset leaves the context alone, except that it may lower a
`maximum_speed` above High-Speed to High-Speed. -/
theorem soft_reset_dwc (env : Env) (s : World) :
    (dwc3_core_soft_reset env s).2.dwc = s.dwc ∨
      (USB_SPEED_HIGH < s.dwc.maximum_speed ∧
        (dwc3_core_soft_reset env s).2.dwc = { s.dwc with maximum_speed := USB_SPEED_HIGH }) := by
  unfold dwc3_core_soft_reset
  simp only
  split
  · left; simp
  · split
    · left; simp
    · split
      · left; simp
      · rename_i hsp
        simp only [usb_phy_init_dwc, usb_phy_reset_dwc] at hsp
        split
        · right
          refine ⟨Nat.lt_of_not_le hsp, ?_⟩
          simp
        · split
          · left; simp
          · left; simp

theorem lowered_refl (d : dwc3) : lowered d d := Or.inl rfl

theorem lowered_of_view {d d' d'' : dwc3} (h : lowered d d') (hv : speed_view d'' = speed_view d') :
    lowered d d'' := by
  rcases h with h | ⟨h1, h2⟩
  · exact Or.inl (hv.trans h)
  · exact Or.inr ⟨h1, hv.trans h2⟩

theorem soft_reset_lowered (env : Env) (s : World) :
    lowered s.dwc (dwc3_core_soft_reset env s).2.dwc := by
  rcases soft_reset_dwc env s with h | ⟨h1, h2⟩
  · rw [h]; exact lowered_refl _
  · right
    refine ⟨h1, ?_⟩
    rw [h2]; rfl

@[simp] theorem phy_setup_dwc (env : Env) (s : World) : (dwc3_phy_setup env s).2.dwc = s.dwc := by
  unfold dwc3_phy_setup
  simp only
  split <;> split <;> (try split) <;> (try split) <;> simp

theorem phy_setup_ret (env : Env) (s : World) : (dwc3_phy_setup env s).1 = 0 := rfl

@[simp] theorem core_ulpi_init_dwc (env : Env) (s : World) :
    (dwc3_core_ulpi_init env s).2.dwc = s.dwc := by
  unfold dwc3_core_ulpi_init
  simp only
  split <;> simp

@[simp] theorem set_phy_view (d : dwc3) (p : PhyName) (v : phy_ptr) :
    speed_view (set_phy d p v) = speed_view d := by
  cases p <;> rfl

@[simp] theorem lookup_phy_view (env : Env) (s : World) (p : PhyName) :
    speed_view (lookup_phy env s p).dwc = speed_view s.dwc := by
  unfold lookup_phy; simp

@[simp] theorem check_phy_view (s : World) (p : PhyName) (a : Int) :
    speed_view (check_phy s p a).2.dwc = speed_view s.dwc := by
  unfold check_phy
  split
  · split <;> simp
  · rfl

@[simp] theorem get_phy_view (env : Env) (s : World) :
    speed_view (dwc3_core_get_phy env s).2.dwc = speed_view s.dwc := by
  unfold dwc3_core_get_phy
  simp only
  have h1 : speed_view (if env.of_node = true then
        if s.dwc.dual_port = true then
          lookup_phy env (lookup_phy env (lookup_phy env (lookup_phy env s PhyName.usb2_phy)
            PhyName.usb3_phy) PhyName.usb2_phy1) PhyName.usb3_phy1
        else lookup_phy env (lookup_phy env s PhyName.usb2_phy) PhyName.usb3_phy
      else lookup_phy env (lookup_phy env s PhyName.usb2_phy) PhyName.usb3_phy).dwc =
      speed_view s.dwc := by
    split
    · split <;> simp
    · simp
  generalize (if env.of_node = true then
        if s.dwc.dual_port = true then
          lookup_phy env (lookup_phy env (lookup_phy env (lookup_phy env s PhyName.usb2_phy)
            PhyName.usb3_phy) PhyName.usb2_phy1) PhyName.usb3_phy1
        else lookup_phy env (lookup_phy env s PhyName.usb2_phy) PhyName.usb3_phy
      else lookup_phy env (lookup_phy env s PhyName.usb2_phy) PhyName.usb3_phy) = s1 at h1 ⊢
  rw [← h1]
  cases hd : s.dwc.dual_port <;>
    simp only [if_true, if_false, Bool.false_eq_true] <;>
    repeat' split
  all_goals simp

@[simp] theorem setup_global_control_view (env : Env) (s : World) :
    speed_view (dwc3_core_setup_global_control env s).dwc = speed_view s.dwc := by
  unfold dwc3_core_setup_global_control
  simp only [writel_dwc]
  split <;> split <;> rfl

@[simp] theorem core_num_eps_view (s : World) :
    speed_view (dwc3_core_num_eps s).dwc = speed_view s.dwc := rfl

@[simp] theorem setup_scratch_buffers_view (env : Env) (s : World) :
    speed_view (dwc3_setup_scratch_buffers env s).2.dwc = speed_view s.dwc := by
  unfold dwc3_setup_scratch_buffers dwc3_send_gadget_generic_command
  simp only
  split
  · rfl
  · split
    · rfl
    · split
      · rfl
      · split
        · rfl
        · split
          · rfl
          · split <;> rfl

@[simp] theorem free_scratch_buffers_dwc (s : World) :
    (dwc3_free_scratch_buffers s).dwc = s.dwc := by
  unfold dwc3_free_scratch_buffers
  split
  · rfl
  · split
    · rfl
    · split <;> rfl

@[simp] theorem frame_length_adjustment_dwc (env : Env) (s : World) :
    (dwc3_frame_length_adjustment env s).dwc = s.dwc := by
  unfold dwc3_frame_length_adjustment
  split
  · rfl
  · split
    · rfl
    · simp only
      split <;> rfl

@[simp] theorem core_init_err0a_dwc (s : World) (ret : Int) :
    (dwc3_core_init_err0a s ret).2.dwc = s.dwc := rfl
@[simp] theorem core_init_err1_dwc (s : World) (ret : Int) :
    (dwc3_core_init_err1 s ret).2.dwc = s.dwc := by
  unfold dwc3_core_init_err1; simp
@[simp] theorem core_init_err2_dwc (s : World) (ret : Int) :
    (dwc3_core_init_err2 s ret).2.dwc = s.dwc := by
  unfold dwc3_core_init_err2; simp
@[simp] theorem core_init_err3_dwc (s : World) (ret : Int) :
    (dwc3_core_init_err3 s ret).2.dwc = s.dwc := by
  unfold dwc3_core_init_err3; simp

@[simp] theorem core_init_workarounds_dwc (env : Env) (s : World) :
    (dwc3_core_init_workarounds env s).2.dwc = s.dwc := by
  unfold dwc3_core_init_workarounds
  simp only
  repeat' split
  all_goals simp

/-! ## The speed fields through `dwc3_core_init` -/

theorem lowered_of_view_left {d0 d d' : dwc3} (h : lowered d d')
    (hv : speed_view d = speed_view d0) : lowered d0 d' := by
  rcases h with h | ⟨h1, h2⟩
  · exact Or.inl (h.trans hv)
  · right
    unfold speed_view at hv
    simp only [Prod.mk.injEq] at hv
    obtain ⟨a, b, c, e⟩ := hv
    rw [← a, ← b, ← c, ← e]
    exact ⟨h1, h2⟩

theorem core_init_reset_view (env : Env) (s : World) :
    speed_view (dwc3_core_init_reset env s).2.dwc =
      speed_view (dwc3_core_soft_reset env s).2.dwc := by
  unfold dwc3_core_init_reset
  simp only
  repeat' split
  all_goals simp

theorem core_init_reset_lowered (env : Env) (s : World) :
    lowered s.dwc (dwc3_core_init_reset env s).2.dwc :=
  lowered_of_view (soft_reset_lowered env s) (core_init_reset_view env s)

theorem core_init_phys_lowered (env : Env) (s : World) :
    lowered s.dwc (dwc3_core_init_phys env s).2.dwc := by
  unfold dwc3_core_init_phys
  split
  · simp only
    split
    · left; simp
    · refine lowered_of_view_left (core_init_reset_lowered env _) ?_
      exact get_phy_view env s
  · exact core_init_reset_lowered env s

theorem get_dr_mode_store_view (s : World) (m : usb_dr_mode) :
    speed_view (dwc3_get_dr_mode_store s m).2.dwc = speed_view s.dwc := by
  unfold dwc3_get_dr_mode_store; split <;> rfl

@[simp] theorem get_dr_mode_view (env : Env) (s : World) :
    speed_view (dwc3_get_dr_mode env s).2.dwc = speed_view s.dwc := by
  unfold dwc3_get_dr_mode
  simp only
  have h0 : speed_view (if s.dwc.dr_mode = USB_DR_MODE_UNKNOWN then
        ({ s with dwc := { s.dwc with dr_mode := USB_DR_MODE_OTG } } : World) else s).dwc =
      speed_view s.dwc := by
    split <;> rfl
  generalize (if s.dwc.dr_mode = USB_DR_MODE_UNKNOWN then
        ({ s with dwc := { s.dwc with dr_mode := USB_DR_MODE_OTG } } : World) else s) = t at h0 ⊢
  rw [← h0]
  repeat' split
  all_goals first | rfl | exact get_dr_mode_store_view _ _

theorem usb2_only_view_congr {a b : World} (h : speed_view a.dwc = speed_view b.dwc) :
    speed_view (dwc3_core_init_usb2_only a).dwc = speed_view (dwc3_core_init_usb2_only b).dwc := by
  unfold speed_view at h
  simp only [Prod.mk.injEq] at h
  obtain ⟨h1, h2, h3, h4⟩ := h
  unfold dwc3_core_init_usb2_only
  rw [h1, h3]
  split
  · simp only [speed_view, h1, h2, h4]
  · simp only [speed_view, h1, h2, h3, h4]

theorem core_is_valid_false (env : Env) (s : World) (h : (dwc3_core_is_valid env s).1 = false) :
    (dwc3_core_is_valid env s).2 = (dwc3_readl env s Reg.GSNPSID).2 := by
  unfold dwc3_core_is_valid at h ⊢
  simp only at h ⊢
  split
  · rename_i h1; simp [h1] at h
  · split
    · rename_i h1 h2; simp [h1, h2] at h
    · rfl

/-- The three ways `dwc3_core_init` can treat the speed fields: the core is not
recognised and the context is untouched; role resolution fails right after the
parameter check; or the flow passes the USB2.0-only block, after which only the
soft reset may still lower `maximum_speed`. -/
theorem core_init_cases (env : Env) (s : World) :
    ((dwc3_core_init env s).1 = -ENODEV ∧ (dwc3_core_init env s).2.dwc = s.dwc) ∨
    ((dwc3_core_init env s).1 = -EINVAL ∧
      speed_view (dwc3_core_init env s).2.dwc =
        speed_view (dwc3_check_params
          (dwc3_cache_hwparams env (dwc3_core_is_valid env s).2)).dwc) ∨
    lowered (dwc3_core_init_usb2_only (dwc3_check_params
        (dwc3_cache_hwparams env (dwc3_core_is_valid env s).2))).dwc
      (dwc3_core_init env s).2.dwc := by
  unfold dwc3_core_init
  simp only
  split
  · rename_i hv
    left
    simp only [Bool.not_eq_true] at hv
    rw [core_is_valid_false env s hv]
    exact ⟨rfl, rfl⟩
  · right
    split
    · left
      exact ⟨rfl, get_dr_mode_view _ _⟩
    · right
      have hu : speed_view (dwc3_core_init_usb2_only (dwc3_writel (dwc3_get_dr_mode env
            (dwc3_check_params (dwc3_cache_hwparams env (dwc3_core_is_valid env s).2))).2
            Reg.GUID env.LINUX_VERSION_CODE)).dwc =
          speed_view (dwc3_core_init_usb2_only (dwc3_check_params
            (dwc3_cache_hwparams env (dwc3_core_is_valid env s).2))).dwc :=
        usb2_only_view_congr (by simp)
      generalize (dwc3_core_init_usb2_only (dwc3_writel (dwc3_get_dr_mode env
            (dwc3_check_params (dwc3_cache_hwparams env (dwc3_core_is_valid env s).2))).2
            Reg.GUID env.LINUX_VERSION_CODE)) = s3 at hu ⊢
      split
      · left; simpa using hu
      · split
        · split
          · split
            · refine lowered_of_view_left (soft_reset_lowered env _) ?_
              simpa using hu
            · left; simpa using hu
          · refine lowered_of_view_left (core_init_phys_lowered env _) ?_
            simpa using hu
        · refine lowered_of_view_left (core_init_phys_lowered env _) ?_
          simpa using hu

theorem core_is_valid_speed (env : Env) (s : World) :
    (dwc3_core_is_valid env s).2.dwc.maximum_speed = s.dwc.maximum_speed ∧
      (dwc3_core_is_valid env s).2.dwc.max_hw_supp_speed = s.dwc.max_hw_supp_speed := by
  unfold dwc3_core_is_valid
  simp only
  split
  · exact ⟨rfl, rfl⟩
  · split <;> exact ⟨rfl, rfl⟩

theorem cache_one_speed (env : Env) (s : World) (r : Reg)
    (f : dwc3_hwparams → Nat → dwc3_hwparams) :
    (cache_one env s r f).dwc.maximum_speed = s.dwc.maximum_speed ∧
      (cache_one env s r f).dwc.max_hw_supp_speed = s.dwc.max_hw_supp_speed ∧
      (cache_one env s r f).dwc.revision = s.dwc.revision :=
  ⟨rfl, rfl, rfl⟩

theorem cache_hwparams_speed (env : Env) (s : World) :
    (dwc3_cache_hwparams env s).dwc.maximum_speed = s.dwc.maximum_speed ∧
      (dwc3_cache_hwparams env s).dwc.max_hw_supp_speed = s.dwc.max_hw_supp_speed ∧
      (dwc3_cache_hwparams env s).dwc.revision = s.dwc.revision := by
  unfold dwc3_cache_hwparams
  simp only [cache_one_speed, and_self]

theorem check_params_frame (s : World) :
    (dwc3_check_params s).dwc.max_hw_supp_speed = s.dwc.max_hw_supp_speed ∧
      (dwc3_check_params s).dwc.hwparams = s.dwc.hwparams ∧
      (dwc3_check_params s).dwc.revision = s.dwc.revision := by
  unfold dwc3_check_params
  simp only
  split <;> split <;> exact ⟨rfl, rfl, rfl⟩

theorem usb2_only_frame (s : World) :
    (dwc3_core_init_usb2_only s).dwc.hwparams = s.dwc.hwparams ∧
      (dwc3_core_init_usb2_only s).dwc.max_hw_supp_speed = s.dwc.max_hw_supp_speed ∧
      (dwc3_core_init_usb2_only s).dwc.maximum_speed =
        (if DWC3_GHWPARAMS3_SSPHY_IFC s.dwc.hwparams.hwparams3 = DWC3_GHWPARAMS3_SSPHY_IFC_DIS ∧
            s.dwc.maximum_speed ≥ USB_SPEED_SUPER then USB_SPEED_HIGH
          else s.dwc.maximum_speed) := by
  unfold dwc3_core_init_usb2_only
  split <;> exact ⟨rfl, rfl, rfl⟩

theorem lowered_fields {d d' : dwc3} (h : lowered d d') :
    d'.hwparams = d.hwparams ∧ d'.max_hw_supp_speed = d.max_hw_supp_speed ∧
      (d'.maximum_speed = d.maximum_speed ∨
        (USB_SPEED_HIGH < d.maximum_speed ∧ d'.maximum_speed = USB_SPEED_HIGH)) := by
  unfold lowered speed_view at h
  simp only [Prod.mk.injEq] at h
  rcases h with ⟨h1, _, h3, h4⟩ | ⟨h0, h1, _, h3, h4⟩
  · exact ⟨h1, h4, Or.inl h3⟩
  · exact ⟨h1, h4, Or.inr ⟨h0, h3⟩⟩

theorem known_speed_cases {v : Nat} (h : known_speed v) :
    v = 1 ∨ v = 2 ∨ v = 3 ∨ v = 5 ∨ v = 6 := h

/-- The speed fields on a successful `dwc3_core_init`: the capability
registers are the cached ones, and `maximum_speed` is the checked value passed
through the USB2.0-only block, possibly lowered to High-Speed by the soft
reset. -/
theorem core_init_ok_speed (env : Env) (s : World) (hret : (dwc3_core_init env s).1 = 0) :
    ∃ c : Nat, known_speed c ∧
      (known_speed s.dwc.maximum_speed → c = s.dwc.maximum_speed) ∧
      (s.dwc.maximum_speed = USB_SPEED_UNKNOWN → USB_SPEED_SUPER ≤ c) ∧
      ((dwc3_core_init env s).2.dwc.maximum_speed =
          (if DWC3_GHWPARAMS3_SSPHY_IFC (dwc3_core_init env s).2.dwc.hwparams.hwparams3 =
              DWC3_GHWPARAMS3_SSPHY_IFC_DIS ∧ c ≥ USB_SPEED_SUPER then USB_SPEED_HIGH else c) ∨
        (dwc3_core_init env s).2.dwc.maximum_speed = USB_SPEED_HIGH) := by
  have hspeed : (dwc3_cache_hwparams env (dwc3_core_is_valid env s).2).dwc.maximum_speed =
      s.dwc.maximum_speed := by
    rw [(cache_hwparams_speed env _).1, (core_is_valid_speed env s).1]
  refine ⟨(dwc3_check_params
    (dwc3_cache_hwparams env (dwc3_core_is_valid env s).2)).dwc.maximum_speed,
    (check_params_speed _).1, ?_, ?_, ?_⟩
  · intro hk
    rw [(check_params_speed _).2, hspeed, if_pos hk]
  · intro hu
    rw [(check_params_speed _).2, hspeed, hu]
    rw [if_neg (by decide)]
    split <;> decide
  · rcases core_init_cases env s with ⟨h, _⟩ | ⟨h, _⟩ | h
    · rw [hret] at h; exact absurd h (by decide)
    · rw [hret] at h; exact absurd h (by decide)
    · obtain ⟨hp, _, hm⟩ := lowered_fields h
      obtain ⟨up, _, um⟩ := usb2_only_frame (dwc3_check_params
        (dwc3_cache_hwparams env (dwc3_core_is_valid env s).2))
      rw [hp, up]
      rcases hm with hm | ⟨_, hm⟩
      · left; rw [hm, um]
      · right; exact hm

/-! ## C6: USB2.0-only hardware -/

/-- C6: for every controller whose hwparams3 (as cached by the call) reports
the SuperSpeed PHY interface as disabled, after `dwc3_core_init` returns 0
`maximum_speed` is at most High-Speed; and a requested speed of Super,
SuperSpeedPlus or Unknown ends as exactly High-Speed. -/
theorem dwc3_core_init_usb2_only_speed (env : Env) (s : World)
    (hret : (dwc3_core_init env s).1 = 0)
    (hdis : DWC3_GHWPARAMS3_SSPHY_IFC (dwc3_core_init env s).2.dwc.hwparams.hwparams3 =
      DWC3_GHWPARAMS3_SSPHY_IFC_DIS) :
    (dwc3_core_init env s).2.dwc.maximum_speed ≤ USB_SPEED_HIGH ∧
      ((s.dwc.maximum_speed = USB_SPEED_SUPER ∨ s.dwc.maximum_speed = USB_SPEED_SUPER_PLUS ∨
          s.dwc.maximum_speed = USB_SPEED_UNKNOWN) →
        (dwc3_core_init env s).2.dwc.maximum_speed = USB_SPEED_HIGH) := by
  obtain ⟨c, hc, hkeep, hunk, hfin⟩ := core_init_ok_speed env s hret
  have hc' := known_speed_cases hc
  simp only [hdis, true_and] at hfin
  constructor
  · rcases hfin with hfin | hfin
    · rw [hfin]
      split
      · exact Nat.le_refl _
      · rename_i hlt
        unfold USB_SPEED_SUPER at hlt
        unfold USB_SPEED_HIGH
        omega
    · rw [hfin]
  · intro hreq
    have hge : USB_SPEED_SUPER ≤ c := by
      rcases hreq with h | h | h
      · rw [hkeep (by rw [h]; decide), h]
      · rw [hkeep (by rw [h]; decide), h]; decide
      · exact hunk h
    rcases hfin with hfin | hfin
    · rw [hfin, if_pos hge]
    · exact hfin

/-- C6, at the scenario of the specification: the hardware reports no
SuperSpeed PHY interface, the requested speed is SuperSpeedPlus, and
`dwc3_core_init` succeeds; `maximum_speed` ends as High-Speed. -/
theorem dwc3_core_init_usb2_only_speed_witness :
    (dwc3_core_init env_quiet (world_usb2_only USB_SPEED_SUPER_PLUS)).1 = 0 ∧
      DWC3_GHWPARAMS3_SSPHY_IFC
        (dwc3_core_init env_quiet (world_usb2_only USB_SPEED_SUPER_PLUS)).2.dwc.hwparams.hwparams3 =
        DWC3_GHWPARAMS3_SSPHY_IFC_DIS ∧
      (dwc3_core_init env_quiet (world_usb2_only USB_SPEED_SUPER_PLUS)).2.dwc.maximum_speed =
        USB_SPEED_HIGH :=
  ⟨by decide, by decide,
    (dwc3_core_init_usb2_only_speed env_quiet (world_usb2_only USB_SPEED_SUPER_PLUS)
      (by decide) (by decide)).2 (Or.inr (Or.inl rfl))⟩

/-! ## C7: `maximum_speed` against `max_hw_supp_speed` -/

theorem get_properties_speed (env : Env) (s : World) :
    (dwc3_get_properties env s).dwc.maximum_speed = env.usb_get_maximum_speed ∧
      (dwc3_get_properties env s).dwc.max_hw_supp_speed = env.usb_get_maximum_speed :=
  ⟨rfl, rfl⟩

/-- One `dwc3_core_init` call never touches `max_hw_supp_speed`, and a
`maximum_speed` that is one of the five known values stays one of them and
does not grow. -/
theorem core_init_speed_le (env : Env) (s : World) (hk : known_speed s.dwc.maximum_speed) :
    known_speed (dwc3_core_init env s).2.dwc.maximum_speed ∧
      (dwc3_core_init env s).2.dwc.maximum_speed ≤ s.dwc.maximum_speed ∧
      (dwc3_core_init env s).2.dwc.max_hw_supp_speed = s.dwc.max_hw_supp_speed := by
  have hspeed : (dwc3_cache_hwparams env (dwc3_core_is_valid env s).2).dwc.maximum_speed =
      s.dwc.maximum_speed := by
    rw [(cache_hwparams_speed env _).1, (core_is_valid_speed env s).1]
  have hhw : (dwc3_cache_hwparams env (dwc3_core_is_valid env s).2).dwc.max_hw_supp_speed =
      s.dwc.max_hw_supp_speed := by
    rw [(cache_hwparams_speed env _).2.1, (core_is_valid_speed env s).2]
  have hd1 : (dwc3_check_params
      (dwc3_cache_hwparams env (dwc3_core_is_valid env s).2)).dwc.maximum_speed =
      s.dwc.maximum_speed := by
    rw [(check_params_speed _).2, hspeed, if_pos hk]
  have hd1hw : (dwc3_check_params
      (dwc3_cache_hwparams env (dwc3_core_is_valid env s).2)).dwc.max_hw_supp_speed =
      s.dwc.max_hw_supp_speed := by
    rw [(check_params_frame _).1, hhw]
  have hhigh : known_speed USB_SPEED_HIGH := by decide
  rcases core_init_cases env s with ⟨_, h⟩ | ⟨_, h⟩ | h
  · rw [h]; exact ⟨hk, Nat.le_refl _, rfl⟩
  · unfold speed_view at h
    simp only [Prod.mk.injEq] at h
    obtain ⟨_, _, h3, h4⟩ := h
    rw [h3, h4, hd1, hd1hw]
    exact ⟨hk, Nat.le_refl _, rfl⟩
  · obtain ⟨_, hm, hs⟩ := lowered_fields h
    obtain ⟨_, um, us⟩ := usb2_only_frame (dwc3_check_params
      (dwc3_cache_hwparams env (dwc3_core_is_valid env s).2))
    rw [hm, um, hd1hw]
    rw [us, hd1] at hs
    refine ⟨?_, ?_, rfl⟩
    · rcases hs with hs | ⟨_, hs⟩
      · rw [hs]; split
        · exact hhigh
        · exact hk
      · rw [hs]; exact hhigh
    · rcases hs with hs | ⟨hlt, hs⟩
      · rw [hs]; split
        · rename_i hc
          have := hc.2
          unfold USB_SPEED_SUPER at this
          unfold USB_SPEED_HIGH
          omega
        · exact Nat.le_refl _
      · rw [hs]
        split at hlt
        · exact absurd hlt (Nat.lt_irrefl _)
        · exact Nat.le_of_lt hlt

/-- C7 (counterexample): with the property `maximum-speed` unset,
`dwc3_get_properties` leaves both fields Unknown (0); one successful
`dwc3_core_init` on Gen1 hardware then defaults `maximum_speed` to Super (5),
above `max_hw_supp_speed`, which is still Unknown (0). -/
theorem reachable_speed_exceeds :
    Reachable env_quiet (dwc3_core_init env_quiet (dwc3_get_properties env_quiet world_gen1)).2 ∧
      (dwc3_core_init env_quiet (dwc3_get_properties env_quiet world_gen1)).1 = 0 ∧
      (dwc3_core_init env_quiet
        (dwc3_get_properties env_quiet world_gen1)).2.dwc.maximum_speed = USB_SPEED_SUPER ∧
      (dwc3_core_init env_quiet
        (dwc3_get_properties env_quiet world_gen1)).2.dwc.max_hw_supp_speed = USB_SPEED_UNKNOWN ∧
      (dwc3_core_init env_quiet (dwc3_get_properties env_quiet world_gen1)).2.dwc.max_hw_supp_speed <
        (dwc3_core_init env_quiet (dwc3_get_properties env_quiet world_gen1)).2.dwc.maximum_speed :=
  ⟨Reachable.core_init _ (Reachable.properties _), by decide, by decide, by decide, by decide⟩

/-- C7 (amended): when the configured maximum speed (`usb_get_maximum_speed`)
is one of the five known values, in every state reachable by
`dwc3_get_properties` followed by any number of `dwc3_core_init` calls,
`maximum_speed` never exceeds `max_hw_supp_speed`. -/
theorem reachable_speed_le (env : Env) (hk : known_speed env.usb_get_maximum_speed)
    (s : World) (h : Reachable env s) :
    s.dwc.maximum_speed ≤ s.dwc.max_hw_supp_speed := by
  have inv : known_speed s.dwc.maximum_speed ∧ s.dwc.maximum_speed ≤ s.dwc.max_hw_supp_speed := by
    induction h with
    | properties s0 =>
      rw [(get_properties_speed env s0).1, (get_properties_speed env s0).2]
      exact ⟨hk, Nat.le_refl _⟩
    | core_init s0 _ ih =>
      obtain ⟨h1, h2, h3⟩ := core_init_speed_le env s0 ih.1
      rw [h3]
      exact ⟨h1, Nat.le_trans h2 ih.2⟩
  exact inv.2

/-- C7 (amended), at a platform configured for SuperSpeedPlus, after the
properties are read and the core is initialised twice. -/
theorem reachable_speed_le_witness :
    (dwc3_core_init env_ssp (dwc3_core_init env_ssp
        (dwc3_get_properties env_ssp world_gen1)).2).2.dwc.maximum_speed ≤
      (dwc3_core_init env_ssp (dwc3_core_init env_ssp
        (dwc3_get_properties env_ssp world_gen1)).2).2.dwc.max_hw_supp_speed :=
  reachable_speed_le env_ssp (by decide) _
    (Reachable.core_init _ (Reachable.core_init _ (Reachable.properties _)))

/-! ## C8: the soft-reset poll budget -/

theorem phy_call_void_trace (s : World) (p : PhyName) (e : Event) :
    (phy_call_void s p e).trace = s.trace ++ phy_events s.dwc p e := by
  unfold phy_call_void phy_events
  split <;> simp

theorem phy_call_void_regs (s : World) (p : PhyName) (e : Event) :
    (phy_call_void s p e).regs = s.regs := by
  unfold phy_call_void
  split <;> rfl

theorem phy_call_int_trace (s : World) (p : PhyName) (e : Event)
    (ret : List Event → PhyName → Int) :
    (phy_call_int s p e ret).2.trace = s.trace ++ phy_events s.dwc p e := by
  unfold phy_call_int phy_events
  split <;> simp

theorem phy_call_int_regs (s : World) (p : PhyName) (e : Event)
    (ret : List Event → PhyName → Int) : (phy_call_int s p e ret).2.regs = s.regs := by
  unfold phy_call_int
  split <;> rfl

theorem phy_call_int_ret (s : World) (p : PhyName) (e : Event)
    (ret : List Event → PhyName → Int) :
    (phy_call_int s p e ret).1 = 0 ∨
      (phy_of s.dwc p = phy_ptr.valid ∧ (phy_call_int s p e ret).1 = ret s.trace p) := by
  unfold phy_call_int
  split
  · left; rfl
  · rename_i h; right; exact ⟨h, rfl⟩
  · left; rfl

theorem usb_phy_init_ok (env : Env) (s : World) (p : PhyName)
    (h : ∀ t, env.usb_phy_init_ret t p = 0) : (usb_phy_init env s p).1 = 0 := by
  rcases phy_call_int_ret s p (Event.usb_phy_init p) env.usb_phy_init_ret with h0 | ⟨_, h1⟩
  · exact h0
  · unfold usb_phy_init; rw [h1]; exact h _

theorem phy_init_ok (env : Env) (s : World) (p : PhyName)
    (h : ∀ t, 0 ≤ env.phy_init_ret t p) : ¬ (phy_init env s p).1 < 0 := by
  rcases phy_call_int_ret s p (Event.phy_init p) env.phy_init_ret with h0 | ⟨_, h1⟩
  · unfold phy_init; rw [h0]; decide
  · unfold phy_init; rw [h1]; exact Int.not_lt.mpr (h _)

/-- With the soft-reset bit stuck, the poll loop uses its whole budget: `n`
polls, each followed by a delay of one microsecond, and no exit to `done`. -/
theorem poll_stuck (env : Env)
    (hstuck : ∀ t v, env.mmio_read t Reg.DCTL v % U32 &&& DWC3_DCTL_CSFTRST ≠ 0)
    (n : Nat) (s : World) :
    (dwc3_core_soft_reset_poll env n s).1 = false ∧
      ∃ polls, (dwc3_core_soft_reset_poll env n s).2.trace = s.trace ++ polls ∧
        is_poll_sequence n polls = true := by
  induction n generalizing s with
  | zero => exact ⟨rfl, [], by simp [dwc3_core_soft_reset_poll], rfl⟩
  | succ k ih =>
    unfold dwc3_core_soft_reset_poll
    simp only
    rw [if_neg (by rw [readl_val]; exact hstuck _ _)]
    obtain ⟨h1, polls, h2, h3⟩ := ih (udelay (dwc3_readl env s Reg.DCTL).2 1)
    refine ⟨h1, Event.readl Reg.DCTL (dwc3_readl env s Reg.DCTL).1 :: Event.udelay 1 :: polls,
      ?_, ?_⟩
    · rw [h2]
      simp [udelay]
    · simpa [is_poll_sequence] using h3

theorem poll_sequence_mem (n : Nat) (l : List Event) (h : is_poll_sequence n l = true) :
    ∀ x ∈ l, (∃ v, x = Event.readl Reg.DCTL v) ∨ x = Event.udelay 1 := by
  induction n generalizing l with
  | zero =>
    cases l with
    | nil => simp
    | cons a t => simp [is_poll_sequence] at h
  | succ k ih =>
    match l, h with
    | Event.readl Reg.DCTL v :: Event.udelay 1 :: rest, h =>
      intro x hx
      simp only [List.mem_cons] at hx
      rcases hx with hx | hx | hx
      · exact Or.inl ⟨v, hx⟩
      · exact Or.inr hx
      · exact ih rest (by simpa [is_poll_sequence] using h) x hx

theorem poll_sequence_no_msleep (n : Nat) (l : List Event) (h : is_poll_sequence n l = true) :
    ∀ x ∈ l, is_msleep x = false := by
  intro x hx
  rcases poll_sequence_mem n l h x hx with ⟨v, hv⟩ | hv <;> rw [hv] <;> rfl

theorem poll_sequence_no_shutdown (n : Nat) (l : List Event) (h : is_poll_sequence n l = true) :
    ∀ x ∈ l, is_usb_phy_shutdown x = false := by
  intro x hx
  rcases poll_sequence_mem n l h x hx with ⟨v, hv⟩ | hv <;> rw [hv] <;> rfl

theorem phy_init_trace (env : Env) (s : World) (p : PhyName) :
    (phy_init env s p).2.trace = s.trace ++ phy_events s.dwc p (Event.phy_init p) :=
  phy_call_int_trace _ _ _ _
theorem usb_phy_init_trace (env : Env) (s : World) (p : PhyName) :
    (usb_phy_init env s p).2.trace = s.trace ++ phy_events s.dwc p (Event.usb_phy_init p) :=
  phy_call_int_trace _ _ _ _
theorem usb_phy_reset_trace (s : World) (p : PhyName) :
    (usb_phy_reset s p).trace = s.trace ++ phy_events s.dwc p (Event.usb_phy_reset p) :=
  phy_call_void_trace _ _ _
theorem phy_exit_trace (s : World) (p : PhyName) :
    (phy_exit s p).trace = s.trace ++ phy_events s.dwc p (Event.phy_exit p) :=
  phy_call_void_trace _ _ _
theorem usb_phy_shutdown_trace (s : World) (p : PhyName) :
    (usb_phy_shutdown s p).trace = s.trace ++ phy_events s.dwc p (Event.usb_phy_shutdown p) :=
  phy_call_void_trace _ _ _

/-- The part of the soft reset from `generic_phy_init` on, with the soft-reset
bit stuck: both generic PHYs are initialised, the bit is set, the poll loop
runs 1000 times, both generic PHYs are exited, the result is `-ETIMEDOUT`. -/
theorem generic_phy_init_timeout (env : Env) (s : World)
    (hmode : s.dwc.dr_mode ≠ USB_DR_MODE_HOST)
    (hgen : ∀ t p, 0 ≤ env.phy_init_ret t p)
    (hstuck : ∀ t v, env.mmio_read t Reg.DCTL v % U32 &&& DWC3_DCTL_CSFTRST ≠ 0) :
    (dwc3_core_soft_reset_generic_phy_init env s).1 = -ETIMEDOUT ∧
      ∃ v0 polls,
        (dwc3_core_soft_reset_generic_phy_init env s).2.trace =
          s.trace ++
            ((phy_events s.dwc PhyName.usb2_generic_phy (Event.phy_init PhyName.usb2_generic_phy) ++
              phy_events s.dwc PhyName.usb3_generic_phy (Event.phy_init PhyName.usb3_generic_phy)) ++
            [Event.readl Reg.DCTL v0,
              Event.writel Reg.DCTL ((v0 ||| DWC3_DCTL_CSFTRST) % U32)] ++ polls ++
            (phy_events s.dwc PhyName.usb3_generic_phy (Event.phy_exit PhyName.usb3_generic_phy) ++
              phy_events s.dwc PhyName.usb2_generic_phy
                (Event.phy_exit PhyName.usb2_generic_phy))) ∧
        is_poll_sequence 1000 polls = true := by
  unfold dwc3_core_soft_reset_generic_phy_init
  simp only
  rw [if_neg (phy_init_ok env s _ (fun t => hgen t _))]
  rw [if_neg (phy_init_ok env _ _ (fun t => hgen t _))]
  rw [if_neg (by simpa using hmode)]
  obtain ⟨hp1, polls, hp2, hp3⟩ := poll_stuck env hstuck 1000
    (dwc3_writel (dwc3_readl env (phy_init env (phy_init env s PhyName.usb2_generic_phy).2
      PhyName.usb3_generic_phy).2 Reg.DCTL).2 Reg.DCTL
      ((dwc3_readl env (phy_init env (phy_init env s PhyName.usb2_generic_phy).2
        PhyName.usb3_generic_phy).2 Reg.DCTL).1 ||| DWC3_DCTL_CSFTRST))
  rw [hp1]
  simp only [Bool.false_eq_true, if_false]
  refine ⟨trivial, (dwc3_readl env (phy_init env (phy_init env s PhyName.usb2_generic_phy).2
    PhyName.usb3_generic_phy).2 Reg.DCTL).1, polls, ?_, hp3⟩
  rw [phy_exit_trace, phy_exit_trace, hp2]
  simp only [writel_trace, readl_trace, phy_init_trace, phy_exit_dwc, poll_dwc, writel_dwc,
    readl_dwc, phy_init_dwc, List.append_assoc, List.singleton_append, List.cons_append,
    List.nil_append]

theorem phy_exit_events_not_msleep (d : dwc3) (p : PhyName) :
    ∀ x ∈ phy_events d p (Event.phy_exit p), is_msleep x = false := by
  unfold phy_events
  intro x hx
  split at hx
  · simp at hx
  · simp only [List.mem_singleton] at hx; rw [hx]; rfl
  · simp only [List.mem_singleton] at hx; rw [hx]; rfl

theorem phy_events_not_msleep (d : dwc3) (p : PhyName) (e : Event) (he : is_msleep e = false) :
    ∀ x ∈ phy_events d p e, is_msleep x = false := by
  unfold phy_events
  intro x hx
  split at hx
  · simp at hx
  · simp only [List.mem_singleton] at hx; rw [hx]; exact he
  · simp only [List.mem_singleton] at hx; rw [hx]; rfl

theorem soft_reset_bringup_not_msleep (d : dwc3) :
    ∀ x ∈ soft_reset_bringup d, is_msleep x = false := by
  intro x hx
  unfold soft_reset_bringup at hx
  simp only [List.mem_append] at hx
  rcases hx with hx | hx | hx | hx | hx | hx | hx
  · exact phy_events_not_msleep _ _ (Event.usb_phy_reset _) rfl x hx
  · exact phy_events_not_msleep _ _ (Event.usb_phy_init _) rfl x hx
  · exact phy_events_not_msleep _ _ (Event.usb_phy_reset _) rfl x hx
  · exact phy_events_not_msleep _ _ (Event.usb_phy_init _) rfl x hx
  · split at hx
    · simp at hx
    · simp only [List.mem_append] at hx
      rcases hx with hx | hx | hx | hx
      · exact phy_events_not_msleep _ _ (Event.usb_phy_reset _) rfl x hx
      · exact phy_events_not_msleep _ _ (Event.usb_phy_init _) rfl x hx
      · exact phy_events_not_msleep _ _ (Event.usb_phy_reset _) rfl x hx
      · exact phy_events_not_msleep _ _ (Event.usb_phy_init _) rfl x hx
  · exact phy_events_not_msleep _ _ (Event.phy_init _) rfl x hx
  · exact phy_events_not_msleep _ _ (Event.phy_init _) rfl x hx

/-- The trace of a timed-out soft reset, in full: with every PHY init
succeeding and the soft-reset bit stuck, the result is `-ETIMEDOUT` and the
actions added are the bring-up calls, the read of DCTL, the write setting
CSFTRST, 1000 polls, and the exit of the two generic PHYs. -/
theorem soft_reset_timeout_trace (env : Env) (s : World)
    (hmode : s.dwc.dr_mode ≠ USB_DR_MODE_HOST)
    (husb : ∀ t p, env.usb_phy_init_ret t p = 0)
    (hgen : ∀ t p, 0 ≤ env.phy_init_ret t p)
    (hstuck : ∀ t v, env.mmio_read t Reg.DCTL v % U32 &&& DWC3_DCTL_CSFTRST ≠ 0) :
    (dwc3_core_soft_reset env s).1 = -ETIMEDOUT ∧
      (dwc3_core_soft_reset env s).2.dwc = s.dwc ∧
      ∃ v0 polls,
        (dwc3_core_soft_reset env s).2.trace =
          s.trace ++
            (soft_reset_bringup s.dwc ++
              ([Event.readl Reg.DCTL v0,
                Event.writel Reg.DCTL ((v0 ||| DWC3_DCTL_CSFTRST) % U32)] ++
              (polls ++ soft_reset_unwind s.dwc))) ∧
        is_poll_sequence 1000 polls = true := by
  unfold dwc3_core_soft_reset
  simp only
  rw [if_neg (not_not.mpr (usb_phy_init_ok env _ _ (fun t => husb t _)))]
  rw [if_neg (not_not.mpr (usb_phy_init_ok env _ _ (fun t => husb t _)))]
  by_cases hsp : s.dwc.maximum_speed ≤ USB_SPEED_HIGH
  · rw [if_pos (by simpa using hsp)]
    obtain ⟨h1, v0, polls, h2, h3⟩ := generic_phy_init_timeout env
      (usb_phy_init env (usb_phy_reset (usb_phy_init env (usb_phy_reset s PhyName.usb2_phy)
        PhyName.usb2_phy).2 PhyName.usb2_phy1) PhyName.usb2_phy1).2
      (by simpa using hmode) hgen hstuck
    refine ⟨h1, by simp, v0, polls, ?_, h3⟩
    rw [h2]
    unfold soft_reset_bringup soft_reset_unwind
    rw [if_pos hsp]
    simp only [usb_phy_init_trace, usb_phy_reset_trace, usb_phy_init_dwc, usb_phy_reset_dwc,
      List.append_assoc, List.nil_append, List.cons_append]
  · rw [if_neg (by simpa using hsp)]
    rw [if_neg (by rw [usb_phy_init_ok env _ _ (fun t => husb t _)]; decide)]
    rw [if_neg (not_not.mpr (usb_phy_init_ok env _ _ (fun t => husb t _)))]
    unfold dwc3_core_soft_reset_usb3_phy1
    simp only
    rw [if_neg (not_not.mpr (usb_phy_init_ok env _ _ (fun t => husb t _)))]
    obtain ⟨h1, v0, polls, h2, h3⟩ := generic_phy_init_timeout env
      (usb_phy_init env (usb_phy_reset (usb_phy_init env (usb_phy_reset
        (usb_phy_init env (usb_phy_reset (usb_phy_init env (usb_phy_reset s PhyName.usb2_phy)
        PhyName.usb2_phy).2 PhyName.usb2_phy1) PhyName.usb2_phy1).2 PhyName.usb3_phy)
        PhyName.usb3_phy).2 PhyName.usb3_phy1) PhyName.usb3_phy1).2
      (by simpa using hmode) hgen hstuck
    refine ⟨h1, by simp, v0, polls, ?_, h3⟩
    rw [h2]
    unfold soft_reset_bringup soft_reset_unwind
    rw [if_neg hsp]
    simp only [usb_phy_init_trace, usb_phy_reset_trace, usb_phy_init_dwc, usb_phy_reset_dwc,
      List.append_assoc, List.nil_append, List.cons_append]

/-- C8: when the resolved role is not host-only, every PHY init succeeds and
every read of DCTL returns CSFTRST still set, `dwc3_core_soft_reset` returns
`-ETIMEDOUT`; the actions it adds to the trace are the PHY bring-up calls, the
read of DCTL and the write that sets CSFTRST, then exactly 1000 polls of DCTL
each followed by a delay of one microsecond, then the exit of the two generic
PHYs; none of them is a sleep (no 50 ms settle delay). -/
theorem dwc3_core_soft_reset_timeout (env : Env) (s : World)
    (hmode : s.dwc.dr_mode ≠ USB_DR_MODE_HOST)
    (husb : ∀ t p, env.usb_phy_init_ret t p = 0)
    (hgen : ∀ t p, 0 ≤ env.phy_init_ret t p)
    (hstuck : ∀ t v, env.mmio_read t Reg.DCTL v % U32 &&& DWC3_DCTL_CSFTRST ≠ 0) :
    (dwc3_core_soft_reset env s).1 = -ETIMEDOUT ∧
      ∃ v0 polls,
        (dwc3_core_soft_reset env s).2.trace =
          s.trace ++
            (soft_reset_bringup s.dwc ++
              ([Event.readl Reg.DCTL v0,
                Event.writel Reg.DCTL ((v0 ||| DWC3_DCTL_CSFTRST) % U32)] ++
              (polls ++ soft_reset_unwind s.dwc))) ∧
        is_poll_sequence 1000 polls = true ∧
        (∀ e ∈ soft_reset_bringup s.dwc ++
              ([Event.readl Reg.DCTL v0,
                Event.writel Reg.DCTL ((v0 ||| DWC3_DCTL_CSFTRST) % U32)] ++
              (polls ++ soft_reset_unwind s.dwc)),
          is_msleep e = false) := by
  obtain ⟨h1, _, v0, polls, h2, h3⟩ := soft_reset_timeout_trace env s hmode husb hgen hstuck
  refine ⟨h1, v0, polls, h2, h3, ?_⟩
  intro e he
  simp only [List.mem_append, List.mem_cons, List.mem_singleton, List.not_mem_nil,
    or_false] at he
  rcases he with he | (he | he) | he | he
  · exact soft_reset_bringup_not_msleep _ e he
  · rw [he]; rfl
  · rw [he]; rfl
  · exact poll_sequence_no_msleep _ _ h3 e he
  · unfold soft_reset_unwind at he
    simp only [List.mem_append] at he
    rcases he with he | he
    · exact phy_exit_events_not_msleep _ _ e he
    · exact phy_exit_events_not_msleep _ _ e he

theorem stuck_bit (v : Nat) : (v ||| DWC3_DCTL_CSFTRST) % U32 &&& DWC3_DCTL_CSFTRST ≠ 0 := by
  intro h
  have ht : ((v ||| DWC3_DCTL_CSFTRST) % U32 &&& DWC3_DCTL_CSFTRST).testBit 30 = true := by
    have e1 : DWC3_DCTL_CSFTRST = 2 ^ 30 := by decide
    have e2 : U32 = 2 ^ 32 := rfl
    rw [e1, e2, Nat.testBit_and, Nat.testBit_mod_two_pow, Nat.testBit_or,
      Nat.testBit_two_pow_self]
    simp
  rw [h] at ht
  simp at ht

theorem clear_bit (v : Nat) : andnot v DWC3_DCTL_CSFTRST % U32 &&& DWC3_DCTL_CSFTRST = 0 := by
  apply Nat.eq_of_testBit_eq
  intro i
  have e1 : DWC3_DCTL_CSFTRST = 2 ^ 30 := by decide
  have e2 : U32 = 2 ^ 32 := rfl
  have e3 : (0xffffffff ^^^ 2 ^ 30 % 2 ^ 32 : Nat) = 0xbfffffff := by decide
  unfold andnot
  rw [e1, e2, e3, Nat.testBit_and, Nat.testBit_mod_two_pow, Nat.testBit_and,
    Nat.testBit_two_pow, Nat.zero_testBit]
  by_cases hi : 30 = i
  · subst hi
    simp
    intro _
    decide
  · simp [hi]

/-- C8, on a platform whose hardware never clears CSFTRST, in OTG role with
all PHYs live: the soft reset times out. -/
theorem dwc3_core_soft_reset_timeout_witness :
    (dwc3_core_soft_reset env_stuck (world_phys USB_SPEED_SUPER_PLUS)).1 = -ETIMEDOUT :=
  (dwc3_core_soft_reset_timeout env_stuck (world_phys USB_SPEED_SUPER_PLUS) (by decide)
    (fun _ _ => rfl) (fun _ _ => Int.le_refl 0) (fun _ v => stuck_bit v)).1

/-! ## C9: what a timed-out soft reset leaves behind -/

/-- From the call of the soft reset on, `dwc3_core_init` with a timed-out soft
reset: the soft reset exits the two generic PHYs, the label `err0a` adds
`dwc3_ulpi_exit`, and `-ETIMEDOUT` is returned. -/
theorem core_init_reset_timeout (env : Env) (s : World)
    (hmode : s.dwc.dr_mode ≠ USB_DR_MODE_HOST)
    (husb : ∀ t p, env.usb_phy_init_ret t p = 0)
    (hgen : ∀ t p, 0 ≤ env.phy_init_ret t p)
    (hstuck : ∀ t v, env.mmio_read t Reg.DCTL v % U32 &&& DWC3_DCTL_CSFTRST ≠ 0) :
    (dwc3_core_init_reset env s).1 = -ETIMEDOUT ∧
      ∃ v0 polls,
        (dwc3_core_init_reset env s).2.trace =
          s.trace ++
            (soft_reset_bringup s.dwc ++
              ([Event.readl Reg.DCTL v0,
                Event.writel Reg.DCTL ((v0 ||| DWC3_DCTL_CSFTRST) % U32)] ++
              (polls ++ (soft_reset_unwind s.dwc ++ [Event.ulpi_exit])))) ∧
        is_poll_sequence 1000 polls = true := by
  obtain ⟨h1, _, v0, polls, h2, h3⟩ := soft_reset_timeout_trace env s hmode husb hgen hstuck
  unfold dwc3_core_init_reset
  simp only
  rw [if_pos (by rw [h1]; decide)]
  unfold dwc3_core_init_err0a dwc3_ulpi_exit
  refine ⟨h1, v0, polls, ?_, h3⟩
  rw [emit_trace, h2]
  simp only [List.append_assoc, List.cons_append, List.nil_append]

/-- C9 (the code at a failing input): a controller that is initialised again
with all six PHYs live, on hardware that never clears CSFTRST.
`dwc3_core_init` returns `-ETIMEDOUT`; the trace shows the legacy PHYs
`usb2_phy` and `usb3_phy` brought up with `usb_phy_init` and both generic PHYs
exited with `phy_exit`, but no `usb_phy_shutdown` at all: the legacy PHYs are
still initialised when the error reaches the caller. -/
theorem dwc3_core_init_timeout_keeps_usb_phys :
    (dwc3_core_init env_stuck world_resume).1 = -ETIMEDOUT ∧
      Event.usb_phy_init PhyName.usb2_phy ∈ (dwc3_core_init env_stuck world_resume).2.trace ∧
      Event.usb_phy_init PhyName.usb3_phy ∈ (dwc3_core_init env_stuck world_resume).2.trace ∧
      Event.phy_exit PhyName.usb2_generic_phy ∈ (dwc3_core_init env_stuck world_resume).2.trace ∧
      Event.phy_exit PhyName.usb3_generic_phy ∈ (dwc3_core_init env_stuck world_resume).2.trace ∧
      (dwc3_core_init env_stuck world_resume).2.trace.any is_usb_phy_shutdown = false := by
  have hX : dwc3_core_init env_stuck world_resume =
      dwc3_core_init_reset env_stuck (dwc3_phy_setup env_stuck (dwc3_core_init_usb2_only
        (dwc3_writel (dwc3_get_dr_mode env_stuck (dwc3_check_params (dwc3_cache_hwparams env_stuck
          (dwc3_core_is_valid env_stuck world_resume).2))).2 Reg.GUID
          env_stuck.LINUX_VERSION_CODE))).2 := by
    unfold dwc3_core_init
    simp only
    rw [if_neg (by decide), if_neg (by decide), if_neg (by decide), if_neg (by decide)]
    unfold dwc3_core_init_phys
    rw [if_neg (by decide)]
  obtain ⟨h1, v0, polls, h2, h3⟩ := core_init_reset_timeout env_stuck
    (dwc3_phy_setup env_stuck (dwc3_core_init_usb2_only
        (dwc3_writel (dwc3_get_dr_mode env_stuck (dwc3_check_params (dwc3_cache_hwparams env_stuck
          (dwc3_core_is_valid env_stuck world_resume).2))).2 Reg.GUID
          env_stuck.LINUX_VERSION_CODE))).2
    (by decide) (fun _ _ => rfl) (fun _ _ => Int.le_refl 0) (fun _ v => stuck_bit v)
  rw [hX, h2]
  refine ⟨h1, ?_, ?_, ?_, ?_, ?_⟩
  · simp only [List.mem_append]
    right; left; decide
  · simp only [List.mem_append]
    right; left; decide
  · simp only [List.mem_append]
    right; right; right; right; left; decide
  · simp only [List.mem_append]
    right; right; right; right; left; decide
  · simp only [List.any_append, Bool.or_eq_false_iff]
    refine ⟨by decide, by decide, by simp [is_usb_phy_shutdown], ?_, by decide, by decide⟩
    rw [List.any_eq_false]
    intro x hx
    simpa using poll_sequence_no_shutdown _ _ h3 x hx

/-! ## C10: a busy USB3 PHY -/

theorem usb_phy_init_live (env : Env) (s : World) (p : PhyName)
    (h : phy_of s.dwc p = phy_ptr.valid) :
    (usb_phy_init env s p).1 = env.usb_phy_init_ret s.trace p ∧
      (usb_phy_init env s p).2 = emit s (Event.usb_phy_init p) := by
  unfold usb_phy_init phy_call_int
  rw [h]
  exact ⟨rfl, rfl⟩

/-- Once the hardware clears CSFTRST after at most `k` delays, a poll loop
with budget left reaches `done`. -/
theorem poll_done (env : Env) (k : Nat)
    (hclear : ∀ t v, k ≤ t.count (Event.udelay 1) →
      env.mmio_read t Reg.DCTL v % U32 &&& DWC3_DCTL_CSFTRST = 0)
    (n : Nat) (s : World) (hn : 0 < n) (hk : k < s.trace.count (Event.udelay 1) + n) :
    (dwc3_core_soft_reset_poll env n s).1 = true := by
  induction n generalizing s with
  | zero => exact absurd hn (Nat.lt_irrefl 0)
  | succ m ih =>
    unfold dwc3_core_soft_reset_poll
    simp only
    by_cases hc : (dwc3_readl env s Reg.DCTL).1 &&& DWC3_DCTL_CSFTRST = 0
    · rw [if_pos hc]
    · rw [if_neg hc]
      have hlt : s.trace.count (Event.udelay 1) < k := by
        by_contra hge
        exact hc (by rw [readl_val]; exact hclear _ _ (Nat.le_of_not_lt hge))
      have hcount : (udelay (dwc3_readl env s Reg.DCTL).2 1).trace.count (Event.udelay 1) =
          s.trace.count (Event.udelay 1) + 1 := by
        simp [udelay, List.count_append]
      apply ih
      · omega
      · rw [hcount]; omega

/-- The soft reset from `generic_phy_init` on returns 0 when both generic PHY
inits succeed and either the role is Host or the hardware clears CSFTRST
within the poll budget. -/
theorem generic_phy_init_ok (env : Env) (s : World)
    (hgen : ∀ t p, 0 ≤ env.phy_init_ret t p)
    (hdone : s.dwc.dr_mode = USB_DR_MODE_HOST ∨
      ∃ k, k < 1000 ∧ ∀ t v, k ≤ t.count (Event.udelay 1) →
        env.mmio_read t Reg.DCTL v % U32 &&& DWC3_DCTL_CSFTRST = 0) :
    (dwc3_core_soft_reset_generic_phy_init env s).1 = 0 := by
  unfold dwc3_core_soft_reset_generic_phy_init
  simp only
  rw [if_neg (phy_init_ok env s _ (fun t => hgen t _))]
  rw [if_neg (phy_init_ok env _ _ (fun t => hgen t _))]
  by_cases hm : s.dwc.dr_mode = USB_DR_MODE_HOST
  · rw [if_pos (by simpa using hm)]
  · rw [if_neg (by simpa using hm)]
    rcases hdone with hd | ⟨k, hk, hclear⟩
    · exact absurd hd hm
    · rw [poll_done env k hclear 1000 _ (by decide) (by omega)]
      simp only [if_true]
      split <;> rfl

/-! ## C11: the soft reset in Host role -/

theorem phy_events_not_core_reset (d : dwc3) (p : PhyName) (e : Event)
    (he : is_core_reset_action e = false) :
    ∀ x ∈ phy_events d p e, is_core_reset_action x = false := by
  unfold phy_events
  intro x hx
  split at hx
  · simp at hx
  · simp only [List.mem_singleton] at hx; rw [hx]; exact he
  · simp only [List.mem_singleton] at hx; rw [hx]; rfl

theorem soft_reset_bringup_not_core_reset (d : dwc3) :
    ∀ x ∈ soft_reset_bringup d, is_core_reset_action x = false := by
  intro x hx
  unfold soft_reset_bringup at hx
  simp only [List.mem_append] at hx
  rcases hx with hx | hx | hx | hx | hx | hx | hx
  · exact phy_events_not_core_reset _ _ (Event.usb_phy_reset _) rfl x hx
  · exact phy_events_not_core_reset _ _ (Event.usb_phy_init _) rfl x hx
  · exact phy_events_not_core_reset _ _ (Event.usb_phy_reset _) rfl x hx
  · exact phy_events_not_core_reset _ _ (Event.usb_phy_init _) rfl x hx
  · split at hx
    · simp at hx
    · simp only [List.mem_append] at hx
      rcases hx with hx | hx | hx | hx
      · exact phy_events_not_core_reset _ _ (Event.usb_phy_reset _) rfl x hx
      · exact phy_events_not_core_reset _ _ (Event.usb_phy_init _) rfl x hx
      · exact phy_events_not_core_reset _ _ (Event.usb_phy_reset _) rfl x hx
      · exact phy_events_not_core_reset _ _ (Event.usb_phy_init _) rfl x hx
  · exact phy_events_not_core_reset _ _ (Event.phy_init _) rfl x hx
  · exact phy_events_not_core_reset _ _ (Event.phy_init _) rfl x hx

@[simp] theorem usb_phy_reset_regs (s : World) (p : PhyName) :
    (usb_phy_reset s p).regs = s.regs := phy_call_void_regs _ _ _
@[simp] theorem usb_phy_init_regs (env : Env) (s : World) (p : PhyName) :
    (usb_phy_init env s p).2.regs = s.regs := phy_call_int_regs _ _ _ _
@[simp] theorem phy_init_regs (env : Env) (s : World) (p : PhyName) :
    (phy_init env s p).2.regs = s.regs := phy_call_int_regs _ _ _ _

/-- In Host role the part of the soft reset from `generic_phy_init` on only
initialises the two generic PHYs. -/
theorem generic_phy_init_host (env : Env) (s : World)
    (hmode : s.dwc.dr_mode = USB_DR_MODE_HOST)
    (hgen : ∀ t p, 0 ≤ env.phy_init_ret t p) :
    (dwc3_core_soft_reset_generic_phy_init env s).1 = 0 ∧
      (dwc3_core_soft_reset_generic_phy_init env s).2.regs = s.regs ∧
      (dwc3_core_soft_reset_generic_phy_init env s).2.trace =
        s.trace ++
          (phy_events s.dwc PhyName.usb2_generic_phy (Event.phy_init PhyName.usb2_generic_phy) ++
            phy_events s.dwc PhyName.usb3_generic_phy
              (Event.phy_init PhyName.usb3_generic_phy)) := by
  unfold dwc3_core_soft_reset_generic_phy_init
  simp only
  rw [if_neg (phy_init_ok env s _ (fun t => hgen t _))]
  rw [if_neg (phy_init_ok env _ _ (fun t => hgen t _))]
  rw [if_pos (by simpa using hmode)]
  refine ⟨rfl, by simp, ?_⟩
  simp only [phy_init_trace, phy_init_dwc, List.append_assoc]

/-- The soft reset in Host role, with every PHY init succeeding: result 0,
context and registers unchanged, and the bring-up calls as the only actions. -/
theorem soft_reset_host_trace (env : Env) (s : World)
    (hmode : s.dwc.dr_mode = USB_DR_MODE_HOST)
    (husb : ∀ t p, env.usb_phy_init_ret t p = 0)
    (hgen : ∀ t p, 0 ≤ env.phy_init_ret t p) :
    (dwc3_core_soft_reset env s).1 = 0 ∧
      (dwc3_core_soft_reset env s).2.dwc = s.dwc ∧
      (dwc3_core_soft_reset env s).2.regs = s.regs ∧
      (dwc3_core_soft_reset env s).2.trace = s.trace ++ soft_reset_bringup s.dwc := by
  unfold dwc3_core_soft_reset
  simp only
  rw [if_neg (not_not.mpr (usb_phy_init_ok env _ _ (fun t => husb t _)))]
  rw [if_neg (not_not.mpr (usb_phy_init_ok env _ _ (fun t => husb t _)))]
  by_cases hsp : s.dwc.maximum_speed ≤ USB_SPEED_HIGH
  · rw [if_pos (by simpa using hsp)]
    obtain ⟨h1, h2, h3⟩ := generic_phy_init_host env
      (usb_phy_init env (usb_phy_reset (usb_phy_init env (usb_phy_reset s PhyName.usb2_phy)
        PhyName.usb2_phy).2 PhyName.usb2_phy1) PhyName.usb2_phy1).2
      (by simpa using hmode) hgen
    refine ⟨h1, by simp, by rw [h2]; simp, ?_⟩
    rw [h3]
    unfold soft_reset_bringup
    rw [if_pos hsp]
    simp only [usb_phy_init_trace, usb_phy_reset_trace, usb_phy_init_dwc, usb_phy_reset_dwc,
      List.append_assoc, List.nil_append]
  · rw [if_neg (by simpa using hsp)]
    rw [if_neg (by rw [usb_phy_init_ok env _ _ (fun t => husb t _)]; decide)]
    rw [if_neg (not_not.mpr (usb_phy_init_ok env _ _ (fun t => husb t _)))]
    unfold dwc3_core_soft_reset_usb3_phy1
    simp only
    rw [if_neg (not_not.mpr (usb_phy_init_ok env _ _ (fun t => husb t _)))]
    obtain ⟨h1, h2, h3⟩ := generic_phy_init_host env
      (usb_phy_init env (usb_phy_reset (usb_phy_init env (usb_phy_reset
        (usb_phy_init env (usb_phy_reset (usb_phy_init env (usb_phy_reset s PhyName.usb2_phy)
        PhyName.usb2_phy).2 PhyName.usb2_phy1) PhyName.usb2_phy1).2 PhyName.usb3_phy)
        PhyName.usb3_phy).2 PhyName.usb3_phy1) PhyName.usb3_phy1).2
      (by simpa using hmode) hgen
    refine ⟨h1, by simp, by rw [h2]; simp, ?_⟩
    rw [h3]
    unfold soft_reset_bringup
    rw [if_neg hsp]
    simp only [usb_phy_init_trace, usb_phy_reset_trace, usb_phy_init_dwc, usb_phy_reset_dwc,
      List.append_assoc, List.nil_append]

/-- C11: when the resolved role `dr_mode` is Host and all PHY init steps
succeed, `dwc3_core_soft_reset` returns 0; the register file and the context
are unchanged, and the only actions it adds to the trace are the PHY bring-up
calls: no read or write of DCTL, no poll delay and no sleep (no 50 ms settle
delay). -/
theorem dwc3_core_soft_reset_host (env : Env) (s : World)
    (hmode : s.dwc.dr_mode = USB_DR_MODE_HOST)
    (husb : ∀ t p, env.usb_phy_init_ret t p = 0)
    (hgen : ∀ t p, 0 ≤ env.phy_init_ret t p) :
    (dwc3_core_soft_reset env s).1 = 0 ∧
      (dwc3_core_soft_reset env s).2.dwc = s.dwc ∧
      (dwc3_core_soft_reset env s).2.regs = s.regs ∧
      (dwc3_core_soft_reset env s).2.trace = s.trace ++ soft_reset_bringup s.dwc ∧
      (∀ e ∈ soft_reset_bringup s.dwc, is_core_reset_action e = false) := by
  obtain ⟨h1, h2, h3, h4⟩ := soft_reset_host_trace env s hmode husb hgen
  exact ⟨h1, h2, h3, h4, soft_reset_bringup_not_core_reset s.dwc⟩

/-- C11, in Host role with all PHYs live and SuperSpeedPlus requested, on a
platform whose hardware would never clear CSFTRST: the soft reset returns 0,
having made ten PHY bring-up calls and nothing else. -/
theorem dwc3_core_soft_reset_host_witness :
    (dwc3_core_soft_reset env_stuck (world_host USB_SPEED_SUPER_PLUS)).1 = 0 ∧
      (dwc3_core_soft_reset env_stuck (world_host USB_SPEED_SUPER_PLUS)).2.trace =
        (world_host USB_SPEED_SUPER_PLUS).trace ++
          soft_reset_bringup (world_host USB_SPEED_SUPER_PLUS).dwc ∧
      (soft_reset_bringup (world_host USB_SPEED_SUPER_PLUS).dwc).length = 10 :=
  have h := dwc3_core_soft_reset_host env_stuck (world_host USB_SPEED_SUPER_PLUS) rfl
    (fun _ _ => rfl) (fun _ _ => Int.le_refl 0)
  ⟨h.1, h.2.2.2.1, by decide⟩


/-! ## C13: programming the event buffer registers -/

theorem writel_regs (s : World) (r : Reg) (v : Nat) (x : Reg) :
    (dwc3_writel s r v).regs x = if x = r then v % U32 else s.regs x := rfl

@[simp] theorem notify_event_regs (s : World) (e : NotifyEvent) (v : Nat) :
    (dwc3_notify_event s e v).2.regs = s.regs := by
  unfold dwc3_notify_event; split <;> rfl

theorem notify_event_trace (s : World) (e : NotifyEvent) (v : Nat) :
    (dwc3_notify_event s e v).2.trace = s.trace ++ notify_events s e v := by
  unfold dwc3_notify_event notify_events
  split <;> simp

theorem gevntsiz_size_lt (n : Nat) : DWC3_GEVNTSIZ_SIZE n % U32 = DWC3_GEVNTSIZ_SIZE n := by
  apply Nat.mod_eq_of_lt
  unfold DWC3_GEVNTSIZ_SIZE U32
  exact Nat.lt_of_le_of_lt Nat.and_le_right (by decide)

/-- What one call of `dwc3_event_buffers_setup` leaves when a buffer exists. -/
theorem event_buffers_setup_some (s : World) (evt : dwc3_event_buffer)
    (h : s.dwc.ev_buf = some evt) :
    (dwc3_event_buffers_setup s).1 = 0 ∧
      (dwc3_event_buffers_setup s).2.dwc = { s.dwc with ev_buf := some { evt with lpos := 0 } } ∧
      (dwc3_event_buffers_setup s).2.regs =
        (fun x =>
          if x = Reg.GEVNTCOUNT 0 then 0
          else if x = Reg.GEVNTSIZ 0 then DWC3_GEVNTSIZ_SIZE evt.length
          else if x = Reg.GEVNTADRHI 0 then upper_32_bits evt.dma
          else if x = Reg.GEVNTADRLO 0 then lower_32_bits evt.dma
          else s.regs x) := by
  unfold dwc3_event_buffers_setup
  rw [h]
  refine ⟨rfl, by simp, ?_⟩
  simp only [notify_event_regs]
  funext x
  simp only [writel_regs, gevntsiz_size_lt]
  have h1 : lower_32_bits evt.dma % U32 = lower_32_bits evt.dma := Nat.mod_mod _ _
  have h2 : upper_32_bits evt.dma % U32 = upper_32_bits evt.dma := Nat.mod_mod _ _
  rw [h1, h2]
  rfl

/-- C13: `dwc3_event_buffers_setup` is idempotent on the register file and the
context.  For every state, a second call in a row leaves the same registers and
the same context (so the same `lpos`) as the first and both return 0; with a
buffer, one call leaves GEVNTADRLO(0) and GEVNTADRHI(0) at the low and high 32
bits of the DMA address, GEVNTSIZ(0) at the size field of the length,
GEVNTCOUNT(0) at 0 and `lpos` at 0; without a buffer it returns 0 and changes
nothing (no write). -/
theorem dwc3_event_buffers_setup_idempotent (s : World) :
    (dwc3_event_buffers_setup s).1 = 0 ∧
      (dwc3_event_buffers_setup (dwc3_event_buffers_setup s).2).1 = 0 ∧
      (dwc3_event_buffers_setup (dwc3_event_buffers_setup s).2).2.regs =
        (dwc3_event_buffers_setup s).2.regs ∧
      (dwc3_event_buffers_setup (dwc3_event_buffers_setup s).2).2.dwc =
        (dwc3_event_buffers_setup s).2.dwc ∧
      (match s.dwc.ev_buf with
        | none => dwc3_event_buffers_setup s = (0, s)
        | some evt =>
          (dwc3_event_buffers_setup s).2.regs (Reg.GEVNTADRLO 0) = lower_32_bits evt.dma ∧
          (dwc3_event_buffers_setup s).2.regs (Reg.GEVNTADRHI 0) = upper_32_bits evt.dma ∧
          (dwc3_event_buffers_setup s).2.regs (Reg.GEVNTSIZ 0) = DWC3_GEVNTSIZ_SIZE evt.length ∧
          (dwc3_event_buffers_setup s).2.regs (Reg.GEVNTCOUNT 0) = 0 ∧
          (dwc3_event_buffers_setup s).2.dwc.ev_buf = some { evt with lpos := 0 }) := by
  cases h : s.dwc.ev_buf with
  | none =>
    have h0 : dwc3_event_buffers_setup s = (0, s) := by
      unfold dwc3_event_buffers_setup; rw [h]
    simp only [h0, and_self]
  | some evt =>
    obtain ⟨a1, a2, a3⟩ := event_buffers_setup_some s evt h
    have h' : (dwc3_event_buffers_setup s).2.dwc.ev_buf = some { evt with lpos := 0 } := by
      rw [a2]
    obtain ⟨b1, b2, b3⟩ := event_buffers_setup_some (dwc3_event_buffers_setup s).2 _ h'
    refine ⟨a1, b1, ?_, ?_, ?_⟩
    · rw [b3, a3]
      funext x
      by_cases h1 : x = Reg.GEVNTCOUNT 0
      · simp [h1]
      · by_cases h2 : x = Reg.GEVNTSIZ 0
        · simp [h2]
        · by_cases h3 : x = Reg.GEVNTADRHI 0
          · simp [h3]
          · by_cases h4 : x = Reg.GEVNTADRLO 0
            · simp [h4]
            · simp [h1, h2, h3, h4]
    · rw [b2, a2]
    · simp only
      rw [a3]
      refine ⟨?_, ?_, ?_, ?_, h'⟩ <;> simp


/-! ## C14: event buffer cleanup -/

/-- C14: `dwc3_event_buffers_cleanup` writes the zero address, the
interrupt-masked zero size and a zero count to the event registers and resets
`lpos` exactly when an event buffer exists and the read of DSTS reports the
device-controller-halted bit set; it then notifies the GSI collaborator (when a
notifier is registered).  Without a buffer it does nothing at all; with a
buffer on a controller that has not halted, it only reads DSTS: no register is
written, no field changes and no notification is issued. -/
theorem dwc3_event_buffers_cleanup_effect (env : Env) (s : World) :
    match s.dwc.ev_buf with
    | none => dwc3_event_buffers_cleanup env s = s
    | some evt =>
      if (dwc3_readl env s Reg.DSTS).1 &&& DWC3_DSTS_DEVCTRLHLT = 0 then
        (dwc3_event_buffers_cleanup env s).regs = s.regs ∧
        (dwc3_event_buffers_cleanup env s).dwc = s.dwc ∧
        (dwc3_event_buffers_cleanup env s).notify_event = s.notify_event ∧
        (dwc3_event_buffers_cleanup env s).trace =
          s.trace ++ [Event.readl Reg.DSTS (dwc3_readl env s Reg.DSTS).1]
      else
        (dwc3_event_buffers_cleanup env s).regs =
          (fun x =>
            if x = Reg.GEVNTCOUNT 0 then 0
            else if x = Reg.GEVNTSIZ 0 then DWC3_GEVNTSIZ_INTMASK ||| DWC3_GEVNTSIZ_SIZE 0
            else if x = Reg.GEVNTADRHI 0 then 0
            else if x = Reg.GEVNTADRLO 0 then 0
            else s.regs x) ∧
        (dwc3_event_buffers_cleanup env s).dwc =
          { s.dwc with ev_buf := some { evt with lpos := 0 } } ∧
        (dwc3_event_buffers_cleanup env s).trace =
          s.trace ++
            ([Event.readl Reg.DSTS (dwc3_readl env s Reg.DSTS).1,
              Event.writel (Reg.GEVNTADRLO 0) 0,
              Event.writel (Reg.GEVNTADRHI 0) 0,
              Event.writel (Reg.GEVNTSIZ 0) (DWC3_GEVNTSIZ_INTMASK ||| DWC3_GEVNTSIZ_SIZE 0),
              Event.writel (Reg.GEVNTCOUNT 0) 0] ++
            notify_events s NotifyEvent.DWC3_GSI_EVT_BUF_CLEANUP 0) := by
  have hmask : (DWC3_GEVNTSIZ_INTMASK ||| DWC3_GEVNTSIZ_SIZE 0) % U32 =
      DWC3_GEVNTSIZ_INTMASK ||| DWC3_GEVNTSIZ_SIZE 0 := by decide
  cases h : s.dwc.ev_buf with
  | none =>
    simp only
    unfold dwc3_event_buffers_cleanup
    rw [h]
  | some evt =>
    simp only
    unfold dwc3_event_buffers_cleanup
    rw [h]
    simp only
    by_cases hh : (dwc3_readl env s Reg.DSTS).1 &&& DWC3_DSTS_DEVCTRLHLT = 0
    · rw [if_pos hh, if_pos hh]
      exact ⟨rfl, rfl, rfl, rfl⟩
    · rw [if_neg hh, if_neg hh]
      refine ⟨?_, by simp, ?_⟩
      · simp only [notify_event_regs]
        funext x
        simp only [writel_regs, hmask]
        rfl
      · rw [notify_event_trace]
        simp only [writel_trace, readl_trace, hmask, List.append_assoc, List.cons_append,
          List.nil_append, Nat.zero_mod]
        rfl

/-! ## C16: scratch buffer setup failures -/

/-- The 32-bit product `nr_scratch * DWC3_SCRATCHBUF_SIZE` is the plain product
for a count below 2^20. -/
theorem scratch_size_small (n : Nat) (h : n < 2 ^ 20) :
    n * DWC3_SCRATCHBUF_SIZE % U32 = n * DWC3_SCRATCHBUF_SIZE := by
  apply Nat.mod_eq_of_lt
  unfold DWC3_SCRATCHBUF_SIZE U32
  omega

/-- With a scratch count of 2^20 + 1 the 32-bit product wraps: 4096 bytes are
mapped, and unmapped again when the address-low command fails. -/
theorem setup_scratch_buffers_wraps :
    (dwc3_setup_scratch_buffers env_lo_fails world_scratch_wide).2.trace =
      [Event.dma_map_single 4096,
        Event.generic_command DWC3_DGCMD_SET_SCRATCHPAD_ADDR_LO 0x1000,
        Event.dma_unmap_single 0x1000 4096] ∧
    (dwc3_free_scratch_buffers world_scratch_wide).trace =
      [Event.dma_unmap_single 0 4096, Event.kfree] := by
  decide

/-- C16: `dwc3_setup_scratch_buffers` with hibernation on, a nonzero scratch
count and an allocated buffer maps `nr_scratch * DWC3_SCRATCHBUF_SIZE` bytes,
the product being the 32-bit one of the source (the plain product for every
count below 2^20, which covers the sixteen counts the hardware can report).
A mapping failure returns `-EFAULT` with no command sent.  A failing
address-low command returns its error, without sending address-high, after
unmapping those bytes; a failing address-high command returns its error after
unmapping them; otherwise the result is 0 with both commands sent and the
mapping kept. -/
theorem dwc3_setup_scratch_buffers_cases (env : Env) (s : World)
    (hhib : s.dwc.has_hibernation = true) (hnr : s.dwc.nr_scratch ≠ 0)
    (hbuf : s.dwc.scratchbuf = true) :
    (dwc3_setup_scratch_buffers env s).1 =
        (if env.dma_mapping_error (env.dma_map_single_ret s.trace) = true then -EFAULT
          else if env.generic_command_ret
              (s.trace ++ [Event.dma_map_single (s.dwc.nr_scratch * DWC3_SCRATCHBUF_SIZE % U32)])
              DWC3_DGCMD_SET_SCRATCHPAD_ADDR_LO
              (lower_32_bits (env.dma_map_single_ret s.trace)) < 0 then
            env.generic_command_ret
              (s.trace ++ [Event.dma_map_single (s.dwc.nr_scratch * DWC3_SCRATCHBUF_SIZE % U32)])
              DWC3_DGCMD_SET_SCRATCHPAD_ADDR_LO
              (lower_32_bits (env.dma_map_single_ret s.trace))
          else if env.generic_command_ret
              (s.trace ++ [Event.dma_map_single (s.dwc.nr_scratch * DWC3_SCRATCHBUF_SIZE % U32),
                Event.generic_command DWC3_DGCMD_SET_SCRATCHPAD_ADDR_LO
                  (lower_32_bits (env.dma_map_single_ret s.trace))])
              DWC3_DGCMD_SET_SCRATCHPAD_ADDR_HI
              (upper_32_bits (env.dma_map_single_ret s.trace)) < 0 then
            env.generic_command_ret
              (s.trace ++ [Event.dma_map_single (s.dwc.nr_scratch * DWC3_SCRATCHBUF_SIZE % U32),
                Event.generic_command DWC3_DGCMD_SET_SCRATCHPAD_ADDR_LO
                  (lower_32_bits (env.dma_map_single_ret s.trace))])
              DWC3_DGCMD_SET_SCRATCHPAD_ADDR_HI
              (upper_32_bits (env.dma_map_single_ret s.trace))
          else 0) ∧
      (dwc3_setup_scratch_buffers env s).2.trace =
        s.trace ++
        (if env.dma_mapping_error (env.dma_map_single_ret s.trace) = true then
            [Event.dma_map_single (s.dwc.nr_scratch * DWC3_SCRATCHBUF_SIZE % U32)]
          else if env.generic_command_ret
              (s.trace ++ [Event.dma_map_single (s.dwc.nr_scratch * DWC3_SCRATCHBUF_SIZE % U32)])
              DWC3_DGCMD_SET_SCRATCHPAD_ADDR_LO
              (lower_32_bits (env.dma_map_single_ret s.trace)) < 0 then
            [Event.dma_map_single (s.dwc.nr_scratch * DWC3_SCRATCHBUF_SIZE % U32),
              Event.generic_command DWC3_DGCMD_SET_SCRATCHPAD_ADDR_LO
                (lower_32_bits (env.dma_map_single_ret s.trace)),
              Event.dma_unmap_single (env.dma_map_single_ret s.trace)
                (s.dwc.nr_scratch * DWC3_SCRATCHBUF_SIZE % U32)]
          else if env.generic_command_ret
              (s.trace ++ [Event.dma_map_single (s.dwc.nr_scratch * DWC3_SCRATCHBUF_SIZE % U32),
                Event.generic_command DWC3_DGCMD_SET_SCRATCHPAD_ADDR_LO
                  (lower_32_bits (env.dma_map_single_ret s.trace))])
              DWC3_DGCMD_SET_SCRATCHPAD_ADDR_HI
              (upper_32_bits (env.dma_map_single_ret s.trace)) < 0 then
            [Event.dma_map_single (s.dwc.nr_scratch * DWC3_SCRATCHBUF_SIZE % U32),
              Event.generic_command DWC3_DGCMD_SET_SCRATCHPAD_ADDR_LO
                (lower_32_bits (env.dma_map_single_ret s.trace)),
              Event.generic_command DWC3_DGCMD_SET_SCRATCHPAD_ADDR_HI
                (upper_32_bits (env.dma_map_single_ret s.trace)),
              Event.dma_unmap_single (env.dma_map_single_ret s.trace)
                (s.dwc.nr_scratch * DWC3_SCRATCHBUF_SIZE % U32)]
          else
            [Event.dma_map_single (s.dwc.nr_scratch * DWC3_SCRATCHBUF_SIZE % U32),
              Event.generic_command DWC3_DGCMD_SET_SCRATCHPAD_ADDR_LO
                (lower_32_bits (env.dma_map_single_ret s.trace)),
              Event.generic_command DWC3_DGCMD_SET_SCRATCHPAD_ADDR_HI
                (upper_32_bits (env.dma_map_single_ret s.trace))]) ∧
      (s.dwc.nr_scratch < 2 ^ 20 →
        s.dwc.nr_scratch * DWC3_SCRATCHBUF_SIZE % U32 =
          s.dwc.nr_scratch * DWC3_SCRATCHBUF_SIZE) := by
  refine and_assoc.mp ⟨?_, scratch_size_small s.dwc.nr_scratch⟩
  unfold dwc3_setup_scratch_buffers dwc3_send_gadget_generic_command
  simp only [hhib, hbuf, not_true_eq_false, if_false, if_neg hnr]
  by_cases hm : env.dma_mapping_error (env.dma_map_single_ret s.trace) = true
  · simp only [if_pos hm, emit_trace, and_self]
  · simp only [if_neg hm, emit_trace, emit_dwc, List.append_assoc, List.singleton_append,
      List.cons_append, List.nil_append]
    by_cases h1 : env.generic_command_ret
        (s.trace ++ [Event.dma_map_single (s.dwc.nr_scratch * DWC3_SCRATCHBUF_SIZE % U32)])
        DWC3_DGCMD_SET_SCRATCHPAD_ADDR_LO
        (lower_32_bits (env.dma_map_single_ret s.trace)) < 0
    · simp only [if_pos h1, emit_trace, List.append_assoc, List.singleton_append,
        List.cons_append, List.nil_append, and_self]
    · simp only [if_neg h1]
      by_cases h2 : env.generic_command_ret
          (s.trace ++ [Event.dma_map_single (s.dwc.nr_scratch * DWC3_SCRATCHBUF_SIZE % U32),
            Event.generic_command DWC3_DGCMD_SET_SCRATCHPAD_ADDR_LO
              (lower_32_bits (env.dma_map_single_ret s.trace))])
          DWC3_DGCMD_SET_SCRATCHPAD_ADDR_HI
          (upper_32_bits (env.dma_map_single_ret s.trace)) < 0
      · simp only [if_pos h2, emit_trace, List.append_assoc, List.singleton_append,
          List.cons_append, List.nil_append, and_self]
      · simp only [if_neg h2, emit_trace, List.append_assoc, List.singleton_append,
          List.cons_append, List.nil_append, and_self]


/-- C16, with a failing address-low command: its error is returned, the
address-high command is not sent, and the 4 * 4096 mapped bytes are unmapped. -/
theorem dwc3_setup_scratch_buffers_cases_witness :
    (dwc3_setup_scratch_buffers env_lo_fails world_scratch).1 = -ETIMEDOUT ∧
      (dwc3_setup_scratch_buffers env_lo_fails world_scratch).2.trace =
        [Event.dma_map_single (4 * DWC3_SCRATCHBUF_SIZE),
          Event.generic_command DWC3_DGCMD_SET_SCRATCHPAD_ADDR_LO 0x1000,
          Event.dma_unmap_single 0x1000 (4 * DWC3_SCRATCHBUF_SIZE)] :=
  have h := dwc3_setup_scratch_buffers_cases env_lo_fails world_scratch rfl (by decide) rfl
  ⟨h.1.trans (by decide), h.2.1.trans (by decide)⟩

/-! ## C20: runtime suspend -/

theorem runtime_checks_busy (d : dwc3) :
    dwc3_runtime_checks d ≠ 0 ↔
      ((d.dr_mode = USB_DR_MODE_PERIPHERAL ∨ d.dr_mode = USB_DR_MODE_OTG) ∧ d.connected = true) := by
  unfold dwc3_runtime_checks
  cases hm : d.dr_mode <;> cases hc : d.connected <;> simp [EBUSY]

theorem suspend_common_ret (env : Env) (s : World) : (dwc3_suspend_common env s).1 = 0 := rfl

/-- The result of `dwc3_runtime_suspend` when no notifier is registered. -/
theorem runtime_suspend_eq (env : Env) (s : World) (hn : s.notify_event = none) :
    dwc3_runtime_suspend env s =
      if (s.dwc.dr_mode = USB_DR_MODE_PERIPHERAL ∨ s.dwc.dr_mode = USB_DR_MODE_OTG) ∧
          s.dwc.connected = true then (-EBUSY, s)
      else (0, emit (dwc3_suspend_common env s).2 (Event.device_init_wakeup true)) := by
  have hnot : dwc3_notify_event s NotifyEvent.DWC3_CORE_PM_SUSPEND_EVENT 0 = (-ENODEV, s) := by
    unfold dwc3_notify_event; rw [hn]
  unfold dwc3_runtime_suspend
  simp only [hnot]
  rw [if_neg (by decide)]
  by_cases hb : (s.dwc.dr_mode = USB_DR_MODE_PERIPHERAL ∨ s.dwc.dr_mode = USB_DR_MODE_OTG) ∧
      s.dwc.connected = true
  · rw [if_pos ((runtime_checks_busy s.dwc).mpr hb), if_pos hb]
  · rw [if_neg (fun h => hb ((runtime_checks_busy s.dwc).mp h)), if_neg hb]
    rw [if_neg (not_not.mpr (suspend_common_ret env s))]

/-- C20: when no notifier is registered, `dwc3_runtime_suspend` returns
`-EBUSY` if and only if the role `dr_mode` is Peripheral or OTG and `connected`
is true, and it then leaves the state untouched (no gadget suspend, no
`dwc3_core_exit`, no wakeup enable: the trace is unchanged); in every other
case it returns 0 after `dwc3_suspend_common` and `device_init_wakeup(true)`;
in Host role it never returns `-EBUSY`. -/
theorem dwc3_runtime_suspend_busy (env : Env) (s : World) (hn : s.notify_event = none) :
    ((dwc3_runtime_suspend env s).1 = -EBUSY ↔
        ((s.dwc.dr_mode = USB_DR_MODE_PERIPHERAL ∨ s.dwc.dr_mode = USB_DR_MODE_OTG) ∧
          s.dwc.connected = true)) ∧
      dwc3_runtime_suspend env s =
        (if (s.dwc.dr_mode = USB_DR_MODE_PERIPHERAL ∨ s.dwc.dr_mode = USB_DR_MODE_OTG) ∧
            s.dwc.connected = true then (-EBUSY, s)
          else (0, emit (dwc3_suspend_common env s).2 (Event.device_init_wakeup true))) ∧
      (s.dwc.dr_mode = USB_DR_MODE_HOST → (dwc3_runtime_suspend env s).1 ≠ -EBUSY) := by
  have h := runtime_suspend_eq env s hn
  refine ⟨?_, h, ?_⟩
  · rw [h]
    by_cases hb : (s.dwc.dr_mode = USB_DR_MODE_PERIPHERAL ∨ s.dwc.dr_mode = USB_DR_MODE_OTG) ∧
        s.dwc.connected = true
    · rw [if_pos hb]; exact ⟨fun _ => hb, fun _ => rfl⟩
    · rw [if_neg hb]
      have hz : (0 : Int) ≠ -EBUSY := by decide
      exact ⟨fun h0 => absurd h0 hz, fun h0 => absurd h0 hb⟩
  · intro hh
    have hz : (0 : Int) ≠ -EBUSY := by decide
    rw [h, if_neg (by rw [hh]; simp)]
    exact hz

/-- C20, at the scenario of the specification: role Peripheral, connected, no
notifier: the call returns `-EBUSY` and the state is untouched. -/
theorem dwc3_runtime_suspend_busy_witness :
    dwc3_runtime_suspend env_quiet (world_connected USB_DR_MODE_PERIPHERAL true) =
      (-EBUSY, world_connected USB_DR_MODE_PERIPHERAL true) :=
  (dwc3_runtime_suspend_busy env_quiet (world_connected USB_DR_MODE_PERIPHERAL true) rfl).2.1.trans
    (if_pos (by decide))

/-! ## C19: the PHY lookup -/

theorem phy_of_set_phy (d : dwc3) (p q : PhyName) (v : phy_ptr) :
    phy_of (set_phy d p v) q = if q = p then v else phy_of d q := by
  cases p <;> cases q <;> rfl

theorem check_phy_trace (s : World) (p : PhyName) (a : Int) :
    (check_phy s p a).2.trace = s.trace := by
  unfold check_phy
  split
  · split <;> rfl
  · rfl

theorem check_phy_fst (s : World) (p : PhyName) (a : Int) (rest : List (phy_ptr × Int)) :
    first_lookup_error ((phy_of s.dwc p, a) :: rest) =
      match (check_phy s p a).1 with
      | some e => e
      | none => first_lookup_error rest := by
  unfold check_phy
  cases h : phy_of s.dwc p with
  | null => rfl
  | valid => rfl
  | err e =>
    simp only [first_lookup_error]
    split <;> rfl

theorem check_phy_none_iff (s : World) (p : PhyName) (a : Int) :
    (check_phy s p a).1 = none ↔ lookup_resolved a (phy_of s.dwc p) := by
  unfold check_phy lookup_resolved
  cases h : phy_of s.dwc p with
  | null => simp
  | valid => simp
  | err e =>
    simp only
    split <;> simp [*]

theorem check_phy_some (s : World) (p : PhyName) (a e : Int)
    (h : (check_phy s p a).1 = some e) : phy_of s.dwc p = phy_ptr.err e := by
  unfold check_phy at h
  cases h2 : phy_of s.dwc p with
  | null => rw [h2] at h; cases h
  | valid => rw [h2] at h; cases h
  | err e2 =>
    rw [h2] at h
    simp only at h
    split at h
    · cases h
    · cases h; rfl

theorem check_phy_handle (s : World) (p q : PhyName) (a : Int)
    (h : (check_phy s p a).1 = none) :
    phy_of (check_phy s p a).2.dwc q =
      if q = p then resolved_handle (phy_of s.dwc p) else phy_of s.dwc q := by
  unfold check_phy at h ⊢
  cases h2 : phy_of s.dwc p with
  | null =>
    simp only [resolved_handle]
    split
    · rename_i hq; rw [hq, h2]
    · rfl
  | valid =>
    simp only [resolved_handle]
    split
    · rename_i hq; rw [hq, h2]
    · rfl
  | err e =>
    rw [h2] at h
    simp only at h ⊢
    split at h
    · rename_i hc
      rw [if_pos hc]
      simp only [phy_of_set_phy, resolved_handle]
    · cases h

theorem lookup_phy_trace (env : Env) (s : World) (p : PhyName) :
    (lookup_phy env s p).trace = s.trace ++ [Event.get_phy p] := rfl

theorem lookup_phy_handle (env : Env) (s : World) (p q : PhyName) :
    phy_of (lookup_phy env s p).dwc q =
      if q = p then env.get_phy_ret s.trace p else phy_of s.dwc q := by
  unfold lookup_phy
  exact phy_of_set_phy _ _ _ _

theorem get_phy_unfold (env : Env) (s : World) :
    dwc3_core_get_phy env s =
      (let s1 := get_phy_lookups env s
      let c1 := check_phy s1 PhyName.usb2_phy (- ENXIO)
      match c1.1 with
      | some ret => (ret, c1.2)
      | none =>
      let c2 := check_phy c1.2 PhyName.usb3_phy (- ENXIO)
      match c2.1 with
      | some ret => (ret, c2.2)
      | none =>
      let c3 := if s.dwc.dual_port then check_phy c2.2 PhyName.usb2_phy1 (- ENXIO) else (none, c2.2)
      match c3.1 with
      | some ret => (ret, c3.2)
      | none =>
      let c4 := if s.dwc.dual_port then check_phy c3.2 PhyName.usb3_phy1 (- ENXIO) else (none, c3.2)
      match c4.1 with
      | some ret => (ret, c4.2)
      | none =>
      let c5 := check_phy (lookup_phy env c4.2 PhyName.usb2_generic_phy)
        PhyName.usb2_generic_phy (-ENOSYS)
      match c5.1 with
      | some ret => (ret, c5.2)
      | none =>
      let c6 := check_phy (lookup_phy env c5.2 PhyName.usb3_generic_phy)
        PhyName.usb3_generic_phy (-ENOSYS)
      match c6.1 with
      | some ret => (ret, c6.2)
      | none => (0, c6.2)) := rfl

theorem get_phy_fst (env : Env) (s : World) :
    (dwc3_core_get_phy env s).1 = first_lookup_error (get_phy_checks env s) := by
  rw [get_phy_unfold]
  unfold get_phy_checks
  generalize get_phy_lookups env s = L
  simp only []
  rw [show L.dwc.usb2_phy = phy_of L.dwc PhyName.usb2_phy from rfl,
    show L.dwc.usb3_phy = phy_of L.dwc PhyName.usb3_phy from rfl,
    show L.dwc.usb2_phy1 = phy_of L.dwc PhyName.usb2_phy1 from rfl,
    show L.dwc.usb3_phy1 = phy_of L.dwc PhyName.usb3_phy1 from rfl]
  simp only [List.cons_append, List.nil_append]
  rw [check_phy_fst]
  cases h1 : (check_phy L PhyName.usb2_phy (- ENXIO)).1 with
  | some e => rfl
  | none =>
    simp only []
    have t1 := check_phy_trace L PhyName.usb2_phy (- ENXIO)
    have f1 := fun q => check_phy_handle L PhyName.usb2_phy q (- ENXIO) h1
    generalize (check_phy L PhyName.usb2_phy (- ENXIO)).2 = w1 at t1 f1 ⊢
    rw [show phy_of L.dwc PhyName.usb3_phy = phy_of w1.dwc PhyName.usb3_phy from by
      rw [f1, if_neg (by decide)], check_phy_fst]
    cases h2 : (check_phy w1 PhyName.usb3_phy (- ENXIO)).1 with
    | some e => rfl
    | none =>
      simp only []
      have t2 := check_phy_trace w1 PhyName.usb3_phy (- ENXIO)
      have f2 := fun q => check_phy_handle w1 PhyName.usb3_phy q (- ENXIO) h2
      generalize (check_phy w1 PhyName.usb3_phy (- ENXIO)).2 = w2 at t2 f2 ⊢
      have tail : ∀ w4 : World, w4.trace = L.trace →
          (match (check_phy (lookup_phy env w4 PhyName.usb2_generic_phy)
              PhyName.usb2_generic_phy (-ENOSYS)).1 with
            | some ret => (ret, (check_phy (lookup_phy env w4 PhyName.usb2_generic_phy)
                PhyName.usb2_generic_phy (-ENOSYS)).2)
            | none =>
              match (check_phy (lookup_phy env (check_phy (lookup_phy env w4
                  PhyName.usb2_generic_phy) PhyName.usb2_generic_phy (-ENOSYS)).2
                  PhyName.usb3_generic_phy) PhyName.usb3_generic_phy (-ENOSYS)).1 with
              | some ret => (ret, (check_phy (lookup_phy env (check_phy (lookup_phy env w4
                  PhyName.usb2_generic_phy) PhyName.usb2_generic_phy (-ENOSYS)).2
                  PhyName.usb3_generic_phy) PhyName.usb3_generic_phy (-ENOSYS)).2)
              | none => (0, (check_phy (lookup_phy env (check_phy (lookup_phy env w4
                  PhyName.usb2_generic_phy) PhyName.usb2_generic_phy (-ENOSYS)).2
                  PhyName.usb3_generic_phy) PhyName.usb3_generic_phy (-ENOSYS)).2)).1 =
          first_lookup_error
            [(env.get_phy_ret L.trace PhyName.usb2_generic_phy, -ENOSYS),
              (env.get_phy_ret (L.trace ++ [Event.get_phy PhyName.usb2_generic_phy])
                PhyName.usb3_generic_phy, -ENOSYS)] := by
        intro w4 t4
        rw [show env.get_phy_ret L.trace PhyName.usb2_generic_phy =
            phy_of (lookup_phy env w4 PhyName.usb2_generic_phy).dwc PhyName.usb2_generic_phy from by
          rw [lookup_phy_handle, if_pos rfl, t4], check_phy_fst]
        have t5 := check_phy_trace (lookup_phy env w4 PhyName.usb2_generic_phy)
          PhyName.usb2_generic_phy (-ENOSYS)
        rw [lookup_phy_trace, t4] at t5
        cases h5 : (check_phy (lookup_phy env w4 PhyName.usb2_generic_phy)
            PhyName.usb2_generic_phy (-ENOSYS)).1 with
        | some e => rfl
        | none =>
          simp only []
          generalize (check_phy (lookup_phy env w4 PhyName.usb2_generic_phy)
            PhyName.usb2_generic_phy (-ENOSYS)).2 = w5 at t5 ⊢
          rw [show env.get_phy_ret (L.trace ++ [Event.get_phy PhyName.usb2_generic_phy])
              PhyName.usb3_generic_phy =
              phy_of (lookup_phy env w5 PhyName.usb3_generic_phy).dwc PhyName.usb3_generic_phy from by
            rw [lookup_phy_handle, if_pos rfl, t5], check_phy_fst]
          cases h6 : (check_phy (lookup_phy env w5 PhyName.usb3_generic_phy)
              PhyName.usb3_generic_phy (-ENOSYS)).1 with
          | some e => rfl
          | none => rfl
      by_cases hd : s.dwc.dual_port = true
      · simp only [if_pos hd, List.cons_append, List.nil_append]
        rw [show phy_of L.dwc PhyName.usb2_phy1 = phy_of w2.dwc PhyName.usb2_phy1 from by
          rw [f2, if_neg (by decide), f1, if_neg (by decide)], check_phy_fst]
        cases h3 : (check_phy w2 PhyName.usb2_phy1 (- ENXIO)).1 with
        | some e => rfl
        | none =>
          simp only []
          have t3 := check_phy_trace w2 PhyName.usb2_phy1 (- ENXIO)
          have f3 := fun q => check_phy_handle w2 PhyName.usb2_phy1 q (- ENXIO) h3
          generalize (check_phy w2 PhyName.usb2_phy1 (- ENXIO)).2 = w3 at t3 f3 ⊢
          rw [show phy_of L.dwc PhyName.usb3_phy1 = phy_of w3.dwc PhyName.usb3_phy1 from by
            rw [f3, if_neg (by decide), f2, if_neg (by decide), f1, if_neg (by decide)],
            check_phy_fst]
          cases h4 : (check_phy w3 PhyName.usb3_phy1 (- ENXIO)).1 with
          | some e => rfl
          | none =>
            simp only []
            exact tail _ (by rw [check_phy_trace, t3, t2, t1])
      · simp only [if_neg hd, List.nil_append]
        exact tail _ (by rw [t2, t1])

theorem get_phy_handle_of (env : Env) (s : World)
    (hall : ∀ x ∈ get_phy_checks env s, lookup_resolved x.2 x.1) (q : PhyName) :
    phy_of (dwc3_core_get_phy env s).2.dwc q =
      match q with
      | PhyName.usb2_phy => resolved_handle (get_phy_lookups env s).dwc.usb2_phy
      | PhyName.usb3_phy => resolved_handle (get_phy_lookups env s).dwc.usb3_phy
      | PhyName.usb2_phy1 =>
        if s.dwc.dual_port = true then resolved_handle (get_phy_lookups env s).dwc.usb2_phy1
        else (get_phy_lookups env s).dwc.usb2_phy1
      | PhyName.usb3_phy1 =>
        if s.dwc.dual_port = true then resolved_handle (get_phy_lookups env s).dwc.usb3_phy1
        else (get_phy_lookups env s).dwc.usb3_phy1
      | PhyName.usb2_generic_phy =>
        resolved_handle (env.get_phy_ret (get_phy_lookups env s).trace PhyName.usb2_generic_phy)
      | PhyName.usb3_generic_phy =>
        resolved_handle (env.get_phy_ret ((get_phy_lookups env s).trace ++
          [Event.get_phy PhyName.usb2_generic_phy]) PhyName.usb3_generic_phy) := by
  have r1 : lookup_resolved (- ENXIO) (get_phy_lookups env s).dwc.usb2_phy :=
    hall (_, _) (by unfold get_phy_checks; simp)
  have r2 : lookup_resolved (- ENXIO) (get_phy_lookups env s).dwc.usb3_phy :=
    hall (_, _) (by unfold get_phy_checks; simp)
  have r3 : s.dwc.dual_port = true →
      lookup_resolved (- ENXIO) (get_phy_lookups env s).dwc.usb2_phy1 :=
    fun hd => hall (_, _) (by unfold get_phy_checks; simp [hd])
  have r4 : s.dwc.dual_port = true →
      lookup_resolved (- ENXIO) (get_phy_lookups env s).dwc.usb3_phy1 :=
    fun hd => hall (_, _) (by unfold get_phy_checks; simp [hd])
  have r5 : lookup_resolved (-ENOSYS) (env.get_phy_ret (get_phy_lookups env s).trace
      PhyName.usb2_generic_phy) :=
    hall (_, _) (by unfold get_phy_checks; simp)
  have r6 : lookup_resolved (-ENOSYS) (env.get_phy_ret ((get_phy_lookups env s).trace ++
      [Event.get_phy PhyName.usb2_generic_phy]) PhyName.usb3_generic_phy) :=
    hall (_, _) (by unfold get_phy_checks; simp)
  clear hall
  rw [get_phy_unfold]
  generalize get_phy_lookups env s = L at r1 r2 r3 r4 r5 r6 ⊢
  simp only []
  have h1 := (check_phy_none_iff L PhyName.usb2_phy (- ENXIO)).2 r1
  have t1 := check_phy_trace L PhyName.usb2_phy (- ENXIO)
  have f1 := fun q => check_phy_handle L PhyName.usb2_phy q (- ENXIO) h1
  rw [h1]
  simp only []
  generalize (check_phy L PhyName.usb2_phy (- ENXIO)).2 = w1 at t1 f1 ⊢
  have h2 := (check_phy_none_iff w1 PhyName.usb3_phy (- ENXIO)).2
    (by rw [f1, if_neg (by decide)]; exact r2)
  have t2 := check_phy_trace w1 PhyName.usb3_phy (- ENXIO)
  have f2 := fun q => check_phy_handle w1 PhyName.usb3_phy q (- ENXIO) h2
  rw [h2]
  simp only []
  generalize (check_phy w1 PhyName.usb3_phy (- ENXIO)).2 = w2 at t2 f2 ⊢
  have tail : ∀ w4 : World, w4.trace = L.trace →
      (match (check_phy (lookup_phy env w4 PhyName.usb2_generic_phy)
          PhyName.usb2_generic_phy (-ENOSYS)).1 with
        | some ret => (ret, (check_phy (lookup_phy env w4 PhyName.usb2_generic_phy)
            PhyName.usb2_generic_phy (-ENOSYS)).2)
        | none =>
          match (check_phy (lookup_phy env (check_phy (lookup_phy env w4
              PhyName.usb2_generic_phy) PhyName.usb2_generic_phy (-ENOSYS)).2
              PhyName.usb3_generic_phy) PhyName.usb3_generic_phy (-ENOSYS)).1 with
          | some ret => (ret, (check_phy (lookup_phy env (check_phy (lookup_phy env w4
              PhyName.usb2_generic_phy) PhyName.usb2_generic_phy (-ENOSYS)).2
              PhyName.usb3_generic_phy) PhyName.usb3_generic_phy (-ENOSYS)).2)
          | none => ((0 : Int), (check_phy (lookup_phy env (check_phy (lookup_phy env w4
              PhyName.usb2_generic_phy) PhyName.usb2_generic_phy (-ENOSYS)).2
              PhyName.usb3_generic_phy) PhyName.usb3_generic_phy (-ENOSYS)).2)) =
        (0, (check_phy (lookup_phy env (check_phy (lookup_phy env w4
              PhyName.usb2_generic_phy) PhyName.usb2_generic_phy (-ENOSYS)).2
              PhyName.usb3_generic_phy) PhyName.usb3_generic_phy (-ENOSYS)).2) ∧
      ∀ q, phy_of (check_phy (lookup_phy env (check_phy (lookup_phy env w4
              PhyName.usb2_generic_phy) PhyName.usb2_generic_phy (-ENOSYS)).2
              PhyName.usb3_generic_phy) PhyName.usb3_generic_phy (-ENOSYS)).2.dwc q =
        if q = PhyName.usb3_generic_phy then
          resolved_handle (env.get_phy_ret (L.trace ++ [Event.get_phy PhyName.usb2_generic_phy])
            PhyName.usb3_generic_phy)
        else if q = PhyName.usb2_generic_phy then
          resolved_handle (env.get_phy_ret L.trace PhyName.usb2_generic_phy)
        else phy_of w4.dwc q := by
    intro w4 t4
    have g5 := lookup_phy_handle env w4 PhyName.usb2_generic_phy
    have h5 := (check_phy_none_iff (lookup_phy env w4 PhyName.usb2_generic_phy)
      PhyName.usb2_generic_phy (-ENOSYS)).2 (by rw [g5, if_pos rfl, t4]; exact r5)
    have t5 := check_phy_trace (lookup_phy env w4 PhyName.usb2_generic_phy)
      PhyName.usb2_generic_phy (-ENOSYS)
    rw [lookup_phy_trace, t4] at t5
    have f5 := fun q => check_phy_handle (lookup_phy env w4 PhyName.usb2_generic_phy)
      PhyName.usb2_generic_phy q (-ENOSYS) h5
    rw [h5]
    simp only []
    generalize (check_phy (lookup_phy env w4 PhyName.usb2_generic_phy)
      PhyName.usb2_generic_phy (-ENOSYS)).2 = w5 at t5 f5 ⊢
    have g6 := lookup_phy_handle env w5 PhyName.usb3_generic_phy
    have h6 := (check_phy_none_iff (lookup_phy env w5 PhyName.usb3_generic_phy)
      PhyName.usb3_generic_phy (-ENOSYS)).2 (by rw [g6, if_pos rfl, t5]; exact r6)
    have f6 := fun q => check_phy_handle (lookup_phy env w5 PhyName.usb3_generic_phy)
      PhyName.usb3_generic_phy q (-ENOSYS) h6
    rw [h6]
    refine ⟨rfl, ?_⟩
    intro q
    cases q <;> simp [f6, g6, f5, g5, t5, t4]
  by_cases hd : s.dwc.dual_port = true
  · simp only [if_pos hd]
    have h3 := (check_phy_none_iff w2 PhyName.usb2_phy1 (- ENXIO)).2
      (by rw [f2, if_neg (by decide), f1, if_neg (by decide)]; exact r3 hd)
    have t3 := check_phy_trace w2 PhyName.usb2_phy1 (- ENXIO)
    have f3 := fun q => check_phy_handle w2 PhyName.usb2_phy1 q (- ENXIO) h3
    rw [h3]
    simp only []
    generalize (check_phy w2 PhyName.usb2_phy1 (- ENXIO)).2 = w3 at t3 f3 ⊢
    have h4 := (check_phy_none_iff w3 PhyName.usb3_phy1 (- ENXIO)).2
      (by rw [f3, if_neg (by decide), f2, if_neg (by decide), f1, if_neg (by decide)];
          exact r4 hd)
    have t4 := check_phy_trace w3 PhyName.usb3_phy1 (- ENXIO)
    have f4 := fun q => check_phy_handle w3 PhyName.usb3_phy1 q (- ENXIO) h4
    rw [h4]
    simp only []
    generalize (check_phy w3 PhyName.usb3_phy1 (- ENXIO)).2 = w4 at t4 f4 ⊢
    obtain ⟨e, fq⟩ := tail w4 (by rw [t4, t3, t2, t1])
    rw [e]
    cases q <;> simp [fq, f4, f3, f2, f1, hd] <;> rfl
  · simp only [if_neg hd]
    obtain ⟨e, fq⟩ := tail w2 (by rw [t2, t1])
    rw [e]
    cases q <;> simp [fq, f2, f1, hd] <;> rfl

theorem first_lookup_error_zero (l : List (phy_ptr × Int))
    (hneg : ∀ x ∈ l, is_lookup_result x.1) :
    first_lookup_error l = 0 ↔ ∀ x ∈ l, lookup_resolved x.2 x.1 := by
  induction l with
  | nil => simp [first_lookup_error]
  | cons x rest ih =>
    have ih2 := ih (fun y hy => hneg y (List.mem_cons_of_mem _ hy))
    have hx := hneg x (List.mem_cons_self _ _)
    obtain ⟨v, a⟩ := x
    cases v with
    | null => simp [first_lookup_error, lookup_resolved, ih2]
    | valid => simp [first_lookup_error, lookup_resolved, ih2]
    | err e =>
      simp only [first_lookup_error, List.forall_mem_cons, lookup_resolved]
      simp only [is_lookup_result] at hx
      split
      · rename_i hc
        rw [ih2]
        exact ⟨fun h => ⟨hc, h⟩, fun h => h.2⟩
      · rename_i hc
        constructor
        · intro h0; omega
        · intro h; exact absurd h.1 hc

theorem first_lookup_error_first (l : List (phy_ptr × Int)) (h : first_lookup_error l ≠ 0) :
    ∃ pre x post, l = pre ++ x :: post ∧ (∀ y ∈ pre, lookup_resolved y.2 y.1) ∧
      ¬ lookup_resolved x.2 x.1 ∧ x.1 = phy_ptr.err (first_lookup_error l) := by
  induction l with
  | nil => exact absurd rfl h
  | cons x rest ih =>
    obtain ⟨v, a⟩ := x
    have skip : first_lookup_error ((v, a) :: rest) = first_lookup_error rest →
        lookup_resolved a v →
        ∃ pre x post, (v, a) :: rest = pre ++ x :: post ∧
          (∀ y ∈ pre, lookup_resolved y.2 y.1) ∧ ¬ lookup_resolved x.2 x.1 ∧
          x.1 = phy_ptr.err (first_lookup_error ((v, a) :: rest)) := by
      intro he hr
      rw [he] at h ⊢
      obtain ⟨pre, x, post, e1, e2, e3, e4⟩ := ih h
      refine ⟨(v, a) :: pre, x, post, by rw [e1]; rfl, ?_, e3, e4⟩
      intro y hy
      rcases List.mem_cons.1 hy with rfl | hy
      · exact hr
      · exact e2 y hy
    cases v with
    | null => exact skip rfl trivial
    | valid => exact skip rfl trivial
    | err e =>
      by_cases hc : e = a ∨ e = -ENODEV
      · exact skip (by simp only [first_lookup_error, if_pos hc]) hc
      · refine ⟨[], (phy_ptr.err e, a), rest, rfl, fun _ hy => absurd hy (List.not_mem_nil _),
          hc, ?_⟩
        simp only [first_lookup_error, if_neg hc]

theorem core_init_at_phys (env : Env) (s t : World) (h : core_init_before_phys env s = some t) :
    dwc3_core_init env s = dwc3_core_init_phys env t := by
  unfold core_init_before_phys at h
  unfold dwc3_core_init
  simp only [] at h ⊢
  split at h
  · cases h
  · rename_i h1
    rw [if_neg h1]
    split at h
    · cases h
    · rename_i h2
      rw [if_neg h2]
      split at h
      · cases h
      · rename_i h3
        rw [if_neg h3]
        split at h
        · rename_i h4
          rw [if_pos h4]
          split at h
          · cases h
          · rename_i h5
            rw [if_neg h5]
            cases h
            rfl
        · rename_i h4
          rw [if_neg h4]
          cases h
          rfl

theorem core_init_phys_get_phy (env : Env) (s : World) (hr : s.dwc.phys_ready = false)
    (h : (dwc3_core_get_phy env s).1 ≠ 0) :
    (dwc3_core_init_phys env s).1 = (dwc3_core_get_phy env s).1 := by
  unfold dwc3_core_init_phys
  simp only [hr, Bool.false_eq_true, not_false_eq_true, if_true]
  rw [if_pos h]
  rfl

/-- C19: when every lookup result is `NULL`, a live handle or an `ERR_PTR` of
a negative errno, `dwc3_core_get_phy` returns 0 if and only if every lookup it
checks resolves (the handle is present, or the error is `-ENXIO` or `-ENODEV`
for a legacy PHY, `-ENOSYS` or `-ENODEV` for a generic PHY), and then every
checked handle holds the lookup result with an intentionally absent one stored
as `NULL`; otherwise it returns the error of the first lookup that does not
resolve, in the order usb2, usb3, second usb2, second usb3 (these two only when
`dual_port`), generic usb2, generic usb3; and a `dwc3_core_init` that reaches
the lookup with `phys_ready` clear returns that error (`-EPROBE_DEFER`
included) unchanged. -/
theorem dwc3_core_get_phy_result (env : Env) (s : World)
    (hres : ∀ x ∈ get_phy_checks env s, is_lookup_result x.1) :
    ((dwc3_core_get_phy env s).1 = 0 ↔
        ∀ x ∈ get_phy_checks env s, lookup_resolved x.2 x.1) ∧
      ((dwc3_core_get_phy env s).1 = 0 →
        (dwc3_core_get_phy env s).2.dwc.usb2_phy =
            resolved_handle (get_phy_lookups env s).dwc.usb2_phy ∧
          (dwc3_core_get_phy env s).2.dwc.usb3_phy =
            resolved_handle (get_phy_lookups env s).dwc.usb3_phy ∧
          (s.dwc.dual_port = true →
            (dwc3_core_get_phy env s).2.dwc.usb2_phy1 =
                resolved_handle (get_phy_lookups env s).dwc.usb2_phy1 ∧
              (dwc3_core_get_phy env s).2.dwc.usb3_phy1 =
                resolved_handle (get_phy_lookups env s).dwc.usb3_phy1) ∧
          (dwc3_core_get_phy env s).2.dwc.usb2_generic_phy =
            resolved_handle (env.get_phy_ret (get_phy_lookups env s).trace
              PhyName.usb2_generic_phy) ∧
          (dwc3_core_get_phy env s).2.dwc.usb3_generic_phy =
            resolved_handle (env.get_phy_ret ((get_phy_lookups env s).trace ++
              [Event.get_phy PhyName.usb2_generic_phy]) PhyName.usb3_generic_phy)) ∧
      ((dwc3_core_get_phy env s).1 ≠ 0 →
        ∃ pre x post, get_phy_checks env s = pre ++ x :: post ∧
          (∀ y ∈ pre, lookup_resolved y.2 y.1) ∧ ¬ lookup_resolved x.2 x.1 ∧
          x.1 = phy_ptr.err (dwc3_core_get_phy env s).1) ∧
      (∀ s0, core_init_before_phys env s0 = some s → s.dwc.phys_ready = false →
        (dwc3_core_get_phy env s).1 ≠ 0 →
        (dwc3_core_init env s0).1 = (dwc3_core_get_phy env s).1) := by
  have hz := first_lookup_error_zero (get_phy_checks env s) hres
  rw [← get_phy_fst] at hz
  refine ⟨hz, ?_, ?_, ?_⟩
  · intro h0
    have hq := get_phy_handle_of env s (hz.1 h0)
    have hd := hq PhyName.usb2_phy1
    have hd2 := hq PhyName.usb3_phy1
    refine ⟨hq PhyName.usb2_phy, hq PhyName.usb3_phy, fun hp => ⟨?_, ?_⟩,
      hq PhyName.usb2_generic_phy, hq PhyName.usb3_generic_phy⟩
    · simp only [if_pos hp] at hd; exact hd
    · simp only [if_pos hp] at hd2; exact hd2
  · intro hne
    rw [get_phy_fst] at hne ⊢
    exact first_lookup_error_first _ hne
  · intro s0 hs0 hr hne
    rw [core_init_at_phys env s0 s hs0]
    exact core_init_phys_get_phy env s hr hne

/-- C19, on a platform without legacy USB3 PHY (`-ENODEV`) whose USB3 generic
PHY is not ready yet: `dwc3_core_init` reaches the lookup, the lookup returns
`-EPROBE_DEFER`, and so does `dwc3_core_init`. -/
theorem dwc3_core_get_phy_result_witness :
    (core_init_before_phys env_defer world_gen1).isSome = true ∧
      (∀ x ∈ get_phy_checks env_defer
          ((core_init_before_phys env_defer world_gen1).getD {}),
        is_lookup_result x.1) ∧
      (dwc3_core_get_phy env_defer
        ((core_init_before_phys env_defer world_gen1).getD {})).1 = -EPROBE_DEFER ∧
      (dwc3_core_init env_defer world_gen1).1 = -EPROBE_DEFER :=
  ⟨by decide, by decide, by decide,
    ((dwc3_core_get_phy_result env_defer
      ((core_init_before_phys env_defer world_gen1).getD {}) (by decide)).2.2.2
      world_gen1 rfl (by decide) (by decide)).trans (by decide)⟩

/-! ## C12: the event buffer on host-only hardware -/

/-- C12 (failing input): on host-only hardware (GHWPARAMS0 mode 1) with a
dual-role build, `dwc3_probe` succeeds and allocates the event buffer, because
the capability registers are not cached yet (`hwparams0` is still the 0 of the
zeroed allocation); the `dwc3_core_init` that follows succeeds, caches mode 1
(host-only), and the event buffer is still present. -/
theorem dwc3_probe_core_init_host_only_ev_buf :
    (dwc3_probe env_quiet world_host_hw 0).1 = 0 ∧
      DWC3_GHWPARAMS0_MODE (dwc3_probe env_quiet world_host_hw 0).2.dwc.hwparams.hwparams0 =
        DWC3_GHWPARAMS0_MODE_GADGET ∧
      (dwc3_probe env_quiet world_host_hw 0).2.dwc.ev_buf.isSome = true ∧
      (dwc3_core_init env_quiet (dwc3_probe env_quiet world_host_hw 0).2).1 = 0 ∧
      DWC3_GHWPARAMS0_MODE
        (dwc3_core_init env_quiet (dwc3_probe env_quiet world_host_hw 0).2).2.dwc.hwparams.hwparams0 =
        DWC3_GHWPARAMS0_MODE_HOST ∧
      (dwc3_core_init env_quiet (dwc3_probe env_quiet world_host_hw 0).2).2.dwc.ev_buf.isSome =
        true := by
  refine ⟨by decide, by decide, by decide, by decide, by decide, by decide⟩

/-! ## C15: the scratch buffer after probe and init -/

/-- C15 (failing input): hardware with the hibernation power option and 4
scratch buffers.  `dwc3_probe` zeroes the context, so its
`dwc3_alloc_scratch_buffers` sees `has_hibernation` clear and `nr_scratch` 0
and allocates nothing.  With `has_hibernation` set after the probe,
`dwc3_core_init` succeeds and reads `nr_scratch` = 4, but the scratch buffer is
not allocated, nothing is mapped and no scratchpad command is sent. -/
theorem dwc3_probe_core_init_no_scratch :
    (dwc3_probe env_quiet world_hib_hw 0).1 = 0 ∧
      (dwc3_probe env_quiet
        { world_hib_hw with dwc := { world_hib_hw.dwc with has_hibernation := true } }
        0).2.dwc.has_hibernation = false ∧
      (dwc3_core_init env_quiet world_probed_hib).1 = 0 ∧
      (dwc3_core_init env_quiet world_probed_hib).2.dwc.has_hibernation = true ∧
      (dwc3_core_init env_quiet world_probed_hib).2.dwc.nr_scratch = 4 ∧
      (dwc3_core_init env_quiet world_probed_hib).2.dwc.scratchbuf = false ∧
      ((dwc3_core_init env_quiet world_probed_hib).2.trace.any is_scratch_action) = false := by
  refine ⟨by decide, by decide, by decide, by decide, by decide, by decide, by decide⟩

/-! ## The cleanup labels of `dwc3_core_init` as traces -/

theorem usb_phy_set_suspend_trace (s : World) (p : PhyName) (v : Nat) :
    (usb_phy_set_suspend s p v).trace =
      s.trace ++ phy_events s.dwc p (Event.usb_phy_set_suspend p v) :=
  phy_call_void_trace _ _ _

theorem phy_power_off_trace (s : World) (p : PhyName) :
    (phy_power_off s p).trace = s.trace ++ phy_events s.dwc p (Event.phy_power_off p) :=
  phy_call_void_trace _ _ _

theorem free_scratch_buffers_trace (s : World) :
    (dwc3_free_scratch_buffers s).trace = s.trace ++ free_scratch_events s.dwc := by
  unfold dwc3_free_scratch_buffers free_scratch_events
  split
  · simp
  · split
    · simp
    · split
      · simp
      · simp

theorem core_init_err0a_ret (s : World) (ret : Int) : (dwc3_core_init_err0a s ret).1 = ret := rfl
theorem core_init_err1_ret (s : World) (ret : Int) : (dwc3_core_init_err1 s ret).1 = ret := rfl
theorem core_init_err2_ret (s : World) (ret : Int) : (dwc3_core_init_err2 s ret).1 = ret := rfl
theorem core_init_err3_ret (s : World) (ret : Int) : (dwc3_core_init_err3 s ret).1 = ret := rfl

theorem core_init_err0a_trace (s : World) (ret : Int) :
    (dwc3_core_init_err0a s ret).2.trace = s.trace ++ [Event.ulpi_exit] := rfl

theorem core_init_err1_trace (s : World) (ret : Int) :
    (dwc3_core_init_err1 s ret).2.trace = s.trace ++ err1_events s.dwc := by
  unfold dwc3_core_init_err1 err1_events
  simp only [core_init_err0a_trace, phy_exit_trace, usb_phy_shutdown_trace, phy_exit_dwc,
    usb_phy_shutdown_dwc, List.append_assoc]

theorem core_init_err2_trace (s : World) (ret : Int) :
    (dwc3_core_init_err2 s ret).2.trace = s.trace ++ err2_events s.dwc := by
  unfold dwc3_core_init_err2 err2_events
  simp only [core_init_err1_trace, free_scratch_buffers_trace, usb_phy_set_suspend_trace,
    free_scratch_buffers_dwc, usb_phy_set_suspend_dwc, List.append_assoc]

theorem core_init_err3_trace (s : World) (ret : Int) :
    (dwc3_core_init_err3 s ret).2.trace = s.trace ++ err3_events s.dwc := by
  unfold dwc3_core_init_err3 err3_events
  simp only [core_init_err2_trace, phy_power_off_trace, phy_power_off_dwc, List.append_assoc]

theorem power_on_failed (env : Env) (s5 : World) (f : InitFailure)
    (h : (if (phy_power_on env s5 PhyName.usb2_generic_phy).1 < 0 then
        some (InitFailure.mk InitStep.power_on_usb2
          (phy_power_on env s5 PhyName.usb2_generic_phy).1
          (phy_power_on env s5 PhyName.usb2_generic_phy).2)
      else if (phy_power_on env (phy_power_on env s5 PhyName.usb2_generic_phy).2
          PhyName.usb3_generic_phy).1 < 0 then
        some (InitFailure.mk InitStep.power_on_usb3
          (phy_power_on env (phy_power_on env s5 PhyName.usb2_generic_phy).2
            PhyName.usb3_generic_phy).1
          (phy_power_on env (phy_power_on env s5 PhyName.usb2_generic_phy).2
            PhyName.usb3_generic_phy).2)
      else none) = some f) :
    (if (phy_power_on env s5 PhyName.usb2_generic_phy).1 < 0 then
        dwc3_core_init_err2 (phy_power_on env s5 PhyName.usb2_generic_phy).2
          (phy_power_on env s5 PhyName.usb2_generic_phy).1
      else if (phy_power_on env (phy_power_on env s5 PhyName.usb2_generic_phy).2
          PhyName.usb3_generic_phy).1 < 0 then
        dwc3_core_init_err3
          (phy_power_on env (phy_power_on env s5 PhyName.usb2_generic_phy).2
            PhyName.usb3_generic_phy).2
          (phy_power_on env (phy_power_on env s5 PhyName.usb2_generic_phy).2
            PhyName.usb3_generic_phy).1
      else dwc3_core_init_workarounds env
        (phy_power_on env (phy_power_on env s5 PhyName.usb2_generic_phy).2
          PhyName.usb3_generic_phy).2).1 = f.code ∧
    (if (phy_power_on env s5 PhyName.usb2_generic_phy).1 < 0 then
        dwc3_core_init_err2 (phy_power_on env s5 PhyName.usb2_generic_phy).2
          (phy_power_on env s5 PhyName.usb2_generic_phy).1
      else if (phy_power_on env (phy_power_on env s5 PhyName.usb2_generic_phy).2
          PhyName.usb3_generic_phy).1 < 0 then
        dwc3_core_init_err3
          (phy_power_on env (phy_power_on env s5 PhyName.usb2_generic_phy).2
            PhyName.usb3_generic_phy).2
          (phy_power_on env (phy_power_on env s5 PhyName.usb2_generic_phy).2
            PhyName.usb3_generic_phy).1
      else dwc3_core_init_workarounds env
        (phy_power_on env (phy_power_on env s5 PhyName.usb2_generic_phy).2
          PhyName.usb3_generic_phy).2).2.trace =
      f.state.trace ++ cleanup_events f.state.dwc f.step ∧
    f.step ≠ InitStep.ulpi_init ∧ f.code ≠ 0 := by
  by_cases h3 : (phy_power_on env s5 PhyName.usb2_generic_phy).1 < 0
  · rw [if_pos h3] at h
    simp only [if_pos h3]
    cases h
    exact ⟨rfl, core_init_err2_trace _ _, fun hc => InitStep.noConfusion hc, Int.ne_of_lt h3⟩
  · rw [if_neg h3] at h
    simp only [if_neg h3]
    by_cases h4 : (phy_power_on env (phy_power_on env s5 PhyName.usb2_generic_phy).2
        PhyName.usb3_generic_phy).1 < 0
    · rw [if_pos h4] at h
      simp only [if_pos h4]
      cases h
      exact ⟨rfl, core_init_err3_trace _ _, fun hc => InitStep.noConfusion hc, Int.ne_of_lt h4⟩
    · rw [if_neg h4] at h
      cases h

/-- A failed step of `dwc3_core_init_reset`: the code returned is the code of
the step, and the trace is the trace up to the return of the step followed by
the cleanup of that step. -/
theorem core_init_reset_failed (env : Env) (s : World) (f : InitFailure)
    (h : core_init_reset_failure env s = some f) :
    (dwc3_core_init_reset env s).1 = f.code ∧
      (dwc3_core_init_reset env s).2.trace =
        f.state.trace ++ cleanup_events f.state.dwc f.step ∧
      f.step ≠ InitStep.ulpi_init ∧ f.code ≠ 0 := by
  unfold core_init_reset_failure at h
  unfold dwc3_core_init_reset
  simp only [] at h ⊢
  by_cases h1 : (dwc3_core_soft_reset env s).1 ≠ 0
  · rw [if_pos h1] at h
    simp only [if_pos h1]
    cases h
    exact ⟨rfl, rfl, fun hc => InitStep.noConfusion hc, h1⟩
  · rw [if_neg h1] at h
    simp only [if_neg h1]
    by_cases h2 : (dwc3_setup_scratch_buffers env (dwc3_core_num_eps
        (dwc3_core_setup_global_control env (dwc3_core_soft_reset env s).2))).1 ≠ 0
    · rw [if_pos h2] at h
      simp only [if_pos h2]
      cases h
      exact ⟨rfl, core_init_err1_trace _ _, fun hc => InitStep.noConfusion hc, h2⟩
    · rw [if_neg h2] at h
      simp only [if_neg h2]
      exact power_on_failed env _ f h

theorem core_init_phys_failed (env : Env) (s : World) (f : InitFailure)
    (h : core_init_phys_failure env s = some f) :
    (dwc3_core_init_phys env s).1 = f.code ∧
      (dwc3_core_init_phys env s).2.trace =
        f.state.trace ++ cleanup_events f.state.dwc f.step ∧
      f.step ≠ InitStep.ulpi_init ∧ f.code ≠ 0 := by
  unfold core_init_phys_failure at h
  unfold dwc3_core_init_phys
  simp only [] at h ⊢
  split at h
  · rename_i h1
    rw [if_pos h1]
    split at h
    · rename_i h2
      rw [if_pos h2]
      cases h
      exact ⟨rfl, rfl, fun hc => InitStep.noConfusion hc, h2⟩
    · rename_i h2
      rw [if_neg h2]
      exact core_init_reset_failed env _ f h
  · rename_i h1
    rw [if_neg h1]
    exact core_init_reset_failed env _ f h

/-- A failed step of `dwc3_core_init`: the code returned is the code of the
step, except that `-ETIMEDOUT` from the ULPI init is returned as
`-EPROBE_DEFER`; and, except in that case, the trace is the trace up to the
return of the step followed by the cleanup of that step. -/
theorem core_init_failed (env : Env) (s : World) (f : InitFailure)
    (h : core_init_failure env s = some f) :
    (dwc3_core_init env s).1 =
        (if f.step = InitStep.ulpi_init ∧ f.code = -ETIMEDOUT then -EPROBE_DEFER else f.code) ∧
      (¬ (f.step = InitStep.ulpi_init ∧ f.code = -ETIMEDOUT) →
        (dwc3_core_init env s).2.trace =
          f.state.trace ++ cleanup_events f.state.dwc f.step) ∧
      f.code ≠ 0 := by
  have later : ∀ t : World, core_init_phys_failure env t = some f →
      (dwc3_core_init_phys env t).1 =
          (if f.step = InitStep.ulpi_init ∧ f.code = -ETIMEDOUT then -EPROBE_DEFER
            else f.code) ∧
        (¬ (f.step = InitStep.ulpi_init ∧ f.code = -ETIMEDOUT) →
          (dwc3_core_init_phys env t).2.trace =
            f.state.trace ++ cleanup_events f.state.dwc f.step) ∧
        f.code ≠ 0 := by
    intro t ht
    obtain ⟨a, b, hstep, hcode⟩ := core_init_phys_failed env t f ht
    rw [if_neg (fun hc => hstep hc.1)]
    exact ⟨a, fun _ => b, hcode⟩
  unfold core_init_failure at h
  unfold dwc3_core_init
  simp only [] at h ⊢
  split at h
  · cases h
  · rename_i h1
    rw [if_neg h1]
    split at h
    · rename_i h2
      rw [if_pos h2]
      cases h
      have hm := congrArg Prod.fst (get_dr_mode_cases env
        (dwc3_check_params (dwc3_cache_hwparams env (dwc3_core_is_valid env s).2)))
      simp only [] at hm
      rw [if_neg (fun hc => InitStep.noConfusion hc.1)]
      refine ⟨?_, fun _ => (List.append_nil _).symm, h2⟩
      revert h2 hm
      generalize (dwc3_get_dr_mode env
        (dwc3_check_params (dwc3_cache_hwparams env (dwc3_core_is_valid env s).2))).1 = r
      intro h2 hm
      rw [hm] at h2 ⊢
      split_ifs at h2 ⊢ <;> first | rfl | exact absurd rfl h2
    · rename_i h2
      rw [if_neg h2]
      split at h
      · rename_i h3
        exact absurd (phy_setup_ret env _) h3
      · rename_i h3
        rw [if_neg h3]
        split at h
        · rename_i h4
          rw [if_pos h4]
          split at h
          · rename_i h5
            rw [if_pos h5]
            cases h
            simp only [true_and]
            refine ⟨?_, ?_, h5⟩
            · split <;> rfl
            · intro hne
              rw [if_neg hne]
              exact (List.append_nil _).symm
          · rename_i h5
            rw [if_neg h5]
            exact later _ h
        · rename_i h4
          rw [if_neg h4]
          exact later _ h

theorem power_on_ok (env : Env) (s5 : World)
    (h : (if (phy_power_on env s5 PhyName.usb2_generic_phy).1 < 0 then
        some (InitFailure.mk InitStep.power_on_usb2
          (phy_power_on env s5 PhyName.usb2_generic_phy).1
          (phy_power_on env s5 PhyName.usb2_generic_phy).2)
      else if (phy_power_on env (phy_power_on env s5 PhyName.usb2_generic_phy).2
          PhyName.usb3_generic_phy).1 < 0 then
        some (InitFailure.mk InitStep.power_on_usb3
          (phy_power_on env (phy_power_on env s5 PhyName.usb2_generic_phy).2
            PhyName.usb3_generic_phy).1
          (phy_power_on env (phy_power_on env s5 PhyName.usb2_generic_phy).2
            PhyName.usb3_generic_phy).2)
      else none) = none) :
    (if (phy_power_on env s5 PhyName.usb2_generic_phy).1 < 0 then
        dwc3_core_init_err2 (phy_power_on env s5 PhyName.usb2_generic_phy).2
          (phy_power_on env s5 PhyName.usb2_generic_phy).1
      else if (phy_power_on env (phy_power_on env s5 PhyName.usb2_generic_phy).2
          PhyName.usb3_generic_phy).1 < 0 then
        dwc3_core_init_err3
          (phy_power_on env (phy_power_on env s5 PhyName.usb2_generic_phy).2
            PhyName.usb3_generic_phy).2
          (phy_power_on env (phy_power_on env s5 PhyName.usb2_generic_phy).2
            PhyName.usb3_generic_phy).1
      else dwc3_core_init_workarounds env
        (phy_power_on env (phy_power_on env s5 PhyName.usb2_generic_phy).2
          PhyName.usb3_generic_phy).2).1 = 0 := by
  by_cases h3 : (phy_power_on env s5 PhyName.usb2_generic_phy).1 < 0
  · rw [if_pos h3] at h
    cases h
  · rw [if_neg h3] at h
    simp only [if_neg h3]
    by_cases h4 : (phy_power_on env (phy_power_on env s5 PhyName.usb2_generic_phy).2
        PhyName.usb3_generic_phy).1 < 0
    · rw [if_pos h4] at h
      cases h
    · simp only [if_neg h4]
      rfl

theorem core_init_reset_ok (env : Env) (s : World) (h : core_init_reset_failure env s = none) :
    (dwc3_core_init_reset env s).1 = 0 := by
  unfold core_init_reset_failure at h
  unfold dwc3_core_init_reset
  simp only [] at h ⊢
  by_cases h1 : (dwc3_core_soft_reset env s).1 ≠ 0
  · rw [if_pos h1] at h
    cases h
  · rw [if_neg h1] at h
    simp only [if_neg h1]
    by_cases h2 : (dwc3_setup_scratch_buffers env (dwc3_core_num_eps
        (dwc3_core_setup_global_control env (dwc3_core_soft_reset env s).2))).1 ≠ 0
    · rw [if_pos h2] at h
      cases h
    · rw [if_neg h2] at h
      simp only [if_neg h2]
      exact power_on_ok env _ h

theorem core_init_phys_ok (env : Env) (s : World) (h : core_init_phys_failure env s = none) :
    (dwc3_core_init_phys env s).1 = 0 := by
  unfold core_init_phys_failure at h
  unfold dwc3_core_init_phys
  simp only [] at h ⊢
  split at h
  · rename_i h1
    rw [if_pos h1]
    split at h
    · cases h
    · rename_i h2
      rw [if_neg h2]
      exact core_init_reset_ok env _ h
  · rename_i h1
    rw [if_neg h1]
    exact core_init_reset_ok env _ h

/-- The steps of `core_init_failure` are all the ways `dwc3_core_init` fails on
a valid core: it returns 0 exactly when the core is valid and no step fails. -/
theorem core_init_ok_iff (env : Env) (s : World) :
    (dwc3_core_init env s).1 = 0 ↔
      (dwc3_core_is_valid env s).1 = true ∧ core_init_failure env s = none := by
  constructor
  · intro h0
    cases hf : core_init_failure env s with
    | some f =>
      obtain ⟨a, _, c⟩ := core_init_failed env s f hf
      rw [h0] at a
      split at a
      · exact absurd a (by decide)
      · exact absurd a.symm c
    | none =>
      refine ⟨?_, rfl⟩
      cases hv : (dwc3_core_is_valid env s).1 with
      | true => rfl
      | false =>
        unfold dwc3_core_init at h0
        simp only [hv, Bool.false_eq_true, not_false_eq_true, if_true] at h0
        exact absurd h0 (by decide)
  · intro ⟨hv, hf⟩
    unfold core_init_failure at hf
    unfold dwc3_core_init
    simp only [] at hf ⊢
    rw [if_neg (by rw [hv]; exact fun hc => hc rfl)] at hf ⊢
    split at hf
    · cases hf
    · rename_i h2
      rw [if_neg h2]
      split at hf
      · cases hf
      · rename_i h3
        rw [if_neg h3]
        split at hf
        · rename_i h4
          rw [if_pos h4]
          split at hf
          · cases hf
          · rename_i h5
            rw [if_neg h5]
            exact core_init_phys_ok env _ hf
        · rename_i h4
          rw [if_neg h4]
          exact core_init_phys_ok env _ hf

/-! ## C17: the error code `dwc3_core_init` returns -/

/-- C17 (counterexample): on ULPI hardware whose ULPI bus init times out, the
step that fails in `dwc3_core_init` is the ULPI init, with `-ETIMEDOUT`, and
`dwc3_core_init` returns `-EPROBE_DEFER`, not `-ETIMEDOUT`. -/
theorem dwc3_core_init_ulpi_timeout_code :
    failure_view (core_init_failure env_ulpi_timeout world_ulpi) =
        some (InitStep.ulpi_init, -ETIMEDOUT) ∧
      (dwc3_core_init env_ulpi_timeout world_ulpi).1 = -EPROBE_DEFER ∧
      (dwc3_core_init env_ulpi_timeout world_ulpi).1 ≠ -ETIMEDOUT :=
  ⟨by decide, by decide, by decide⟩

/-- C17 (amended): when a step of `dwc3_core_init` fails (role resolution, PHY
interface setup, ULPI init, PHY acquisition, soft reset, scratch buffer setup,
power-on of the USB2 or of the USB3 generic PHY) with error code `e`, then `e`
is not 0 and `dwc3_core_init` returns exactly `e`, except that `-ETIMEDOUT`
from the ULPI init is returned as `-EPROBE_DEFER`. -/
theorem dwc3_core_init_step_error (env : Env) (s : World) (f : InitFailure)
    (h : core_init_failure env s = some f) :
    f.code ≠ 0 ∧
      (dwc3_core_init env s).1 =
        (if f.step = InitStep.ulpi_init ∧ f.code = -ETIMEDOUT then -EPROBE_DEFER
          else f.code) :=
  ⟨(core_init_failed env s f h).2.2, (core_init_failed env s f h).1⟩

/-- C17 (amended), where the power-on of the USB2 generic PHY fails with
`-EINVAL`: `dwc3_core_init` returns `-EINVAL`. -/
theorem dwc3_core_init_step_error_witness :
    failure_view (core_init_failure env_power_fails world_resume_high) =
        some (InitStep.power_on_usb2, -EINVAL) ∧
      (dwc3_core_init env_power_fails world_resume_high).1 = -EINVAL :=
  ⟨by decide,
    (dwc3_core_init_step_error env_power_fails world_resume_high
      ((core_init_failure env_power_fails world_resume_high).get (by decide))
      rfl).2.trans (by decide)⟩

/-! ## C18: the cleanup of a failed `dwc3_core_init` -/

/-- C18 (counterexample): a controller asked for High-Speed, all six PHYs
live, on which the power-on of the USB2 generic PHY fails.  The call never
resets, initialises or resumes `usb3_phy` (the soft reset skips the USB3 PHYs
at High-Speed), yet its cleanup suspends `usb3_phy` and shuts it down. -/
theorem dwc3_core_init_cleanup_usb3_phy :
    failure_view (core_init_failure env_power_fails world_resume_high) =
        some (InitStep.power_on_usb2, -EINVAL) ∧
      Event.usb_phy_reset PhyName.usb3_phy ∉
        (dwc3_core_init env_power_fails world_resume_high).2.trace ∧
      Event.usb_phy_init PhyName.usb3_phy ∉
        (dwc3_core_init env_power_fails world_resume_high).2.trace ∧
      Event.usb_phy_set_suspend PhyName.usb3_phy 0 ∉
        (dwc3_core_init env_power_fails world_resume_high).2.trace ∧
      Event.usb_phy_set_suspend PhyName.usb3_phy 1 ∈
        (dwc3_core_init env_power_fails world_resume_high).2.trace ∧
      Event.usb_phy_shutdown PhyName.usb3_phy ∈
        (dwc3_core_init env_power_fails world_resume_high).2.trace :=
  ⟨by decide, by decide, by decide, by decide, by decide, by decide⟩

/-- C18 (amended): when a step of `dwc3_core_init` other than the soft reset
fails (and the failure is not a ULPI init timeout, after which a soft reset is
run), everything `dwc3_core_init` does after the step returns is the cleanup
ladder from the label of that step down, on every PHY handle of the context
that is not `NULL`, whether or not this call brought the PHY up: nothing after
role resolution, PHY interface setup and ULPI init; the ULPI exit after the PHY
acquisition; after the scratch buffer setup the shutdown of the four legacy
PHYs, the exit of the two generic PHYs and the ULPI exit; after the power-on of
the USB2 generic PHY the suspend of the four legacy PHYs and the release of the
scratch buffer before those; after the power-on of the USB3 generic PHY the
power-off of the USB2 generic PHY before all of them. -/
theorem dwc3_core_init_cleanup (env : Env) (s : World) (f : InitFailure)
    (h : core_init_failure env s = some f)
    (hstep : f.step ≠ InitStep.soft_reset)
    (hulpi : ¬ (f.step = InitStep.ulpi_init ∧ f.code = -ETIMEDOUT)) :
    (dwc3_core_init env s).2.trace = f.state.trace ++ cleanup_events f.state.dwc f.step ∧
      cleanup_events f.state.dwc f.step =
        (match f.step with
          | InitStep.power_on_usb3 => err3_events f.state.dwc
          | InitStep.power_on_usb2 => err2_events f.state.dwc
          | InitStep.scratch_setup => err1_events f.state.dwc
          | InitStep.get_phy => [Event.ulpi_exit]
          | _ => []) := by
  refine ⟨(core_init_failed env s f h).2.1 hulpi, ?_⟩
  cases hf : f.step with
  | soft_reset => exact absurd hf hstep
  | _ => rfl

/-- C18 (amended), where the power-on of the USB2 generic PHY fails on a
controller with all six PHYs live: after the failed power-on the trace is the
suspend of the four legacy PHYs, their shutdown, the exit of the two generic
PHYs and the ULPI exit. -/
theorem dwc3_core_init_cleanup_witness :
    failure_view (core_init_failure env_power_fails world_resume_high) =
        some (InitStep.power_on_usb2, -EINVAL) ∧
      (dwc3_core_init env_power_fails world_resume_high).2.trace =
        ((core_init_failure env_power_fails world_resume_high).get (by decide)).state.trace ++
          [Event.usb_phy_set_suspend PhyName.usb2_phy1 1,
            Event.usb_phy_set_suspend PhyName.usb3_phy1 1,
            Event.usb_phy_set_suspend PhyName.usb2_phy 1,
            Event.usb_phy_set_suspend PhyName.usb3_phy 1,
            Event.usb_phy_shutdown PhyName.usb2_phy1,
            Event.usb_phy_shutdown PhyName.usb3_phy1,
            Event.usb_phy_shutdown PhyName.usb2_phy,
            Event.usb_phy_shutdown PhyName.usb3_phy,
            Event.phy_exit PhyName.usb2_generic_phy,
            Event.phy_exit PhyName.usb3_generic_phy,
            Event.ulpi_exit] :=
  ⟨by decide,
    (dwc3_core_init_cleanup env_power_fails world_resume_high
      ((core_init_failure env_power_fails world_resume_high).get (by decide))
      rfl (by decide) (by decide)).1.trans (by decide)⟩

/-! ## C22: a mode request -/

/-- C22: for every state and every mode (a `u32`), `dwc3_set_mode` sets
`desired_dr_role` to the mode, queues `drd_work` exactly once (the one action
it adds to the trace), and leaves `current_dr_role`, every other field of the
context and every register unchanged. -/
theorem dwc3_set_mode_effect (s : World) (mode : Nat) :
    (dwc3_set_mode s mode).dwc = { s.dwc with desired_dr_role := mode % U32 } ∧
      (mode < U32 → (dwc3_set_mode s mode).dwc.desired_dr_role = mode) ∧
      (dwc3_set_mode s mode).dwc.current_dr_role = s.dwc.current_dr_role ∧
      (dwc3_set_mode s mode).regs = s.regs ∧
      (dwc3_set_mode s mode).trace = s.trace ++ [Event.call "queue_work"] ∧
      (dwc3_set_mode s mode).notify_event = s.notify_event :=
  ⟨rfl, fun h => Nat.mod_eq_of_lt h, rfl, rfl, rfl, rfl⟩

/-- C22, for a request of OTG (3) on a controller whose current role is
device (2): the desired role becomes 3, the current role stays 2. -/
theorem dwc3_set_mode_effect_witness :
    (dwc3_set_mode { dwc := { current_dr_role := 2 } } 3).dwc.desired_dr_role = 3 ∧
      (dwc3_set_mode { dwc := { current_dr_role := 2 } } 3).dwc.current_dr_role = 2 :=
  ⟨(dwc3_set_mode_effect { dwc := { current_dr_role := 2 } } 3).2.1 (by decide),
    (dwc3_set_mode_effect { dwc := { current_dr_role := 2 } } 3).2.2.1⟩

/-! ## C27: the result of a failed probe -/

/-- C27 (failing input): when `alloc_ordered_workqueue` fails, `dwc3_probe`
leaves through `err0` with `ret` still holding the 0 of the successful
`devm_request_irq`: it returns 0, although no workqueue exists, no buffer was
allocated and the controller was not registered. -/
theorem dwc3_probe_no_workqueue_returns_zero :
    (dwc3_probe env_no_workqueue {} 0).1 = 0 ∧
      (dwc3_probe env_no_workqueue {} 0).2.dwc.dwc_wq = false ∧
      (dwc3_probe env_no_workqueue {} 0).2.dwc.ev_buf = none ∧
      (dwc3_probe env_no_workqueue {} 0).2.count = 0 ∧
      (dwc3_probe env_no_workqueue {} 0).2.dwc3_instance 0 = none ∧
      (dwc3_probe env_no_workqueue {} 0).2.trace =
        [Event.devm_request_irq 42, Event.disable_irq 42, Event.alloc_ordered_workqueue] := by
  refine ⟨by decide, by decide, by decide, by decide, by decide, by decide⟩

/-! ## C28: the registry of controllers -/

/-- C28 (failing input): bind the devices 10 and 11, unbind 10, bind 12.  All
three probes succeed.  `dwc3_remove` decrements `count` to 1, so the probe of
12 stores 12 in slot 1 and gives it index 1: the live controllers 11 and 12
share index 1, and slot 1 no longer points to 11. -/
theorem driver_registry_broken :
    (driver_probe env_quiet {} 10).1 = 0 ∧
      (driver_probe env_quiet (driver_probe env_quiet {} 10).2 11).1 = 0 ∧
      (driver_probe env_quiet
        (driver_remove env_quiet
          (driver_probe env_quiet (driver_probe env_quiet {} 10).2 11).2 10) 12).1 = 0 ∧
      (driver_abc.drvdata 10).isSome = false ∧
      (driver_abc.drvdata 11).map (fun d => d.index) = some 1 ∧
      (driver_abc.drvdata 12).map (fun d => d.index) = some 1 ∧
      driver_abc.world.dwc3_instance 1 = some 12 ∧
      driver_abc.world.dwc3_instance 1 ≠ some 11 := by
  refine ⟨by decide, by decide, by decide, by decide, by decide, by decide, by decide, by decide⟩

/-! ## C29: `ulpi_ready` after a failed `dwc3_core_init` -/

/-- C29 (failing input): ULPI hardware whose USB3 generic PHY is not ready at
the first lookup.  The first `dwc3_core_init` initialises ULPI, sets
`ulpi_ready`, fails at the PHY lookup with `-EPROBE_DEFER` and leaves through
`err0a`, which exits ULPI; `ulpi_ready` stays set.  The retry succeeds without
a second ULPI init: it returns 0 with `ulpi_ready` set, one ULPI init in the
whole trace, and the ULPI exit after it. -/
theorem dwc3_core_init_ulpi_ready_after_exit :
    (dwc3_core_init env_defer_once world_ulpi).1 = -EPROBE_DEFER ∧
      (dwc3_core_init env_defer_once world_ulpi).2.dwc.ulpi_ready = true ∧
      (dwc3_core_init env_defer_once world_ulpi).2.trace.count Event.ulpi_init = 1 ∧
      (dwc3_core_init env_defer_once world_ulpi).2.trace.getLast? = some Event.ulpi_exit ∧
      (dwc3_core_init env_defer_once (dwc3_core_init env_defer_once world_ulpi).2).1 = 0 ∧
      (dwc3_core_init env_defer_once
        (dwc3_core_init env_defer_once world_ulpi).2).2.dwc.ulpi_ready = true ∧
      (dwc3_core_init env_defer_once
        (dwc3_core_init env_defer_once world_ulpi).2).2.trace.count Event.ulpi_init = 1 ∧
      (dwc3_core_init env_defer_once
        (dwc3_core_init env_defer_once world_ulpi).2).2.trace.count Event.ulpi_exit = 1 := by
  refine ⟨by decide, by decide, by decide, by decide, by decide, by decide, by decide, by decide⟩

/-! ## Bits of register values -/

theorem testBit_BIT (k i : Nat) : (BIT k).testBit i = decide (k = i) := by
  unfold BIT
  rw [Nat.one_shiftLeft, Nat.testBit_two_pow]

theorem testBit_andnot (r m i : Nat) :
    (andnot r m).testBit i = (r.testBit i && (decide (i < 32) && !m.testBit i)) := by
  unfold andnot U32
  rw [Nat.testBit_and, Nat.testBit_xor, Nat.testBit_mod_two_pow,
    show (0xffffffff : Nat) = 2 ^ 32 - 1 from rfl, Nat.testBit_two_pow_sub_one]
  cases r.testBit i <;> cases m.testBit i <;> cases decide (i < 32) <;> rfl

theorem testBit_mod_U32 (v i : Nat) :
    (v % U32).testBit i = (decide (i < 32) && v.testBit i) := by
  unfold U32
  rw [Nat.testBit_mod_two_pow]

theorem and_BIT_ne_zero (v k : Nat) : v &&& BIT k ≠ 0 ↔ v.testBit k = true := by
  constructor
  · intro h
    by_contra hb
    apply h
    apply Nat.eq_of_testBit_eq
    intro i
    rw [Nat.testBit_and, testBit_BIT, Nat.zero_testBit]
    by_cases hk : k = i
    · subst hk; simp [hb]
    · simp [hk]
  · intro hb h
    have := congrArg (fun x => x.testBit k) h
    simp only [Nat.testBit_and, testBit_BIT, hb, decide_True, Bool.and_self,
      Nat.zero_testBit] at this
    exact Bool.noConfusion this

theorem testBit_ite (c : Prop) [Decidable c] (a b i : Nat) :
    (if c then a else b).testBit i = if c then a.testBit i else b.testBit i := by
  split <;> rfl

/-! ## The GCTL value `dwc3_core_setup_global_control` writes -/

/-- The FPGA flag after the FPGA check of `dwc3_core_setup_global_control`:
`is_fpga` was set before, or hwparams6 has the FPGA capability bit. -/
theorem setup_global_control_written (env : Env) (s : World) :
    (dwc3_core_setup_global_control env s).regs Reg.GCTL =
        global_control_value s.dwc
          (if s.dwc.hwparams.hwparams6 &&& DWC3_GHWPARAMS6_EN_FPGA ≠ 0 then true
            else s.dwc.is_fpga)
          (dwc3_readl env s Reg.GCTL).1 % U32 ∧
      (dwc3_core_setup_global_control env s).trace =
        s.trace ++ [Event.readl Reg.GCTL (dwc3_readl env s Reg.GCTL).1,
          Event.writel Reg.GCTL ((dwc3_core_setup_global_control env s).regs Reg.GCTL)] := by
  unfold dwc3_core_setup_global_control
  simp only [readl_dwc]
  have hf : ∀ d1 : dwc3, d1.hwparams = s.dwc.hwparams → d1.is_fpga = s.dwc.is_fpga →
      (if d1.hwparams.hwparams6 &&& DWC3_GHWPARAMS6_EN_FPGA ≠ 0 then
          ({ d1 with is_fpga := true } : dwc3) else d1).is_fpga =
        (if s.dwc.hwparams.hwparams6 &&& DWC3_GHWPARAMS6_EN_FPGA ≠ 0 then true
          else s.dwc.is_fpga) := by
    intro d1 h1 h2
    rw [h1]
    split
    · rfl
    · exact h2
  have hd : (if DWC3_GHWPARAMS1_EN_PWROPT s.dwc.hwparams.hwparams1 =
        DWC3_GHWPARAMS1_EN_PWROPT_HIB then
      ({ s.dwc with nr_scratch := DWC3_GHWPARAMS4_HIBER_SCRATCHBUFS s.dwc.hwparams.hwparams4 } :
        dwc3) else s.dwc).hwparams = s.dwc.hwparams ∧
      (if DWC3_GHWPARAMS1_EN_PWROPT s.dwc.hwparams.hwparams1 =
        DWC3_GHWPARAMS1_EN_PWROPT_HIB then
      ({ s.dwc with nr_scratch := DWC3_GHWPARAMS4_HIBER_SCRATCHBUFS s.dwc.hwparams.hwparams4 } :
        dwc3) else s.dwc).is_fpga = s.dwc.is_fpga := by
    split <;> exact ⟨rfl, rfl⟩
  have hfl := hf _ hd.1 hd.2
  constructor
  · simp only [writel_regs, if_true]
    rw [hfl]
  · simp only [writel_trace, writel_regs, if_true, readl_trace, List.append_assoc,
      List.singleton_append]

theorem global_control_bit0 (d : dwc3) (f : Bool) (reg0 : Nat)
    (hclk : DWC3_GHWPARAMS1_EN_PWROPT d.hwparams.hwparams1 = DWC3_GHWPARAMS1_EN_PWROPT_CLK) :
    (global_control_value d f reg0).testBit 0 =
      (d.disable_clk_gating ||
        decide ((d.dr_mode = USB_DR_MODE_HOST ∨ d.dr_mode = USB_DR_MODE_OTG) ∧
          (d.revision ≥ DWC3_REVISION_210A ∧ d.revision ≤ DWC3_REVISION_250A))) := by
  unfold global_control_value
  simp only [hclk, if_true]
  have m1 : DWC3_GCTL_SCALEDOWN_MASK.testBit 0 = false := by decide
  simp only [testBit_ite, Nat.testBit_or, testBit_andnot, testBit_BIT, DWC3_GCTL_DSBLCLKGTNG,
    DWC3_GCTL_SOFITPSYNC, DWC3_GCTL_DISSCRAMBLE, DWC3_GCTL_U2EXIT_LFPS, DWC3_GCTL_U2RSTECN, m1]
  split_ifs <;> simp_all

theorem global_control_bit3 (d : dwc3) (f : Bool) (reg0 : Nat) :
    (global_control_value d f reg0).testBit 3 = (d.disable_scramble_quirk && f) := by
  unfold global_control_value
  simp only [testBit_ite, Nat.testBit_or, testBit_andnot, testBit_BIT, DWC3_GCTL_DSBLCLKGTNG,
    DWC3_GCTL_SOFITPSYNC, DWC3_GCTL_DISSCRAMBLE, DWC3_GCTL_U2EXIT_LFPS, DWC3_GCTL_U2RSTECN,
    DWC3_GCTL_GBLHIBERNATIONEN]
  split_ifs <;> simp_all

/-! ## C23: clock gating -/

/-- C23 (counterexample): with the clock-gating power option, in Peripheral
role on revision 3.00a, the property `snps,disable-clk-gating` makes
`dwc3_core_setup_global_control` write DSBLCLKGTNG set. -/
theorem dwc3_core_setup_global_control_clk_forced :
    DWC3_GHWPARAMS1_EN_PWROPT
        (world_clk USB_DR_MODE_PERIPHERAL DWC3_REVISION_300A true).dwc.hwparams.hwparams1 =
        DWC3_GHWPARAMS1_EN_PWROPT_CLK ∧
      (world_clk USB_DR_MODE_PERIPHERAL DWC3_REVISION_300A true).dwc.dr_mode =
        USB_DR_MODE_PERIPHERAL ∧
      ¬ (world_clk USB_DR_MODE_PERIPHERAL DWC3_REVISION_300A true).dwc.revision ≤
        DWC3_REVISION_250A ∧
      (dwc3_core_setup_global_control env_quiet
        (world_clk USB_DR_MODE_PERIPHERAL DWC3_REVISION_300A true)).regs Reg.GCTL &&&
        DWC3_GCTL_DSBLCLKGTNG ≠ 0 ∧
      Event.writel Reg.GCTL 1 ∈
        (dwc3_core_setup_global_control env_quiet
          (world_clk USB_DR_MODE_PERIPHERAL DWC3_REVISION_300A true)).trace := by
  refine ⟨by decide, by decide, by decide, by decide, by decide⟩

/-- C23 (amended): in the GCTL value `dwc3_core_setup_global_control` writes
when hwparams1 selects the clock-gating power option, DSBLCLKGTNG is set if
and only if `disable_clk_gating` is set, or the role is Host or OTG and the
revision is from 2.10a to 2.50a inclusive; in every other case it is written
clear. -/
theorem dwc3_core_setup_global_control_clk (env : Env) (s : World)
    (hclk : DWC3_GHWPARAMS1_EN_PWROPT s.dwc.hwparams.hwparams1 =
      DWC3_GHWPARAMS1_EN_PWROPT_CLK) :
    ((dwc3_core_setup_global_control env s).regs Reg.GCTL &&& DWC3_GCTL_DSBLCLKGTNG ≠ 0 ↔
        (s.dwc.disable_clk_gating = true ∨
          ((s.dwc.dr_mode = USB_DR_MODE_HOST ∨ s.dwc.dr_mode = USB_DR_MODE_OTG) ∧
            (DWC3_REVISION_210A ≤ s.dwc.revision ∧ s.dwc.revision ≤ DWC3_REVISION_250A)))) ∧
      (dwc3_core_setup_global_control env s).trace =
        s.trace ++ [Event.readl Reg.GCTL (dwc3_readl env s Reg.GCTL).1,
          Event.writel Reg.GCTL ((dwc3_core_setup_global_control env s).regs Reg.GCTL)] := by
  refine ⟨?_, (setup_global_control_written env s).2⟩
  rw [(setup_global_control_written env s).1, show DWC3_GCTL_DSBLCLKGTNG = BIT 0 from rfl,
    and_BIT_ne_zero, testBit_mod_U32, global_control_bit0 _ _ _ hclk]
  simp

/-- C23 (amended), in OTG role on revision 2.50a without the property: the bit
is written set. -/
theorem dwc3_core_setup_global_control_clk_witness :
    (dwc3_core_setup_global_control env_quiet
      (world_clk USB_DR_MODE_OTG DWC3_REVISION_250A false)).regs Reg.GCTL &&&
      DWC3_GCTL_DSBLCLKGTNG ≠ 0 :=
  (dwc3_core_setup_global_control_clk env_quiet
    (world_clk USB_DR_MODE_OTG DWC3_REVISION_250A false) (by decide)).1.mpr
    (Or.inr ⟨Or.inr rfl, by decide, by decide⟩)

/-! ## C24: scrambling -/

/-- C24: in the GCTL value `dwc3_core_setup_global_control` writes, DISSCRAMBLE
is set if and only if `disable_scramble_quirk` is set and the FPGA flag is set
(`is_fpga` already true, or hwparams6 has the FPGA capability bit); in every
other case, a scramble-disable request on non-FPGA hardware included, the bit
is written clear; and the function always completes with one read and one
write of GCTL. -/
theorem dwc3_core_setup_global_control_scramble (env : Env) (s : World) :
    ((dwc3_core_setup_global_control env s).regs Reg.GCTL &&& DWC3_GCTL_DISSCRAMBLE ≠ 0 ↔
        (s.dwc.disable_scramble_quirk = true ∧
          (s.dwc.is_fpga = true ∨
            s.dwc.hwparams.hwparams6 &&& DWC3_GHWPARAMS6_EN_FPGA ≠ 0))) ∧
      (dwc3_core_setup_global_control env s).trace =
        s.trace ++ [Event.readl Reg.GCTL (dwc3_readl env s Reg.GCTL).1,
          Event.writel Reg.GCTL ((dwc3_core_setup_global_control env s).regs Reg.GCTL)] := by
  refine ⟨?_, (setup_global_control_written env s).2⟩
  rw [(setup_global_control_written env s).1, show DWC3_GCTL_DISSCRAMBLE = BIT 3 from rfl,
    and_BIT_ne_zero, testBit_mod_U32, global_control_bit3]
  by_cases hf : s.dwc.hwparams.hwparams6 &&& DWC3_GHWPARAMS6_EN_FPGA ≠ 0
  · simp [hf]
  · simp [hf]

/-! ## C30: the port capability direction -/

theorem set_prtcap_regs (env : Env) (s : World) (mode : Nat) :
    (dwc3_set_prtcap env s mode).regs = fun x =>
      if x = Reg.GCTL then
        (andnot (dwc3_readl env s Reg.GCTL).1 (DWC3_GCTL_PRTCAPDIR DWC3_GCTL_PRTCAP_OTG) |||
          DWC3_GCTL_PRTCAPDIR mode) % U32
      else s.regs x := rfl

theorem testBit_PRTCAPDIR (n i : Nat) :
    (DWC3_GCTL_PRTCAPDIR n).testBit i = (decide (12 ≤ i) && n.testBit (i - 12)) := by
  unfold DWC3_GCTL_PRTCAPDIR
  rw [Nat.testBit_shiftLeft]

theorem testBit_small (mode i : Nat) (hm : mode < 4) (hi : 2 ≤ i) : mode.testBit i = false := by
  apply Nat.testBit_lt_two_pow
  calc mode < 4 := hm
    _ = 2 ^ 2 := rfl
    _ ≤ 2 ^ i := Nat.pow_le_pow_right (by decide) hi

/-- The value `dwc3_set_prtcap` writes for a mode below 4, bit by bit: bits 12
and 13 are the two bits of the mode, every other bit is the bit read. -/
theorem set_prtcap_bits (v mode i : Nat) (hv : v < U32) (hm : mode < 4) :
    ((andnot v (DWC3_GCTL_PRTCAPDIR DWC3_GCTL_PRTCAP_OTG) ||| DWC3_GCTL_PRTCAPDIR mode) %
        U32).testBit i =
      if i = 12 then mode.testBit 0 else if i = 13 then mode.testBit 1 else v.testBit i := by
  have hv32 : ∀ j, 32 ≤ j → v.testBit j = false := by
    intro j hj
    apply Nat.testBit_lt_two_pow
    calc v < U32 := hv
      _ = 2 ^ 32 := rfl
      _ ≤ 2 ^ j := Nat.pow_le_pow_right (by decide) hj
  rw [testBit_mod_U32, Nat.testBit_or, testBit_andnot, testBit_PRTCAPDIR, testBit_PRTCAPDIR]
  have o0 : DWC3_GCTL_PRTCAP_OTG.testBit 0 = true := by decide
  have o1 : DWC3_GCTL_PRTCAP_OTG.testBit 1 = true := by decide
  by_cases h12 : i = 12
  · subst h12; simp [o0]
  · by_cases h13 : i = 13
    · subst h13; simp [o1]
    · rw [if_neg h12, if_neg h13]
      by_cases hlt : i < 12
      · have : ¬ 12 ≤ i := by omega
        have h32 : i < 32 := by omega
        simp [this, h32]
      · have hge : 14 ≤ i := by omega
        have h3 : DWC3_GCTL_PRTCAP_OTG.testBit (i - 12) = false :=
          testBit_small _ _ (by decide) (by omega)
        have hmb : mode.testBit (i - 12) = false := testBit_small _ _ hm (by omega)
        rw [h3, hmb]
        by_cases h32 : i < 32
        · simp [h32]
        · rw [hv32 i (by omega)]
          simp

theorem set_prtcap_field (w mode : Nat) (hm : mode < 4)
    (h0 : w.testBit 12 = mode.testBit 0) (h1 : w.testBit 13 = mode.testBit 1) :
    (w >>> 12) &&& 3 = mode := by
  apply Nat.eq_of_testBit_eq
  intro j
  rw [Nat.testBit_and, Nat.testBit_shiftRight]
  have t1 : Nat.testBit 3 1 = true := by decide
  rcases j with _ | _ | j
  · simp [h0]
  · simp [h1, t1]
  · rw [testBit_small 3 (j + 2) (by decide) (by omega), testBit_small mode (j + 2) hm (by omega)]
    simp

theorem set_prtcap_twice (v mode : Nat) (hv : v < U32) (hm : mode < 4) :
    (andnot ((andnot v (DWC3_GCTL_PRTCAPDIR DWC3_GCTL_PRTCAP_OTG) |||
          DWC3_GCTL_PRTCAPDIR mode) % U32) (DWC3_GCTL_PRTCAPDIR DWC3_GCTL_PRTCAP_OTG) |||
        DWC3_GCTL_PRTCAPDIR mode) % U32 =
      (andnot v (DWC3_GCTL_PRTCAPDIR DWC3_GCTL_PRTCAP_OTG) ||| DWC3_GCTL_PRTCAPDIR mode) %
        U32 := by
  apply Nat.eq_of_testBit_eq
  intro i
  rw [set_prtcap_bits _ mode i (Nat.mod_lt _ (by decide)) hm, set_prtcap_bits v mode i hv hm]
  split
  · rfl
  · split <;> rfl

/-- C30: for every value read from GCTL and every mode in {host, device, OTG}
(1, 2, 3), `dwc3_set_prtcap` reads GCTL once and writes it once; the value
written has the two-bit field PRTCAPDIR (bits 13:12) equal to the mode and every
other bit as read; `current_dr_role` becomes the mode; and, when GCTL reads back
what it holds, a second call with the same mode leaves the same registers and
the same context as the first. -/
theorem dwc3_set_prtcap_effect (env : Env) (s : World) (mode : Nat)
    (hmode : mode = DWC3_GCTL_PRTCAP_HOST ∨ mode = DWC3_GCTL_PRTCAP_DEVICE ∨
      mode = DWC3_GCTL_PRTCAP_OTG) :
    ((dwc3_set_prtcap env s mode).regs Reg.GCTL >>> 12) &&& 3 = mode ∧
      (∀ i, i ≠ 12 → i ≠ 13 →
        ((dwc3_set_prtcap env s mode).regs Reg.GCTL).testBit i =
          (dwc3_readl env s Reg.GCTL).1.testBit i) ∧
      (∀ r, r ≠ Reg.GCTL → (dwc3_set_prtcap env s mode).regs r = s.regs r) ∧
      (dwc3_set_prtcap env s mode).trace =
        s.trace ++ [Event.readl Reg.GCTL (dwc3_readl env s Reg.GCTL).1,
          Event.writel Reg.GCTL ((dwc3_set_prtcap env s mode).regs Reg.GCTL)] ∧
      (dwc3_set_prtcap env s mode).dwc = { s.dwc with current_dr_role := mode } ∧
      ((∀ t v, env.mmio_read t Reg.GCTL v = v) →
        (dwc3_set_prtcap env (dwc3_set_prtcap env s mode) mode).regs =
            (dwc3_set_prtcap env s mode).regs ∧
          (dwc3_set_prtcap env (dwc3_set_prtcap env s mode) mode).dwc =
            (dwc3_set_prtcap env s mode).dwc) := by
  have hm : mode < 4 := by
    rcases hmode with h | h | h <;> rw [h] <;> decide
  have hmU : mode % U32 = mode := Nat.mod_eq_of_lt (Nat.lt_trans hm (by decide))
  have hv := readl_lt env s Reg.GCTL
  have hw : (dwc3_set_prtcap env s mode).regs Reg.GCTL =
      (andnot (dwc3_readl env s Reg.GCTL).1 (DWC3_GCTL_PRTCAPDIR DWC3_GCTL_PRTCAP_OTG) |||
        DWC3_GCTL_PRTCAPDIR mode) % U32 := by
    rw [set_prtcap_regs]
    simp only [if_true]
  refine ⟨?_, ?_, ?_, ?_, ?_, ?_⟩
  · apply set_prtcap_field _ _ hm
    · rw [hw, set_prtcap_bits _ _ _ hv hm, if_pos rfl]
    · rw [hw, set_prtcap_bits _ _ _ hv hm, if_neg (by decide), if_pos rfl]
  · intro i h12 h13
    rw [hw, set_prtcap_bits _ _ _ hv hm, if_neg h12, if_neg h13]
  · intro r hr
    rw [set_prtcap_regs]
    simp only [if_neg hr]
  · rw [hw]
    unfold dwc3_set_prtcap
    simp only [writel_trace, readl_trace, List.append_assoc, List.singleton_append]
  · unfold dwc3_set_prtcap
    simp only [writel_dwc, readl_dwc, hmU]
  · intro hread
    constructor
    · funext x
      rw [set_prtcap_regs, set_prtcap_regs]
      by_cases hx : x = Reg.GCTL
      · simp only [if_pos hx]
        have hr2 : (dwc3_readl env (dwc3_set_prtcap env s mode) Reg.GCTL).1 =
            (andnot (dwc3_readl env s Reg.GCTL).1
              (DWC3_GCTL_PRTCAPDIR DWC3_GCTL_PRTCAP_OTG) ||| DWC3_GCTL_PRTCAPDIR mode) %
              U32 := by
          rw [readl_val, hread, hw, Nat.mod_mod]
        rw [hr2]
        exact set_prtcap_twice _ _ hv hm
      · simp only [if_neg hx]
    · unfold dwc3_set_prtcap
      simp only [writel_dwc, readl_dwc]

/-- C30, on the quiet platform with GCTL holding 0x30c12004 (PRTCAPDIR = 2) and
mode host: the value written is 0x30c11004, also after a second call. -/
theorem dwc3_set_prtcap_effect_witness :
    (dwc3_set_prtcap env_quiet { regs := fun _ => 0x30c12004 } 1).regs Reg.GCTL = 0x30c11004 ∧
      ((dwc3_set_prtcap env_quiet { regs := fun _ => 0x30c12004 } 1).regs Reg.GCTL >>> 12) &&&
        3 = 1 ∧
      (dwc3_set_prtcap env_quiet (dwc3_set_prtcap env_quiet { regs := fun _ => 0x30c12004 } 1)
        1).regs =
        (dwc3_set_prtcap env_quiet { regs := fun _ => 0x30c12004 } 1).regs :=
  ⟨by decide,
    (dwc3_set_prtcap_effect env_quiet { regs := fun _ => 0x30c12004 } 1 (Or.inl rfl)).1,
    ((dwc3_set_prtcap_effect env_quiet { regs := fun _ => 0x30c12004 } 1 (Or.inl rfl)).2.2.2.2.2
      (fun _ _ => rfl)).1⟩

/-! ## C26: the revision-specific workarounds -/

theorem rmw_regs (env : Env) (s : World) (r : Reg) (f : Nat → Nat) (x : Reg) :
    (rmw env s r f).regs x =
      if x = r then f (env.mmio_read s.trace r (s.regs r) % U32) % U32 else s.regs x := rfl

theorem kept_refl (P : Nat → Prop) (a : Nat) : kept P a a := fun _ _ h => h

theorem kept_trans {P : Nat → Prop} {a b c : Nat} (h1 : kept P a b) (h2 : kept P b c) :
    kept P a c :=
  fun i hp h => h2 i hp (h1 i hp h)

/-- One workaround step, a read-modify-write under a condition: it keeps the
bits of register `x` at the positions in `P` when `x` reads back what it holds
and, if the step rewrites `x`, its function keeps those bits. -/
theorem step_kept (P : Nat → Prop) (env : Env) (s : World) (r x : Reg) (f : Nat → Nat)
    (c : Prop) [Decidable c]
    (hread : ∀ t v, env.mmio_read t x v = v)
    (hf : c → r = x → ∀ v i, P i → i < 32 → v.testBit i = true → (f v).testBit i = true) :
    kept P (s.regs x) ((if c then rmw env s r f else s).regs x) := by
  by_cases hc : c
  · rw [if_pos hc, rmw_regs]
    by_cases hx : x = r
    · rw [if_pos hx]
      intro i hp hi
      rw [testBit_mod_U32] at hi
      rw [testBit_mod_U32, testBit_mod_U32]
      simp only [Bool.and_eq_true, decide_eq_true_eq] at hi ⊢
      refine ⟨hi.1, hi.1, hf hc hx.symm _ i hp hi.1 ?_⟩
      rw [← hx, hread, testBit_mod_U32]
      simp only [Bool.and_eq_true, decide_eq_true_eq]
      exact hi
    · rw [if_neg hx]
      exact kept_refl _ _
  · rw [if_neg hc]
    exact kept_refl _ _

theorem or_additive (c v i : Nat) (h : v.testBit i = true) : (v ||| c).testBit i = true := by
  rw [Nat.testBit_or, h]
  rfl

theorem guctl1_value_additive (d : dwc3) (v i : Nat) (h : v.testBit i = true) :
    (guctl1_value d v).testBit i = true := by
  unfold guctl1_value
  simp only [testBit_ite, Nat.testBit_or, h, Bool.true_or, ite_self]

theorem testBit_HP_TIMER_MASK (i : Nat) (h : ¬ (21 ≤ i ∧ i ≤ 25)) :
    DWC3_GUCTL2_HP_TIMER_MASK.testBit i = false := by
  unfold DWC3_GUCTL2_HP_TIMER_MASK DWC3_GUCTL2_HP_TIMER
  rw [Nat.testBit_shiftLeft]
  by_cases h21 : 21 ≤ i
  · have : Nat.testBit 0x1f (i - 21) = false := by
      apply Nat.testBit_lt_two_pow
      calc 0x1f < 2 ^ 5 := by decide
        _ ≤ 2 ^ (i - 21) := Nat.pow_le_pow_right (by decide) (by omega)
    rw [this]
    simp
  · simp [h21]

theorem hp_timer_keeps (v i : Nat) (hi : i < 32) (h : ¬ (21 ≤ i ∧ i ≤ 25))
    (hv : v.testBit i = true) :
    (andnot v DWC3_GUCTL2_HP_TIMER_MASK ||| DWC3_GUCTL2_HP_TIMER 11).testBit i = true := by
  rw [Nat.testBit_or, testBit_andnot, testBit_HP_TIMER_MASK i h, hv]
  simp [hi]

theorem lc_timer_keeps (v i : Nat) (hi : i < 32) (h : i ≠ 19) (hv : v.testBit i = true) :
    (andnot v DWC3_GUCTL2_LC_TIMER).testBit i = true := by
  rw [testBit_andnot, show DWC3_GUCTL2_LC_TIMER = BIT 19 from rfl, testBit_BIT, hv]
  simp [hi, Ne.symm h]

/-- The workarounds of `dwc3_core_init` keep the bits of every register that
reads back what it holds; on revision 3.20a this holds for GUCTL2 only outside
the LC timer bit and the HP timer field, which the workarounds rewrite. -/
theorem workarounds_kept (P : Nat → Prop) (env : Env) (s : World) (x : Reg)
    (hread : ∀ t v, env.mmio_read t x v = v)
    (hP : x = Reg.GUCTL2 → s.dwc.revision = DWC3_REVISION_320A → ∀ i, P i → outside_timers i) :
    kept P (s.regs x) ((dwc3_core_init_workarounds env s).2.regs x) := by
  unfold dwc3_core_init_workarounds
  simp only []
  refine kept_trans ?_ (step_kept P env _ Reg.GUCTL1 x _ _ hread
    (fun _ _ v i _ _ h => or_additive _ v i h))
  refine kept_trans ?_ (step_kept P env _ Reg.GUCTL2 x _ _ hread
    (fun hc hx v i hp hi h => lc_timer_keeps v i hi (hP hx.symm hc i hp).1 h))
  refine kept_trans ?_ (step_kept P env _ Reg.GUCTL2 x _ _ hread
    (fun hc hx v i hp hi h => hp_timer_keeps v i hi (hP hx.symm hc.2 i hp).2 h))
  rw [notify_event_regs]
  refine kept_trans ?_ (step_kept P env _ Reg.GUCTL3 x _ _ hread
    (fun _ _ v i _ _ h => or_additive _ v i h))
  refine kept_trans ?_ (step_kept P env _ Reg.GUCTL1 x _ _ hread
    (fun _ _ v i _ _ h => guctl1_value_additive _ v i h))
  exact step_kept P env _ Reg.GUCTL2 x _ _ hread (fun _ _ v i _ _ h => or_additive _ v i h)

/-- C26 (counterexample): on a DWC_usb3 3.20a core whose GUCTL2 holds the LC
timer bit (19) and an HP timer field of 0x1f (bits 25:21), `dwc3_core_init`
succeeds and leaves GUCTL2 at 0x01604000: bits 19, 23 and 25, set before, are
clear in the value written. -/
theorem dwc3_core_init_workarounds_clear_bits :
    (dwc3_core_init env_quiet world_320a).1 = 0 ∧
      world_320a.regs Reg.GUCTL2 = 0x03e80000 ∧
      (dwc3_core_init env_quiet world_320a).2.regs Reg.GUCTL2 = 0x01604000 ∧
      (world_320a.regs Reg.GUCTL2).testBit 19 = true ∧
      ((dwc3_core_init env_quiet world_320a).2.regs Reg.GUCTL2).testBit 19 = false ∧
      (dwc3_core_init_workarounds env_quiet world_320a).2.regs Reg.GUCTL2 = 0x01604000 := by
  refine ⟨by decide, by decide, by decide, by decide, by decide, by decide⟩

/-- C26 (amended): for every register that reads back what it holds (GUCTL1,
GUCTL2 and GUCTL3 among them) and every revision and version type, every bit
that was set in the register before the workarounds of `dwc3_core_init` is
still set in the value they leave, except in GUCTL2 on revision 3.20a, where
the workarounds rewrite the HP timer field (bits 25:21) and clear the LC timer
bit (19) and every set bit outside those is still set. -/
theorem dwc3_core_init_workarounds_bits (env : Env) (s : World) (x : Reg)
    (hread : ∀ t v, env.mmio_read t x v = v) :
    ((x ≠ Reg.GUCTL2 ∨ s.dwc.revision ≠ DWC3_REVISION_320A) →
        kept (fun _ => True) (s.regs x) ((dwc3_core_init_workarounds env s).2.regs x)) ∧
      kept outside_timers (s.regs x) ((dwc3_core_init_workarounds env s).2.regs x) := by
  constructor
  · intro h
    apply workarounds_kept _ env s x hread
    intro hx hr
    rcases h with h | h
    · exact absurd hx h
    · exact absurd hr h
  · exact workarounds_kept _ env s x hread (fun _ _ _ hp => hp)

/-- C26 (amended), for GUCTL1 on a DWC_usb3 3.20a core: the value 0x00000101
becomes 0x01038101, with every bit that was set still set. -/
theorem dwc3_core_init_workarounds_bits_witness :
    kept (fun _ => True) (world_320a.regs Reg.GUCTL1)
        ((dwc3_core_init_workarounds env_quiet world_320a).2.regs Reg.GUCTL1) ∧
      world_320a.regs Reg.GUCTL1 = 0x00000101 ∧
      (dwc3_core_init_workarounds env_quiet world_320a).2.regs Reg.GUCTL1 = 0x01038101 :=
  ⟨(dwc3_core_init_workarounds_bits env_quiet world_320a Reg.GUCTL1 (fun _ _ => rfl)).1
      (Or.inl (by decide)),
    by decide, by decide⟩

/-! ## C25: the PHY interface setup is idempotent -/

theorem bitwise_id : bitwise (fun x => x) :=
  ⟨fun _ => true, fun _ => false, fun x i => by simp⟩

theorem bitwise_comp {g f : Nat → Nat} (hg : bitwise g) (hf : bitwise f) :
    bitwise (fun x => g (f x)) := by
  obtain ⟨K1, S1, h1⟩ := hg
  obtain ⟨K2, S2, h2⟩ := hf
  refine ⟨fun i => K2 i && K1 i, fun i => (S2 i && K1 i) || S1 i, fun x i => ?_⟩
  rw [h1, h2]
  show ((x.testBit i && K2 i || S2 i) && K1 i || S1 i) =
    (x.testBit i && (K2 i && K1 i) || (S2 i && K1 i || S1 i))
  cases x.testBit i <;> cases K1 i <;> cases K2 i <;> cases S1 i <;> cases S2 i <;> rfl

theorem bitwise_or (b : Nat) : bitwise (fun x => x ||| b) :=
  ⟨fun _ => true, fun i => b.testBit i, fun x i => by rw [Nat.testBit_or]; simp⟩

theorem bitwise_andnot (m : Nat) : bitwise (fun x => andnot x m) :=
  ⟨fun i => decide (i < 32) && !m.testBit i, fun _ => false,
    fun x i => by rw [testBit_andnot]; simp⟩

theorem bitwise_mod : bitwise (fun x => x % U32) :=
  ⟨fun i => decide (i < 32), fun _ => false, fun x i => by
    rw [testBit_mod_U32]
    simp [Bool.and_comm]⟩

theorem bitwise_ite (c : Prop) [Decidable c] {f g : Nat → Nat} (hf : bitwise f)
    (hg : bitwise g) : bitwise (fun x => if c then f x else g x) := by
  by_cases h : c
  · simp only [if_pos h]; exact hf
  · simp only [if_neg h]; exact hg

theorem bitwise_idem {f : Nat → Nat} (hf : bitwise f) (x : Nat) : f (f x) = f x := by
  obtain ⟨K, S, h⟩ := hf
  apply Nat.eq_of_testBit_eq
  intro i
  rw [h, h]
  cases x.testBit i <;> cases K i <;> cases S i <;> rfl

theorem bitwise_of_eq {f g : Nat → Nat} (hg : bitwise g) (h : ∀ x, f x = g x) : bitwise f := by
  have e : f = g := funext h
  rw [e]
  exact hg

/-- A step `if (c) reg |= b;`. -/
theorem bitwise_set {f : Nat → Nat} (c : Prop) [Decidable c] (b : Nat) (hf : bitwise f) :
    bitwise (fun x => (fun reg => if c then reg ||| b else reg) (f x)) :=
  bitwise_comp (bitwise_ite c (bitwise_or b) bitwise_id) hf

/-- A step `if (c) reg &= ~m;`. -/
theorem bitwise_clear {f : Nat → Nat} (c : Prop) [Decidable c] (m : Nat) (hf : bitwise f) :
    bitwise (fun x => (fun reg => if c then andnot reg m else reg) (f x)) :=
  bitwise_comp (bitwise_ite c (bitwise_andnot m) bitwise_id) hf

theorem pipectl_bitwise (d : dwc3) : bitwise (phy_setup_pipectl d) := by
  have b0 : bitwise (fun reg0 => andnot reg0 DWC3_GUSB3PIPECTL_UX_EXIT_PX) := bitwise_andnot _
  have b1 := bitwise_set (d.revision > DWC3_REVISION_194A) DWC3_GUSB3PIPECTL_SUSPHY b0
  have b2 := bitwise_set (d.u2ss_inp3_quirk = true) DWC3_GUSB3PIPECTL_U2SSINP3OK b1
  have b3 := bitwise_set (d.dis_rxdet_inp3_quirk = true) DWC3_GUSB3PIPECTL_DISRXDETINP3 b2
  have b4 := bitwise_set (d.req_p1p2p3_quirk = true) DWC3_GUSB3PIPECTL_REQP1P2P3 b3
  have b5 := bitwise_set (d.del_p1p2p3_quirk = true) DWC3_GUSB3PIPECTL_DEP1P2P3_EN b4
  have b6 := bitwise_set (d.del_phy_power_chg_quirk = true) DWC3_GUSB3PIPECTL_DEPOCHANGE b5
  have b7 := bitwise_set (d.lfps_filter_quirk = true) DWC3_GUSB3PIPECTL_LFPSFILT b6
  have b8 := bitwise_set (d.rx_detect_poll_quirk = true) DWC3_GUSB3PIPECTL_RX_DETOPOLL b7
  have b9 := bitwise_set (d.tx_de_emphasis_quirk = true)
    (DWC3_GUSB3PIPECTL_TX_DEEPH d.tx_de_emphasis) b8
  have b10 := bitwise_clear (d.dis_u3_susphy_quirk = true) DWC3_GUSB3PIPECTL_SUSPHY b9
  have b11 := bitwise_clear (d.dis_del_phy_power_chg_quirk = true)
    DWC3_GUSB3PIPECTL_DEPOCHANGE b10
  have b12 := bitwise_set (d.ssp_u3_u0_quirk = true)
    (DWC3_GUSB3PIPECTL_UX_EXIT_PX ||| DWC3_GUSB3PIPECTL_P3EXSIGP2) b11
  exact bitwise_of_eq b12 (fun x => by simp only [phy_setup_pipectl])

theorem usb2phycfg_bitwise (d : dwc3) : bitwise (usb2phycfg_written d) := by
  have b0 : bitwise (fun q =>
      if DWC3_GHWPARAMS3_HSPHY_IFC d.hwparams.hwparams3 =
          DWC3_GHWPARAMS3_HSPHY_IFC_UTMI_ULPI then
        if hsphy_interface_is d "utmi" then andnot q DWC3_GUSB2PHYCFG_ULPI_UTMI
        else if hsphy_interface_is d "ulpi" then q ||| DWC3_GUSB2PHYCFG_ULPI_UTMI
        else q
      else q) :=
    bitwise_ite _ (bitwise_ite _ (bitwise_andnot _) (bitwise_ite _ (bitwise_or _) bitwise_id))
      bitwise_id
  have hmode : bitwise (fun reg0 =>
      match d.hsphy_mode with
      | USBPHY_INTERFACE_MODE_UTMI =>
        andnot reg0 (DWC3_GUSB2PHYCFG_PHYIF_MASK ||| DWC3_GUSB2PHYCFG_USBTRDTIM_MASK) |||
          (DWC3_GUSB2PHYCFG_PHYIF UTMI_PHYIF_8_BIT |||
            DWC3_GUSB2PHYCFG_USBTRDTIM USBTRDTIM_UTMI_8_BIT)
      | USBPHY_INTERFACE_MODE_UTMIW =>
        andnot reg0 (DWC3_GUSB2PHYCFG_PHYIF_MASK ||| DWC3_GUSB2PHYCFG_USBTRDTIM_MASK) |||
          (DWC3_GUSB2PHYCFG_PHYIF UTMI_PHYIF_16_BIT |||
            DWC3_GUSB2PHYCFG_USBTRDTIM USBTRDTIM_UTMI_16_BIT)
      | _ => reg0) := by
    cases d.hsphy_mode
    all_goals first
      | exact bitwise_id
      | exact bitwise_comp (bitwise_or _) (bitwise_andnot _)
  have b1 := bitwise_comp hmode b0
  have b2 := bitwise_set (d.revision > DWC3_REVISION_194A) DWC3_GUSB2PHYCFG_SUSPHY b1
  have b3 := bitwise_clear (d.dis_u2_susphy_quirk = true) DWC3_GUSB2PHYCFG_SUSPHY b2
  have b4 := bitwise_clear (d.dis_enblslpm_quirk = true) DWC3_GUSB2PHYCFG_ENBLSLPM b3
  have b5 := bitwise_clear (d.dis_u2_freeclk_exists_quirk = true)
    DWC3_GUSB2PHYCFG_U2_FREECLK_EXISTS b4
  exact bitwise_of_eq b5 (fun x => by simp only [usb2phycfg_written, phy_setup_usb2phycfg])

/-- A value written through a bit-by-bit function, read back and put through
the function again, is written back unchanged. -/
theorem written_twice {f : Nat → Nat} (hf : bitwise f) (x : Nat) :
    f (f x % U32) % U32 = f x % U32 :=
  bitwise_idem (f := fun y => f y % U32) (bitwise_comp bitwise_mod hf) x

theorem phy_setup_regs (env : Env) (s : World)
    (h3 : ∀ t v, env.mmio_read t (Reg.GUSB3PIPECTL 0) v = v)
    (h2 : ∀ t v, env.mmio_read t (Reg.GUSB2PHYCFG 0) v = v) (x : Reg) :
    (dwc3_phy_setup env s).2.regs x =
      if x = Reg.GUSB2PHYCFG 0 ∨ (s.dwc.dual_port = true ∧ x = Reg.GUSB2PHYCFG 1) then
        usb2phycfg_written s.dwc (s.regs (Reg.GUSB2PHYCFG 0) % U32) % U32
      else if x = Reg.GUSB3PIPECTL 0 ∨ (s.dwc.dual_port = true ∧ x = Reg.GUSB3PIPECTL 1) then
        phy_setup_pipectl s.dwc (s.regs (Reg.GUSB3PIPECTL 0) % U32) % U32
      else s.regs x := by
  unfold dwc3_phy_setup usb2phycfg_written
  simp only [readl_val, h3, h2]
  by_cases hd : s.dwc.dual_port = true <;>
  by_cases hi : DWC3_GHWPARAMS3_HSPHY_IFC s.dwc.hwparams.hwparams3 =
      DWC3_GHWPARAMS3_HSPHY_IFC_UTMI_ULPI <;>
  by_cases hu : hsphy_interface_is s.dwc "utmi" = true <;>
  by_cases hl : hsphy_interface_is s.dwc "ulpi" = true <;>
  simp only [hd, hi, hu, hl, if_true, if_false, writel_regs, readl_regs, true_and, false_and,
    or_false] <;>
  by_cases x1 : x = Reg.GUSB2PHYCFG 0 <;>
  by_cases x2 : x = Reg.GUSB2PHYCFG 1 <;>
  by_cases x3 : x = Reg.GUSB3PIPECTL 0 <;>
  by_cases x4 : x = Reg.GUSB3PIPECTL 1 <;>
  simp_all [writel_regs, readl_regs]

/-- C25: when GUSB3PIPECTL(0) and GUSB2PHYCFG(0) read back what they hold,
`dwc3_phy_setup` is idempotent on the register file: for every initial content
of the registers and every context (revision, quirk flags, `hsphy_interface`,
`hsphy_mode`, `dual_port`, which the function does not change), a second run
leaves every register, GUSB3PIPECTL(0), GUSB3PIPECTL(1), GUSB2PHYCFG(0) and
GUSB2PHYCFG(1) included, with the value the first run left; both runs
return 0. -/
theorem dwc3_phy_setup_idempotent (env : Env) (s : World)
    (h3 : ∀ t v, env.mmio_read t (Reg.GUSB3PIPECTL 0) v = v)
    (h2 : ∀ t v, env.mmio_read t (Reg.GUSB2PHYCFG 0) v = v) :
    (dwc3_phy_setup env (dwc3_phy_setup env s).2).2.regs = (dwc3_phy_setup env s).2.regs ∧
      (dwc3_phy_setup env s).2.dwc = s.dwc ∧
      (dwc3_phy_setup env s).1 = 0 ∧
      (dwc3_phy_setup env (dwc3_phy_setup env s).2).1 = 0 := by
  refine ⟨?_, phy_setup_dwc env s, rfl, rfl⟩
  funext x
  have e2 : (dwc3_phy_setup env s).2.regs (Reg.GUSB2PHYCFG 0) =
      usb2phycfg_written s.dwc (s.regs (Reg.GUSB2PHYCFG 0) % U32) % U32 := by
    rw [phy_setup_regs env s h3 h2, if_pos (Or.inl rfl)]
  have e3 : (dwc3_phy_setup env s).2.regs (Reg.GUSB3PIPECTL 0) =
      phy_setup_pipectl s.dwc (s.regs (Reg.GUSB3PIPECTL 0) % U32) % U32 := by
    rw [phy_setup_regs env s h3 h2, if_neg (by simp), if_pos (Or.inl rfl)]
  rw [phy_setup_regs env _ h3 h2 x, phy_setup_dwc, e2, e3, Nat.mod_mod, Nat.mod_mod,
    written_twice (usb2phycfg_bitwise s.dwc), written_twice (pipectl_bitwise s.dwc),
    phy_setup_regs env s h3 h2 x]
  by_cases c1 : x = Reg.GUSB2PHYCFG 0 ∨ (s.dwc.dual_port = true ∧ x = Reg.GUSB2PHYCFG 1)
  · simp only [if_pos c1]
  · simp only [if_neg c1]
    by_cases c2 : x = Reg.GUSB3PIPECTL 0 ∨ (s.dwc.dual_port = true ∧ x = Reg.GUSB3PIPECTL 1)
    · simp only [if_pos c2]
    · simp only [if_neg c2]

/-- C25, on a dual-port controller on ULPI hardware with 16-bit UTMI mode and
several quirks: the first run rewrites the four registers, the
second run leaves the register file as it is. -/
theorem dwc3_phy_setup_idempotent_witness :
    (dwc3_phy_setup env_quiet (dwc3_phy_setup env_quiet world_phy_setup).2).2.regs =
        (dwc3_phy_setup env_quiet world_phy_setup).2.regs ∧
      (dwc3_phy_setup env_quiet world_phy_setup).2.regs (Reg.GUSB3PIPECTL 0) ≠
        world_phy_setup.regs (Reg.GUSB3PIPECTL 0) ∧
      (dwc3_phy_setup env_quiet world_phy_setup).2.regs (Reg.GUSB2PHYCFG 1) ≠
        world_phy_setup.regs (Reg.GUSB2PHYCFG 1) :=
  ⟨(dwc3_phy_setup_idempotent env_quiet world_phy_setup (fun _ _ => rfl) (fun _ _ => rfl)).1,
    by decide, by decide⟩

/-! ## C21: the notifier -/

theorem set_notifiers_append (s : World) (l : List (Option Nat)) (a : Option Nat) :
    set_notifiers s (l ++ [a]) = dwc3_set_notifier (set_notifiers s l) a := by
  unfold set_notifiers
  rw [List.foldl_append]
  rfl

theorem set_notifiers_frame (s : World) (l : List (Option Nat)) :
    (set_notifiers s l).notify_event = l.getLast?.getD s.notify_event ∧
      (set_notifiers s l).dwc = s.dwc ∧ (set_notifiers s l).regs = s.regs ∧
      (set_notifiers s l).trace = s.trace := by
  induction l using List.reverseRecOn with
  | nil => exact ⟨rfl, rfl, rfl, rfl⟩
  | append_singleton l a ih =>
    rw [set_notifiers_append]
    refine ⟨?_, ih.2.1, ih.2.2.1, ih.2.2.2⟩
    rw [List.getLast?_append]
    rfl

theorem notify_event_some (s : World) (cb : Nat) (h : s.notify_event = some cb)
    (event : NotifyEvent) (value : Nat) :
    dwc3_notify_event s event value = (0, emit s (Event.notify cb event value)) := by
  unfold dwc3_notify_event; rw [h]

theorem notify_event_none (s : World) (h : s.notify_event = none)
    (event : NotifyEvent) (value : Nat) :
    dwc3_notify_event s event value = (-ENODEV, s) := by
  unfold dwc3_notify_event; rw [h]

/-- With a notifier registered, each power management entry point only calls
it (and `dwc3_resume` marks the device runtime-active in its host mode case). -/
theorem pm_handled (env : Env) (s : World) (cb : Nat) (h : s.notify_event = some cb) :
    dwc3_suspend env s =
        (0, emit s (Event.notify cb NotifyEvent.DWC3_CORE_PM_SUSPEND_EVENT 0)) ∧
      dwc3_runtime_suspend env s =
        (0, emit s (Event.notify cb NotifyEvent.DWC3_CORE_PM_SUSPEND_EVENT 0)) ∧
      dwc3_runtime_resume env s =
        (0, emit s (Event.notify cb NotifyEvent.DWC3_CORE_PM_RESUME_EVENT 0)) ∧
      dwc3_resume env s =
        (if s.dwc.current_dr_role = DWC3_GCTL_PRTCAP_HOST ∧
            s.dwc.ignore_wakeup_src_in_hostmode = true then
          dwc3_resume_runtime_set_active
            (emit s (Event.notify cb NotifyEvent.DWC3_CORE_PM_RESUME_EVENT 0))
        else (0, emit s (Event.notify cb NotifyEvent.DWC3_CORE_PM_RESUME_EVENT 0))) := by
  refine ⟨?_, ?_, ?_, ?_⟩
  · unfold dwc3_suspend
    simp only [notify_event_some s cb h, if_true]
  · unfold dwc3_runtime_suspend
    simp only [notify_event_some s cb h, if_true]
  · unfold dwc3_runtime_resume
    simp only [notify_event_some s cb h, if_true]
  · unfold dwc3_resume
    simp only [notify_event_some s cb h, if_true, emit_dwc]

/-! ## C10: the steps after a busy USB3 PHY -/

/-- Once the hardware clears CSFTRST after at most `k` delays, a poll loop
with budget left leaves through `done`: at most `k` polls that see the bit
set, each followed by a delay, then one read that sees it clear. -/
theorem poll_done_trace (env : Env) (k : Nat)
    (hclear : ∀ t v, k ≤ t.count (Event.udelay 1) →
      env.mmio_read t Reg.DCTL v % U32 &&& DWC3_DCTL_CSFTRST = 0)
    (n : Nat) (s : World) (hn : 0 < n) (hk : k < s.trace.count (Event.udelay 1) + n) :
    (dwc3_core_soft_reset_poll env n s).1 = true ∧
      ∃ j polls v, j ≤ k - s.trace.count (Event.udelay 1) ∧
        is_poll_sequence j polls = true ∧ v &&& DWC3_DCTL_CSFTRST = 0 ∧
        (dwc3_core_soft_reset_poll env n s).2.trace =
          s.trace ++ (polls ++ [Event.readl Reg.DCTL v]) := by
  induction n generalizing s with
  | zero => exact absurd hn (Nat.lt_irrefl 0)
  | succ m ih =>
    unfold dwc3_core_soft_reset_poll
    simp only
    by_cases hc : (dwc3_readl env s Reg.DCTL).1 &&& DWC3_DCTL_CSFTRST = 0
    · rw [if_pos hc]
      exact ⟨rfl, 0, [], (dwc3_readl env s Reg.DCTL).1, Nat.zero_le _, rfl, hc, rfl⟩
    · rw [if_neg hc]
      have hlt : s.trace.count (Event.udelay 1) < k := by
        by_contra hge
        exact hc (by rw [readl_val]; exact hclear _ _ (Nat.le_of_not_lt hge))
      have hcount : (udelay (dwc3_readl env s Reg.DCTL).2 1).trace.count (Event.udelay 1) =
          s.trace.count (Event.udelay 1) + 1 := by
        simp [udelay, List.count_append]
      obtain ⟨h1, j, polls, v, hj, hp, hv, ht⟩ :=
        ih (udelay (dwc3_readl env s Reg.DCTL).2 1) (by omega) (by rw [hcount]; omega)
      refine ⟨h1, j + 1,
        Event.readl Reg.DCTL (dwc3_readl env s Reg.DCTL).1 :: Event.udelay 1 :: polls, v,
        by rw [hcount] at hj; omega, by simpa [is_poll_sequence] using hp, hv, ?_⟩
      rw [ht]
      simp [udelay]

/-- The poll loop only adds to the trace. -/
theorem poll_trace_extends (env : Env) (n : Nat) (s : World) :
    ∃ l, (dwc3_core_soft_reset_poll env n s).2.trace = s.trace ++ l := by
  induction n generalizing s with
  | zero => exact ⟨[], by simp [dwc3_core_soft_reset_poll]⟩
  | succ m ih =>
    unfold dwc3_core_soft_reset_poll
    simp only
    split
    · exact ⟨_, readl_trace env s Reg.DCTL⟩
    · obtain ⟨l, hl⟩ := ih (udelay (dwc3_readl env s Reg.DCTL).2 1)
      exact ⟨Event.readl Reg.DCTL (dwc3_readl env s Reg.DCTL).1 :: Event.udelay 1 :: l, by
        rw [hl]; simp [udelay]⟩

/-- The soft reset from `generic_phy_init` on only adds to the trace. -/
theorem generic_phy_init_trace_extends (env : Env) (s : World) :
    ∃ l, (dwc3_core_soft_reset_generic_phy_init env s).2.trace = s.trace ++ l := by
  obtain ⟨l, hl⟩ := poll_trace_extends env 1000
    (dwc3_writel (dwc3_readl env (phy_init env (phy_init env s PhyName.usb2_generic_phy).2
      PhyName.usb3_generic_phy).2 Reg.DCTL).2 Reg.DCTL
      ((dwc3_readl env (phy_init env (phy_init env s PhyName.usb2_generic_phy).2
        PhyName.usb3_generic_phy).2 Reg.DCTL).1 ||| DWC3_DCTL_CSFTRST))
  unfold dwc3_core_soft_reset_generic_phy_init
  simp only
  split
  · exact ⟨_, phy_init_trace _ _ _⟩
  · split
    · exact ⟨_, by simp only [phy_exit_trace, phy_init_trace, List.append_assoc]; rfl⟩
    · split
      · exact ⟨_, by simp only [phy_init_trace, List.append_assoc]; rfl⟩
      · split
        · split
          · exact ⟨_, by
              simp only [msleep, emit, hl, writel_trace, readl_trace, phy_init_trace,
                List.append_assoc]; rfl⟩
          · exact ⟨_, by
              simp only [hl, writel_trace, readl_trace, phy_init_trace,
                List.append_assoc]; rfl⟩
        · exact ⟨_, by
            simp only [phy_exit_trace, hl, writel_trace, readl_trace, phy_init_trace,
              List.append_assoc]; rfl⟩

/-- The soft reset from `generic_phy_init` on, outside Host role, with both
generic PHY inits succeeding and the hardware clearing CSFTRST after at most
`k < 1000` delays: result 0, and the actions are the two generic PHY inits, the
read of DCTL, the write that sets CSFTRST, at most `k` polls that see the bit
set, the read that sees it clear, and on a DWC_usb31 core the 50 ms sleep. -/
theorem generic_phy_init_done (env : Env) (s : World)
    (hmode : s.dwc.dr_mode ≠ USB_DR_MODE_HOST)
    (hgen : ∀ t p, 0 ≤ env.phy_init_ret t p)
    (k : Nat) (hk : k < 1000)
    (hclear : ∀ t v, k ≤ t.count (Event.udelay 1) →
      env.mmio_read t Reg.DCTL v % U32 &&& DWC3_DCTL_CSFTRST = 0) :
    (dwc3_core_soft_reset_generic_phy_init env s).1 = 0 ∧
      ∃ v0 j polls v, j ≤ k ∧ is_poll_sequence j polls = true ∧
        v &&& DWC3_DCTL_CSFTRST = 0 ∧
        (dwc3_core_soft_reset_generic_phy_init env s).2.trace =
          s.trace ++
            (phy_events s.dwc PhyName.usb2_generic_phy (Event.phy_init PhyName.usb2_generic_phy) ++
            (phy_events s.dwc PhyName.usb3_generic_phy (Event.phy_init PhyName.usb3_generic_phy) ++
            ([Event.readl Reg.DCTL v0,
              Event.writel Reg.DCTL ((v0 ||| DWC3_DCTL_CSFTRST) % U32)] ++
            (polls ++ (Event.readl Reg.DCTL v ::
              (if dwc3_is_usb31 s.dwc = true then [Event.msleep 50] else [])))))) := by
  obtain ⟨hp1, j, polls, v, hj, hp, hv, ht⟩ := poll_done_trace env k hclear 1000
    (dwc3_writel (dwc3_readl env (phy_init env (phy_init env s PhyName.usb2_generic_phy).2
      PhyName.usb3_generic_phy).2 Reg.DCTL).2 Reg.DCTL
      ((dwc3_readl env (phy_init env (phy_init env s PhyName.usb2_generic_phy).2
        PhyName.usb3_generic_phy).2 Reg.DCTL).1 ||| DWC3_DCTL_CSFTRST))
    (by decide) (by omega)
  unfold dwc3_core_soft_reset_generic_phy_init
  simp only
  rw [if_neg (phy_init_ok env s _ (fun t => hgen t _))]
  rw [if_neg (phy_init_ok env _ _ (fun t => hgen t _))]
  rw [if_neg (by simpa using hmode)]
  rw [hp1]
  simp only [if_true]
  have hu : dwc3_is_usb31 (dwc3_core_soft_reset_poll env 1000
      (dwc3_writel (dwc3_readl env (phy_init env (phy_init env s PhyName.usb2_generic_phy).2
        PhyName.usb3_generic_phy).2 Reg.DCTL).2 Reg.DCTL
        ((dwc3_readl env (phy_init env (phy_init env s PhyName.usb2_generic_phy).2
          PhyName.usb3_generic_phy).2 Reg.DCTL).1 ||| DWC3_DCTL_CSFTRST))).2.dwc =
      dwc3_is_usb31 s.dwc := by simp
  rw [hu]
  by_cases h31 : dwc3_is_usb31 s.dwc = true
  · rw [if_pos h31, if_pos h31]
    refine ⟨rfl, (dwc3_readl env (phy_init env (phy_init env s PhyName.usb2_generic_phy).2
      PhyName.usb3_generic_phy).2 Reg.DCTL).1, j, polls, v, Nat.le_trans hj (Nat.sub_le _ _), hp, hv, ?_⟩
    simp only [msleep, emit, ht, writel_trace, readl_trace, phy_init_trace, phy_init_dwc,
      List.append_assoc, List.singleton_append, List.cons_append, List.nil_append]
  · rw [if_neg h31, if_neg h31]
    refine ⟨rfl, (dwc3_readl env (phy_init env (phy_init env s PhyName.usb2_generic_phy).2
      PhyName.usb3_generic_phy).2 Reg.DCTL).1, j, polls, v, Nat.le_trans hj (Nat.sub_le _ _), hp, hv, ?_⟩
    simp only [ht, writel_trace, readl_trace, phy_init_trace, phy_init_dwc,
      List.append_assoc, List.singleton_append, List.cons_append, List.nil_append]
theorem phy_events_speed (d : dwc3) (x : Nat) (p : PhyName) (e : Event) :
    phy_events { d with maximum_speed := x } p e = phy_events d p e := by
  unfold phy_events phy_of
  cases p <;> rfl

/-- The part of the soft reset from the reset of `usb3_phy1` on starts with
the reset and the init of `usb3_phy1`. -/
theorem soft_reset_usb3_phy1_trace (env : Env) (w : World) :
    ∃ rest, (dwc3_core_soft_reset_usb3_phy1 env w).2.trace =
      w.trace ++
        (phy_events w.dwc PhyName.usb3_phy1 (Event.usb_phy_reset PhyName.usb3_phy1) ++
        (phy_events w.dwc PhyName.usb3_phy1 (Event.usb_phy_init PhyName.usb3_phy1) ++ rest)) := by
  unfold dwc3_core_soft_reset_usb3_phy1
  simp only
  split
  · exact ⟨[], by
      simp only [usb_phy_init_trace, usb_phy_reset_trace, usb_phy_reset_dwc, List.append_assoc,
        List.append_nil]⟩
  · obtain ⟨l, hl⟩ := generic_phy_init_trace_extends env
      (usb_phy_init env (usb_phy_reset w PhyName.usb3_phy1) PhyName.usb3_phy1).2
    exact ⟨l, by
      rw [hl]
      simp only [usb_phy_init_trace, usb_phy_reset_trace, usb_phy_reset_dwc,
        List.append_assoc]⟩

/-- A failing init of the live `usb3_phy1` ends the soft reset with its code. -/
theorem soft_reset_usb3_phy1_fails (env : Env) (w : World) (e : Int) (he : e ≠ 0)
    (hl : w.dwc.usb3_phy1 = phy_ptr.valid)
    (h : ∀ t, env.usb_phy_init_ret t PhyName.usb3_phy1 = e) :
    (dwc3_core_soft_reset_usb3_phy1 env w).1 = e ∧
      (dwc3_core_soft_reset_usb3_phy1 env w).2.trace =
        w.trace ++
          (phy_events w.dwc PhyName.usb3_phy1 (Event.usb_phy_reset PhyName.usb3_phy1) ++
          phy_events w.dwc PhyName.usb3_phy1 (Event.usb_phy_init PhyName.usb3_phy1)) := by
  have hr : (usb_phy_init env (usb_phy_reset w PhyName.usb3_phy1) PhyName.usb3_phy1).1 = e := by
    rw [(usb_phy_init_live env _ _ (by rw [usb_phy_reset_dwc]; exact hl)).1]
    exact h _
  unfold dwc3_core_soft_reset_usb3_phy1
  simp only
  rw [if_pos (by rw [hr]; exact he)]
  refine ⟨hr, ?_⟩
  simp only [usb_phy_init_trace, usb_phy_reset_trace, usb_phy_reset_dwc, List.append_assoc]

/-- The part of the soft reset from the reset of `usb3_phy1` on, with every
step succeeding: result 0, after the reset and init of `usb3_phy1`, the init of
the two generic PHYs and, outside Host role, the core soft reset. -/
theorem soft_reset_usb3_phy1_done (env : Env) (w : World)
    (h31 : ∀ t, env.usb_phy_init_ret t PhyName.usb3_phy1 = 0)
    (hgen : ∀ t p, 0 ≤ env.phy_init_ret t p)
    (hdone : w.dwc.dr_mode = USB_DR_MODE_HOST ∨
      ∃ k, k < 1000 ∧ ∀ t v, k ≤ t.count (Event.udelay 1) →
        env.mmio_read t Reg.DCTL v % U32 &&& DWC3_DCTL_CSFTRST = 0) :
    (dwc3_core_soft_reset_usb3_phy1 env w).1 = 0 ∧
      ∃ v0 j polls v, j < 1000 ∧ is_poll_sequence j polls = true ∧
        v &&& DWC3_DCTL_CSFTRST = 0 ∧
        (dwc3_core_soft_reset_usb3_phy1 env w).2.trace =
          w.trace ++
            (phy_events w.dwc PhyName.usb3_phy1 (Event.usb_phy_reset PhyName.usb3_phy1) ++
            (phy_events w.dwc PhyName.usb3_phy1 (Event.usb_phy_init PhyName.usb3_phy1) ++
            (phy_events w.dwc PhyName.usb2_generic_phy (Event.phy_init PhyName.usb2_generic_phy) ++
            (phy_events w.dwc PhyName.usb3_generic_phy (Event.phy_init PhyName.usb3_generic_phy) ++
            (if w.dwc.dr_mode = USB_DR_MODE_HOST then []
              else
                [Event.readl Reg.DCTL v0,
                  Event.writel Reg.DCTL ((v0 ||| DWC3_DCTL_CSFTRST) % U32)] ++
                (polls ++ (Event.readl Reg.DCTL v ::
                  (if dwc3_is_usb31 w.dwc = true then [Event.msleep 50] else [])))))))) := by
  unfold dwc3_core_soft_reset_usb3_phy1
  simp only
  rw [if_neg (not_not.mpr (usb_phy_init_ok env _ _ h31))]
  by_cases hm : w.dwc.dr_mode = USB_DR_MODE_HOST
  · obtain ⟨g1, _, g3⟩ := generic_phy_init_host env
      (usb_phy_init env (usb_phy_reset w PhyName.usb3_phy1) PhyName.usb3_phy1).2
      (by simpa using hm) hgen
    refine ⟨g1, 0, 0, [], 0, by decide, rfl, by decide, ?_⟩
    rw [g3, if_pos hm]
    simp only [usb_phy_init_trace, usb_phy_reset_trace, usb_phy_init_dwc, usb_phy_reset_dwc,
      List.append_assoc, List.append_nil]
  · rcases hdone with hd | ⟨k, hk, hclear⟩
    · exact absurd hd hm
    · obtain ⟨g1, v0, j, polls, v, hj, hp, hv, g3⟩ := generic_phy_init_done env
        (usb_phy_init env (usb_phy_reset w PhyName.usb3_phy1) PhyName.usb3_phy1).2
        (by simpa using hm) hgen k hk hclear
      refine ⟨g1, v0, j, polls, v, by omega, hp, hv, ?_⟩
      rw [g3, if_neg hm]
      simp only [usb_phy_init_trace, usb_phy_reset_trace, usb_phy_init_dwc, usb_phy_reset_dwc,
        List.append_assoc]

/-- With `maximum_speed` above High-Speed and the init of the live `usb3_phy`
reporting busy, the soft reset is the part from the reset of `usb3_phy1` on, run
with `maximum_speed` lowered after the bring-up calls made so far. -/
theorem soft_reset_busy_entry (env : Env) (s : World)
    (hspeed : USB_SPEED_HIGH < s.dwc.maximum_speed)
    (h2 : ∀ t, env.usb_phy_init_ret t PhyName.usb2_phy = 0)
    (h21 : ∀ t, env.usb_phy_init_ret t PhyName.usb2_phy1 = 0)
    (hlive : s.dwc.usb3_phy = phy_ptr.valid)
    (hbusy : ∀ t, env.usb_phy_init_ret t PhyName.usb3_phy = -EBUSY) :
    ∃ s' : World,
      s'.dwc = { s.dwc with maximum_speed := USB_SPEED_HIGH } ∧
      s'.trace = s.trace ++
        (phy_events s.dwc PhyName.usb2_phy (Event.usb_phy_reset PhyName.usb2_phy) ++
        (phy_events s.dwc PhyName.usb2_phy (Event.usb_phy_init PhyName.usb2_phy) ++
        (phy_events s.dwc PhyName.usb2_phy1 (Event.usb_phy_reset PhyName.usb2_phy1) ++
        (phy_events s.dwc PhyName.usb2_phy1 (Event.usb_phy_init PhyName.usb2_phy1) ++
        [Event.usb_phy_reset PhyName.usb3_phy, Event.usb_phy_init PhyName.usb3_phy])))) ∧
      dwc3_core_soft_reset env s = dwc3_core_soft_reset_usb3_phy1 env s' := by
  have hlive' : ∀ x : World, x.dwc = s.dwc → phy_of x.dwc PhyName.usb3_phy = phy_ptr.valid := by
    intro x hx; rw [hx]; exact hlive
  have hev : phy_events s.dwc PhyName.usb3_phy (Event.usb_phy_reset PhyName.usb3_phy) =
      [Event.usb_phy_reset PhyName.usb3_phy] := by
    unfold phy_events
    rw [show phy_of s.dwc PhyName.usb3_phy = phy_ptr.valid from hlive]
  have hev' : phy_events s.dwc PhyName.usb3_phy (Event.usb_phy_init PhyName.usb3_phy) =
      [Event.usb_phy_init PhyName.usb3_phy] := by
    unfold phy_events
    rw [show phy_of s.dwc PhyName.usb3_phy = phy_ptr.valid from hlive]
  have heq : dwc3_core_soft_reset env s =
      dwc3_core_soft_reset_usb3_phy1 env
        { (usb_phy_init env (usb_phy_reset (usb_phy_init env (usb_phy_reset
            (usb_phy_init env (usb_phy_reset s PhyName.usb2_phy) PhyName.usb2_phy).2
            PhyName.usb2_phy1) PhyName.usb2_phy1).2 PhyName.usb3_phy) PhyName.usb3_phy).2 with
          dwc := { (usb_phy_init env (usb_phy_reset (usb_phy_init env (usb_phy_reset
            (usb_phy_init env (usb_phy_reset s PhyName.usb2_phy) PhyName.usb2_phy).2
            PhyName.usb2_phy1) PhyName.usb2_phy1).2 PhyName.usb3_phy) PhyName.usb3_phy).2.dwc with
              maximum_speed := USB_SPEED_HIGH } } := by
    conv => lhs; unfold dwc3_core_soft_reset
    simp only
    rw [if_neg (not_not.mpr (usb_phy_init_ok env _ _ h2))]
    rw [if_neg (not_not.mpr (usb_phy_init_ok env _ _ h21))]
    rw [if_neg (by simpa using hspeed)]
    rw [if_pos (by rw [(usb_phy_init_live env _ _ (hlive' _ (by simp))).1]; exact hbusy _)]
  refine ⟨_, ?_, ?_, heq⟩
  · simp only [usb_phy_init_dwc, usb_phy_reset_dwc]
  · simp only [usb_phy_init_trace, usb_phy_reset_trace, usb_phy_init_dwc, usb_phy_reset_dwc,
      hev, hev', List.append_assoc, List.singleton_append]

/-- C10: when `maximum_speed` is above High-Speed, the USB2 PHYs initialise
and the init of the live `usb3_phy` returns `-EBUSY`, `dwc3_core_soft_reset`
does not return at that point.  It leaves `maximum_speed` at High-Speed and the
rest of the context as it was, and its next actions are the reset and the init
of `usb3_phy1`.  When that init fails on a live handle with a code `e`, the
result is `e` and those were the last actions.  When all remaining steps
succeed (the `usb3_phy1` init, both generic PHY inits and, unless the role is
Host, the hardware clearing CSFTRST within the poll budget) the result is 0
and the actions after the init of `usb3_phy1` are the init of the two generic
PHYs and, unless the role is Host, the core soft reset: the read of DCTL, the
write that sets CSFTRST, fewer than 1000 polls that see the bit set, each
followed by a delay, the read that sees it clear, and on a DWC_usb31 core the
50 ms sleep. -/
theorem dwc3_core_soft_reset_busy (env : Env) (s : World)
    (hspeed : USB_SPEED_HIGH < s.dwc.maximum_speed)
    (h2 : ∀ t, env.usb_phy_init_ret t PhyName.usb2_phy = 0)
    (h21 : ∀ t, env.usb_phy_init_ret t PhyName.usb2_phy1 = 0)
    (hlive : s.dwc.usb3_phy = phy_ptr.valid)
    (hbusy : ∀ t, env.usb_phy_init_ret t PhyName.usb3_phy = -EBUSY) :
    (dwc3_core_soft_reset env s).2.dwc = { s.dwc with maximum_speed := USB_SPEED_HIGH } ∧
      (∃ rest, (dwc3_core_soft_reset env s).2.trace =
        s.trace ++ (soft_reset_busy_bringup s.dwc ++ rest)) ∧
      (∀ e : Int, e ≠ 0 → s.dwc.usb3_phy1 = phy_ptr.valid →
        (∀ t, env.usb_phy_init_ret t PhyName.usb3_phy1 = e) →
        (dwc3_core_soft_reset env s).1 = e ∧
          (dwc3_core_soft_reset env s).2.trace = s.trace ++ soft_reset_busy_bringup s.dwc) ∧
      ((∀ t, env.usb_phy_init_ret t PhyName.usb3_phy1 = 0) →
        (∀ t p, 0 ≤ env.phy_init_ret t p) →
        (s.dwc.dr_mode = USB_DR_MODE_HOST ∨
          ∃ k, k < 1000 ∧ ∀ t v, k ≤ t.count (Event.udelay 1) →
            env.mmio_read t Reg.DCTL v % U32 &&& DWC3_DCTL_CSFTRST = 0) →
        (dwc3_core_soft_reset env s).1 = 0 ∧
          ∃ v0 j polls v, j < 1000 ∧ is_poll_sequence j polls = true ∧
            v &&& DWC3_DCTL_CSFTRST = 0 ∧
            (dwc3_core_soft_reset env s).2.trace =
              s.trace ++
                (soft_reset_busy_bringup s.dwc ++
                (phy_events s.dwc PhyName.usb2_generic_phy
                  (Event.phy_init PhyName.usb2_generic_phy) ++
                (phy_events s.dwc PhyName.usb3_generic_phy
                  (Event.phy_init PhyName.usb3_generic_phy) ++
                (if s.dwc.dr_mode = USB_DR_MODE_HOST then []
                  else
                    [Event.readl Reg.DCTL v0,
                      Event.writel Reg.DCTL ((v0 ||| DWC3_DCTL_CSFTRST) % U32)] ++
                    (polls ++ (Event.readl Reg.DCTL v ::
                      (if dwc3_is_usb31 s.dwc = true then [Event.msleep 50] else [])))))))) := by
  obtain ⟨s', hd, ht, heq⟩ := soft_reset_busy_entry env s hspeed h2 h21 hlive hbusy
  have hmode : s'.dwc.dr_mode = s.dwc.dr_mode := by rw [hd]
  have h31' : dwc3_is_usb31 s'.dwc = dwc3_is_usb31 s.dwc := by rw [hd]; rfl
  have hl1 : s'.dwc.usb3_phy1 = s.dwc.usb3_phy1 := by rw [hd]
  have hpe : ∀ p e, phy_events s'.dwc p e = phy_events s.dwc p e := by
    intro p e; rw [hd]; exact phy_events_speed _ _ _ _
  rw [heq]
  refine ⟨by rw [soft_reset_usb3_phy1_dwc, hd], ?_, ?_, ?_⟩
  · obtain ⟨rest, hr⟩ := soft_reset_usb3_phy1_trace env s'
    refine ⟨rest, ?_⟩
    rw [hr, ht, hpe, hpe]
    unfold soft_reset_busy_bringup
    simp only [List.append_assoc, List.cons_append, List.nil_append]
  · intro e he hl h
    obtain ⟨r1, r2⟩ := soft_reset_usb3_phy1_fails env s' e he (by rw [hl1]; exact hl) h
    refine ⟨r1, ?_⟩
    rw [r2, ht, hpe, hpe]
    unfold soft_reset_busy_bringup
    simp only [List.append_assoc, List.cons_append, List.nil_append]
  · intro h31 hgen hdone
    obtain ⟨r1, v0, j, polls, v, hj, hp, hv, r2⟩ :=
      soft_reset_usb3_phy1_done env s' h31 hgen (by rw [hmode]; exact hdone)
    refine ⟨r1, v0, j, polls, v, hj, hp, hv, ?_⟩
    rw [r2, ht, hpe, hpe, hpe, hpe, hmode, h31']
    unfold soft_reset_busy_bringup
    simp only [List.append_assoc, List.cons_append, List.nil_append]

/-- C10, on the platform whose `usb3_phy` init reports busy, in OTG role with
all PHYs live and SuperSpeedPlus requested: the soft reset returns 0, leaves
`maximum_speed` at High-Speed, and has reset and initialised `usb3_phy1`,
initialised both generic PHYs and soft-reset the core. -/
theorem dwc3_core_soft_reset_busy_witness :
    (dwc3_core_soft_reset env_busy (world_phys USB_SPEED_SUPER_PLUS)).1 = 0 ∧
      (dwc3_core_soft_reset env_busy (world_phys USB_SPEED_SUPER_PLUS)).2.dwc.maximum_speed =
        USB_SPEED_HIGH ∧
      (dwc3_core_soft_reset env_busy (world_phys USB_SPEED_SUPER_PLUS)).2.trace =
        [Event.usb_phy_reset PhyName.usb2_phy, Event.usb_phy_init PhyName.usb2_phy,
          Event.usb_phy_reset PhyName.usb2_phy1, Event.usb_phy_init PhyName.usb2_phy1,
          Event.usb_phy_reset PhyName.usb3_phy, Event.usb_phy_init PhyName.usb3_phy,
          Event.usb_phy_reset PhyName.usb3_phy1, Event.usb_phy_init PhyName.usb3_phy1,
          Event.phy_init PhyName.usb2_generic_phy, Event.phy_init PhyName.usb3_generic_phy,
          Event.readl Reg.DCTL 0, Event.writel Reg.DCTL DWC3_DCTL_CSFTRST,
          Event.readl Reg.DCTL 0] :=
  have h := dwc3_core_soft_reset_busy env_busy (world_phys USB_SPEED_SUPER_PLUS) (by decide)
    (fun _ => rfl) (fun _ => rfl) rfl (fun _ => rfl)
  ⟨(h.2.2.2 (fun _ => rfl) (fun _ _ => Int.le_refl 0)
    (Or.inr ⟨0, by decide, fun _ v _ => by
      show (if Reg.DCTL = Reg.DCTL then andnot v DWC3_DCTL_CSFTRST else v) % U32 &&&
        DWC3_DCTL_CSFTRST = 0
      rw [if_pos rfl]
      exact clear_bit v⟩)).1, congrArg dwc3.maximum_speed h.1, by decide⟩

/-! ## C21: the default suspend and resume sequences -/
theorem emit_pre {a : List Event} (s : World) (e : Event) (h : a <+: s.trace) :
    a <+: (emit s e).trace := h.trans (List.prefix_append _ _)

theorem readl_pre {a : List Event} (env : Env) (s : World) (r : Reg) (h : a <+: s.trace) :
    a <+: (dwc3_readl env s r).2.trace := h.trans (List.prefix_append _ _)

theorem writel_pre {a : List Event} (s : World) (r : Reg) (v : Nat) (h : a <+: s.trace) :
    a <+: (dwc3_writel s r v).trace := h.trans (List.prefix_append _ _)

theorem phy_call_void_pre {a : List Event} (s : World) (p : PhyName) (e : Event)
    (h : a <+: s.trace) : a <+: (phy_call_void s p e).trace := by
  rw [phy_call_void_trace]; exact h.trans (List.prefix_append _ _)

theorem phy_call_int_pre {a : List Event} (s : World) (p : PhyName) (e : Event)
    (ret : List Event → PhyName → Int) (h : a <+: s.trace) :
    a <+: (phy_call_int s p e ret).2.trace := by
  rw [phy_call_int_trace]; exact h.trans (List.prefix_append _ _)

theorem usb_phy_reset_pre {a : List Event} (s : World) (p : PhyName) (h : a <+: s.trace) :
    a <+: (usb_phy_reset s p).trace := phy_call_void_pre _ _ _ h
theorem usb_phy_shutdown_pre {a : List Event} (s : World) (p : PhyName) (h : a <+: s.trace) :
    a <+: (usb_phy_shutdown s p).trace := phy_call_void_pre _ _ _ h
theorem usb_phy_set_suspend_pre {a : List Event} (s : World) (p : PhyName) (v : Nat)
    (h : a <+: s.trace) : a <+: (usb_phy_set_suspend s p v).trace := phy_call_void_pre _ _ _ h
theorem phy_exit_pre {a : List Event} (s : World) (p : PhyName) (h : a <+: s.trace) :
    a <+: (phy_exit s p).trace := phy_call_void_pre _ _ _ h
theorem phy_power_off_pre {a : List Event} (s : World) (p : PhyName) (h : a <+: s.trace) :
    a <+: (phy_power_off s p).trace := phy_call_void_pre _ _ _ h
theorem usb_phy_init_pre {a : List Event} (env : Env) (s : World) (p : PhyName)
    (h : a <+: s.trace) : a <+: (usb_phy_init env s p).2.trace := phy_call_int_pre _ _ _ _ h
theorem phy_init_pre {a : List Event} (env : Env) (s : World) (p : PhyName)
    (h : a <+: s.trace) : a <+: (phy_init env s p).2.trace := phy_call_int_pre _ _ _ _ h
theorem phy_power_on_pre {a : List Event} (env : Env) (s : World) (p : PhyName)
    (h : a <+: s.trace) : a <+: (phy_power_on env s p).2.trace := phy_call_int_pre _ _ _ _ h

theorem notify_event_pre {a : List Event} (s : World) (e : NotifyEvent) (v : Nat)
    (h : a <+: s.trace) : a <+: (dwc3_notify_event s e v).2.trace := by
  rw [notify_event_trace]; exact h.trans (List.prefix_append _ _)

theorem rmw_pre {a : List Event} (env : Env) (s : World) (r : Reg) (f : Nat → Nat)
    (h : a <+: s.trace) : a <+: (rmw env s r f).trace :=
  writel_pre _ _ _ (readl_pre _ _ _ h)

theorem ulpi_exit_pre {a : List Event} (s : World) (h : a <+: s.trace) :
    a <+: (dwc3_ulpi_exit s).trace := emit_pre _ _ h

theorem core_is_valid_pre {a : List Event} (env : Env) (s : World) (h : a <+: s.trace) :
    a <+: (dwc3_core_is_valid env s).2.trace := by
  unfold dwc3_core_is_valid
  simp only
  split
  · exact readl_pre _ _ _ h
  · split
    · exact readl_pre _ _ _ (readl_pre _ _ _ (readl_pre _ _ _ h))
    · exact readl_pre _ _ _ h

theorem cache_one_pre {a : List Event} (env : Env) (s : World) (r : Reg)
    (f : dwc3_hwparams → Nat → dwc3_hwparams) (h : a <+: s.trace) :
    a <+: (cache_one env s r f).trace := readl_pre _ _ _ h

theorem cache_hwparams_pre {a : List Event} (env : Env) (s : World) (h : a <+: s.trace) :
    a <+: (dwc3_cache_hwparams env s).trace := by
  unfold dwc3_cache_hwparams
  simp only
  repeat apply cache_one_pre
  exact h

theorem ite_pre {a : List Event} (c : Prop) [Decidable c] (x y : World)
    (hx : a <+: x.trace) (hy : a <+: y.trace) : a <+: (if c then x else y).trace := by
  split <;> assumption

theorem ite_pre2 {a : List Event} {α : Type} (c : Prop) [Decidable c] (x y : α × World)
    (hx : a <+: x.2.trace) (hy : a <+: y.2.trace) : a <+: (if c then x else y).2.trace := by
  split <;> assumption

theorem check_params_pre {a : List Event} (s : World) (h : a <+: s.trace) :
    a <+: (dwc3_check_params s).trace := h

theorem get_dr_mode_store_pre {a : List Event} (s : World) (m : usb_dr_mode)
    (h : a <+: s.trace) : a <+: (dwc3_get_dr_mode_store s m).2.trace := by
  unfold dwc3_get_dr_mode_store
  repeat (first
    | exact h
    | apply emit_pre | apply readl_pre | apply writel_pre | apply rmw_pre
    | apply usb_phy_reset_pre | apply usb_phy_shutdown_pre | apply usb_phy_set_suspend_pre
    | apply phy_exit_pre | apply phy_power_off_pre | apply usb_phy_init_pre
    | apply phy_init_pre | apply phy_power_on_pre | apply notify_event_pre
    | apply ulpi_exit_pre | apply cache_one_pre | apply ite_pre | apply ite_pre2
    | dsimp only)

theorem get_dr_mode_pre {a : List Event} (env : Env) (s : World) (h : a <+: s.trace) :
    a <+: (dwc3_get_dr_mode env s).2.trace := by
  unfold dwc3_get_dr_mode
  simp only
  repeat (first
    | exact h
    | apply get_dr_mode_store_pre | apply ite_pre | apply ite_pre2
    | dsimp only)

theorem usb2_only_pre {a : List Event} (s : World) (h : a <+: s.trace) :
    a <+: (dwc3_core_init_usb2_only s).trace := by
  unfold dwc3_core_init_usb2_only
  repeat (first
    | exact h
    | apply emit_pre | apply readl_pre | apply writel_pre | apply rmw_pre
    | apply usb_phy_reset_pre | apply usb_phy_shutdown_pre | apply usb_phy_set_suspend_pre
    | apply phy_exit_pre | apply phy_power_off_pre | apply usb_phy_init_pre
    | apply phy_init_pre | apply phy_power_on_pre | apply notify_event_pre
    | apply ulpi_exit_pre | apply cache_one_pre | apply ite_pre | apply ite_pre2
    | dsimp only)

theorem phy_setup_pre {a : List Event} (env : Env) (s : World) (h : a <+: s.trace) :
    a <+: (dwc3_phy_setup env s).2.trace := by
  unfold dwc3_phy_setup
  by_cases hd : s.dwc.dual_port = true <;>
  by_cases hi : DWC3_GHWPARAMS3_HSPHY_IFC s.dwc.hwparams.hwparams3 =
      DWC3_GHWPARAMS3_HSPHY_IFC_UTMI_ULPI <;>
  by_cases hu : hsphy_interface_is s.dwc "utmi" = true <;>
  by_cases hl : hsphy_interface_is s.dwc "ulpi" = true <;>
  simp only [hd, hi, hu, hl, if_true, if_false, Bool.false_eq_true, writel_trace, readl_trace,
    List.append_assoc] <;>
  exact h.trans (List.prefix_append _ _)

theorem core_ulpi_init_pre {a : List Event} (env : Env) (s : World) (h : a <+: s.trace) :
    a <+: (dwc3_core_ulpi_init env s).2.trace := by
  unfold dwc3_core_ulpi_init dwc3_ulpi_init
  simp only
  repeat (first
    | exact h
    | apply emit_pre | apply readl_pre | apply writel_pre | apply rmw_pre
    | apply usb_phy_reset_pre | apply usb_phy_shutdown_pre | apply usb_phy_set_suspend_pre
    | apply phy_exit_pre | apply phy_power_off_pre | apply usb_phy_init_pre
    | apply phy_init_pre | apply phy_power_on_pre | apply notify_event_pre
    | apply ulpi_exit_pre | apply cache_one_pre | apply ite_pre | apply ite_pre2
    | dsimp only)

theorem lookup_phy_pre {a : List Event} (env : Env) (s : World) (p : PhyName)
    (h : a <+: s.trace) : a <+: (lookup_phy env s p).trace := emit_pre _ _ h

theorem check_phy_pre {a : List Event} (s : World) (p : PhyName) (x : Int)
    (h : a <+: s.trace) : a <+: (check_phy s p x).2.trace := by
  rw [check_phy_trace]; exact h

theorem poll_pre {a : List Event} (env : Env) (n : Nat) (s : World) (h : a <+: s.trace) :
    a <+: (dwc3_core_soft_reset_poll env n s).2.trace := by
  obtain ⟨l, hl⟩ := poll_trace_extends env n s
  rw [hl]; exact h.trans (List.prefix_append _ _)

theorem generic_phy_init_pre {a : List Event} (env : Env) (s : World) (h : a <+: s.trace) :
    a <+: (dwc3_core_soft_reset_generic_phy_init env s).2.trace := by
  obtain ⟨l, hl⟩ := generic_phy_init_trace_extends env s
  rw [hl]; exact h.trans (List.prefix_append _ _)

theorem soft_reset_usb3_phy1_pre {a : List Event} (env : Env) (s : World)
    (h : a <+: s.trace) : a <+: (dwc3_core_soft_reset_usb3_phy1 env s).2.trace := by
  obtain ⟨l, hl⟩ := soft_reset_usb3_phy1_trace env s
  rw [hl]; exact h.trans (List.prefix_append _ _)

theorem soft_reset_pre {a : List Event} (env : Env) (s : World) (h : a <+: s.trace) :
    a <+: (dwc3_core_soft_reset env s).2.trace := by
  have h1 := usb_phy_init_pre env _ PhyName.usb2_phy (usb_phy_reset_pre s PhyName.usb2_phy h)
  have h2 := usb_phy_init_pre env _ PhyName.usb2_phy1 (usb_phy_reset_pre _ PhyName.usb2_phy1 h1)
  have h3 := usb_phy_init_pre env _ PhyName.usb3_phy (usb_phy_reset_pre _ PhyName.usb3_phy h2)
  unfold dwc3_core_soft_reset
  simp only
  split
  · exact h1
  · split
    · exact h2
    · split
      · exact generic_phy_init_pre _ _ h2
      · split
        · exact soft_reset_usb3_phy1_pre _ _ h3
        · split
          · exact h3
          · exact soft_reset_usb3_phy1_pre _ _ h3

theorem get_phy_pre {a : List Event} (env : Env) (s : World) (h : a <+: s.trace) :
    a <+: (dwc3_core_get_phy env s).2.trace := by
  have h1 : a <+: (get_phy_lookups env s).trace := by
    unfold get_phy_lookups
    simp only
    split
    · split
      · exact lookup_phy_pre _ _ _ (lookup_phy_pre _ _ _ (lookup_phy_pre _ _ _
          (lookup_phy_pre _ _ _ h)))
      · exact lookup_phy_pre _ _ _ (lookup_phy_pre _ _ _ h)
    · exact lookup_phy_pre _ _ _ (lookup_phy_pre _ _ _ h)
  rw [get_phy_unfold]
  generalize get_phy_lookups env s = L at h1 ⊢
  simp only []
  by_cases hd : s.dwc.dual_port = true
  · simp only [if_pos hd]
    repeat' split
    all_goals
      repeat (first
        | exact h1
        | apply check_phy_pre | apply lookup_phy_pre
        | dsimp only)
  · simp only [if_neg hd]
    repeat' split
    all_goals
      repeat (first
        | exact h1
        | apply check_phy_pre | apply lookup_phy_pre
        | dsimp only)

theorem core_init_err0a_pre {a : List Event} (s : World) (ret : Int) (h : a <+: s.trace) :
    a <+: (dwc3_core_init_err0a s ret).2.trace := by
  rw [core_init_err0a_trace]; exact h.trans (List.prefix_append _ _)
theorem core_init_err1_pre {a : List Event} (s : World) (ret : Int) (h : a <+: s.trace) :
    a <+: (dwc3_core_init_err1 s ret).2.trace := by
  rw [core_init_err1_trace]; exact h.trans (List.prefix_append _ _)
theorem core_init_err2_pre {a : List Event} (s : World) (ret : Int) (h : a <+: s.trace) :
    a <+: (dwc3_core_init_err2 s ret).2.trace := by
  rw [core_init_err2_trace]; exact h.trans (List.prefix_append _ _)
theorem core_init_err3_pre {a : List Event} (s : World) (ret : Int) (h : a <+: s.trace) :
    a <+: (dwc3_core_init_err3 s ret).2.trace := by
  rw [core_init_err3_trace]; exact h.trans (List.prefix_append _ _)

theorem setup_global_control_pre {a : List Event} (env : Env) (s : World)
    (h : a <+: s.trace) : a <+: (dwc3_core_setup_global_control env s).trace := by
  unfold dwc3_core_setup_global_control
  exact writel_pre _ _ _ (readl_pre _ _ _ h)

theorem core_num_eps_pre {a : List Event} (s : World) (h : a <+: s.trace) :
    a <+: (dwc3_core_num_eps s).trace := h

theorem setup_scratch_buffers_pre {a : List Event} (env : Env) (s : World)
    (h : a <+: s.trace) : a <+: (dwc3_setup_scratch_buffers env s).2.trace := by
  unfold dwc3_setup_scratch_buffers dwc3_send_gadget_generic_command
  simp only
  split
  · exact h
  · split
    · exact h
    · split
      · exact h
      · split
        · exact emit_pre _ _ h
        · split
          · exact emit_pre _ _ (emit_pre _ _ (emit_pre _ _ h))
          · split
            · exact emit_pre _ _ (emit_pre _ _ (emit_pre _ _ (emit_pre _ _ h)))
            · exact emit_pre _ _ (emit_pre _ _ (emit_pre _ _ h))

theorem frame_length_adjustment_pre {a : List Event} (env : Env) (s : World)
    (h : a <+: s.trace) : a <+: (dwc3_frame_length_adjustment env s).trace := by
  unfold dwc3_frame_length_adjustment
  simp only
  split
  · exact h
  · split
    · exact h
    · split
      · exact writel_pre _ _ _ (readl_pre _ _ _ h)
      · exact readl_pre _ _ _ h

theorem rmw_if_pre {a : List Event} (env : Env) (s : World) (c : Prop) [Decidable c]
    (r : Reg) (f : Nat → Nat) (h : a <+: s.trace) :
    a <+: (if c then rmw env s r f else s).trace :=
  ite_pre _ _ _ (rmw_pre _ _ _ _ h) h

theorem core_init_workarounds_pre {a : List Event} (env : Env) (s : World)
    (h : a <+: s.trace) : a <+: (dwc3_core_init_workarounds env s).2.trace := by
  unfold dwc3_core_init_workarounds
  simp only
  apply rmw_if_pre
  apply rmw_if_pre
  apply rmw_if_pre
  apply notify_event_pre
  apply rmw_if_pre
  apply rmw_if_pre
  apply rmw_if_pre
  exact h

theorem set_suspend_usb3_pre {a : List Event} (s : World) (h : a <+: s.trace) :
    a <+: (if s.dwc.maximum_speed ≥ USB_SPEED_SUPER then
      usb_phy_set_suspend (usb_phy_set_suspend s PhyName.usb3_phy 0) PhyName.usb3_phy1 0
      else s).trace :=
  ite_pre _ _ _ (usb_phy_set_suspend_pre _ _ _ (usb_phy_set_suspend_pre _ _ _ h)) h

theorem core_init_reset_pre {a : List Event} (env : Env) (s : World) (h : a <+: s.trace) :
    a <+: (dwc3_core_init_reset env s).2.trace := by
  have h1 := soft_reset_pre env s h
  have h2 := setup_scratch_buffers_pre env _
    (core_num_eps_pre _ (setup_global_control_pre env _ h1))
  have h3 := usb_phy_set_suspend_pre _ PhyName.usb2_phy1 0
    (usb_phy_set_suspend_pre _ PhyName.usb2_phy 0 (frame_length_adjustment_pre env _ h2))
  have h5 := set_suspend_usb3_pre _ h3
  have h6 := phy_power_on_pre env _ PhyName.usb2_generic_phy h5
  have h7 := phy_power_on_pre env _ PhyName.usb3_generic_phy h6
  unfold dwc3_core_init_reset
  simp only
  exact ite_pre2 _ _ _ (core_init_err0a_pre _ _ h1)
    (ite_pre2 _ _ _ (core_init_err1_pre _ _ h2)
      (ite_pre2 _ _ _ (core_init_err2_pre _ _ h6)
        (ite_pre2 _ _ _ (core_init_err3_pre _ _ h7) (core_init_workarounds_pre env _ h7))))

theorem core_init_phys_pre {a : List Event} (env : Env) (s : World) (h : a <+: s.trace) :
    a <+: (dwc3_core_init_phys env s).2.trace := by
  have hg := get_phy_pre env s h
  unfold dwc3_core_init_phys
  simp only
  exact ite_pre2 _ _ _
    (ite_pre2 _ _ _ (core_init_err0a_pre _ _ hg) (core_init_reset_pre env _ hg))
    (core_init_reset_pre env s h)

theorem core_init_from_valid_pre {a : List Event} (env : Env) (s : World)
    (h : a <+: (dwc3_core_is_valid env s).2.trace) :
    a <+: (dwc3_core_init env s).2.trace := by
  have hm := get_dr_mode_pre env _ (check_params_pre _ (cache_hwparams_pre env _ h))
  have hps := phy_setup_pre env _ (usb2_only_pre _ (writel_pre _ Reg.GUID env.LINUX_VERSION_CODE hm))
  have hu := core_ulpi_init_pre env _ hps
  unfold dwc3_core_init
  simp only
  exact ite_pre2 _ _ _ h
    (ite_pre2 _ _ _ hm
      (ite_pre2 _ _ _ hps
        (ite_pre2 _ _ _
          (ite_pre2 _ _ _ (ite_pre2 _ _ _ (soft_reset_pre env _ hu) hu)
            (core_init_phys_pre env _ hu))
          (core_init_phys_pre env _ hps))))

/-- Every run of `dwc3_core_init` starts with the read of GSNPSID and only
adds to the trace. -/
theorem core_init_starts (env : Env) (s : World) :
    ∃ rest, (dwc3_core_init env s).2.trace =
      s.trace ++ Event.readl Reg.GSNPSID (dwc3_readl env s Reg.GSNPSID).1 :: rest := by
  have h0 : s.trace ++ [Event.readl Reg.GSNPSID (dwc3_readl env s Reg.GSNPSID).1] <+:
      (dwc3_core_is_valid env s).2.trace := by
    unfold dwc3_core_is_valid
    simp only
    split
    · exact List.prefix_rfl
    · split
      · exact readl_pre _ _ _ (readl_pre _ _ _ List.prefix_rfl)
      · exact List.prefix_rfl
  obtain ⟨t, ht⟩ := core_init_from_valid_pre env s h0
  exact ⟨t, by rw [← ht]; simp⟩

theorem buffers_cleanup_trace (env : Env) (s : World) :
    (dwc3_event_buffers_cleanup env s).trace = s.trace ++ buffers_cleanup_events env s := by
  have hmask : (DWC3_GEVNTSIZ_INTMASK ||| DWC3_GEVNTSIZ_SIZE 0) % U32 =
      DWC3_GEVNTSIZ_INTMASK ||| DWC3_GEVNTSIZ_SIZE 0 := by decide
  unfold dwc3_event_buffers_cleanup buffers_cleanup_events
  cases h : s.dwc.ev_buf with
  | none => simp
  | some evt =>
    simp only
    by_cases hh : (dwc3_readl env s Reg.DSTS).1 &&& DWC3_DSTS_DEVCTRLHLT = 0
    · rw [if_pos hh, if_pos (by rw [← readl_val]; exact hh)]
      rfl
    · rw [if_neg hh, if_neg (by rw [← readl_val]; exact hh)]
      rw [notify_event_trace]
      simp only [writel_trace, readl_trace, hmask, List.append_assoc, List.cons_append,
        List.nil_append, Nat.zero_mod]
      rfl

theorem buffers_cleanup_phy (env : Env) (s : World) (p : PhyName) (e : Event) :
    phy_events (dwc3_event_buffers_cleanup env s).dwc p e = phy_events s.dwc p e := by
  have hp : phy_of (dwc3_event_buffers_cleanup env s).dwc p = phy_of s.dwc p := by
    unfold dwc3_event_buffers_cleanup
    cases h : s.dwc.ev_buf with
    | none => rfl
    | some evt =>
      simp only
      split
      · rfl
      · rw [notify_event_dwc]
        cases p <;> rfl
  unfold phy_events
  rw [hp]

theorem core_exit_trace (env : Env) (s : World) :
    (dwc3_core_exit env s).trace =
      s.trace ++ (buffers_cleanup_events env s ++ core_exit_phy_events s.dwc) := by
  unfold dwc3_core_exit core_exit_phy_events
  simp only [phy_exit_trace, usb_phy_shutdown_trace, phy_power_off_trace,
    usb_phy_set_suspend_trace, phy_exit_dwc, usb_phy_shutdown_dwc, phy_power_off_dwc,
    usb_phy_set_suspend_dwc, buffers_cleanup_trace, buffers_cleanup_phy, List.append_assoc]

theorem suspend_common_trace (env : Env) (s : World) :
    (dwc3_suspend_common env s).2.trace = s.trace ++ suspend_default_events env s := by
  unfold dwc3_suspend_common suspend_default_events dwc3_gadget_suspend
  simp only [core_exit_trace]
  cases h : s.dwc.dr_mode <;> simp [emit]

theorem calls_one (s : World) (x : String) : calls s [x] = emit s (Event.call x) := rfl

/-- With no notifier registered, the two suspend entry points run the default
suspend sequence: `dwc3_suspend` ends with the sleep pin state, and
`dwc3_runtime_suspend`, unless it refuses as busy, with wakeup enabled. -/
theorem pm_default_suspend (env : Env) (s : World) (h : s.notify_event = none) :
    (dwc3_suspend env s).1 = 0 ∧
      (dwc3_suspend env s).2.trace =
        s.trace ++
          (suspend_default_events env s ++ [Event.call "pinctrl_pm_select_sleep_state"]) ∧
      (if (s.dwc.dr_mode = USB_DR_MODE_PERIPHERAL ∨ s.dwc.dr_mode = USB_DR_MODE_OTG) ∧
          s.dwc.connected = true then
        dwc3_runtime_suspend env s = (-EBUSY, s)
      else
        (dwc3_runtime_suspend env s).1 = 0 ∧
          (dwc3_runtime_suspend env s).2.trace =
            s.trace ++ (suspend_default_events env s ++ [Event.device_init_wakeup true])) := by
  have hz : ¬ ((-ENODEV : Int) = 0) := by decide
  have hc : ¬ ((dwc3_suspend_common env s).1 ≠ 0) := by
    rw [suspend_common_ret]; decide
  refine ⟨?_, ?_, ?_⟩
  · unfold dwc3_suspend dwc3_suspend_default
    simp only [notify_event_none s h, if_neg hz, if_neg hc]
  · unfold dwc3_suspend dwc3_suspend_default
    simp only [notify_event_none s h, if_neg hz, if_neg hc, calls_one, emit_trace,
      suspend_common_trace, List.append_assoc]
  · rw [runtime_suspend_eq env s h]
    by_cases hb : (s.dwc.dr_mode = USB_DR_MODE_PERIPHERAL ∨ s.dwc.dr_mode = USB_DR_MODE_OTG) ∧
        s.dwc.connected = true
    · rw [if_pos hb, if_pos hb]
    · rw [if_neg hb, if_neg hb]
      refine ⟨rfl, ?_⟩
      simp only [emit_trace, suspend_common_trace, List.append_assoc]

/-- With no notifier registered, `dwc3_resume` runs the default resume
sequence: the default pin state, `dwc3_core_init` (whose error ends the
function), then the gadget resume in Peripheral and OTG role and the runtime PM
state set active. -/
theorem pm_default_resume (env : Env) (s : World) (h : s.notify_event = none) :
    dwc3_resume env s =
        (if (dwc3_core_init env
            (emit s (Event.call "pinctrl_pm_select_default_state"))).1 ≠ 0 then
          dwc3_core_init env (emit s (Event.call "pinctrl_pm_select_default_state"))
        else
          (0, { (dwc3_core_init env
                  (emit s (Event.call "pinctrl_pm_select_default_state"))).2 with
                trace :=
                  (dwc3_core_init env
                    (emit s (Event.call "pinctrl_pm_select_default_state"))).2.trace ++
                  resume_tail_events (dwc3_core_init env
                    (emit s (Event.call "pinctrl_pm_select_default_state"))).2.dwc })) ∧
      (∃ rest, (dwc3_resume env s).2.trace =
        s.trace ++
          (Event.call "pinctrl_pm_select_default_state" ::
            Event.readl Reg.GSNPSID
              (dwc3_readl env (emit s (Event.call "pinctrl_pm_select_default_state"))
                Reg.GSNPSID).1 :: rest)) := by
  have hz : ¬ ((-ENODEV : Int) = 0) := by decide
  have heq : dwc3_resume env s =
        (if (dwc3_core_init env
            (emit s (Event.call "pinctrl_pm_select_default_state"))).1 ≠ 0 then
          dwc3_core_init env (emit s (Event.call "pinctrl_pm_select_default_state"))
        else
          (0, { (dwc3_core_init env
                  (emit s (Event.call "pinctrl_pm_select_default_state"))).2 with
                trace :=
                  (dwc3_core_init env
                    (emit s (Event.call "pinctrl_pm_select_default_state"))).2.trace ++
                  resume_tail_events (dwc3_core_init env
                    (emit s (Event.call "pinctrl_pm_select_default_state"))).2.dwc })) := by
    unfold dwc3_resume dwc3_resume_default dwc3_resume_common dwc3_resume_runtime_set_active
    simp only [notify_event_none s h, if_neg hz, calls_one]
    generalize dwc3_core_init env (emit s (Event.call "pinctrl_pm_select_default_state")) = r
    by_cases hr : r.1 ≠ 0
    · simp only [if_pos hr]
    · simp only [if_neg hr]
      unfold resume_tail_events
      cases hm : r.2.dwc.dr_mode <;>
        simp [calls, emit, dwc3_gadget_resume, hm]
  refine ⟨heq, ?_⟩
  obtain ⟨rest, hrest⟩ := core_init_starts env
    (emit s (Event.call "pinctrl_pm_select_default_state"))
  rw [heq]
  by_cases hr : (dwc3_core_init env
      (emit s (Event.call "pinctrl_pm_select_default_state"))).1 ≠ 0
  · rw [if_pos hr]
    exact ⟨rest, by rw [hrest]; simp⟩
  · rw [if_neg hr]
    exact ⟨rest ++ resume_tail_events (dwc3_core_init env
      (emit s (Event.call "pinctrl_pm_select_default_state"))).2.dwc, by
        simp only [hrest]; simp⟩

/-- With no notifier registered, `dwc3_runtime_resume` runs the default runtime
resume sequence: wakeup disabled, `dwc3_core_init` (whose error ends the
function), then the gadget resume and pending gadget events in Peripheral and
OTG role and the runtime PM bookkeeping. -/
theorem pm_default_runtime_resume (env : Env) (s : World) (h : s.notify_event = none) :
    dwc3_runtime_resume env s =
        (if (dwc3_core_init env (emit s (Event.device_init_wakeup false))).1 ≠ 0 then
          dwc3_core_init env (emit s (Event.device_init_wakeup false))
        else
          (0, { (dwc3_core_init env (emit s (Event.device_init_wakeup false))).2 with
                trace :=
                  (dwc3_core_init env (emit s (Event.device_init_wakeup false))).2.trace ++
                  runtime_resume_tail_events
                    (dwc3_core_init env (emit s (Event.device_init_wakeup false))).2.dwc })) ∧
      (∃ rest, (dwc3_runtime_resume env s).2.trace =
        s.trace ++
          (Event.device_init_wakeup false ::
            Event.readl Reg.GSNPSID
              (dwc3_readl env (emit s (Event.device_init_wakeup false)) Reg.GSNPSID).1 ::
            rest)) := by
  have hz : ¬ ((-ENODEV : Int) = 0) := by decide
  have heq : dwc3_runtime_resume env s =
        (if (dwc3_core_init env (emit s (Event.device_init_wakeup false))).1 ≠ 0 then
          dwc3_core_init env (emit s (Event.device_init_wakeup false))
        else
          (0, { (dwc3_core_init env (emit s (Event.device_init_wakeup false))).2 with
                trace :=
                  (dwc3_core_init env (emit s (Event.device_init_wakeup false))).2.trace ++
                  runtime_resume_tail_events
                    (dwc3_core_init env (emit s (Event.device_init_wakeup false))).2.dwc })) := by
    unfold dwc3_runtime_resume dwc3_runtime_resume_default dwc3_resume_common
    simp only [notify_event_none s h, if_neg hz]
    generalize dwc3_core_init env (emit s (Event.device_init_wakeup false)) = r
    by_cases hr : r.1 ≠ 0
    · simp only [if_pos hr]
    · simp only [if_neg hr]
      unfold runtime_resume_tail_events
      cases hm : r.2.dwc.dr_mode <;>
        simp [calls, emit, dwc3_gadget_resume, dwc3_gadget_process_pending_events, hm]
  refine ⟨heq, ?_⟩
  obtain ⟨rest, hrest⟩ := core_init_starts env (emit s (Event.device_init_wakeup false))
  rw [heq]
  by_cases hr : (dwc3_core_init env (emit s (Event.device_init_wakeup false))).1 ≠ 0
  · rw [if_pos hr]
    exact ⟨rest, by rw [hrest]; simp⟩
  · rw [if_neg hr]
    exact ⟨rest ++ runtime_resume_tail_events
      (dwc3_core_init env (emit s (Event.device_init_wakeup false))).2.dwc, by
        simp only [hrest]; simp⟩

/-- With a notifier registered, `dwc3_resume` only calls it, and in host mode
with `ignore_wakeup_src_in_hostmode` then sets the runtime PM state active. -/
theorem pm_handled_resume (env : Env) (s : World) (cb : Nat) (h : s.notify_event = some cb) :
    dwc3_resume env s =
      (0, { s with
            trace := s.trace ++
              (Event.notify cb NotifyEvent.DWC3_CORE_PM_RESUME_EVENT 0 ::
                (if s.dwc.current_dr_role = DWC3_GCTL_PRTCAP_HOST ∧
                    s.dwc.ignore_wakeup_src_in_hostmode = true then
                  [Event.call "pm_runtime_disable", Event.call "pm_runtime_set_active",
                    Event.call "pm_runtime_enable"]
                else [])) }) := by
  rw [(pm_handled env s cb h).2.2.2]
  by_cases hc : s.dwc.current_dr_role = DWC3_GCTL_PRTCAP_HOST ∧
      s.dwc.ignore_wakeup_src_in_hostmode = true
  · rw [if_pos hc, if_pos hc]
    simp [dwc3_resume_runtime_set_active, calls, emit]
  · rw [if_neg hc, if_neg hc]
    simp [emit]

/-- C21: after any sequence of `dwc3_set_notifier` calls the registered
callback is the one of the last call (the calls change nothing else).  With a
callback registered, `dwc3_notify_event` calls it exactly once, with the event
and the value it was given, and returns 0; `dwc3_suspend`,
`dwc3_runtime_suspend` and `dwc3_runtime_resume` then return 0 having done
nothing but that call, and so does `dwc3_resume`, which in host mode with
`ignore_wakeup_src_in_hostmode` still sets the runtime PM state active.  With no
callback registered (never set, or last set to `NULL`), `dwc3_notify_event`
calls nothing, changes nothing and returns `-ENODEV`, and each entry point
runs its default sequence.  `dwc3_suspend` returns 0 after the gadget suspend
(Peripheral and OTG role), the event buffer cleanup, the teardown of the PHYs
and the sleep pin state.  `dwc3_runtime_suspend` returns `-EBUSY` on the
unchanged state when connected in Peripheral or OTG role, and otherwise 0 after
the same teardown and `device_init_wakeup(true)`.  `dwc3_runtime_resume` calls
`device_init_wakeup(false)` and `dwc3_resume` selects the default pin state;
both then run `dwc3_core_init`, which starts with the read of GSNPSID; its
error is returned as it is, and after its success come the gadget resume
(Peripheral and OTG role; the runtime path also processes the pending gadget
events) and the runtime PM calls, with result 0. -/
theorem dwc3_notify_event_last_registered (env : Env) (s : World) (l : List (Option Nat))
    (event : NotifyEvent) (value : Nat) :
    (set_notifiers s l).notify_event = l.getLast?.getD s.notify_event ∧
      (set_notifiers s l).dwc = s.dwc ∧
      (set_notifiers s l).regs = s.regs ∧
      (set_notifiers s l).trace = s.trace ∧
      (match (set_notifiers s l).notify_event with
        | some cb =>
          dwc3_notify_event (set_notifiers s l) event value =
              (0, emit (set_notifiers s l) (Event.notify cb event value)) ∧
            dwc3_suspend env (set_notifiers s l) =
              (0, emit (set_notifiers s l)
                (Event.notify cb NotifyEvent.DWC3_CORE_PM_SUSPEND_EVENT 0)) ∧
            dwc3_runtime_suspend env (set_notifiers s l) =
              (0, emit (set_notifiers s l)
                (Event.notify cb NotifyEvent.DWC3_CORE_PM_SUSPEND_EVENT 0)) ∧
            dwc3_runtime_resume env (set_notifiers s l) =
              (0, emit (set_notifiers s l)
                (Event.notify cb NotifyEvent.DWC3_CORE_PM_RESUME_EVENT 0)) ∧
            dwc3_resume env (set_notifiers s l) =
              (0, { (set_notifiers s l) with
                    trace := (set_notifiers s l).trace ++
                      (Event.notify cb NotifyEvent.DWC3_CORE_PM_RESUME_EVENT 0 ::
                        (if (set_notifiers s l).dwc.current_dr_role = DWC3_GCTL_PRTCAP_HOST ∧
                            (set_notifiers s l).dwc.ignore_wakeup_src_in_hostmode = true then
                          [Event.call "pm_runtime_disable",
                            Event.call "pm_runtime_set_active",
                            Event.call "pm_runtime_enable"]
                        else [])) })
        | none =>
          dwc3_notify_event (set_notifiers s l) event value = (-ENODEV, (set_notifiers s l)) ∧
            (dwc3_suspend env (set_notifiers s l)).1 = 0 ∧
            (dwc3_suspend env (set_notifiers s l)).2.trace =
              (set_notifiers s l).trace ++
                (suspend_default_events env (set_notifiers s l) ++
                  [Event.call "pinctrl_pm_select_sleep_state"]) ∧
            (if ((set_notifiers s l).dwc.dr_mode = USB_DR_MODE_PERIPHERAL ∨
                  (set_notifiers s l).dwc.dr_mode = USB_DR_MODE_OTG) ∧
                (set_notifiers s l).dwc.connected = true then
              dwc3_runtime_suspend env (set_notifiers s l) = (-EBUSY, (set_notifiers s l))
            else
              (dwc3_runtime_suspend env (set_notifiers s l)).1 = 0 ∧
                (dwc3_runtime_suspend env (set_notifiers s l)).2.trace =
                  (set_notifiers s l).trace ++
                    (suspend_default_events env (set_notifiers s l) ++
                      [Event.device_init_wakeup true])) ∧
            dwc3_runtime_resume env (set_notifiers s l) =
              (if (dwc3_core_init env (emit (set_notifiers s l) (Event.device_init_wakeup false))).1 ≠ 0 then
                (dwc3_core_init env (emit (set_notifiers s l) (Event.device_init_wakeup false)))
              else
                (0, { (dwc3_core_init env (emit (set_notifiers s l) (Event.device_init_wakeup false))).2 with
                      trace :=
                        (dwc3_core_init env (emit (set_notifiers s l) (Event.device_init_wakeup false))).2.trace ++
                        runtime_resume_tail_events
                          (dwc3_core_init env (emit (set_notifiers s l) (Event.device_init_wakeup false))).2.dwc })) ∧
            (∃ rest, (dwc3_runtime_resume env (set_notifiers s l)).2.trace =
              (set_notifiers s l).trace ++
                (Event.device_init_wakeup false ::
                  Event.readl Reg.GSNPSID
                    (dwc3_readl env (emit (set_notifiers s l) (Event.device_init_wakeup false))
                      Reg.GSNPSID).1 :: rest)) ∧
            dwc3_resume env (set_notifiers s l) =
              (if (dwc3_core_init env (emit (set_notifiers s l) (Event.call "pinctrl_pm_select_default_state"))).1 ≠ 0 then
                (dwc3_core_init env (emit (set_notifiers s l) (Event.call "pinctrl_pm_select_default_state")))
              else
                (0, { (dwc3_core_init env (emit (set_notifiers s l) (Event.call "pinctrl_pm_select_default_state"))).2 with
                      trace :=
                        (dwc3_core_init env (emit (set_notifiers s l) (Event.call "pinctrl_pm_select_default_state"))).2.trace ++
                        resume_tail_events
                          (dwc3_core_init env (emit (set_notifiers s l) (Event.call "pinctrl_pm_select_default_state"))).2.dwc })) ∧
            (∃ rest, (dwc3_resume env (set_notifiers s l)).2.trace =
              (set_notifiers s l).trace ++
                (Event.call "pinctrl_pm_select_default_state" ::
                  Event.readl Reg.GSNPSID
                    (dwc3_readl env (emit (set_notifiers s l) (Event.call "pinctrl_pm_select_default_state"))
                      Reg.GSNPSID).1 :: rest))) := by
  obtain ⟨f1, f2, f3, f4⟩ := set_notifiers_frame s l
  refine ⟨f1, f2, f3, f4, ?_⟩
  cases h : (set_notifiers s l).notify_event with
  | some cb =>
    have hp := pm_handled env (set_notifiers s l) cb h
    exact ⟨notify_event_some _ cb h event value, hp.1, hp.2.1, hp.2.2.1,
      pm_handled_resume env _ cb h⟩
  | none =>
    have hs := pm_default_suspend env (set_notifiers s l) h
    have hrr := pm_default_runtime_resume env (set_notifiers s l) h
    have hr := pm_default_resume env (set_notifiers s l) h
    exact ⟨notify_event_none _ h event value, hs.1, hs.2.1, hs.2.2, hrr.1, hrr.2, hr.1, hr.2⟩

/-- The callbacks 3, then 7 are registered: an event reaches 7 only, once.
After a registration of `NULL` nothing is called and the result is `-ENODEV`.
With 7 registered, `dwc3_resume` in host mode with
`ignore_wakeup_src_in_hostmode` calls it and sets the runtime PM state active.
With none registered, in OTG role with all PHYs live, `dwc3_suspend` runs the
gadget suspend, the teardown of the PHYs and the sleep pin state, and
`dwc3_resume` selects the default pin state, runs `dwc3_core_init` from the
read of GSNPSID on, then the gadget resume and the runtime PM calls. -/
theorem set_notifiers_example :
    (dwc3_notify_event (set_notifiers {} [some 3, some 7])
        NotifyEvent.DWC3_CORE_PM_SUSPEND_EVENT 0).1 = 0 ∧
      (dwc3_notify_event (set_notifiers {} [some 3, some 7])
        NotifyEvent.DWC3_CORE_PM_SUSPEND_EVENT 0).2.trace =
        [Event.notify 7 NotifyEvent.DWC3_CORE_PM_SUSPEND_EVENT 0] ∧
      (dwc3_notify_event (set_notifiers {} [some 3, some 7, none])
        NotifyEvent.DWC3_CORE_PM_SUSPEND_EVENT 0).1 = -ENODEV ∧
      (dwc3_notify_event (set_notifiers {} [some 3, some 7, none])
        NotifyEvent.DWC3_CORE_PM_SUSPEND_EVENT 0).2.trace = [] ∧
      (dwc3_resume env_quiet world_handled_host).2.trace =
        [Event.notify 7 NotifyEvent.DWC3_CORE_PM_RESUME_EVENT 0,
          Event.call "pm_runtime_disable", Event.call "pm_runtime_set_active",
          Event.call "pm_runtime_enable"] ∧
      dwc3_suspend env_quiet (set_notifiers world_resume [some 3, none]) =
        (0, { world_resume with
              trace :=
                [Event.gadget_suspend,
                  Event.usb_phy_set_suspend PhyName.usb2_phy1 1,
                  Event.usb_phy_set_suspend PhyName.usb2_phy 1,
                  Event.usb_phy_set_suspend PhyName.usb3_phy1 1,
                  Event.usb_phy_set_suspend PhyName.usb3_phy 1,
                  Event.phy_power_off PhyName.usb2_generic_phy,
                  Event.phy_power_off PhyName.usb3_generic_phy,
                  Event.usb_phy_shutdown PhyName.usb2_phy1,
                  Event.usb_phy_shutdown PhyName.usb2_phy,
                  Event.usb_phy_shutdown PhyName.usb3_phy1,
                  Event.usb_phy_shutdown PhyName.usb3_phy,
                  Event.phy_exit PhyName.usb2_generic_phy,
                  Event.phy_exit PhyName.usb3_generic_phy,
                  Event.call "pinctrl_pm_select_sleep_state"] }) ∧
      (dwc3_resume env_quiet (set_notifiers world_resume [some 3, none])).1 = 0 ∧
      (dwc3_resume env_quiet (set_notifiers world_resume [some 3, none])).2.trace.take 2 =
        [Event.call "pinctrl_pm_select_default_state", Event.readl Reg.GSNPSID 0x5533250a] ∧
      (dwc3_resume env_quiet (set_notifiers world_resume [some 3, none])).2.trace.reverse.take 4 =
        [Event.call "pm_runtime_enable", Event.call "pm_runtime_set_active",
          Event.call "pm_runtime_disable", Event.call "dwc3_gadget_resume"] := by
  refine ⟨by decide, by decide, by decide, by decide, by decide, ?_, by decide, by decide,
    by decide⟩
  rfl

end Dwc3
